import Mathlib

/-! # FblCanTp: the CAN transport layer of the flash bootloader

A shallow embedding of `FblCanTp.c`, `FblCanTp.h`, `FblCanTpCfg.c` and
`FblCanTpCfg.h`.

* Machine integers are natural numbers; a cast to `UINT8` / `UINT16` is an
  explicit `% 256` / `% 65536`.
* The three channel records (`gs_CanTpRxChannel[0..1]`, `gs_CanTpTxChannel[0]`), the
  slot `gs_TransmittingChannel[0]` and the list of calls made to the
  collaborators (Diag, CAN driver) form the `World`.  A pointer to a channel is a
  `ChnRef`.
* The collaborators are outside the repository.  Their answers are given by an
  `Env`: each answer may depend on every call made so far and on the arguments.
* Build options fixed by `FblCanTpCfg.h` (Tx and Rx padding ON, half duplex,
  schedule period 2) are taken as fixed; the macros defined by headers that are
  not part of the sources (`ENABLE_CANFD`, identifiers, timer values, filler
  byte) are the fields of `FblConfig`.
-/

namespace FblCanTp

/-! ## Constants of `FblCanTp.h`, `FblCanTpCfg.h` and `FblCanTp.c` -/

def CANTP_TYPE_STANDARD : Nat := 0
def CANTP_TYPE_EXTENDED : Nat := 1
def CANTP_TYPE_MIXED : Nat := 2
def CANTP_TATYPE_PHYSICAL : Nat := 0
def CANTP_TATYPE_FUNCTIONAL : Nat := 1

def CANTP_SCHEDULE_PERIOD : Nat := 2
def CANTP_NUMBER_OF_RX_CHANNEL : Nat := 2
def CANTP_NUMBER_OF_TX_CHANNEL : Nat := 1

def CANTP_FC_FRAME_CTS : Nat := 0x00
def CANTP_FC_FRAME_WAIT : Nat := 0x01
def CANTP_FC_FRAME_OVERFLOW : Nat := 0x02

def CANTP_FRAME_TYPE_SF : Nat := 0x00
def CANTP_FRAME_TYPE_FF : Nat := 0x01
def CANTP_FRAME_TYPE_CF : Nat := 0x02
def CANTP_FRAME_TYPE_FC : Nat := 0x03

def CANTP_FRAME_SF_VALUE : Nat := 0x00
def CANTP_FRAME_FF_VALUE : Nat := 0x10
def CANTP_FRAME_CF_VALUE : Nat := 0x20
def CANTP_FRAME_FC_VALUE : Nat := 0x30
def CANTP_FRAME_FF_VAULE_16BITS : Nat := 0x1000

def CANTP_TA_OFFSET : Nat := 0x00
def CANTP_MAX_STMIN_VALUE : Nat := 0x7F
def CANTP_MIN_STMIN_VALUE_US : Nat := 0xF0
def CANTP_MAX_STMIN_VALUE_US : Nat := 0xFA

def CANTP_STATUS_IDLE : Nat := 0x00
def CANTP_STATUS_RECEIVING_SF : Nat := 0x01
def CANTP_STATUS_RECEIVING_FF : Nat := 0x02
def CANTP_STATUS_RECEIVING_CF : Nat := 0x03
def CANTP_STATUS_TRANSMITTING_FC : Nat := 0x04
def CANTP_STATUS_TRANSMITTING_SF : Nat := 0x01
def CANTP_STATUS_TRANSMITTING_FF : Nat := 0x02
def CANTP_STATUS_TRANSMITTING_CF : Nat := 0x03
def CANTP_STATUS_RECEIVING_FC : Nat := 0x04

def CANTP_SUB_STATUS_IDLE : Nat := 0x00
def CANTP_SUB_STATUS_TRANSMITTING : Nat := 0x01
def CANTP_SUB_STATUS_RECEIVING : Nat := 0x02

def CANTP_FRAME_FF_DATASIZE_MASK : Nat := 0x0FFF

/-- Truncation of a value stored in a `UINT8`. -/
def UINT8 (x : Nat) : Nat := x % 256

/-- Truncation of a value stored in a `UINT16`. -/
def UINT16 (x : Nat) : Nat := x % 65536

/-- Modelled from the spec: the result codes `ERR_OK`, `ERR_ERROR`, `ERR_OVERFLOW`
are declared in a header that is not part of the sources; section 6 of the spec
lists them, together with the "busy" answer of `Diag_StartOfReception`.  They are
four distinct values. -/
inductive bl_Return where
  | ERR_OK
  | ERR_ERROR
  | ERR_OVERFLOW
  | ERR_BUSY
  deriving DecidableEq, Repr

open bl_Return

/-- The macros that the sources use and that are defined outside them
(`FblConfig.h` and the driver headers). -/
structure FblConfig where
  ENABLE_CANFD : Bool
  CANTP_FILLER_BYTE : Nat
  FBL_CAN_RX_ID_PHY : Nat
  FBL_CAN_RX_ID_FUN : Nat
  FBL_CAN_TX_ID_PHY : Nat
  TPL_TIMER_AR : Nat
  TPL_TIMER_BR : Nat
  TPL_TIMER_CR : Nat
  TPL_TIMER_AS : Nat
  TPL_TIMER_BS : Nat
  TPL_TIMER_CS : Nat
  STMIN_ECU : Nat
  BS_ECU : Nat
  deriving DecidableEq, Repr

/-- The size of a CAN frame: `0x40` with CAN FD, `0x08` without. -/
def CANTP_MAX_FRAME_SIZE (K : FblConfig) : Nat :=
  if K.ENABLE_CANFD then 0x40 else 0x08

def CANTP_FRAME_PADDING_VALUE (K : FblConfig) : Nat := K.CANTP_FILLER_BYTE

/-- The record `struct _tag_CanTpChannelCfg`. -/
structure bl_CanTpChannelCfg_t where
  type : Nat
  taType : Nat
  rxId : Nat
  txId : Nat
  timerA : Nat
  timerB : Nat
  timerC : Nat
  ta : Nat
  st : Nat
  bs : Nat
  wft : Nat
  deriving DecidableEq, Repr

/-- The record `struct _tag_CanTpPciInfo`. -/
structure bl_CanTpPciInfo_t where
  pciPos : Nat
  dataPos : Nat
  ffDataPos : Nat
  fcBsPos : Nat
  fcStPos : Nat
  maxDataSize : Nat
  maxFFDataSize : Nat
  maxFCDataSize : Nat
  deriving DecidableEq, Repr

/-- The record `struct _tag_CanTpChannel`.  The pointers `chnCfg` and `pciInfo`
are the records they point to. -/
structure bl_CanTpChannel_t where
  status : Nat
  subStatus : Nat
  pData : Nat
  sn : Nat
  txDelay : Nat
  st : Nat
  bs : Nat
  wft : Nat
  taType : Nat
  lastSize : Nat
  frame : List Nat
  timer : Nat
  cfCnt : Nat
  totalSize : Nat
  chnCfg : bl_CanTpChannelCfg_t
  pciInfo : bl_CanTpPciInfo_t
  deriving DecidableEq, Repr

def CANTP_MAKE_TIMEOUT (ms : Nat) : Nat := UINT16 (ms / CANTP_SCHEDULE_PERIOD)

/-- The table `g_CanTpRxChnsCfg` of `FblCanTpCfg.c`. -/
def g_CanTpRxChnsCfg (K : FblConfig) : List bl_CanTpChannelCfg_t :=
  [ { type := CANTP_TYPE_STANDARD, taType := CANTP_TATYPE_PHYSICAL,
      rxId := K.FBL_CAN_RX_ID_PHY, txId := K.FBL_CAN_TX_ID_PHY,
      timerA := CANTP_MAKE_TIMEOUT K.TPL_TIMER_AR,
      timerB := CANTP_MAKE_TIMEOUT K.TPL_TIMER_BR,
      timerC := CANTP_MAKE_TIMEOUT K.TPL_TIMER_CR,
      ta := 0, st := K.STMIN_ECU, bs := K.BS_ECU, wft := 15 },
    { type := CANTP_TYPE_STANDARD, taType := CANTP_TATYPE_FUNCTIONAL,
      rxId := K.FBL_CAN_RX_ID_FUN, txId := K.FBL_CAN_TX_ID_PHY,
      timerA := CANTP_MAKE_TIMEOUT K.TPL_TIMER_AR,
      timerB := CANTP_MAKE_TIMEOUT K.TPL_TIMER_BR,
      timerC := CANTP_MAKE_TIMEOUT K.TPL_TIMER_CR,
      ta := 0, st := K.STMIN_ECU, bs := K.BS_ECU, wft := 15 } ]

/-- The table `g_CanTpTxChnsCfg` of `FblCanTpCfg.c`. -/
def g_CanTpTxChnsCfg (K : FblConfig) : List bl_CanTpChannelCfg_t :=
  [ { type := CANTP_TYPE_STANDARD, taType := CANTP_TATYPE_PHYSICAL,
      rxId := K.FBL_CAN_RX_ID_PHY, txId := K.FBL_CAN_TX_ID_PHY,
      timerA := CANTP_MAKE_TIMEOUT K.TPL_TIMER_AS,
      timerB := CANTP_MAKE_TIMEOUT K.TPL_TIMER_BS,
      timerC := CANTP_MAKE_TIMEOUT K.TPL_TIMER_CS,
      ta := 0, st := K.STMIN_ECU, bs := K.BS_ECU, wft := 15 } ]

/-- The value used when a configuration pointer is still null (static storage
before `CanTp_Init`). -/
def nullChannelCfg : bl_CanTpChannelCfg_t :=
  { type := 0, taType := 0, rxId := 0, txId := 0, timerA := 0, timerB := 0,
    timerC := 0, ta := 0, st := 0, bs := 0, wft := 0 }

/-- The macro `CANTP_CHNNEL_RX_CR`, that is `g_CanTpRxChnsCfg[0].timerC`. -/
def CANTP_CHNNEL_RX_CR (K : FblConfig) : Nat :=
  ((g_CanTpRxChnsCfg K).getD 0 nullChannelCfg).timerC

/-- The standard-addressing entry of `gs_CanTpPciInfo`. -/
def pciStandard (K : FblConfig) : bl_CanTpPciInfo_t :=
  if K.ENABLE_CANFD then
    { pciPos := 0, dataPos := 1, ffDataPos := 2, fcBsPos := 1, fcStPos := 2,
      maxDataSize := 63, maxFFDataSize := 62, maxFCDataSize := 3 }
  else
    { pciPos := 0, dataPos := 1, ffDataPos := 2, fcBsPos := 1, fcStPos := 2,
      maxDataSize := 7, maxFFDataSize := 6, maxFCDataSize := 3 }

/-- The extended / mixed addressing entry of `gs_CanTpPciInfo`. -/
def pciExtended : bl_CanTpPciInfo_t :=
  { pciPos := 1, dataPos := 2, ffDataPos := 3, fcBsPos := 2, fcStPos := 3,
    maxDataSize := 6, maxFFDataSize := 5, maxFCDataSize := 4 }

/-- The table `gs_CanTpPciInfo`. -/
def gs_CanTpPciInfo (K : FblConfig) : List bl_CanTpPciInfo_t :=
  [pciStandard K, pciExtended]

/-! ## Byte buffers -/

/-- The byte `buf[i]`; a byte outside the list reads as 0. -/
def rd (buf : List Nat) (i : Nat) : Nat := buf.getD i 0

/-- The helper `FblMemCpy(dst, src, n)` of `FblString.h`: the first `n` bytes of
`dst` become those of `src`. -/
def FblMemCpy (dst src : List Nat) (n : Nat) : List Nat :=
  (List.range dst.length).map fun i => if i < n then rd src i else rd dst i

/-- The helper `Bl_MemSet(&frame[start], value, n)` of `FblString.h`. -/
def Bl_MemSet (frame : List Nat) (start value n : Nat) : List Nat :=
  (List.range frame.length).map fun i =>
    if start ≤ i ∧ i < start + n then value else rd frame i

/-- The effect on `frame` of a collaborator filling `n` bytes at `&frame[pos]`
with `src`. -/
def writeAt (frame : List Nat) (pos : Nat) (src : List Nat) (n : Nat) : List Nat :=
  (List.range frame.length).map fun i =>
    if pos ≤ i ∧ i < pos + n then rd src (i - pos) else rd frame i

def GET_LOW_HALF (byte : Nat) : Nat := byte &&& 0x0F
def GET_HIGH_HALF (byte : Nat) : Nat := byte &&& 0xF0

def CANTP_GET_SF_DATASIZE (data : Nat) : Nat := GET_LOW_HALF data

def CANTP_GET_FF_DATASIZE (data data2 : Nat) : Nat :=
  (UINT16 (GET_LOW_HALF data <<< 8) ||| UINT16 data2) &&& CANTP_FRAME_FF_DATASIZE_MASK

def CANTP_GET_CF_SN (pci : bl_CanTpPciInfo_t) (buf : List Nat) : Nat :=
  GET_LOW_HALF (rd buf pci.pciPos)

def CANTP_GET_FRAME_TYPE (pci : bl_CanTpPciInfo_t) (buf : List Nat) : Nat :=
  GET_LOW_HALF (rd buf pci.pciPos >>> 4)

def CANTP_GET_FC_FS (pci : bl_CanTpPciInfo_t) (buf : List Nat) : Nat :=
  GET_LOW_HALF (rd buf pci.pciPos)

def CANTP_GET_FC_BS (pci : bl_CanTpPciInfo_t) (buf : List Nat) : Nat :=
  rd buf pci.fcBsPos

def CANTP_GET_FC_STMIN (pci : bl_CanTpPciInfo_t) (buf : List Nat) : Nat :=
  rd buf pci.fcStPos

/-! ## The world: channels, registry, calls made so far -/

/-- A pointer to one of the three channel records. -/
inductive ChnRef where
  | rx0
  | rx1
  | tx0
  deriving DecidableEq, Repr

/-- A call made to a collaborator, with the arguments it is given.  A pointer
argument is recorded as the bytes it designates. -/
inductive Call where
  | Diag_StartOfReception (size : Nat)
  | Diag_CopyRxData (size : Nat) (bytes : List Nat)
  | Diag_CopyTxData (size : Nat)
  | Diag_RxIndication (taType : Nat) (result : bl_Return)
  | Diag_TxConfirmation (result : bl_Return)
  | FblCanSendData (frame : List Nat) (id : Nat) (len : Nat)
  deriving DecidableEq, Repr

/-- The collaborators: Diag and the CAN driver.  Every answer is a function of
the calls made so far and of the arguments. -/
structure Env where
  Diag_StartOfReception : List Call → Nat → bl_Return
  Diag_CopyRxData : List Call → Nat → List Nat → bl_Return
  Diag_CopyTxData : List Call → Nat → List Nat
  FblCanSendData : List Call → List Nat → Nat → Nat → bl_Return

/-- The module state and the calls made so far, oldest first. -/
structure World where
  rx0 : bl_CanTpChannel_t
  rx1 : bl_CanTpChannel_t
  tx0 : bl_CanTpChannel_t
  gs_TransmittingChannel : Option ChnRef
  trace : List Call
  deriving DecidableEq, Repr

/-- The record a channel pointer designates. -/
def World.chn (w : World) : ChnRef → bl_CanTpChannel_t
  | .rx0 => w.rx0
  | .rx1 => w.rx1
  | .tx0 => w.tx0

/-- Store a record through a channel pointer. -/
def World.setChn (w : World) (r : ChnRef) (c : bl_CanTpChannel_t) : World :=
  match r with
  | .rx0 => { w with rx0 := c }
  | .rx1 => { w with rx1 := c }
  | .tx0 => { w with tx0 := c }

/-- Update a record through a channel pointer. -/
def World.upd (w : World) (r : ChnRef) (f : bl_CanTpChannel_t → bl_CanTpChannel_t) : World :=
  w.setChn r (f (w.chn r))

/-- Record a call. -/
def World.log (w : World) (c : Call) : World :=
  { w with trace := w.trace ++ [c] }

/-- Store into the slot `gs_TransmittingChannel[0]`. -/
def World.setSlot (w : World) (x : Option ChnRef) : World :=
  { w with gs_TransmittingChannel := x }

/-- The array `gs_CanTpRxChannel`, as pointers to its elements. -/
def gs_CanTpRxChannel : List ChnRef := [.rx0, .rx1]

/-- The array `gs_CanTpTxChannel`, as pointers to its elements. -/
def gs_CanTpTxChannel : List ChnRef := [.tx0]

/-! ## Calls to the collaborators -/

def Diag_StartOfReception (E : Env) (size : Nat) (w : World) : bl_Return × World :=
  (E.Diag_StartOfReception w.trace size, w.log (.Diag_StartOfReception size))

/-- The call `Diag_CopyRxData(size, src)`: `src` is the memory the pointer
designates, of which `size` bytes are handed over. -/
def Diag_CopyRxData (E : Env) (size : Nat) (src : List Nat) (w : World) : bl_Return × World :=
  (E.Diag_CopyRxData w.trace size (src.take size), w.log (.Diag_CopyRxData size (src.take size)))

/-- The call `Diag_CopyTxData(size, &frame[pos])` on the staged frame of channel
`r`; the result code is not used by the callers. -/
def Diag_CopyTxData (E : Env) (size : Nat) (r : ChnRef) (pos : Nat) (w : World) : World :=
  (w.upd r fun c =>
    { c with frame := writeAt c.frame pos (E.Diag_CopyTxData w.trace size) size }).log
    (.Diag_CopyTxData size)

def Diag_RxIndication (taType : Nat) (result : bl_Return) (w : World) : World :=
  w.log (.Diag_RxIndication taType result)

def Diag_TxConfirmation (result : bl_Return) (w : World) : World :=
  w.log (.Diag_TxConfirmation result)

def FblCanSendData (E : Env) (frame : List Nat) (id len : Nat) (w : World) : bl_Return × World :=
  (E.FblCanSendData w.trace (frame.take len) id len, w.log (.FblCanSendData (frame.take len) id len))

/-! ## Helpers on one channel record -/

/-- The macro `CANTP_IS_GETTING_BUFFER`. -/
def CANTP_IS_GETTING_BUFFER (chn : bl_CanTpChannel_t) : Bool :=
  decide (chn.status > CANTP_STATUS_RECEIVING_FF)

def _Cantp_InitChannel (K : FblConfig) (channel : bl_CanTpChannel_t)
    (channelCfg : bl_CanTpChannelCfg_t) : bl_CanTpChannel_t :=
  { channel with
    status := CANTP_STATUS_IDLE
    subStatus := CANTP_SUB_STATUS_IDLE
    st := channelCfg.st
    bs := channelCfg.bs
    wft := channelCfg.wft
    taType := channelCfg.taType
    timer := 0
    pciInfo := if CANTP_TYPE_STANDARD = channelCfg.type then pciStandard K else pciExtended
    chnCfg := channelCfg }

def _Cantp_SetMultipleFrameSize (channel : bl_CanTpChannel_t) (size : Nat) : bl_CanTpChannel_t :=
  let pci := channel.pciInfo
  let tmpCnt := UINT16 (size / pci.maxDataSize)
  let tmpSize := UINT16 (size % pci.maxDataSize + 1)
  { channel with totalSize := size, lastSize := UINT8 tmpSize, cfCnt := tmpCnt }

def _Cantp_GetSTMinFromFC (st : Nat) : Nat :=
  if st > CANTP_MAX_STMIN_VALUE then
    if st > CANTP_MIN_STMIN_VALUE_US ∧ st < CANTP_MAX_STMIN_VALUE_US then
      CANTP_SCHEDULE_PERIOD
    else if CANTP_SCHEDULE_PERIOD = 1 then CANTP_MAX_STMIN_VALUE
    else CANTP_MAX_STMIN_VALUE / CANTP_SCHEDULE_PERIOD + 1
  else if CANTP_SCHEDULE_PERIOD = 1 then UINT8 (st + 1)
  else st / CANTP_SCHEDULE_PERIOD + 1

/-- The write `frame[CANTP_TA_OFFSET] = ta` made by the four `MakePci` functions
on a channel that is not of standard type. -/
def putTa (channel : bl_CanTpChannel_t) : List Nat :=
  if channel.chnCfg.type ≠ CANTP_TYPE_STANDARD then
    channel.frame.set CANTP_TA_OFFSET channel.chnCfg.ta
  else channel.frame

def _Cantp_MakePciOfSF (channel : bl_CanTpChannel_t) : bl_CanTpChannel_t :=
  { channel with
    frame := (putTa channel).set channel.pciInfo.pciPos (GET_LOW_HALF channel.lastSize) }

def _Cantp_MakePciOfFF (channel : bl_CanTpChannel_t) : bl_CanTpChannel_t :=
  let pci := channel.pciInfo
  let totalSize := UINT16 ((channel.totalSize &&& CANTP_FRAME_FF_DATASIZE_MASK)
                    + CANTP_FRAME_FF_VAULE_16BITS)
  { channel with
    frame := ((putTa channel).set pci.pciPos (UINT8 (totalSize >>> 8))).set
                (pci.pciPos + 1) (UINT8 totalSize) }

def _Cantp_MakePciOfCF (channel : bl_CanTpChannel_t) : bl_CanTpChannel_t :=
  { channel with
    frame := (putTa channel).set channel.pciInfo.pciPos
                (UINT8 (CANTP_FRAME_CF_VALUE + GET_LOW_HALF channel.sn)) }

def _Cantp_MakePciOfFC (channel : bl_CanTpChannel_t) : bl_CanTpChannel_t :=
  let pci := channel.pciInfo
  { channel with
    frame := (((putTa channel).set pci.pciPos
                (UINT8 (CANTP_FRAME_FC_VALUE + GET_LOW_HALF channel.pData))).set
                pci.fcBsPos channel.bs).set pci.fcStPos channel.st }

def _Cantp_GotoTranFC (channel : bl_CanTpChannel_t) (fs : Nat) : bl_CanTpChannel_t :=
  { channel with
    status := CANTP_STATUS_TRANSMITTING_FC
    subStatus := CANTP_SUB_STATUS_IDLE
    timer := channel.chnCfg.timerA
    bs := channel.chnCfg.bs
    pData := UINT8 fs }

def _Cantp_GotoIdle (channel : bl_CanTpChannel_t) : bl_CanTpChannel_t :=
  { channel with
    status := CANTP_STATUS_IDLE
    subStatus := CANTP_SUB_STATUS_IDLE
    timer := 0 }

def _Cantp_GotoTranSF (channel : bl_CanTpChannel_t) : bl_CanTpChannel_t :=
  { channel with
    status := CANTP_STATUS_TRANSMITTING_SF
    subStatus := CANTP_SUB_STATUS_IDLE
    timer := channel.chnCfg.timerA }

def _Cantp_GotoTranFF (channel : bl_CanTpChannel_t) : bl_CanTpChannel_t :=
  { channel with
    status := CANTP_STATUS_TRANSMITTING_FF
    subStatus := CANTP_SUB_STATUS_IDLE
    sn := 0
    timer := channel.chnCfg.timerA }

def _Cantp_GotoTranCF (K : FblConfig) (channel : bl_CanTpChannel_t) : bl_CanTpChannel_t :=
  { channel with
    status := CANTP_STATUS_TRANSMITTING_CF
    subStatus := CANTP_SUB_STATUS_IDLE
    timer := CANTP_CHNNEL_RX_CR K
    txDelay := channel.st }

/-! ## Tx confirmation -/

def _Cantp_TxConfirmIdle (_r : ChnRef) (w : World) : World := w

def _Cantp_TxConfirmSF (r : ChnRef) (w : World) : World :=
  (Diag_TxConfirmation ERR_OK w).upd r _Cantp_GotoIdle

def _Cantp_TxConfirmFF (r : ChnRef) (w : World) : World :=
  w.upd r fun c =>
    { c with
      sn := UINT8 (c.sn + 1)
      status := CANTP_STATUS_RECEIVING_FC
      subStatus := CANTP_SUB_STATUS_IDLE
      timer := c.chnCfg.timerB }

def _Cantp_TxConfirmCF (K : FblConfig) (r : ChnRef) (w : World) : World :=
  let w := w.upd r fun c => { c with subStatus := CANTP_SUB_STATUS_IDLE, sn := UINT8 (c.sn + 1) }
  if (w.chn r).cfCnt = 0 then
    (Diag_TxConfirmation ERR_OK w).upd r _Cantp_GotoIdle
  else if (w.chn r).bs ≠ 0 then
    let w := w.upd r fun c => { c with bs := c.bs - 1 }
    if (w.chn r).bs = 0 then
      w.upd r fun c => { c with status := CANTP_STATUS_RECEIVING_FC, timer := c.chnCfg.timerB }
    else
      w.upd r fun c => { c with timer := CANTP_CHNNEL_RX_CR K, txDelay := c.st }
  else
    w.upd r fun c => { c with timer := CANTP_CHNNEL_RX_CR K, txDelay := c.st }

def _Cantp_TxConfirmFC (r : ChnRef) (w : World) : World :=
  if (w.chn r).pData = CANTP_FC_FRAME_CTS then
    w.upd r fun c => { c with status := CANTP_STATUS_RECEIVING_CF, timer := c.chnCfg.timerC }
  else if (w.chn r).pData = CANTP_FC_FRAME_WAIT then
    w.upd r fun c => { c with status := CANTP_STATUS_RECEIVING_FF, timer := c.chnCfg.timerB }
  else
    w.upd r _Cantp_GotoIdle

/-- The table `gs_TxConfirmList`, indexed by the status.  An index outside the
table is left without effect. -/
def gs_TxConfirmList (K : FblConfig) (status : Nat) : ChnRef → World → World :=
  match status with
  | 0 => _Cantp_TxConfirmIdle
  | 1 => _Cantp_TxConfirmSF
  | 2 => _Cantp_TxConfirmFF
  | 3 => _Cantp_TxConfirmCF K
  | 4 => _Cantp_TxConfirmFC
  | _ => fun _ w => w

/-- The entry point `Cantp_TxConfirmation`; the registry has the single slot
`gs_TransmittingChannel[0]`. -/
def Cantp_TxConfirmation (K : FblConfig) (id : Nat) (w : World) : World :=
  match w.gs_TransmittingChannel with
  | some r =>
    if (w.chn r).chnCfg.txId = id then
      (gs_TxConfirmList K (w.chn r).status r w).setSlot none
    else w
  | none => w

/-! ## Reception of a frame -/

/-- The length read by `_Cantp_ReceiveSF`; `none` is the early return of the
CAN FD branch. -/
def sfDataSize (K : FblConfig) (pci : bl_CanTpPciInfo_t) (size : Nat) (buffer : List Nat) :
    Option Nat :=
  if K.ENABLE_CANFD then
    if size ≤ 8 then
      some (CANTP_GET_SF_DATASIZE (rd buffer pci.pciPos))
    else if 0x00 ≠ CANTP_GET_SF_DATASIZE (rd buffer pci.pciPos)
        ∨ CANTP_GET_SF_DATASIZE (rd buffer (pci.pciPos + 1)) < 8 then
      none
    else
      some (CANTP_GET_SF_DATASIZE (rd buffer (pci.pciPos + 1)))
  else
    some (CANTP_GET_SF_DATASIZE (rd buffer pci.pciPos))

def _Cantp_ReceiveSF (K : FblConfig) (r : ChnRef) (size : Nat) (buffer : List Nat)
    (w : World) : bl_Return × World :=
  let pci := (w.chn r).pciInfo
  if w.tx0.status = CANTP_STATUS_IDLE
      ∨ (w.chn r).chnCfg.taType = CANTP_TATYPE_FUNCTIONAL then
    match sfDataSize K pci size buffer with
    | none => (ERR_ERROR, w)
    | some tmpSize =>
      if tmpSize ≠ 0 ∧ tmpSize ≤ pci.maxDataSize ∧ tmpSize < size then
        let w := if CANTP_IS_GETTING_BUFFER (w.chn r) then
                   Diag_RxIndication (w.chn r).taType ERR_ERROR w
                 else w
        let src := if K.ENABLE_CANFD = true ∧ tmpSize ≥ 8 then buffer.drop (pci.dataPos + 1)
                   else buffer.drop pci.dataPos
        let w := w.upd r fun c =>
          { c with
            frame := FblMemCpy c.frame src tmpSize
            lastSize := tmpSize
            status := CANTP_STATUS_RECEIVING_SF
            timer := c.chnCfg.timerB }
        (ERR_OK, w)
      else (ERR_ERROR, w)
  else (ERR_ERROR, w)

def _Cantp_ReceiveFF (K : FblConfig) (r : ChnRef) (size : Nat) (buffer : List Nat)
    (w : World) : bl_Return × World :=
  if (w.chn r).chnCfg.taType = CANTP_TATYPE_PHYSICAL then
    let pci := (w.chn r).pciInfo
    if w.tx0.status = CANTP_STATUS_IDLE then
      let totalSize := CANTP_GET_FF_DATASIZE (rd buffer pci.pciPos) (rd buffer (pci.pciPos + 1))
      if K.ENABLE_CANFD = true ∧ totalSize = 0x0000 then
        (ERR_ERROR, w)
      else if totalSize > pci.maxFFDataSize ∧ CANTP_MAX_FRAME_SIZE K = size then
        let w := if CANTP_IS_GETTING_BUFFER (w.chn r) then
                   Diag_RxIndication (w.chn r).taType ERR_ERROR w
                 else w
        let w := w.upd r fun c =>
          { c with frame := FblMemCpy c.frame (buffer.drop pci.ffDataPos)
                              (UINT16 (size + 65536 - pci.pciPos)) }
        let w := w.upd r fun c => _Cantp_SetMultipleFrameSize c totalSize
        let w := w.upd r fun c =>
          { c with
            sn := 0
            wft := c.chnCfg.wft
            status := CANTP_STATUS_RECEIVING_FF
            timer := c.chnCfg.timerB }
        (ERR_OK, w)
      else (ERR_ERROR, w)
    else (ERR_ERROR, w)
  else (ERR_ERROR, w)

def _Cantp_ReceiveCF (E : Env) (r : ChnRef) (_size : Nat) (buffer : List Nat)
    (w : World) : bl_Return × World :=
  let pci := (w.chn r).pciInfo
  if w.tx0.status = CANTP_STATUS_IDLE then
    if (w.chn r).status ≠ CANTP_STATUS_RECEIVING_CF ∨ 0 = (w.chn r).cfCnt then
      (ERR_ERROR, w)
    else
      let expectedSN := GET_LOW_HALF ((w.chn r).sn + 1)
      let recvSN := CANTP_GET_CF_SN pci buffer
      if recvSN = expectedSN then
        let w := w.upd r fun c => { c with sn := expectedSN }
        let w := w.upd r fun c => { c with cfCnt := c.cfCnt - 1 }
        let tmpSize := if 0 = (w.chn r).cfCnt then (w.chn r).lastSize else pci.maxDataSize
        let res := Diag_CopyRxData E tmpSize (buffer.drop pci.dataPos) w
        let w := res.2
        if res.1 = ERR_OK then
          let w := w.upd r fun c => { c with timer := c.chnCfg.timerC }
          if (w.chn r).bs ≠ 0 ∧ (w.chn r).cfCnt ≠ 0 then
            let w := w.upd r fun c => { c with bs := c.bs - 1 }
            if 0 = (w.chn r).bs then
              (res.1, w.upd r fun c => _Cantp_GotoTranFC c CANTP_FC_FRAME_CTS)
            else (res.1, w)
          else (res.1, w)
        else
          (res.1, (Diag_RxIndication (w.chn r).taType ERR_ERROR w).upd r _Cantp_GotoIdle)
      else
        (ERR_ERROR, (Diag_RxIndication (w.chn r).taType ERR_ERROR w).upd r _Cantp_GotoIdle)
  else (ERR_ERROR, w)

def _Cantp_ReceiveFC (K : FblConfig) (r : ChnRef) (_size : Nat) (buffer : List Nat)
    (w : World) : bl_Return × World :=
  let pci := (w.chn r).pciInfo
  if w.rx0.status = CANTP_STATUS_IDLE then
    if (w.chn r).status = CANTP_STATUS_RECEIVING_FC then
      let fs := CANTP_GET_FC_FS pci buffer
      let w :=
        if fs = CANTP_FC_FRAME_CTS then
          w.upd r fun c =>
            _Cantp_GotoTranCF K
              { c with
                bs := CANTP_GET_FC_BS pci buffer
                st := _Cantp_GetSTMinFromFC (CANTP_GET_FC_STMIN pci buffer) }
        else if fs = CANTP_FC_FRAME_WAIT then
          w.upd r fun c => { c with timer := c.chnCfg.timerB }
        else if fs = CANTP_FC_FRAME_OVERFLOW then
          (Diag_TxConfirmation ERR_OVERFLOW w).upd r _Cantp_GotoIdle
        else
          (Diag_TxConfirmation ERR_ERROR w).upd r _Cantp_GotoIdle
      (ERR_OK, w)
    else (ERR_ERROR, w)
  else (ERR_ERROR, w)

/-- The table `gs_RxProcessList`, indexed by the frame type. -/
def gs_RxProcessList (K : FblConfig) (E : Env) (frameType : Nat) :
    ChnRef → Nat → List Nat → World → bl_Return × World :=
  match frameType with
  | 0 => _Cantp_ReceiveSF K
  | 1 => _Cantp_ReceiveFF K
  | 2 => _Cantp_ReceiveCF E
  | 3 => _Cantp_ReceiveFC K
  | _ => fun _ _ _ w => (ERR_ERROR, w)

def _Cantp_GetChannelByRxId (w : World) (id : Nat) (chnList : List ChnRef) : Option ChnRef :=
  chnList.find? fun r => decide ((w.chn r).chnCfg.rxId = id)

def _Cantp_RxIndToRxChannel (K : FblConfig) (E : Env) (channel : Option ChnRef) (size : Nat)
    (buffer : List Nat) (w : World) : bl_Return × World :=
  match channel with
  | none => (ERR_ERROR, w)
  | some r =>
    if (w.chn r).chnCfg.type = CANTP_TYPE_STANDARD
        ∨ (w.chn r).chnCfg.ta = rd buffer CANTP_TA_OFFSET then
      let frameType := CANTP_GET_FRAME_TYPE (w.chn r).pciInfo buffer
      if frameType < CANTP_FRAME_TYPE_FC then
        gs_RxProcessList K E frameType r size buffer w
      else (ERR_ERROR, w)
    else (ERR_ERROR, w)

def _Cantp_RxIndToTxChannel (K : FblConfig) (E : Env) (channel : Option ChnRef) (size : Nat)
    (buffer : List Nat) (w : World) : bl_Return × World :=
  match channel with
  | none => (ERR_ERROR, w)
  | some r =>
    if (w.chn r).chnCfg.type = CANTP_TYPE_STANDARD
        ∨ (w.chn r).chnCfg.ta = rd buffer CANTP_TA_OFFSET then
      let frameType := CANTP_GET_FRAME_TYPE (w.chn r).pciInfo buffer
      if frameType = CANTP_FRAME_TYPE_FC then
        gs_RxProcessList K E frameType r size buffer w
      else (ERR_ERROR, w)
    else (ERR_ERROR, w)

/-- The entry point `Cantp_RxIndication`.  The buffer pointer is taken to be
non-null. -/
def Cantp_RxIndication (K : FblConfig) (E : Env) (id size : Nat) (buffer : List Nat)
    (w : World) : World :=
  if CANTP_MAX_FRAME_SIZE K ≥ size then
    let res := _Cantp_RxIndToTxChannel K E (_Cantp_GetChannelByRxId w id gs_CanTpTxChannel)
                size buffer w
    if res.1 ≠ ERR_OK then
      (_Cantp_RxIndToRxChannel K E (_Cantp_GetChannelByRxId res.2 id gs_CanTpRxChannel)
        size buffer res.2).2
    else res.2
  else w

/-- The entry point `Cantp_Transmit`.  The debug assertions are no-ops; a handle
outside `gs_CanTpTxChannel` is answered with `ERR_ERROR`. -/
def Cantp_Transmit (handle size : Nat) (w : World) : bl_Return × World :=
  match gs_CanTpTxChannel.get? handle with
  | none => (ERR_ERROR, w)
  | some r =>
    if (w.chn r).status = CANTP_STATUS_IDLE then
      if size > (w.chn r).pciInfo.maxDataSize then
        if (w.chn r).chnCfg.taType = CANTP_TATYPE_PHYSICAL then
          (ERR_OK, w.upd r fun c => _Cantp_GotoTranFF (_Cantp_SetMultipleFrameSize c size))
        else (ERR_ERROR, w)
      else
        (ERR_OK, w.upd r fun c => _Cantp_GotoTranSF { c with lastSize := UINT8 size })
    else (ERR_ERROR, w)

/-! ## Period and timeout handlers -/

def _Cantp_PeriodIdle (_r : ChnRef) (w : World) : World := w

def _Cantp_TimeoutIdle (_r : ChnRef) (w : World) : bl_Return × World := (ERR_ERROR, w)

def _Cantp_PeriodRecvSF (E : Env) (r : ChnRef) (w : World) : World :=
  let res := Diag_StartOfReception E (w.chn r).lastSize w
  let w := res.2
  if res.1 = ERR_OK then
    let res := Diag_CopyRxData E (w.chn r).lastSize (w.chn r).frame w
    let w := res.2
    let w := if res.1 = ERR_OK then Diag_RxIndication (w.chn r).taType ERR_OK w
             else Diag_RxIndication (w.chn r).taType ERR_ERROR w
    w.upd r _Cantp_GotoIdle
  else w

def _Cantp_TimeoutRecvSF (_r : ChnRef) (w : World) : bl_Return × World := (ERR_OK, w)

def _Cantp_PeriodRecvFF (E : Env) (r : ChnRef) (w : World) : World :=
  let res := Diag_StartOfReception E (w.chn r).totalSize w
  let w := res.2
  if res.1 = ERR_OK then
    let res := Diag_CopyRxData E (w.chn r).pciInfo.maxFFDataSize (w.chn r).frame w
    let w := res.2
    if res.1 = ERR_OK then
      w.upd r fun c => _Cantp_GotoTranFC c CANTP_FC_FRAME_CTS
    else
      (Diag_RxIndication (w.chn r).taType ERR_ERROR w).upd r _Cantp_GotoIdle
  else if res.1 = ERR_OVERFLOW then
    w.upd r fun c => _Cantp_GotoTranFC c CANTP_FC_FRAME_OVERFLOW
  else w

def _Cantp_TimeoutRecvFF (r : ChnRef) (w : World) : bl_Return × World :=
  if (w.chn r).wft ≠ 0 then
    (ERR_ERROR, w.upd r fun c => _Cantp_GotoTranFC { c with wft := c.wft - 1 } CANTP_FC_FRAME_WAIT)
  else (ERR_OK, w)

def _Cantp_PeriodRecvCF (r : ChnRef) (w : World) : World :=
  if 0 = (w.chn r).cfCnt then
    (Diag_RxIndication (w.chn r).taType ERR_OK w).upd r _Cantp_GotoIdle
  else w

def _Cantp_TimeoutRecvCF (r : ChnRef) (w : World) : bl_Return × World :=
  (ERR_OK, Diag_RxIndication (w.chn r).taType ERR_ERROR w)

/-- The tail shared by the four transmitting period handlers: on `ERR_OK` from
the driver the channel is marked transmitting, registered in
`gs_TransmittingChannel[0]` and confirmed at once. -/
def afterSend (K : FblConfig) (r : ChnRef) (id : Nat) (ret : bl_Return) (w : World) : World :=
  if ret = ERR_OK then
    let w := w.upd r fun c => { c with subStatus := CANTP_SUB_STATUS_TRANSMITTING }
    Cantp_TxConfirmation K id (w.setSlot (some r))
  else w

def _Cantp_PeriodTranFC (K : FblConfig) (E : Env) (r : ChnRef) (w : World) : World :=
  if (w.chn r).subStatus = CANTP_SUB_STATUS_IDLE then
    let w := w.upd r _Cantp_MakePciOfFC
    let frameSize := (w.chn r).pciInfo.maxFCDataSize
    let id := (w.chn r).chnCfg.txId
    let w := w.upd r fun c =>
      { c with frame := Bl_MemSet c.frame frameSize (CANTP_FRAME_PADDING_VALUE K)
                          (UINT16 (CANTP_MAX_FRAME_SIZE K + 65536 - frameSize)) }
    let res := FblCanSendData E (w.chn r).frame id (CANTP_MAX_FRAME_SIZE K) w
    afterSend K r id res.1 res.2
  else w

def _Cantp_TimeoutTranFC (r : ChnRef) (w : World) : bl_Return × World :=
  if (w.chn r).pData ≠ CANTP_FC_FRAME_WAIT then
    (ERR_OK, Diag_RxIndication (w.chn r).taType ERR_ERROR w)
  else (ERR_OK, w)

def _Cantp_PeriodTranSF (K : FblConfig) (E : Env) (r : ChnRef) (w : World) : World :=
  if (w.chn r).subStatus = CANTP_SUB_STATUS_IDLE then
    let w := w.upd r _Cantp_MakePciOfSF
    let dataSize := (w.chn r).lastSize
    let dataPos := (w.chn r).pciInfo.dataPos
    let id := (w.chn r).chnCfg.txId
    let frameSize := UINT16 (dataSize + dataPos)
    let w := Diag_CopyTxData E dataSize r dataPos w
    let w := w.upd r fun c =>
      { c with frame := Bl_MemSet c.frame frameSize (CANTP_FRAME_PADDING_VALUE K)
                          (UINT16 (CANTP_MAX_FRAME_SIZE K + 65536 - frameSize)) }
    let res := FblCanSendData E (w.chn r).frame id (CANTP_MAX_FRAME_SIZE K) w
    afterSend K r id res.1 res.2
  else w

def _Cantp_TimeoutTranSF (_r : ChnRef) (w : World) : bl_Return × World :=
  (ERR_OK, Diag_TxConfirmation ERR_ERROR w)

def _Cantp_PeriodTranFF (K : FblConfig) (E : Env) (r : ChnRef) (w : World) : World :=
  if (w.chn r).subStatus = CANTP_SUB_STATUS_IDLE then
    let w := w.upd r _Cantp_MakePciOfFF
    let dataPos := (w.chn r).pciInfo.ffDataPos
    let dataSize := (w.chn r).pciInfo.maxFFDataSize
    let id := (w.chn r).chnCfg.txId
    let w := Diag_CopyTxData E dataSize r dataPos w
    let res := FblCanSendData E (w.chn r).frame id (CANTP_MAX_FRAME_SIZE K) w
    afterSend K r id res.1 res.2
  else w

def _Cantp_TimeoutTranFF (_r : ChnRef) (w : World) : bl_Return × World :=
  (ERR_OK, Diag_TxConfirmation ERR_ERROR w)

def _Cantp_TransmitCF (K : FblConfig) (E : Env) (r : ChnRef) (w : World) : World :=
  let w := w.upd r _Cantp_MakePciOfCF
  let cfCounter := UINT16 ((w.chn r).cfCnt + 65535)
  let dataSize := if 0 = cfCounter then (w.chn r).lastSize else (w.chn r).pciInfo.maxDataSize
  let dataPos := (w.chn r).pciInfo.dataPos
  let id := (w.chn r).chnCfg.txId
  let frameSize := UINT16 (dataSize + dataPos)
  let w := w.upd r fun c =>
    { c with frame := Bl_MemSet c.frame frameSize (CANTP_FRAME_PADDING_VALUE K)
                        (UINT16 (CANTP_MAX_FRAME_SIZE K + 65536 - frameSize)) }
  let res := FblCanSendData E (w.chn r).frame id (CANTP_MAX_FRAME_SIZE K) w
  if res.1 = ERR_OK then
    afterSend K r id res.1 (res.2.upd r fun c => { c with cfCnt := cfCounter })
  else res.2

def _Cantp_PeriodTranCF (K : FblConfig) (E : Env) (r : ChnRef) (w : World) : World :=
  if (w.chn r).subStatus = CANTP_SUB_STATUS_IDLE then
    let w := if (w.chn r).txDelay ≠ 0 then w.upd r fun c => { c with txDelay := c.txDelay - 1 }
             else w
    if (w.chn r).txDelay = 0 then _Cantp_TransmitCF K E r w else w
  else w

def _Cantp_TimeoutTranCF (_r : ChnRef) (w : World) : bl_Return × World :=
  (ERR_OK, Diag_TxConfirmation ERR_ERROR w)

def _Cantp_PeriodRecvFC (_r : ChnRef) (w : World) : World := w

def _Cantp_TimeoutRecvFC (_r : ChnRef) (w : World) : bl_Return × World :=
  (ERR_OK, Diag_TxConfirmation ERR_ERROR w)

/-- The record `struct _tag_CanTpPeriodInterface`. -/
structure bl_CanTpPeriodIF_t where
  Period : ChnRef → World → World
  Timeout : ChnRef → World → bl_Return × World

/-- The table `gs_RxPeriodList`, indexed by the status.  An index outside the
table is left without effect. -/
def gs_RxPeriodList (K : FblConfig) (E : Env) (status : Nat) : bl_CanTpPeriodIF_t :=
  match status with
  | 0 => ⟨_Cantp_PeriodIdle, _Cantp_TimeoutIdle⟩
  | 1 => ⟨_Cantp_PeriodRecvSF E, _Cantp_TimeoutRecvSF⟩
  | 2 => ⟨_Cantp_PeriodRecvFF E, _Cantp_TimeoutRecvFF⟩
  | 3 => ⟨_Cantp_PeriodRecvCF, _Cantp_TimeoutRecvCF⟩
  | 4 => ⟨_Cantp_PeriodTranFC K E, _Cantp_TimeoutTranFC⟩
  | _ => ⟨fun _ w => w, fun _ w => (ERR_ERROR, w)⟩

/-- The table `gs_TxPeriodList`, indexed by the status.  An index outside the
table is left without effect. -/
def gs_TxPeriodList (K : FblConfig) (E : Env) (status : Nat) : bl_CanTpPeriodIF_t :=
  match status with
  | 0 => ⟨_Cantp_PeriodIdle, _Cantp_TimeoutIdle⟩
  | 1 => ⟨_Cantp_PeriodTranSF K E, _Cantp_TimeoutTranSF⟩
  | 2 => ⟨_Cantp_PeriodTranFF K E, _Cantp_TimeoutTranFF⟩
  | 3 => ⟨_Cantp_PeriodTranCF K E, _Cantp_TimeoutTranCF⟩
  | 4 => ⟨_Cantp_PeriodRecvFC, _Cantp_TimeoutRecvFC⟩
  | _ => ⟨fun _ w => w, fun _ w => (ERR_ERROR, w)⟩

/-- The statement `channel->timer -= 1`, executed on a timer that is not 0. -/
def decTimer (c : bl_CanTpChannel_t) : bl_CanTpChannel_t :=
  { c with timer := c.timer - 1 }

/-- The body of the loop of `_Cantp_PeriodFunction` for one channel. -/
def periodChannel (periodList : Nat → bl_CanTpPeriodIF_t) (w : World) (r : ChnRef) : World :=
  if (w.chn r).timer = 0 then
    let res := (periodList (w.chn r).status).Timeout r w
    if ERR_OK = res.1 then res.2.upd r _Cantp_GotoIdle else res.2
  else
    let w := w.upd r decTimer
    (periodList (w.chn r).status).Period r w

def _Cantp_PeriodFunction (channelList : List ChnRef)
    (periodList : Nat → bl_CanTpPeriodIF_t) (w : World) : World :=
  channelList.foldl (periodChannel periodList) w

/-- The entry point `Cantp_PeriodFunction`: one tick. -/
def Cantp_PeriodFunction (K : FblConfig) (E : Env) (w : World) : World :=
  _Cantp_PeriodFunction gs_CanTpTxChannel (gs_TxPeriodList K E)
    (_Cantp_PeriodFunction gs_CanTpRxChannel (gs_RxPeriodList K E) w)

/-! ## Initialisation -/

/-- A channel record in static storage before initialisation: all zero. -/
def zeroChannel (K : FblConfig) : bl_CanTpChannel_t :=
  { status := 0, subStatus := 0, pData := 0, sn := 0, txDelay := 0, st := 0, bs := 0,
    wft := 0, taType := 0, lastSize := 0, frame := List.replicate (CANTP_MAX_FRAME_SIZE K) 0,
    timer := 0, cfCnt := 0, totalSize := 0, chnCfg := nullChannelCfg,
    pciInfo := pciStandard K }

/-- The static storage of the module before initialisation. -/
def zeroWorld (K : FblConfig) : World :=
  { rx0 := zeroChannel K, rx1 := zeroChannel K, tx0 := zeroChannel K,
    gs_TransmittingChannel := none, trace := [] }

/-- The loops of `CanTp_Init` over given configuration tables. -/
def initChannels (K : FblConfig) (rxCfg txCfg : List bl_CanTpChannelCfg_t) (w : World) : World :=
  { w with
    rx0 := _Cantp_InitChannel K w.rx0 (rxCfg.getD 0 nullChannelCfg)
    rx1 := _Cantp_InitChannel K w.rx1 (rxCfg.getD 1 nullChannelCfg)
    tx0 := _Cantp_InitChannel K w.tx0 (txCfg.getD 0 nullChannelCfg) }

def CanTp_Init (K : FblConfig) (w : World) : World :=
  initChannels K (g_CanTpRxChnsCfg K) (g_CanTpTxChnsCfg K) w

/-! ## Runs -/

/-- An event delivered to the module by its embedding. -/
inductive Event where
  | tick
  | rxInd (id size : Nat) (buffer : List Nat)
  | transmit (handle size : Nat)
  | txConf (id : Nat)
  deriving DecidableEq, Repr

def step (K : FblConfig) (E : Env) (w : World) : Event → World
  | .tick => Cantp_PeriodFunction K E w
  | .rxInd id size buffer => Cantp_RxIndication K E id size buffer w
  | .transmit handle size => (Cantp_Transmit handle size w).2
  | .txConf id => Cantp_TxConfirmation K id w

def run (K : FblConfig) (E : Env) (w : World) (evs : List Event) : World :=
  evs.foldl (step K E) w

/-- The world after `n` ticks. -/
def ticks (K : FblConfig) (E : Env) : Nat → World → World
  | 0, w => w
  | n + 1, w => ticks K E n (Cantp_PeriodFunction K E w)

/-! ## Scenario data -/

/-- A build for classical CAN with filler byte `0xAA` and the usual diagnostic
identifiers; timers in milliseconds. -/
def classicBuild : FblConfig :=
  { ENABLE_CANFD := false, CANTP_FILLER_BYTE := 0xAA,
    FBL_CAN_RX_ID_PHY := 0x7E0, FBL_CAN_RX_ID_FUN := 0x7DF, FBL_CAN_TX_ID_PHY := 0x7E8,
    TPL_TIMER_AR := 70, TPL_TIMER_BR := 70, TPL_TIMER_CR := 150,
    TPL_TIMER_AS := 70, TPL_TIMER_BS := 150, TPL_TIMER_CS := 70,
    STMIN_ECU := 0, BS_ECU := 0 }

/-- The module right after `CanTp_Init` on the classical build. -/
def classicInit : World := CanTp_Init classicBuild (zeroWorld classicBuild)

/-- The number of bytes handed out so far by `Diag_CopyTxData`. -/
def supplied : List Call → Nat
  | [] => 0
  | .Diag_CopyTxData n :: t => n + supplied t
  | _ :: t => supplied t

/-- Collaborators of the good case: Diag always grants and accepts, supplies the
bytes of `M` in order, and the driver accepts every frame. -/
def envOf (M : List Nat) : Env :=
  { Diag_StartOfReception := fun _ _ => ERR_OK
    Diag_CopyRxData := fun _ _ _ => ERR_OK
    Diag_CopyTxData := fun h n => (M.drop (supplied h)).take n
    FblCanSendData := fun _ _ _ _ => ERR_OK }

/-- Collaborators for which `Diag_StartOfReception` always answers busy. -/
def envBusy : Env :=
  { Diag_StartOfReception := fun _ _ => ERR_BUSY
    Diag_CopyRxData := fun _ _ _ => ERR_OK
    Diag_CopyTxData := fun _ _ => []
    FblCanSendData := fun _ _ _ _ => ERR_OK }

/-- Collaborators whose driver refuses every frame. -/
def envRefuse : Env :=
  { Diag_StartOfReception := fun _ _ => ERR_OK
    Diag_CopyRxData := fun _ _ _ => ERR_OK
    Diag_CopyTxData := fun _ _ => []
    FblCanSendData := fun _ _ _ _ => ERR_ERROR }

/-- The classical build after a First Frame announcing 10 bytes and two ticks:
the physical Rx channel is in RecvCF and expects one Consecutive Frame. -/
def classicRecvCF : World :=
  run classicBuild (envOf []) classicInit
    [.rxInd 0x7E0 8 [0x10, 0x0A, 1, 2, 3, 4, 5, 6], .tick, .tick]

/-! ## Observations on a trace -/

/-- The frames handed to `FblCanSendData`, oldest first. -/
def sentFrames : List Call → List (List Nat)
  | [] => []
  | .FblCanSendData frame _ _ :: t => frame :: sentFrames t
  | _ :: t => sentFrames t

/-- The bytes handed to `Diag_CopyRxData`, in order. -/
def delivered : List Call → List Nat
  | [] => []
  | .Diag_CopyRxData _ bytes :: t => bytes ++ delivered t
  | _ :: t => delivered t

/-- The calls made to Diag, that is the trace without the driver calls. -/
def diagCalls : List Call → List Call
  | [] => []
  | .FblCanSendData _ _ _ :: t => diagCalls t
  | c :: t => c :: diagCalls t

/-- The frames handed to the driver whose type nibble, read with the descriptor
`pci`, is that of a Consecutive Frame. -/
def sentCFs (pci : bl_CanTpPciInfo_t) (tr : List Call) : List (List Nat) :=
  (sentFrames tr).filter fun f => decide (CANTP_GET_FRAME_TYPE pci f = CANTP_FRAME_TYPE_CF)

/-! ## Two modules joined by a CAN link -/

/-- Deliver frames, in order, to `Cantp_RxIndication` with identifier `id`. -/
def deliver (K : FblConfig) (E : Env) (id : Nat) (frames : List (List Nat)) (w : World) : World :=
  frames.foldl (fun w f => Cantp_RxIndication K E id (CANTP_MAX_FRAME_SIZE K) f w) w

/-- One round of the link between a sending module `s.1` (whose Diag supplies
`M`) and a receiving module `s.2` (whose Diag always grants): the sender ticks, the
frames it handed to the driver go to the receiver, the receiver ticks, and the
frames it handed to the driver (flow control) go back to the sender. -/
def linkRound (K : FblConfig) (M : List Nat) (s : World × World) : World × World :=
  let S1 := Cantp_PeriodFunction K (envOf M) s.1
  let R1 := deliver K (envOf []) K.FBL_CAN_RX_ID_PHY
              (sentFrames (S1.trace.drop s.1.trace.length)) s.2
  let R2 := Cantp_PeriodFunction K (envOf []) R1
  let S2 := deliver K (envOf M) K.FBL_CAN_RX_ID_PHY
              (sentFrames (R2.trace.drop s.2.trace.length)) S1
  (S2, R2)

/-- The link after `n` rounds. -/
def linkRounds (K : FblConfig) (M : List Nat) : Nat → World × World → World × World
  | 0, s => s
  | n + 1, s => linkRounds K M n (linkRound K M s)

/-- A transfer of `M` between two freshly initialised modules: `Cantp_Transmit`
on the sender, then `n` rounds of the link. -/
def transfer (K : FblConfig) (M : List Nat) (n : Nat) : World × World :=
  linkRounds K M n
    ((Cantp_Transmit 0 M.length (CanTp_Init K (zeroWorld K))).2, CanTp_Init K (zeroWorld K))

/-! ## Vocabulary of the statements -/

/-- The physical Rx channel holds the record `c`, the calls made so far are `tr`,
and the other two channels are Idle. -/
def RxAt (w : World) (c : bl_CanTpChannel_t) (tr : List Call) : Prop :=
  w.rx0 = c ∧ w.trace = tr ∧ w.rx1.status = CANTP_STATUS_IDLE ∧ w.tx0.status = CANTP_STATUS_IDLE

/-- The Tx channel holds the record `c`, the calls made so far are `tr`, and the
two Rx channels are Idle. -/
def TxAt (w : World) (c : bl_CanTpChannel_t) (tr : List Call) : Prop :=
  w.tx0 = c ∧ w.trace = tr ∧ w.rx0.status = CANTP_STATUS_IDLE ∧ w.rx1.status = CANTP_STATUS_IDLE

/-- The Flow Control frame that `_Cantp_PeriodTranFC` stages on channel record
`c`: the PCI bytes followed by padding. -/
def fcFrame (K : FblConfig) (c : bl_CanTpChannel_t) : List Nat :=
  Bl_MemSet (_Cantp_MakePciOfFC c).frame c.pciInfo.maxFCDataSize (CANTP_FRAME_PADDING_VALUE K)
    (UINT16 (CANTP_MAX_FRAME_SIZE K + 65536 - c.pciInfo.maxFCDataSize))

/-- The channel record `c` waits in RecvFF for a Diag buffer of `L` bytes with
timer B just armed and `j` wait frames left in its budget; `cfg` and `pci` are its
configuration and descriptor. -/
def WaitingFF (K : FblConfig) (cfg : bl_CanTpChannelCfg_t) (pci : bl_CanTpPciInfo_t) (L : Nat)
    (c : bl_CanTpChannel_t) (j : Nat) : Prop :=
  c.status = CANTP_STATUS_RECEIVING_FF ∧ c.timer = cfg.timerB ∧ c.wft = j
    ∧ c.chnCfg = cfg ∧ c.pciInfo = pci ∧ c.totalSize = L
    ∧ c.frame.length = CANTP_MAX_FRAME_SIZE K

/-- The calls of one wait round: `timerB` refused requests for a buffer of `L`
bytes, then the Flow Control frame `f`. -/
def waitRound (K : FblConfig) (cfg : bl_CanTpChannelCfg_t) (L : Nat) (f : List Nat) : List Call :=
  List.replicate cfg.timerB (Call.Diag_StartOfReception L)
    ++ [Call.FblCanSendData f cfg.txId (CANTP_MAX_FRAME_SIZE K)]

/-- Rx configuration tables like those of the classical build, but with a wait
budget of 2, timer A of 1 tick and timer B of 2 ticks. -/
def wft2RxCfg : List bl_CanTpChannelCfg_t :=
  [ { type := CANTP_TYPE_STANDARD, taType := CANTP_TATYPE_PHYSICAL, rxId := 0x7E0, txId := 0x7E8,
      timerA := 1, timerB := 2, timerC := 75, ta := 0, st := 0, bs := 0, wft := 2 },
    { type := CANTP_TYPE_STANDARD, taType := CANTP_TATYPE_FUNCTIONAL, rxId := 0x7DF, txId := 0x7E8,
      timerA := 1, timerB := 2, timerC := 75, ta := 0, st := 0, bs := 0, wft := 2 } ]

/-- The module initialised with `wft2RxCfg`. -/
def wft2World : World :=
  initChannels classicBuild wft2RxCfg (g_CanTpTxChnsCfg classicBuild) (zeroWorld classicBuild)

/-- A First Frame announcing 100 bytes. -/
def ff100 : List Nat := [0x10, 0x64, 1, 2, 3, 4, 5, 6]

/-- The record left by `_Cantp_ReceiveFF` when it accepts a full-size First Frame
`buf` announcing `L` bytes on channel record `c`. -/
def acceptFF (K : FblConfig) (c : bl_CanTpChannel_t) (buf : List Nat) (L : Nat) :
    bl_CanTpChannel_t :=
  { _Cantp_SetMultipleFrameSize
      { c with frame := FblMemCpy c.frame (buf.drop c.pciInfo.ffDataPos)
                          (UINT16 (CANTP_MAX_FRAME_SIZE K + 65536 - c.pciInfo.pciPos)) } L with
    sn := 0
    wft := c.chnCfg.wft
    status := CANTP_STATUS_RECEIVING_FF
    timer := c.chnCfg.timerB }

/-- The `Diag_CopyRxData` calls made for the Consecutive Frames `cfs`: every frame
but the last hands over `maxDataSize` bytes from `dataPos`, the last one `last`
bytes. -/
def cfCopies (pci : bl_CanTpPciInfo_t) (last : Nat) : List (List Nat) → List Call
  | [] => []
  | [f] => [Call.Diag_CopyRxData last ((f.drop pci.dataPos).take last)]
  | f :: g :: fs =>
    Call.Diag_CopyRxData pci.maxDataSize ((f.drop pci.dataPos).take pci.maxDataSize)
      :: cfCopies pci last (g :: fs)

/-- The sum of the lengths passed to `Diag_CopyRxData`. -/
def copiedLen : List Call → Nat
  | [] => 0
  | .Diag_CopyRxData n _ :: t => n + copiedLen t
  | _ :: t => copiedLen t

/-- The channel record `c` is in RecvCF with timer C just armed, block size 0,
`k` Consecutive Frames received and `m` still expected. -/
def RecvCFState (cfg : bl_CanTpChannelCfg_t) (pci : bl_CanTpPciInfo_t) (last ta : Nat)
    (c : bl_CanTpChannel_t) (k m : Nat) : Prop :=
  c.status = CANTP_STATUS_RECEIVING_CF ∧ c.bs = 0 ∧ c.cfCnt = m ∧ c.sn = k % 16
    ∧ c.lastSize = last ∧ c.pciInfo = pci ∧ c.chnCfg = cfg ∧ c.taType = ta
    ∧ c.timer = cfg.timerC

/-- The Consecutive Frame that `_Cantp_TransmitCF` stages on channel record `c`:
the PCI byte, the bytes already in the staged frame, and padding behind the
payload length. -/
def cfFrame (K : FblConfig) (c : bl_CanTpChannel_t) : List Nat :=
  Bl_MemSet (_Cantp_MakePciOfCF c).frame
    (UINT16 ((if 0 = UINT16 (c.cfCnt + 65535) then c.lastSize else c.pciInfo.maxDataSize)
      + c.pciInfo.dataPos))
    (CANTP_FRAME_PADDING_VALUE K)
    (UINT16 (CANTP_MAX_FRAME_SIZE K + 65536
      - UINT16 ((if 0 = UINT16 (c.cfCnt + 65535) then c.lastSize else c.pciInfo.maxDataSize)
          + c.pciInfo.dataPos)))

/-- The record left on the Tx channel by a tick in TranCF that hands a
Consecutive Frame to an accepting driver and is confirmed at once. -/
def afterCF (K : FblConfig) (c : bl_CanTpChannel_t) : bl_CanTpChannel_t :=
  { c with
    frame := cfFrame K c
    subStatus := CANTP_SUB_STATUS_IDLE
    sn := UINT8 (c.sn + 1)
    cfCnt := UINT16 (c.cfCnt + 65535)
    txDelay := if UINT16 (c.cfCnt + 65535) = 0 ∨ c.bs = 1 then 0 else c.st
    bs := if UINT16 (c.cfCnt + 65535) = 0 then c.bs else c.bs - 1
    status := if UINT16 (c.cfCnt + 65535) = 0 then CANTP_STATUS_IDLE
              else if c.bs = 1 then CANTP_STATUS_RECEIVING_FC else CANTP_STATUS_TRANSMITTING_CF
    timer := if UINT16 (c.cfCnt + 65535) = 0 then 0
             else if c.bs = 1 then c.chnCfg.timerB else CANTP_CHNNEL_RX_CR K }

/-- The Tx channel record `c` is in TranCF with subStatus Idle, the watchdog and
the separation delay `st` just armed, `bs` frames left in the block and `cnt`
Consecutive Frames left to send. -/
def SendingCF (K : FblConfig) (cfg : bl_CanTpChannelCfg_t) (pci : bl_CanTpPciInfo_t) (st : Nat)
    (c : bl_CanTpChannel_t) (bs cnt : Nat) : Prop :=
  c.status = CANTP_STATUS_TRANSMITTING_CF ∧ c.subStatus = CANTP_SUB_STATUS_IDLE
    ∧ c.timer = CANTP_CHNNEL_RX_CR K ∧ c.txDelay = st ∧ c.st = st ∧ c.bs = bs ∧ c.cfCnt = cnt
    ∧ c.chnCfg = cfg ∧ c.pciInfo = pci ∧ c.frame.length = CANTP_MAX_FRAME_SIZE K

/-- Collaborators whose driver accepts the first frame handed to it and refuses
every later one. -/
def envFirstOnly : Env :=
  { Diag_StartOfReception := fun _ _ => ERR_OK
    Diag_CopyRxData := fun _ _ _ => ERR_OK
    Diag_CopyTxData := fun _ _ => []
    FblCanSendData := fun h _ _ _ => if sentFrames h = [] then ERR_OK else ERR_ERROR }

/-- The classical build with `TPL_TIMER_CR` of 8 ms, that is a CR watchdog of 4
ticks. -/
def quickBuild : FblConfig := { classicBuild with TPL_TIMER_CR := 8 }

/-- The quick build after `Cantp_Transmit(0, 20)` and one tick with an accepting
driver: the First Frame is out, the Tx channel is in RecvFC, two Consecutive
Frames remain. -/
def quickRecvFC : World :=
  run quickBuild (envOf []) (CanTp_Init quickBuild (zeroWorld quickBuild)) [.transmit 0 20, .tick]

/-- The classical build after `Cantp_Transmit(0, 20)` and one tick. -/
def classicRecvFC : World :=
  run classicBuild (envOf []) classicInit [.transmit 0 20, .tick]

/-- The First Frame that `_Cantp_PeriodTranFF` stages on channel record `c` when
the calls made so far are `tr`: the PCI bytes and the bytes supplied by
`Diag_CopyTxData`. -/
def ffFrame (E : Env) (tr : List Call) (c : bl_CanTpChannel_t) : List Nat :=
  writeAt (_Cantp_MakePciOfFF c).frame c.pciInfo.ffDataPos
    (E.Diag_CopyTxData tr c.pciInfo.maxFFDataSize) c.pciInfo.maxFFDataSize

/-- The record left on the Tx channel by a tick in TranFF that hands the First
Frame to an accepting driver and is confirmed at once. -/
def afterFF (E : Env) (tr : List Call) (c : bl_CanTpChannel_t) : bl_CanTpChannel_t :=
  { c with
    frame := ffFrame E tr c
    sn := UINT8 (c.sn + 1)
    status := CANTP_STATUS_RECEIVING_FC
    subStatus := CANTP_SUB_STATUS_IDLE
    timer := c.chnCfg.timerB }

/-- The Consecutive Frames among the calls `tr` are numbered: the `k`-th of them
(counted from 1) has PCI byte `0x20 | (k mod 16)`. -/
def Numbered (pci : bl_CanTpPciInfo_t) (tr : List Call) : Prop :=
  ∀ (k : Nat) (f : List Nat), (sentCFs pci tr)[k]? = some f →
    rd f pci.pciPos = 0x20 ||| ((k + 1) % 16)

/-- The state of a transmission on the Tx channel record `c` after the calls
`tr`: the channel is Idle, or about to send the First Frame with `sn = 0` and no
Consecutive Frame sent, or between Consecutive Frames with `sn` one more than the
number of Consecutive Frames sent, modulo 16; and the Consecutive Frames sent are
numbered. -/
def TxSeq (K : FblConfig) (pci : bl_CanTpPciInfo_t) (c : bl_CanTpChannel_t)
    (tr : List Call) : Prop :=
  c.pciInfo = pci ∧ c.frame.length = CANTP_MAX_FRAME_SIZE K ∧ c.lastSize < 256
    ∧ (c.status = CANTP_STATUS_IDLE
        ∨ (c.status = CANTP_STATUS_TRANSMITTING_FF ∧ c.subStatus = CANTP_SUB_STATUS_IDLE
            ∧ c.sn = 0 ∧ sentCFs pci tr = [])
        ∨ (c.status = CANTP_STATUS_TRANSMITTING_CF ∧ c.subStatus = CANTP_SUB_STATUS_IDLE
            ∧ c.sn % 16 = ((sentCFs pci tr).length + 1) % 16)
        ∨ (c.status = CANTP_STATUS_RECEIVING_FC
            ∧ c.sn % 16 = ((sentCFs pci tr).length + 1) % 16))
    ∧ Numbered pci tr

/-- The events of a transmission seen from the Tx channel with descriptor `pci`:
a tick, or the reception of a frame that is a Flow Control frame. -/
def PeerEvent (pci : bl_CanTpPciInfo_t) : Event → Prop
  | .tick => True
  | .rxInd _ _ buffer => CANTP_GET_FRAME_TYPE pci buffer = CANTP_FRAME_TYPE_FC
  | .transmit _ _ => False
  | .txConf _ => False

/-- A transmission in progress in world `w`, the calls made before it being
`tr0`: both Rx channels are Idle and read frames with the descriptor `pci` of the
Tx channel, and the Tx channel is in a state `TxSeq` for the calls made since. -/
def TxRun (K : FblConfig) (pci : bl_CanTpPciInfo_t) (tr0 : List Call) (w : World) : Prop :=
  ∃ (c : bl_CanTpChannel_t) (new : List Call),
    TxAt w c (tr0 ++ new) ∧ w.rx0.pciInfo = pci ∧ w.rx1.pciInfo = pci ∧ TxSeq K pci c new

instance decPeerEvent (pci : bl_CanTpPciInfo_t) : (e : Event) → Decidable (PeerEvent pci e)
  | .tick => isTrue trivial
  | .rxInd _ _ buffer =>
    inferInstanceAs (Decidable (CANTP_GET_FRAME_TYPE pci buffer = CANTP_FRAME_TYPE_FC))
  | .transmit _ _ => isFalse fun h => h
  | .txConf _ => isFalse fun h => h

/-- One tick, a Flow Control frame CTS with block size 0 and STmin 0, and 17 more
ticks. -/
def peer17 : List Event :=
  [.tick, .rxInd 0x7E0 8 [0x30, 0, 0, 0xAA, 0xAA, 0xAA, 0xAA, 0xAA]] ++ List.replicate 17 .tick

/-- The classical build after `Cantp_Transmit(0, 200)` and one tick with an accepting
driver: the First Frame is out and the Tx channel is in RecvFC. -/
def classicRecvFC200 : World :=
  run classicBuild (envOf []) classicInit [.transmit 0 200, .tick]

/-- The record left on the Tx channel by a tick in TranCF in which the driver
refuses the Consecutive Frame: the frame stays staged and is offered again on the
next tick. -/
def refusedCF (K : FblConfig) (c : bl_CanTpChannel_t) : bl_CanTpChannel_t :=
  { c with frame := cfFrame K c, timer := c.timer - 1, txDelay := 0 }

/-- The Tx channel record `c` paces its Consecutive Frames with `st` ticks: it is
Idle, or waits for a Flow Control frame, or is in TranCF (subStatus Idle) with
`c.st = st`. -/
def Paced (st : Nat) (c : bl_CanTpChannel_t) : Prop :=
  c.status = CANTP_STATUS_IDLE ∨ c.status = CANTP_STATUS_RECEIVING_FC
    ∨ (c.status = CANTP_STATUS_TRANSMITTING_CF ∧ c.subStatus = CANTP_SUB_STATUS_IDLE
        ∧ c.st = st)

/-- A build with CAN FD: the classical build with `ENABLE_CANFD` on, so that frames
have 64 bytes and the standard descriptor has `maxDataSize = 63`. -/
def fdBuild : FblConfig := { classicBuild with ENABLE_CANFD := true }

/-- The module right after `CanTp_Init` on the CAN FD build. -/
def fdInit : World := CanTp_Init fdBuild (zeroWorld fdBuild)

/-- A CAN FD Single Frame of 64 bytes with PCI byte `0x00`, length byte `len` and
the payload bytes `1, 2, 3, ...`. -/
def fdLongSF (len : Nat) : List Nat :=
  [0x00, len] ++ (List.range 62).map fun i => i + 1

/-- The classical build, Diag always busy, after a First Frame announcing 100 bytes
and the 36 ticks up to the first expiry of timer B (35 ticks): the physical Rx
channel is in TranFC with flow status WAIT and has never been granted a buffer. -/
def classicWaitPending : World :=
  ticks classicBuild envBusy 36 (Cantp_RxIndication classicBuild envBusy 0x7E0 8 ff100 classicInit)

/-- The classical module with the physical Rx channel and the Tx channel
reconfigured for extended addressing with target address `0x55`, as
`_Cantp_InitChannel` sets them up. -/
def extendedInit : World :=
  (classicInit.upd .rx0 fun c =>
    _Cantp_InitChannel classicBuild c
      { c.chnCfg with type := CANTP_TYPE_EXTENDED, ta := 0x55 }).upd .tx0 fun c =>
    _Cantp_InitChannel classicBuild c
      { c.chnCfg with type := CANTP_TYPE_EXTENDED, ta := 0x55 }

/-- The Rx channel `r` of world `w` is configured functional and is Idle or in
RecvSF. -/
def FunctionalQuiet (w : World) (r : ChnRef) : Prop :=
  (w.chn r).chnCfg.taType = CANTP_TATYPE_FUNCTIONAL
    ∧ ((w.chn r).status = CANTP_STATUS_IDLE ∨ (w.chn r).status = CANTP_STATUS_RECEIVING_SF)


/-- The module after `CanTp_Init`, `Cantp_Transmit(0, 20)` and one tick. -/
def sent20 (K : FblConfig) (E : Env) : World :=
  Cantp_PeriodFunction K E (Cantp_Transmit 0 20 (CanTp_Init K (zeroWorld K))).2

/-- The Flow Control frame with flow status CTS, block size 2 and STmin 5 ms,
padded with the byte `p`. -/
def fcBs2St5 (p : Nat) : List Nat := [0x30, 0x02, 0x05, p, p, p, p, p]

/-- The module of `sent20` after the frame `fcBs2St5 p` was received on the
physical identifier. -/
def sent20Cts (K : FblConfig) (E : Env) (p : Nat) : World :=
  Cantp_RxIndication K E K.FBL_CAN_RX_ID_PHY 8 (fcBs2St5 p) (sent20 K E)

/-- All three channels are Idle and read frames with the descriptor `pci`. -/
def AllIdle (pci : bl_CanTpPciInfo_t) (w : World) : Prop :=
  w.rx0.status = CANTP_STATUS_IDLE ∧ w.rx1.status = CANTP_STATUS_IDLE
    ∧ w.tx0.status = CANTP_STATUS_IDLE
    ∧ w.rx0.pciInfo = pci ∧ w.rx1.pciInfo = pci ∧ w.tx0.pciInfo = pci


/-- The channel record `c`, if its status is Idle, has subStatus Idle and timer 0. -/
def IdleOk (c : bl_CanTpChannel_t) : Prop :=
  c.status = CANTP_STATUS_IDLE → c.subStatus = CANTP_SUB_STATUS_IDLE ∧ c.timer = 0

/-- The registry `gs_TransmittingChannel` is empty, the field `sn` of both Rx
channels is below 16 and that of the Tx channel is below 256. -/
def SnInv (w : World) : Prop :=
  w.gs_TransmittingChannel = none ∧ w.rx0.sn < 16 ∧ w.rx1.sn < 16 ∧ w.tx0.sn < 256


/-- The Single Frame that `_Cantp_PeriodTranSF` stages on channel record `c` when
the calls made so far are `tr`: the PCI byte, the bytes supplied by
`Diag_CopyTxData`, and padding behind the payload. -/
def sfFrame (K : FblConfig) (E : Env) (tr : List Call) (c : bl_CanTpChannel_t) : List Nat :=
  Bl_MemSet
    (writeAt (_Cantp_MakePciOfSF c).frame c.pciInfo.dataPos (E.Diag_CopyTxData tr c.lastSize)
      c.lastSize)
    (UINT16 (c.lastSize + c.pciInfo.dataPos)) (CANTP_FRAME_PADDING_VALUE K)
    (UINT16 (CANTP_MAX_FRAME_SIZE K + 65536 - UINT16 (c.lastSize + c.pciInfo.dataPos)))

/-- The record left on a channel in TranSF by a tick in which the driver refuses
the Single Frame staged after the calls `tr`. -/
def refusedSF (K : FblConfig) (E : Env) (tr : List Call) (c : bl_CanTpChannel_t) :
    bl_CanTpChannel_t :=
  { c with frame := sfFrame K E tr c, timer := c.timer - 1 }

/-- The record left on a channel in TranFF by a tick in which the driver refuses
the First Frame staged after the calls `tr`. -/
def refusedFF (E : Env) (tr : List Call) (c : bl_CanTpChannel_t) : bl_CanTpChannel_t :=
  { c with frame := ffFrame E tr c, timer := c.timer - 1 }

/-- The record left on a channel in TranFC by a tick in which the driver refuses
the Flow Control frame. -/
def refusedFC (K : FblConfig) (c : bl_CanTpChannel_t) : bl_CanTpChannel_t :=
  { c with frame := fcFrame K c, timer := c.timer - 1 }
/-- The classical build after `Cantp_Transmit(0, 3)`: the Tx channel is in TranSF
and no frame has been handed to the driver yet. -/
def classicTranSF : World := (Cantp_Transmit 0 3 classicInit).2

/-- The classical build after `Cantp_Transmit(0, 20)`: the Tx channel is in TranFF
and no frame has been handed to the driver yet. -/
def classicTranFF : World := (Cantp_Transmit 0 20 classicInit).2

/-- The classical build after `Cantp_Transmit(0, 20)`, the First Frame and a Flow
Control frame (CTS, block size 0, STmin 0): the Tx channel is in TranCF. -/
def classicTranCF : World :=
  Cantp_RxIndication classicBuild (envOf []) 0x7E0 8 [0x30, 0, 0, 0xAA, 0xAA, 0xAA, 0xAA, 0xAA]
    classicRecvFC

/-- The classical build after a First Frame announcing 10 bytes and one tick: the
physical Rx channel is in TranFC and its Flow Control frame has not been handed to
the driver yet. -/
def classicTranFC : World :=
  run classicBuild (envOf []) classicInit [.rxInd 0x7E0 8 [0x10, 0x0A, 1, 2, 3, 4, 5, 6], .tick]

/-- Channel record `c'` has the PCI descriptor of `c` and a staged frame of the
same length. -/
def SameShape (c c' : bl_CanTpChannel_t) : Prop :=
  c'.pciInfo = c.pciInfo ∧ c'.frame.length = c.frame.length

/-- What one loop body of `_Cantp_PeriodFunction` with a running timer does to the
timer of an Rx channel, `c` being the record before and `c'` the record after: the
timer is one lower and the status kept; or the channel has gone Idle with timer 0;
or it has gone from RecvFF to TranFC with timer A; or from TranFC to RecvCF with
timer C; or from TranFC to RecvFF with timer B. -/
def RxTimerStep (c c' : bl_CanTpChannel_t) : Prop :=
  (c'.timer = c.timer - 1 ∧ c'.status = c.status)
  ∨ (c.status ≠ CANTP_STATUS_IDLE ∧ c'.status = CANTP_STATUS_IDLE ∧ c'.timer = 0)
  ∨ (c.status = CANTP_STATUS_RECEIVING_FF ∧ c'.status = CANTP_STATUS_TRANSMITTING_FC
      ∧ c'.timer = c.chnCfg.timerA)
  ∨ (c.status = CANTP_STATUS_TRANSMITTING_FC ∧ c'.status = CANTP_STATUS_RECEIVING_CF
      ∧ c'.timer = c.chnCfg.timerC)
  ∨ (c.status = CANTP_STATUS_TRANSMITTING_FC ∧ c'.status = CANTP_STATUS_RECEIVING_FF
      ∧ c'.timer = c.chnCfg.timerB)

/-- What one loop body of `_Cantp_PeriodFunction` with a running timer does to the
timer of a Tx channel, `c` being the record before and `c'` the record after: the
timer is one lower, status and `sn` kept; or the channel has gone Idle with timer 0
from TranSF or TranCF; or to RecvFC with timer B from TranFF or TranCF; or it stays
in TranCF with `sn` advanced and the CR watchdog re-armed. -/
def TxTimerStep (K : FblConfig) (c c' : bl_CanTpChannel_t) : Prop :=
  (c'.timer = c.timer - 1 ∧ c'.status = c.status ∧ c'.sn = c.sn)
  ∨ ((c.status = CANTP_STATUS_TRANSMITTING_SF ∨ c.status = CANTP_STATUS_TRANSMITTING_CF)
      ∧ c'.status = CANTP_STATUS_IDLE ∧ c'.timer = 0)
  ∨ ((c.status = CANTP_STATUS_TRANSMITTING_FF ∨ c.status = CANTP_STATUS_TRANSMITTING_CF)
      ∧ c'.status = CANTP_STATUS_RECEIVING_FC ∧ c'.timer = c.chnCfg.timerB)
  ∨ (c.status = CANTP_STATUS_TRANSMITTING_CF ∧ c'.status = CANTP_STATUS_TRANSMITTING_CF
      ∧ c'.sn = UINT8 (c.sn + 1) ∧ c'.timer = CANTP_CHNNEL_RX_CR K)

/-- The events that are not the reception of a Flow Control frame with flow
status CTS, frames being read with the descriptor `pci`: ticks, calls of
`Cantp_Transmit` and `Cantp_TxConfirmation`, and the reception of any other frame
(FC/WAIT, FC/OVERFLOW, SF, FF, CF). -/
def NotCts (pci : bl_CanTpPciInfo_t) : Event → Prop
  | .rxInd _ _ buffer =>
    ¬ (CANTP_GET_FRAME_TYPE pci buffer = CANTP_FRAME_TYPE_FC
        ∧ CANTP_GET_FC_FS pci buffer = CANTP_FC_FRAME_CTS)
  | _ => True

instance decNotCts (pci : bl_CanTpPciInfo_t) : (e : Event) → Decidable (NotCts pci e)
  | .tick => isTrue trivial
  | .rxInd _ _ buffer =>
    inferInstanceAs (Decidable (¬ (CANTP_GET_FRAME_TYPE pci buffer = CANTP_FRAME_TYPE_FC
        ∧ CANTP_GET_FC_FS pci buffer = CANTP_FC_FRAME_CTS)))
  | .transmit _ _ => isTrue trivial
  | .txConf _ => isTrue trivial

/-- The module cannot hand a Consecutive Frame to the driver before a Flow Control
frame CTS arrives: the registry is empty, every channel reads frames with the
descriptor `pci` and stages frames of full length, the Tx channel is not in
TranCF, and in TranSF its payload length is a `UINT8`. -/
def AwaitingCts (K : FblConfig) (pci : bl_CanTpPciInfo_t) (w : World) : Prop :=
  w.gs_TransmittingChannel = none
  ∧ (∀ q, (w.chn q).pciInfo = pci ∧ (w.chn q).frame.length = CANTP_MAX_FRAME_SIZE K)
  ∧ w.tx0.status ≠ CANTP_STATUS_TRANSMITTING_CF
  ∧ (w.tx0.status = CANTP_STATUS_TRANSMITTING_SF → w.tx0.lastSize < 256)

/-- Events after a block of Consecutive Frames, none of them the reception of
FC/CTS: ticks, a Flow Control frame WAIT, a functional Single Frame, a Consecutive
Frame, a call of `Cantp_Transmit` and a call of `Cantp_TxConfirmation`. -/
def afterBlock : List Event :=
  [.tick, .rxInd 0x7E0 8 [0x31, 0, 0, 0xAA, 0xAA, 0xAA, 0xAA, 0xAA], .tick,
   .rxInd 0x7DF 8 [0x02, 0x3E, 0x80, 0, 0, 0, 0, 0], .tick,
   .rxInd 0x7E0 8 [0x21, 1, 2, 3, 4, 5, 6, 7], .transmit 0 3, .txConf 0x7E8, .tick]

/-! # Theorems -/

/-! ## Arithmetic of the codec -/

theorem GET_LOW_HALF_eq (x : Nat) : GET_LOW_HALF x = x % 16 := by
  show x &&& (2 ^ 4 - 1) = x % 2 ^ 4
  exact Nat.and_pow_two_sub_one_eq_mod x 4

/-- Every descriptor of `gs_CanTpPciInfo` is one of three records. -/
theorem pci_cases (K : FblConfig) (pci : bl_CanTpPciInfo_t) (h : pci ∈ gs_CanTpPciInfo K) :
    pci = { pciPos := 0, dataPos := 1, ffDataPos := 2, fcBsPos := 1, fcStPos := 2,
            maxDataSize := 63, maxFFDataSize := 62, maxFCDataSize := 3 }
    ∨ pci = { pciPos := 0, dataPos := 1, ffDataPos := 2, fcBsPos := 1, fcStPos := 2,
              maxDataSize := 7, maxFFDataSize := 6, maxFCDataSize := 3 }
    ∨ pci = pciExtended := by
  simp only [gs_CanTpPciInfo, pciStandard, List.mem_cons, List.mem_singleton,
    List.not_mem_nil, or_false] at h
  rcases h with h | h
  · by_cases hk : K.ENABLE_CANFD = true
    · left; simpa [hk] using h
    · right; left; simpa [hk] using h
  · right; right; exact h

/-! ## C4: segmentation identity -/

/-- C4: for every descriptor of `gs_CanTpPciInfo` and every size with
`maxDataSize < size <= 4095`, the `cfCnt` and `lastSize` set by
`_Cantp_SetMultipleFrameSize` satisfy
`maxFFDataSize + (cfCnt - 1) * maxDataSize + lastSize = size`, with `cfCnt >= 1`,
and `cfCnt` is the ceiling of `(size - maxFFDataSize) / maxDataSize`. -/
theorem C4_segmentation_identity (K : FblConfig) (channel : bl_CanTpChannel_t) (size : Nat)
    (hpci : channel.pciInfo ∈ gs_CanTpPciInfo K)
    (hlo : channel.pciInfo.maxDataSize < size) (hhi : size ≤ 4095) :
    1 ≤ (_Cantp_SetMultipleFrameSize channel size).cfCnt
    ∧ channel.pciInfo.maxFFDataSize
        + ((_Cantp_SetMultipleFrameSize channel size).cfCnt - 1) * channel.pciInfo.maxDataSize
        + (_Cantp_SetMultipleFrameSize channel size).lastSize = size
    ∧ (_Cantp_SetMultipleFrameSize channel size).cfCnt
        = (size - channel.pciInfo.maxFFDataSize + channel.pciInfo.maxDataSize - 1)
            / channel.pciInfo.maxDataSize := by
  rcases pci_cases K _ hpci with h | h | h <;>
    · rw [h] at hlo
      simp only [_Cantp_SetMultipleFrameSize, UINT8, UINT16, h, pciExtended] at hlo ⊢
      omega

theorem C4_segmentation_identity_witness :
    1 ≤ (_Cantp_SetMultipleFrameSize classicInit.tx0 10).cfCnt
    ∧ classicInit.tx0.pciInfo.maxFFDataSize
        + ((_Cantp_SetMultipleFrameSize classicInit.tx0 10).cfCnt - 1)
            * classicInit.tx0.pciInfo.maxDataSize
        + (_Cantp_SetMultipleFrameSize classicInit.tx0 10).lastSize = 10
    ∧ (_Cantp_SetMultipleFrameSize classicInit.tx0 10).cfCnt
        = (10 - classicInit.tx0.pciInfo.maxFFDataSize + classicInit.tx0.pciInfo.maxDataSize - 1)
            / classicInit.tx0.pciInfo.maxDataSize :=
  C4_segmentation_identity classicBuild classicInit.tx0 10 (by decide) (by decide) (by decide)

/-! ## Reading and writing the world -/

@[simp] theorem chn_rx0 (w : World) : w.chn .rx0 = w.rx0 := rfl
@[simp] theorem chn_rx1 (w : World) : w.chn .rx1 = w.rx1 := rfl
@[simp] theorem chn_tx0 (w : World) : w.chn .tx0 = w.tx0 := rfl

@[simp] theorem chn_setChn_same (w : World) (r : ChnRef) (c : bl_CanTpChannel_t) :
    (w.setChn r c).chn r = c := by
  cases r <;> rfl

theorem chn_setChn_ne (w : World) (r r' : ChnRef) (c : bl_CanTpChannel_t) (h : r' ≠ r) :
    (w.setChn r c).chn r' = w.chn r' := by
  cases r <;> cases r' <;> first | rfl | exact absurd rfl h

@[simp] theorem trace_setChn (w : World) (r : ChnRef) (c : bl_CanTpChannel_t) :
    (w.setChn r c).trace = w.trace := by
  cases r <;> rfl

@[simp] theorem slot_setChn (w : World) (r : ChnRef) (c : bl_CanTpChannel_t) :
    (w.setChn r c).gs_TransmittingChannel = w.gs_TransmittingChannel := by
  cases r <;> rfl

@[simp] theorem chn_upd_same (w : World) (r : ChnRef) (f : bl_CanTpChannel_t → bl_CanTpChannel_t) :
    (w.upd r f).chn r = f (w.chn r) := by
  simp [World.upd]

theorem chn_upd_ne (w : World) (r r' : ChnRef) (f : bl_CanTpChannel_t → bl_CanTpChannel_t)
    (h : r' ≠ r) : (w.upd r f).chn r' = w.chn r' := by
  simp [World.upd, chn_setChn_ne _ _ _ _ h]

@[simp] theorem trace_upd (w : World) (r : ChnRef) (f : bl_CanTpChannel_t → bl_CanTpChannel_t) :
    (w.upd r f).trace = w.trace := by
  simp [World.upd]

@[simp] theorem slot_upd (w : World) (r : ChnRef) (f : bl_CanTpChannel_t → bl_CanTpChannel_t) :
    (w.upd r f).gs_TransmittingChannel = w.gs_TransmittingChannel := by
  simp [World.upd]

@[simp] theorem chn_log (w : World) (c : Call) (r : ChnRef) : (w.log c).chn r = w.chn r := by
  cases r <;> rfl

@[simp] theorem trace_log (w : World) (c : Call) : (w.log c).trace = w.trace ++ [c] := rfl

@[simp] theorem slot_log (w : World) (c : Call) :
    (w.log c).gs_TransmittingChannel = w.gs_TransmittingChannel := rfl

@[simp] theorem chn_setSlot (w : World) (x : Option ChnRef) (r : ChnRef) :
    (w.setSlot x).chn r = w.chn r := by
  cases r <;> rfl

@[simp] theorem trace_setSlot (w : World) (x : Option ChnRef) :
    (w.setSlot x).trace = w.trace := rfl

@[simp] theorem slot_setSlot (w : World) (x : Option ChnRef) :
    (w.setSlot x).gs_TransmittingChannel = x := rfl

@[simp] theorem setSlot_rx0 (w : World) (x : Option ChnRef) : (w.setSlot x).rx0 = w.rx0 := rfl
@[simp] theorem setSlot_rx1 (w : World) (x : Option ChnRef) : (w.setSlot x).rx1 = w.rx1 := rfl
@[simp] theorem setSlot_tx0 (w : World) (x : Option ChnRef) : (w.setSlot x).tx0 = w.tx0 := rfl

@[simp] theorem upd_rx0_rx0 (w : World) (f : bl_CanTpChannel_t → bl_CanTpChannel_t) :
    (w.upd .rx0 f).rx0 = f w.rx0 := rfl
@[simp] theorem upd_rx0_rx1 (w : World) (f : bl_CanTpChannel_t → bl_CanTpChannel_t) :
    (w.upd .rx0 f).rx1 = w.rx1 := rfl
@[simp] theorem upd_rx0_tx0 (w : World) (f : bl_CanTpChannel_t → bl_CanTpChannel_t) :
    (w.upd .rx0 f).tx0 = w.tx0 := rfl
@[simp] theorem upd_rx1_rx0 (w : World) (f : bl_CanTpChannel_t → bl_CanTpChannel_t) :
    (w.upd .rx1 f).rx0 = w.rx0 := rfl
@[simp] theorem upd_rx1_rx1 (w : World) (f : bl_CanTpChannel_t → bl_CanTpChannel_t) :
    (w.upd .rx1 f).rx1 = f w.rx1 := rfl
@[simp] theorem upd_rx1_tx0 (w : World) (f : bl_CanTpChannel_t → bl_CanTpChannel_t) :
    (w.upd .rx1 f).tx0 = w.tx0 := rfl
@[simp] theorem upd_tx0_rx0 (w : World) (f : bl_CanTpChannel_t → bl_CanTpChannel_t) :
    (w.upd .tx0 f).rx0 = w.rx0 := rfl
@[simp] theorem upd_tx0_rx1 (w : World) (f : bl_CanTpChannel_t → bl_CanTpChannel_t) :
    (w.upd .tx0 f).rx1 = w.rx1 := rfl
@[simp] theorem upd_tx0_tx0 (w : World) (f : bl_CanTpChannel_t → bl_CanTpChannel_t) :
    (w.upd .tx0 f).tx0 = f w.tx0 := rfl
@[simp] theorem log_rx0 (w : World) (c : Call) : (w.log c).rx0 = w.rx0 := rfl
@[simp] theorem log_rx1 (w : World) (c : Call) : (w.log c).rx1 = w.rx1 := rfl
@[simp] theorem log_tx0 (w : World) (c : Call) : (w.log c).tx0 = w.tx0 := rfl

/-! ## C5, C6: `Cantp_Transmit` -/

/-- The body of `Cantp_Transmit` for handle 0, the only Tx channel. -/
theorem Cantp_Transmit_zero (size : Nat) (w : World) :
    Cantp_Transmit 0 size w =
      if w.tx0.status = CANTP_STATUS_IDLE then
        if size > w.tx0.pciInfo.maxDataSize then
          if w.tx0.chnCfg.taType = CANTP_TATYPE_PHYSICAL then
            (ERR_OK, w.upd .tx0 fun c => _Cantp_GotoTranFF (_Cantp_SetMultipleFrameSize c size))
          else (ERR_ERROR, w)
        else
          (ERR_OK, w.upd .tx0 fun c => _Cantp_GotoTranSF { c with lastSize := UINT8 size })
      else (ERR_ERROR, w) := rfl

/-- C5: on an Idle Tx channel, `Cantp_Transmit` with `0 < size <= maxDataSize`
returns OK and leaves status TranSF, subStatus Idle, `lastSize = size`,
`timer = cfg.timerA`; with `size > maxDataSize` on a physical channel it returns OK
and leaves status TranFF, subStatus Idle, `sn = 0`, `totalSize = size`,
`cfCnt = size / maxDataSize`, `lastSize = size % maxDataSize + 1`,
`timer = cfg.timerA`.  (`size` is a `UINT16`; the channel uses a descriptor of
`gs_CanTpPciInfo`.) -/
theorem C5_transmit_from_idle (K : FblConfig) (w : World) (size : Nat)
    (hidle : w.tx0.status = CANTP_STATUS_IDLE)
    (hpci : w.tx0.pciInfo ∈ gs_CanTpPciInfo K) (hsz : size < 65536) :
    (0 < size → size ≤ w.tx0.pciInfo.maxDataSize →
      (Cantp_Transmit 0 size w).1 = ERR_OK
      ∧ (Cantp_Transmit 0 size w).2.tx0.status = CANTP_STATUS_TRANSMITTING_SF
      ∧ (Cantp_Transmit 0 size w).2.tx0.subStatus = CANTP_SUB_STATUS_IDLE
      ∧ (Cantp_Transmit 0 size w).2.tx0.lastSize = size
      ∧ (Cantp_Transmit 0 size w).2.tx0.timer = w.tx0.chnCfg.timerA)
    ∧ (size > w.tx0.pciInfo.maxDataSize → w.tx0.chnCfg.taType = CANTP_TATYPE_PHYSICAL →
      (Cantp_Transmit 0 size w).1 = ERR_OK
      ∧ (Cantp_Transmit 0 size w).2.tx0.status = CANTP_STATUS_TRANSMITTING_FF
      ∧ (Cantp_Transmit 0 size w).2.tx0.subStatus = CANTP_SUB_STATUS_IDLE
      ∧ (Cantp_Transmit 0 size w).2.tx0.sn = 0
      ∧ (Cantp_Transmit 0 size w).2.tx0.totalSize = size
      ∧ (Cantp_Transmit 0 size w).2.tx0.cfCnt = size / w.tx0.pciInfo.maxDataSize
      ∧ (Cantp_Transmit 0 size w).2.tx0.lastSize = size % w.tx0.pciInfo.maxDataSize + 1
      ∧ (Cantp_Transmit 0 size w).2.tx0.timer = w.tx0.chnCfg.timerA) := by
  rw [Cantp_Transmit_zero]
  constructor
  · intro _ hle
    have hnot : ¬ size > w.tx0.pciInfo.maxDataSize := Nat.not_lt.mpr hle
    have h256 : size % 256 = size := by
      rcases pci_cases K _ hpci with h | h | h <;>
        · rw [h] at hle
          simp only [pciExtended] at hle
          omega
    simp [hidle, hnot, _Cantp_GotoTranSF, UINT8, h256]
  · intro hgt hphys
    have hdiv : size / w.tx0.pciInfo.maxDataSize % 65536 = size / w.tx0.pciInfo.maxDataSize := by
      rcases pci_cases K _ hpci with h | h | h <;>
        · rw [h]
          simp only [pciExtended]
          omega
    have hmod : (size % w.tx0.pciInfo.maxDataSize + 1) % 65536 % 256
        = size % w.tx0.pciInfo.maxDataSize + 1 := by
      rcases pci_cases K _ hpci with h | h | h <;>
        · rw [h]
          simp only [pciExtended]
          omega
    simp [hidle, hgt, hphys, _Cantp_GotoTranFF,
      _Cantp_SetMultipleFrameSize, UINT8, UINT16, hdiv, hmod]

theorem C5_transmit_from_idle_witness :
    (0 < 20 → 20 ≤ classicInit.tx0.pciInfo.maxDataSize →
      (Cantp_Transmit 0 20 classicInit).1 = ERR_OK
      ∧ (Cantp_Transmit 0 20 classicInit).2.tx0.status = CANTP_STATUS_TRANSMITTING_SF
      ∧ (Cantp_Transmit 0 20 classicInit).2.tx0.subStatus = CANTP_SUB_STATUS_IDLE
      ∧ (Cantp_Transmit 0 20 classicInit).2.tx0.lastSize = 20
      ∧ (Cantp_Transmit 0 20 classicInit).2.tx0.timer = classicInit.tx0.chnCfg.timerA)
    ∧ (20 > classicInit.tx0.pciInfo.maxDataSize →
      classicInit.tx0.chnCfg.taType = CANTP_TATYPE_PHYSICAL →
      (Cantp_Transmit 0 20 classicInit).1 = ERR_OK
      ∧ (Cantp_Transmit 0 20 classicInit).2.tx0.status = CANTP_STATUS_TRANSMITTING_FF
      ∧ (Cantp_Transmit 0 20 classicInit).2.tx0.subStatus = CANTP_SUB_STATUS_IDLE
      ∧ (Cantp_Transmit 0 20 classicInit).2.tx0.sn = 0
      ∧ (Cantp_Transmit 0 20 classicInit).2.tx0.totalSize = 20
      ∧ (Cantp_Transmit 0 20 classicInit).2.tx0.cfCnt = 20 / classicInit.tx0.pciInfo.maxDataSize
      ∧ (Cantp_Transmit 0 20 classicInit).2.tx0.lastSize
          = 20 % classicInit.tx0.pciInfo.maxDataSize + 1
      ∧ (Cantp_Transmit 0 20 classicInit).2.tx0.timer = classicInit.tx0.chnCfg.timerA) :=
  C5_transmit_from_idle classicBuild classicInit 20 (by decide) (by decide) (by decide)

/-- C6: when the Tx channel is not Idle, `Cantp_Transmit` returns ERROR for every
handle and every size and leaves the whole world as it was: no field of any
channel record changes and no call to Diag or to the driver is made. -/
theorem C6_transmit_busy (handle size : Nat) (w : World)
    (hbusy : w.tx0.status ≠ CANTP_STATUS_IDLE) :
    Cantp_Transmit handle size w = (ERR_ERROR, w) := by
  cases handle with
  | zero => rw [Cantp_Transmit_zero, if_neg hbusy]
  | succ n => rfl

theorem C6_transmit_busy_witness :
    Cantp_Transmit 0 5 (Cantp_Transmit 0 20 classicInit).2
      = (ERR_ERROR, (Cantp_Transmit 0 20 classicInit).2) :=
  C6_transmit_busy 0 5 (Cantp_Transmit 0 20 classicInit).2 (by decide)

/-! ## C8: sequence number check of `_Cantp_ReceiveCF` -/

/-- C8: for a channel in RecvCF with `cfCnt != 0` while the physical Tx channel is
Idle: a Consecutive Frame whose SN nibble differs from `(sn + 1) mod 16` makes
`_Cantp_ReceiveCF` add exactly the call `Diag_RxIndication(taType, ERROR)` (no
`Diag_CopyRxData`) and leaves the channel Idle with subStatus Idle and timer 0 at
once; a frame whose SN nibble equals `(sn + 1) mod 16` sets `sn` to that value and
lowers `cfCnt` by one. -/
theorem C8_sequence_check (E : Env) (r : ChnRef) (size : Nat) (buffer : List Nat) (w : World)
    (htx : w.tx0.status = CANTP_STATUS_IDLE)
    (hst : (w.chn r).status = CANTP_STATUS_RECEIVING_CF)
    (hcnt : (w.chn r).cfCnt ≠ 0) :
    (CANTP_GET_CF_SN (w.chn r).pciInfo buffer ≠ ((w.chn r).sn + 1) % 16 →
      (_Cantp_ReceiveCF E r size buffer w).2.trace
          = w.trace ++ [Call.Diag_RxIndication (w.chn r).taType ERR_ERROR]
      ∧ ((_Cantp_ReceiveCF E r size buffer w).2.chn r).status = CANTP_STATUS_IDLE
      ∧ ((_Cantp_ReceiveCF E r size buffer w).2.chn r).subStatus = CANTP_SUB_STATUS_IDLE
      ∧ ((_Cantp_ReceiveCF E r size buffer w).2.chn r).timer = 0)
    ∧ (CANTP_GET_CF_SN (w.chn r).pciInfo buffer = ((w.chn r).sn + 1) % 16 →
      ((_Cantp_ReceiveCF E r size buffer w).2.chn r).sn = ((w.chn r).sn + 1) % 16
      ∧ ((_Cantp_ReceiveCF E r size buffer w).2.chn r).cfCnt = (w.chn r).cfCnt - 1) := by
  have hcnt' : ¬ 0 = (w.chn r).cfCnt := fun h => hcnt h.symm
  constructor
  · intro hne
    simp [_Cantp_ReceiveCF, htx, hst, hcnt', GET_LOW_HALF_eq, hne, Diag_RxIndication,
      _Cantp_GotoIdle]
  · intro heq
    simp only [_Cantp_ReceiveCF, htx, hst, hcnt', GET_LOW_HALF_eq, heq, if_true, ne_eq,
      not_true_eq_false, false_or, if_false]
    split_ifs <;> simp [Diag_CopyRxData, Diag_RxIndication, _Cantp_GotoIdle, _Cantp_GotoTranFC]

theorem C8_sequence_check_witness :
    (CANTP_GET_CF_SN (classicRecvCF.chn .rx0).pciInfo [0x22, 7, 8, 9, 10, 0xAA, 0xAA, 0xAA]
        ≠ ((classicRecvCF.chn .rx0).sn + 1) % 16 →
      (_Cantp_ReceiveCF (envOf []) .rx0 8 [0x22, 7, 8, 9, 10, 0xAA, 0xAA, 0xAA]
          classicRecvCF).2.trace
          = classicRecvCF.trace ++ [Call.Diag_RxIndication (classicRecvCF.chn .rx0).taType ERR_ERROR]
      ∧ ((_Cantp_ReceiveCF (envOf []) .rx0 8 [0x22, 7, 8, 9, 10, 0xAA, 0xAA, 0xAA]
          classicRecvCF).2.chn .rx0).status = CANTP_STATUS_IDLE
      ∧ ((_Cantp_ReceiveCF (envOf []) .rx0 8 [0x22, 7, 8, 9, 10, 0xAA, 0xAA, 0xAA]
          classicRecvCF).2.chn .rx0).subStatus = CANTP_SUB_STATUS_IDLE
      ∧ ((_Cantp_ReceiveCF (envOf []) .rx0 8 [0x22, 7, 8, 9, 10, 0xAA, 0xAA, 0xAA]
          classicRecvCF).2.chn .rx0).timer = 0)
    ∧ (CANTP_GET_CF_SN (classicRecvCF.chn .rx0).pciInfo [0x22, 7, 8, 9, 10, 0xAA, 0xAA, 0xAA]
        = ((classicRecvCF.chn .rx0).sn + 1) % 16 →
      ((_Cantp_ReceiveCF (envOf []) .rx0 8 [0x22, 7, 8, 9, 10, 0xAA, 0xAA, 0xAA]
          classicRecvCF).2.chn .rx0).sn = ((classicRecvCF.chn .rx0).sn + 1) % 16
      ∧ ((_Cantp_ReceiveCF (envOf []) .rx0 8 [0x22, 7, 8, 9, 10, 0xAA, 0xAA, 0xAA]
          classicRecvCF).2.chn .rx0).cfCnt = (classicRecvCF.chn .rx0).cfCnt - 1) :=
  C8_sequence_check (envOf []) .rx0 8 [0x22, 7, 8, 9, 10, 0xAA, 0xAA, 0xAA] classicRecvCF
    (by decide) (by decide) (by decide)

/-! ## C1, C3: the payload of a Consecutive Frame -/

/-- C1 (evaluation at the failing input): on the classical build the transfer of
the 10-byte message `1, 2, ..., 10` between two freshly initialised modules ends
with the transmitter confirmed OK and the receiver Idle after exactly one
`Diag_RxIndication(OK)`, but the bytes delivered through `Diag_CopyRxData` are
`1 2 3 4 5 6 10 1 2 3`, not the message: `_Cantp_TransmitCF` never calls
`Diag_CopyTxData`, so the Consecutive Frame repeats the bytes left in the staged
frame by the First Frame. -/
theorem C1_round_trip_fails :
    delivered (transfer classicBuild [1, 2, 3, 4, 5, 6, 7, 8, 9, 10] 6).2.trace
        = [1, 2, 3, 4, 5, 6, 10, 1, 2, 3]
    ∧ delivered (transfer classicBuild [1, 2, 3, 4, 5, 6, 7, 8, 9, 10] 6).2.trace
        ≠ [1, 2, 3, 4, 5, 6, 7, 8, 9, 10]
    ∧ (transfer classicBuild [1, 2, 3, 4, 5, 6, 7, 8, 9, 10] 6).2.trace.count
        (Call.Diag_RxIndication CANTP_TATYPE_PHYSICAL ERR_OK) = 1
    ∧ (transfer classicBuild [1, 2, 3, 4, 5, 6, 7, 8, 9, 10] 6).2.rx0.status = CANTP_STATUS_IDLE
    ∧ (transfer classicBuild [1, 2, 3, 4, 5, 6, 7, 8, 9, 10] 6).1.trace
        = [Call.Diag_CopyTxData 6,
           Call.FblCanSendData [0x10, 0x0A, 1, 2, 3, 4, 5, 6] 0x7E8 8,
           Call.FblCanSendData [0x21, 0x0A, 1, 2, 3, 0xAA, 0xAA, 0xAA] 0x7E8 8,
           Call.Diag_TxConfirmation ERR_OK] := by
  decide

/-- C3 (evaluation at the failing input): `Cantp_Transmit(0, 10)` on the classical
build, a tick, FC/CTS from the peer and a tick complete the transfer (the Tx
channel is Idle after `Diag_TxConfirmation(OK)`), yet `Diag_CopyTxData` was asked
for 6 bytes in all, not 10, and the Consecutive Frame carries at `dataPos` the
stale bytes `10 1 2 3` of the staged frame instead of bytes supplied by Diag. -/
theorem C3_consecutive_frame_payload_not_pulled :
    supplied (run classicBuild (envOf [1, 2, 3, 4, 5, 6, 7, 8, 9, 10]) classicInit
        [.transmit 0 10, .tick, .rxInd 0x7E0 8 [0x30, 0, 0, 0xAA, 0xAA, 0xAA, 0xAA, 0xAA],
         .tick]).trace = 6
    ∧ (run classicBuild (envOf [1, 2, 3, 4, 5, 6, 7, 8, 9, 10]) classicInit
        [.transmit 0 10, .tick, .rxInd 0x7E0 8 [0x30, 0, 0, 0xAA, 0xAA, 0xAA, 0xAA, 0xAA],
         .tick]).trace
        = [Call.Diag_CopyTxData 6,
           Call.FblCanSendData [0x10, 0x0A, 1, 2, 3, 4, 5, 6] 0x7E8 8,
           Call.FblCanSendData [0x21, 0x0A, 1, 2, 3, 0xAA, 0xAA, 0xAA] 0x7E8 8,
           Call.Diag_TxConfirmation ERR_OK]
    ∧ (run classicBuild (envOf [1, 2, 3, 4, 5, 6, 7, 8, 9, 10]) classicInit
        [.transmit 0 10, .tick, .rxInd 0x7E0 8 [0x30, 0, 0, 0xAA, 0xAA, 0xAA, 0xAA, 0xAA],
         .tick]).tx0.status = CANTP_STATUS_IDLE := by
  decide

/-! ## Frame properties: a handler run on one channel leaves the others alone -/

theorem upd_self (w : World) (r : ChnRef) (f : bl_CanTpChannel_t → bl_CanTpChannel_t)
    (h : f (w.chn r) = w.chn r) : w.upd r f = w := by
  cases r <;> cases w <;> simp only [World.upd, World.setChn, World.chn] at * <;> rw [h]

theorem decTimer_zero (c : bl_CanTpChannel_t) (h : c.timer = 0) : decTimer c = c := by
  cases c
  simp only [decTimer] at *
  subst h
  rfl

@[simp] theorem decTimer_status (c : bl_CanTpChannel_t) : (decTimer c).status = c.status := rfl

theorem confirm_frame (K : FblConfig) (s : Nat) (w : World) (r r' : ChnRef) (h : r' ≠ r) :
    (gs_TxConfirmList K s r w).chn r' = w.chn r' := by
  rcases s with _ | _ | _ | _ | _ | s <;>
    simp only [gs_TxConfirmList, _Cantp_TxConfirmIdle, _Cantp_TxConfirmSF, _Cantp_TxConfirmFF,
      _Cantp_TxConfirmCF, _Cantp_TxConfirmFC, Diag_TxConfirmation] <;>
    (try split_ifs) <;> simp [chn_upd_ne _ _ _ _ h]

theorem afterSend_frame (K : FblConfig) (r r' : ChnRef) (id : Nat) (ret : bl_Return) (w : World)
    (h : r' ≠ r) : (afterSend K r id ret w).chn r' = w.chn r' := by
  simp only [afterSend, Cantp_TxConfirmation, slot_setSlot]
  split_ifs <;> simp [chn_upd_ne _ _ _ _ h, confirm_frame _ _ _ _ _ h]

theorem periodChannel_rx_frame (K : FblConfig) (E : Env) (w : World) (r r' : ChnRef) (h : r' ≠ r) :
    (periodChannel (gs_RxPeriodList K E) w r).chn r' = w.chn r' := by
  unfold periodChannel
  generalize hs : (w.chn r).status = s
  rcases s with _ | _ | _ | _ | _ | s <;>
    simp only [gs_RxPeriodList, chn_upd_same, hs, decTimer_status,
      _Cantp_PeriodIdle, _Cantp_TimeoutIdle, _Cantp_PeriodRecvSF, _Cantp_TimeoutRecvSF,
      _Cantp_PeriodRecvFF, _Cantp_TimeoutRecvFF, _Cantp_PeriodRecvCF, _Cantp_TimeoutRecvCF,
      _Cantp_PeriodTranFC, _Cantp_TimeoutTranFC, Diag_StartOfReception, Diag_CopyRxData,
      Diag_RxIndication, FblCanSendData] <;>
    (try split_ifs) <;> simp [chn_upd_ne _ _ _ _ h, afterSend_frame _ _ _ _ _ _ h]

theorem periodChannel_idle_rx (K : FblConfig) (E : Env) (w : World) (r : ChnRef)
    (h : (w.chn r).status = CANTP_STATUS_IDLE) :
    periodChannel (gs_RxPeriodList K E) w r = w.upd r decTimer := by
  have h0 : (w.chn r).status = 0 := h
  by_cases ht : (w.chn r).timer = 0
  · have : w.upd r decTimer = w := upd_self w r _ (decTimer_zero _ ht)
    simp [periodChannel, ht, h0, gs_RxPeriodList, _Cantp_TimeoutIdle, this]
  · simp [periodChannel, ht, h0, gs_RxPeriodList, _Cantp_PeriodIdle]

theorem periodChannel_idle_tx (K : FblConfig) (E : Env) (w : World) (r : ChnRef)
    (h : (w.chn r).status = CANTP_STATUS_IDLE) :
    periodChannel (gs_TxPeriodList K E) w r = w.upd r decTimer := by
  have h0 : (w.chn r).status = 0 := h
  by_cases ht : (w.chn r).timer = 0
  · have : w.upd r decTimer = w := upd_self w r _ (decTimer_zero _ ht)
    simp [periodChannel, ht, h0, gs_TxPeriodList, _Cantp_TimeoutIdle, this]
  · simp [periodChannel, ht, h0, gs_TxPeriodList, _Cantp_PeriodIdle]

theorem tick_eq (K : FblConfig) (E : Env) (w : World) :
    Cantp_PeriodFunction K E w
      = periodChannel (gs_TxPeriodList K E)
          (periodChannel (gs_RxPeriodList K E)
            (periodChannel (gs_RxPeriodList K E) w .rx0) .rx1) .tx0 := rfl

/-- A tick while the functional Rx channel and the Tx channel are Idle. -/
theorem tick_rx0 (K : FblConfig) (E : Env) (w : World)
    (h1 : w.rx1.status = CANTP_STATUS_IDLE) (h2 : w.tx0.status = CANTP_STATUS_IDLE) :
    Cantp_PeriodFunction K E w
      = ((periodChannel (gs_RxPeriodList K E) w .rx0).upd .rx1 decTimer).upd .tx0 decTimer := by
  have f1 := periodChannel_rx_frame K E w .rx0 .rx1 (by decide)
  have f2 := periodChannel_rx_frame K E w .rx0 .tx0 (by decide)
  simp only [chn_rx1, chn_tx0] at f1 f2
  rw [tick_eq, periodChannel_idle_rx K E _ .rx1 (by simp [f1, h1]),
    periodChannel_idle_tx K E _ .tx0 (by simp [f2, h2])]

/-- A tick while both Rx channels are Idle. -/
theorem tick_tx0 (K : FblConfig) (E : Env) (w : World)
    (h0 : w.rx0.status = CANTP_STATUS_IDLE) (h1 : w.rx1.status = CANTP_STATUS_IDLE) :
    Cantp_PeriodFunction K E w
      = periodChannel (gs_TxPeriodList K E) ((w.upd .rx0 decTimer).upd .rx1 decTimer) .tx0 := by
  rw [tick_eq, periodChannel_idle_rx K E _ .rx0 (by simp [h0]),
    periodChannel_idle_rx K E _ .rx1 (by simp [h1])]

/-! ## Single steps of the physical Rx channel -/

theorem tick_RxAt (K : FblConfig) (E : Env) (w : World) (c : bl_CanTpChannel_t) (tr : List Call)
    (h : RxAt w c tr) :
    RxAt (Cantp_PeriodFunction K E w)
      (periodChannel (gs_RxPeriodList K E) w .rx0).rx0
      (periodChannel (gs_RxPeriodList K E) w .rx0).trace := by
  obtain ⟨_, _, h1, h2⟩ := h
  have f1 := periodChannel_rx_frame K E w .rx0 .rx1 (by decide)
  have f2 := periodChannel_rx_frame K E w .rx0 .tx0 (by decide)
  simp only [chn_rx1, chn_tx0] at f1 f2
  rw [tick_rx0 K E w h1 h2]
  refine ⟨by simp, by simp, ?_, ?_⟩
  · simp [f1, h1]
  · simp [f2, h2]

/-- RecvFF, timer running, Diag busy: the request is repeated and the timer
counts down. -/
theorem rx_recvFF_busy (K : FblConfig) (E : Env) (w : World) (c : bl_CanTpChannel_t)
    (tr : List Call) (h : RxAt w c tr)
    (hbusy : ∀ t n, E.Diag_StartOfReception t n = ERR_BUSY)
    (hs : c.status = CANTP_STATUS_RECEIVING_FF) (ht : c.timer ≠ 0) :
    RxAt (Cantp_PeriodFunction K E w) (decTimer c)
      (tr ++ [Call.Diag_StartOfReception c.totalSize]) := by
  have key := tick_RxAt K E w c tr h
  obtain ⟨rfl, rfl, _, _⟩ := h
  have hs' : w.rx0.status = 2 := hs
  have e : periodChannel (gs_RxPeriodList K E) w .rx0
      = (w.upd .rx0 decTimer).log (Call.Diag_StartOfReception w.rx0.totalSize) := by
    simp [periodChannel, ht, hs', gs_RxPeriodList, _Cantp_PeriodRecvFF, Diag_StartOfReception,
      hbusy, decTimer]
  rw [e] at key
  simpa using key

/-- RecvFF, timer B expired, wait budget left: go to TranFC(WAIT). -/
theorem rx_recvFF_timeout_wait (K : FblConfig) (E : Env) (w : World) (c : bl_CanTpChannel_t)
    (tr : List Call) (h : RxAt w c tr)
    (hs : c.status = CANTP_STATUS_RECEIVING_FF) (ht : c.timer = 0) (hw : c.wft ≠ 0) :
    RxAt (Cantp_PeriodFunction K E w)
      (_Cantp_GotoTranFC { c with wft := c.wft - 1 } CANTP_FC_FRAME_WAIT) tr := by
  have key := tick_RxAt K E w c tr h
  obtain ⟨rfl, rfl, _, _⟩ := h
  have hs' : w.rx0.status = 2 := hs
  have e : periodChannel (gs_RxPeriodList K E) w .rx0
      = w.upd .rx0 fun c => _Cantp_GotoTranFC { c with wft := c.wft - 1 } CANTP_FC_FRAME_WAIT := by
    simp [periodChannel, ht, hs', gs_RxPeriodList, _Cantp_TimeoutRecvFF, hw]
  rw [e] at key
  simpa using key

/-- RecvFF, timer B expired, wait budget used up: the channel goes Idle and no
call is made. -/
theorem rx_recvFF_timeout_final (K : FblConfig) (E : Env) (w : World) (c : bl_CanTpChannel_t)
    (tr : List Call) (h : RxAt w c tr)
    (hs : c.status = CANTP_STATUS_RECEIVING_FF) (ht : c.timer = 0) (hw : c.wft = 0) :
    RxAt (Cantp_PeriodFunction K E w) (_Cantp_GotoIdle c) tr := by
  have key := tick_RxAt K E w c tr h
  obtain ⟨rfl, rfl, _, _⟩ := h
  have hs' : w.rx0.status = 2 := hs
  have e : periodChannel (gs_RxPeriodList K E) w .rx0 = w.upd .rx0 _Cantp_GotoIdle := by
    simp [periodChannel, ht, hs', gs_RxPeriodList, _Cantp_TimeoutRecvFF, hw]
  rw [e] at key
  simpa using key

/-- TranFC(WAIT), timer running, driver accepts: the Flow Control frame is handed
to the driver, confirmed at once, and the channel is back in RecvFF with timer B. -/
theorem rx_tranFC_wait (K : FblConfig) (E : Env) (w : World) (c : bl_CanTpChannel_t)
    (tr : List Call) (h : RxAt w c tr)
    (hdrv : ∀ t f id len, E.FblCanSendData t f id len = ERR_OK)
    (hs : c.status = CANTP_STATUS_TRANSMITTING_FC) (ht : c.timer ≠ 0)
    (hsub : c.subStatus = CANTP_SUB_STATUS_IDLE) (hp : c.pData = CANTP_FC_FRAME_WAIT) :
    RxAt (Cantp_PeriodFunction K E w)
      { c with
        frame := fcFrame K c
        subStatus := CANTP_SUB_STATUS_TRANSMITTING
        status := CANTP_STATUS_RECEIVING_FF
        timer := c.chnCfg.timerB }
      (tr ++ [Call.FblCanSendData ((fcFrame K c).take (CANTP_MAX_FRAME_SIZE K)) c.chnCfg.txId
                (CANTP_MAX_FRAME_SIZE K)]) := by
  have key := tick_RxAt K E w c tr h
  obtain ⟨rfl, rfl, _, _⟩ := h
  have hs' : w.rx0.status = 4 := hs
  have hsub' : w.rx0.subStatus = 0 := hsub
  have hp' : w.rx0.pData = 1 := hp
  have e1 : (periodChannel (gs_RxPeriodList K E) w .rx0).rx0
      = { w.rx0 with
          frame := fcFrame K w.rx0
          subStatus := CANTP_SUB_STATUS_TRANSMITTING
          status := CANTP_STATUS_RECEIVING_FF
          timer := w.rx0.chnCfg.timerB } := by
    simp [periodChannel, ht, hs', gs_RxPeriodList, _Cantp_PeriodTranFC, hsub', decTimer,
      FblCanSendData, hdrv, afterSend, Cantp_TxConfirmation, gs_TxConfirmList, _Cantp_TxConfirmFC,
      hp', _Cantp_MakePciOfFC, fcFrame, CANTP_FC_FRAME_CTS, CANTP_FC_FRAME_WAIT,
      CANTP_SUB_STATUS_IDLE, putTa]
  have e2 : (periodChannel (gs_RxPeriodList K E) w .rx0).trace
      = w.trace ++ [Call.FblCanSendData ((fcFrame K w.rx0).take (CANTP_MAX_FRAME_SIZE K))
          w.rx0.chnCfg.txId (CANTP_MAX_FRAME_SIZE K)] := by
    simp [periodChannel, ht, hs', gs_RxPeriodList, _Cantp_PeriodTranFC, hsub', decTimer,
      FblCanSendData, hdrv, afterSend, Cantp_TxConfirmation, gs_TxConfirmList, _Cantp_TxConfirmFC,
      hp', _Cantp_MakePciOfFC, fcFrame, CANTP_FC_FRAME_CTS, CANTP_FC_FRAME_WAIT,
      CANTP_SUB_STATUS_IDLE, putTa]
  rw [e1, e2] at key
  exact key

/-! ## Reception of a frame while the Tx channel is Idle -/

/-- An Idle Tx channel consumes no frame. -/
theorem rxIndToTx_idle (K : FblConfig) (E : Env) (w : World) (id size : Nat) (buf : List Nat)
    (h : w.tx0.status = CANTP_STATUS_IDLE) :
    _Cantp_RxIndToTxChannel K E (_Cantp_GetChannelByRxId w id gs_CanTpTxChannel) size buf w
      = (ERR_ERROR, w) := by
  have h0 : w.tx0.status = 0 := h
  simp only [_Cantp_GetChannelByRxId, gs_CanTpTxChannel, List.find?]
  split
  · simp only [_Cantp_RxIndToTxChannel]
    split_ifs with h1 h2
    · have h3 : CANTP_GET_FRAME_TYPE w.tx0.pciInfo buf = 3 := h2
      simp [h3, gs_RxProcessList, _Cantp_ReceiveFC, h0, CANTP_STATUS_RECEIVING_FC]
    · rfl
    · rfl
  · rfl

/-- With the Tx channel Idle, a frame for the identifier of the physical Rx
channel reaches that channel. -/
theorem rxInd_to_rx0 (K : FblConfig) (E : Env) (w : World) (id size : Nat) (buf : List Nat)
    (h : w.tx0.status = CANTP_STATUS_IDLE) (hid : w.rx0.chnCfg.rxId = id)
    (hsz : size ≤ CANTP_MAX_FRAME_SIZE K) :
    Cantp_RxIndication K E id size buf w
      = (_Cantp_RxIndToRxChannel K E (some .rx0) size buf w).2 := by
  have hl : _Cantp_GetChannelByRxId w id gs_CanTpRxChannel = some .rx0 := by
    simp [_Cantp_GetChannelByRxId, gs_CanTpRxChannel, List.find?, hid]
  simp [Cantp_RxIndication, hsz, rxIndToTx_idle K E w id size buf h, hl]

/-- Acceptance of a First Frame by the physical Rx channel when it holds no Diag
buffer. -/
theorem rxInd_FF (K : FblConfig) (E : Env) (w : World) (c : bl_CanTpChannel_t) (tr : List Call)
    (id L : Nat) (buf : List Nat) (h : RxAt w c tr)
    (hid : c.chnCfg.rxId = id)
    (haddr : c.chnCfg.type = CANTP_TYPE_STANDARD ∨ c.chnCfg.ta = rd buf CANTP_TA_OFFSET)
    (hphys : c.chnCfg.taType = CANTP_TATYPE_PHYSICAL)
    (hnb : c.status ≤ CANTP_STATUS_RECEIVING_FF)
    (hty : CANTP_GET_FRAME_TYPE c.pciInfo buf = CANTP_FRAME_TYPE_FF)
    (hL : CANTP_GET_FF_DATASIZE (rd buf c.pciInfo.pciPos) (rd buf (c.pciInfo.pciPos + 1)) = L)
    (hgt : L > c.pciInfo.maxFFDataSize) :
    RxAt (Cantp_RxIndication K E id (CANTP_MAX_FRAME_SIZE K) buf w) (acceptFF K c buf L) tr := by
  obtain ⟨rfl, rfl, h1, h2⟩ := h
  have hL0 : ¬ L = 0 := by omega
  have hnb' : ¬ w.rx0.status > 2 := Nat.not_lt.mpr hnb
  have hty' : CANTP_GET_FRAME_TYPE w.rx0.pciInfo buf = 1 := hty
  rw [rxInd_to_rx0 K E w id _ buf h2 hid (Nat.le_refl _)]
  refine ⟨?_, ?_, ?_, ?_⟩ <;>
    simp [_Cantp_RxIndToRxChannel, haddr, hty', CANTP_FRAME_TYPE_FC, gs_RxProcessList,
      _Cantp_ReceiveFF, hphys, h2, hL, hL0, hgt, CANTP_IS_GETTING_BUFFER, hnb',
      CANTP_STATUS_RECEIVING_FF, h1, _Cantp_SetMultipleFrameSize, acceptFF]

/-! ## Several ticks -/

theorem ticks_succ (K : FblConfig) (E : Env) (n : Nat) (w : World) :
    ticks K E (n + 1) w = ticks K E n (Cantp_PeriodFunction K E w) := rfl

theorem ticks_add (K : FblConfig) (E : Env) (a b : Nat) (w : World) :
    ticks K E (a + b) w = ticks K E b (ticks K E a w) := by
  induction a generalizing w with
  | zero => simp [ticks]
  | succ a ih => rw [Nat.succ_add, ticks_succ, ticks_succ, ih]

/-- RecvFF with Diag busy: `n` ticks, `n` not more than the timer, repeat the
request `n` times and lower the timer by `n`. -/
theorem rx_recvFF_busy_ticks (K : FblConfig) (E : Env)
    (hbusy : ∀ t n, E.Diag_StartOfReception t n = ERR_BUSY) (n : Nat) :
    ∀ (w : World) (c : bl_CanTpChannel_t) (tr : List Call), RxAt w c tr →
      c.status = CANTP_STATUS_RECEIVING_FF → n ≤ c.timer →
      RxAt (ticks K E n w) { c with timer := c.timer - n }
        (tr ++ List.replicate n (Call.Diag_StartOfReception c.totalSize)) := by
  induction n with
  | zero =>
    intro w c tr h _ _
    simpa [ticks] using h
  | succ n ih =>
    intro w c tr h hs hn
    have h1 := rx_recvFF_busy K E w c tr h hbusy hs (by omega)
    have h2 := ih _ _ _ h1 hs (by simp only [decTimer]; omega)
    rw [ticks_succ]
    have e1 : ({ decTimer c with timer := (decTimer c).timer - n } : bl_CanTpChannel_t)
        = { c with timer := c.timer - (n + 1) } := by
      simp [decTimer, Nat.sub_sub, Nat.add_comm]
    have e2 : (decTimer c).totalSize = c.totalSize := rfl
    rw [e1, e2] at h2
    simpa [List.replicate_succ] using h2

/-! ## Bytes of a staged frame -/

theorem rd_set_eq (l : List Nat) (i v : Nat) (h : i < l.length) : rd (l.set i v) i = v := by
  simp [rd, List.getD_eq_getElem?_getD, List.getElem?_set, h]

theorem rd_set_ne (l : List Nat) (i j v : Nat) (h : i ≠ j) : rd (l.set i v) j = rd l j := by
  simp [rd, List.getD_eq_getElem?_getD, List.getElem?_set, h]

theorem rd_take (l : List Nat) (k i : Nat) (h : i < k) : rd (l.take k) i = rd l i := by
  simp [rd, List.getD_eq_getElem?_getD, List.getElem?_take, h]

@[simp] theorem length_Bl_MemSet (f : List Nat) (s v n : Nat) :
    (Bl_MemSet f s v n).length = f.length := by
  simp [Bl_MemSet]

@[simp] theorem length_FblMemCpy (dst src : List Nat) (n : Nat) :
    (FblMemCpy dst src n).length = dst.length := by
  simp [FblMemCpy]

@[simp] theorem length_writeAt (f : List Nat) (pos : Nat) (src : List Nat) (n : Nat) :
    (writeAt f pos src n).length = f.length := by
  simp [writeAt]

theorem rd_Bl_MemSet_lt (f : List Nat) (s v n i : Nat) (h : i < s) :
    rd (Bl_MemSet f s v n) i = rd f i := by
  have hn : ¬ (s ≤ i ∧ i < s + n) := by omega
  by_cases hi : i < f.length
  · simp [rd, Bl_MemSet, List.getD_eq_getElem?_getD, List.getElem?_map, List.getElem?_range, hi, hn]
  · have hr : (List.range f.length)[i]? = none :=
      List.getElem?_eq_none (by simp only [List.length_range]; omega)
    simp [rd, Bl_MemSet, List.getD_eq_getElem?_getD, List.getElem?_map, hr,
      List.getElem?_eq_none (Nat.le_of_not_lt hi)]

theorem rd_writeAt_lt (f : List Nat) (pos : Nat) (src : List Nat) (n i : Nat) (h : i < pos) :
    rd (writeAt f pos src n) i = rd f i := by
  have hn : ¬ (pos ≤ i ∧ i < pos + n) := by omega
  by_cases hi : i < f.length
  · simp [rd, writeAt, List.getD_eq_getElem?_getD, List.getElem?_map, List.getElem?_range, hi, hn]
  · have hr : (List.range f.length)[i]? = none :=
      List.getElem?_eq_none (by simp only [List.length_range]; omega)
    simp [rd, writeAt, List.getD_eq_getElem?_getD, List.getElem?_map, hr,
      List.getElem?_eq_none (Nat.le_of_not_lt hi)]

@[simp] theorem length_putTa (c : bl_CanTpChannel_t) : (putTa c).length = c.frame.length := by
  unfold putTa
  split_ifs <;> simp

theorem max_frame_size_ge (K : FblConfig) : 8 ≤ CANTP_MAX_FRAME_SIZE K := by
  unfold CANTP_MAX_FRAME_SIZE
  split_ifs <;> omega

/-- The PCI byte of the Flow Control frame staged by `_Cantp_PeriodTranFC`. -/
theorem rd_fcFrame_pci (K : FblConfig) (c : bl_CanTpChannel_t)
    (hpci : c.pciInfo ∈ gs_CanTpPciInfo K) (hlen : c.frame.length = CANTP_MAX_FRAME_SIZE K) :
    rd ((fcFrame K c).take (CANTP_MAX_FRAME_SIZE K)) c.pciInfo.pciPos
      = UINT8 (CANTP_FRAME_FC_VALUE + GET_LOW_HALF c.pData) := by
  have h8 := max_frame_size_ge K
  rcases pci_cases K _ hpci with h | h | h <;>
    · rw [rd_take _ _ _ (by rw [h]; simp only [pciExtended]; omega)]
      unfold fcFrame
      rw [rd_Bl_MemSet_lt _ _ _ _ _ (by rw [h]; simp only [pciExtended]; omega)]
      simp only [_Cantp_MakePciOfFC]
      rw [rd_set_ne _ _ _ _ (by rw [h]; simp only [pciExtended]; omega),
        rd_set_ne _ _ _ _ (by rw [h]; simp only [pciExtended]; omega),
        rd_set_eq _ _ _ (by rw [length_putTa, hlen, h]; simp only [pciExtended]; omega)]

/-! ## C10: the wait-frame budget of the receive side -/

/-- One wait round: timer B runs out while Diag is busy, the channel emits
FC/WAIT and is back in RecvFF with one wait frame less in its budget. -/
theorem rx_wait_round (K : FblConfig) (E : Env)
    (hbusy : ∀ t n, E.Diag_StartOfReception t n = ERR_BUSY)
    (hdrv : ∀ t f id len, E.FblCanSendData t f id len = ERR_OK)
    (cfg : bl_CanTpChannelCfg_t) (pci : bl_CanTpPciInfo_t) (L : Nat)
    (hpci : pci ∈ gs_CanTpPciInfo K) (hA : 1 ≤ cfg.timerA)
    (w : World) (c : bl_CanTpChannel_t) (tr : List Call) (j : Nat)
    (h : RxAt w c tr) (hc : WaitingFF K cfg pci L c (j + 1)) :
    ∃ c' f, RxAt (ticks K E (cfg.timerB + 2) w) c' (tr ++ waitRound K cfg L f)
      ∧ WaitingFF K cfg pci L c' j
      ∧ CANTP_GET_FRAME_TYPE pci f = CANTP_FRAME_TYPE_FC
      ∧ CANTP_GET_FC_FS pci f = CANTP_FC_FRAME_WAIT := by
  obtain ⟨hs, ht, hw, rfl, rfl, rfl, hlen⟩ := hc
  have s1 := rx_recvFF_busy_ticks K E hbusy c.chnCfg.timerB w c tr h hs (by omega)
  have s2 := rx_recvFF_timeout_wait K E _ _ _ s1 hs (by simp [ht]) (by simp [hw])
  have s3 := rx_tranFC_wait K E _ _ _ s2 hdrv rfl
    (by simp only [_Cantp_GotoTranFC]; omega) rfl rfl
  have hpd := rd_fcFrame_pci K (_Cantp_GotoTranFC
      { c with timer := c.timer - c.chnCfg.timerB, wft := c.wft - 1 } CANTP_FC_FRAME_WAIT)
      hpci hlen
  rw [ticks_add, ticks_succ, ticks_succ]
  rw [List.append_assoc] at s3
  refine ⟨_, _, s3, ⟨rfl, rfl, ?_, rfl, rfl, rfl, ?_⟩, ?_, ?_⟩
  · simp [_Cantp_GotoTranFC, hw]
  · simp [fcFrame, _Cantp_MakePciOfFC, _Cantp_GotoTranFC, hlen]
  · exact (congrArg (fun x => GET_LOW_HALF (x >>> 4)) hpd).trans (by simp only [_Cantp_GotoTranFC]; decide)
  · exact (congrArg GET_LOW_HALF hpd).trans (by simp only [_Cantp_GotoTranFC]; decide)

/-- The last timer-B expiry, with no wait frame left: after `timerB + 1` ticks the
channel is Idle and only refused buffer requests were made. -/
theorem rx_wait_final (K : FblConfig) (E : Env)
    (hbusy : ∀ t n, E.Diag_StartOfReception t n = ERR_BUSY)
    (cfg : bl_CanTpChannelCfg_t) (pci : bl_CanTpPciInfo_t) (L : Nat)
    (w : World) (c : bl_CanTpChannel_t) (tr : List Call)
    (h : RxAt w c tr) (hc : WaitingFF K cfg pci L c 0) :
    ∃ c', RxAt (ticks K E (cfg.timerB + 1) w) c'
        (tr ++ List.replicate cfg.timerB (Call.Diag_StartOfReception L))
      ∧ c'.status = CANTP_STATUS_IDLE ∧ c'.subStatus = CANTP_SUB_STATUS_IDLE ∧ c'.timer = 0 := by
  obtain ⟨hs, ht, hw, rfl, rfl, rfl, _⟩ := hc
  have s1 := rx_recvFF_busy_ticks K E hbusy c.chnCfg.timerB w c tr h hs (by omega)
  have s2 := rx_recvFF_timeout_final K E _ _ _ s1 hs (by simp [ht]) hw
  rw [ticks_add, ticks_succ]
  exact ⟨_, s2, rfl, rfl, rfl⟩

/-- The whole wait phase: with `j` wait frames in the budget the channel emits `j`
FC/WAIT frames, one per timer-B period, and goes Idle at the next expiry. -/
theorem rx_wait_phase (K : FblConfig) (E : Env)
    (hbusy : ∀ t n, E.Diag_StartOfReception t n = ERR_BUSY)
    (hdrv : ∀ t f id len, E.FblCanSendData t f id len = ERR_OK)
    (cfg : bl_CanTpChannelCfg_t) (pci : bl_CanTpPciInfo_t) (L : Nat)
    (hpci : pci ∈ gs_CanTpPciInfo K) (hA : 1 ≤ cfg.timerA) (j : Nat) :
    ∀ (w : World) (c : bl_CanTpChannel_t) (tr : List Call),
      RxAt w c tr → WaitingFF K cfg pci L c j →
      ∃ (frames : List (List Nat)) (c' : bl_CanTpChannel_t),
        frames.length = j
        ∧ (∀ f ∈ frames, CANTP_GET_FRAME_TYPE pci f = CANTP_FRAME_TYPE_FC
            ∧ CANTP_GET_FC_FS pci f = CANTP_FC_FRAME_WAIT)
        ∧ RxAt (ticks K E (j * (cfg.timerB + 2) + (cfg.timerB + 1)) w) c'
            (tr ++ (frames.map (waitRound K cfg L)).flatten
              ++ List.replicate cfg.timerB (Call.Diag_StartOfReception L))
        ∧ c'.status = CANTP_STATUS_IDLE ∧ c'.subStatus = CANTP_SUB_STATUS_IDLE
        ∧ c'.timer = 0 := by
  induction j with
  | zero =>
    intro w c tr h hc
    obtain ⟨c', h1, h2, h3, h4⟩ := rx_wait_final K E hbusy cfg pci L w c tr h hc
    refine ⟨[], c', rfl, by simp, ?_, h2, h3, h4⟩
    simpa using h1
  | succ j ih =>
    intro w c tr h hc
    obtain ⟨c1, f, h1, hc1, hty, hfs⟩ := rx_wait_round K E hbusy hdrv cfg pci L hpci hA w c tr j h hc
    obtain ⟨frames, c', hl, hall, h2, h3, h4, h5⟩ := ih _ _ _ h1 hc1
    refine ⟨f :: frames, c', by simp [hl], ?_, ?_, h3, h4, h5⟩
    · intro g hg
      rcases List.mem_cons.mp hg with rfl | hg
      · exact ⟨hty, hfs⟩
      · exact hall g hg
    · have e : (j + 1) * (cfg.timerB + 2) + (cfg.timerB + 1)
          = (cfg.timerB + 2) + (j * (cfg.timerB + 2) + (cfg.timerB + 1)) := by ring
      rw [e, ticks_add]
      simpa [List.append_assoc] using h2

set_option maxRecDepth 100000 in
/-- C10 (counterexample): with `wft = 2`, timer A = 1 tick, timer B = 2 ticks and
Diag always busy, a First Frame announcing 100 bytes is followed by two FC/WAIT
frames; at the third timer-B expiry (tick 11) the channel is Idle, and neither then
nor during the next 20 ticks is any `Diag_RxIndication` made. -/
theorem C10_no_indication_at_budget_end :
    (ticks classicBuild envBusy 11
        (Cantp_RxIndication classicBuild envBusy 0x7E0 8 ff100 wft2World)).trace
      = [Call.Diag_StartOfReception 100, Call.Diag_StartOfReception 100,
         Call.FblCanSendData [0x31, 0, 0, 0xAA, 0xAA, 0xAA, 0xAA, 0xAA] 0x7E8 8,
         Call.Diag_StartOfReception 100, Call.Diag_StartOfReception 100,
         Call.FblCanSendData [0x31, 0, 0, 0xAA, 0xAA, 0xAA, 0xAA, 0xAA] 0x7E8 8,
         Call.Diag_StartOfReception 100, Call.Diag_StartOfReception 100]
    ∧ (ticks classicBuild envBusy 10
        (Cantp_RxIndication classicBuild envBusy 0x7E0 8 ff100 wft2World)).rx0.status
      = CANTP_STATUS_RECEIVING_FF
    ∧ (ticks classicBuild envBusy 11
        (Cantp_RxIndication classicBuild envBusy 0x7E0 8 ff100 wft2World)).rx0.status
      = CANTP_STATUS_IDLE
    ∧ (ticks classicBuild envBusy 31
        (Cantp_RxIndication classicBuild envBusy 0x7E0 8 ff100 wft2World)).trace
      = (ticks classicBuild envBusy 11
        (Cantp_RxIndication classicBuild envBusy 0x7E0 8 ff100 wft2World)).trace
    ∧ Call.Diag_RxIndication CANTP_TATYPE_PHYSICAL ERR_ERROR ∉
        (ticks classicBuild envBusy 31
          (Cantp_RxIndication classicBuild envBusy 0x7E0 8 ff100 wft2World)).trace := by
  decide

/-- C10 (amended): a physical Rx channel with configured `wft = n` and
`timerA >= 1` accepts a First Frame announcing `L` bytes; while
`Diag_StartOfReception` keeps answering busy and the driver accepts every frame,
`n * (timerB + 2) + timerB + 1` ticks make exactly these calls: `n` times `timerB`
refused buffer requests followed by one Flow Control frame with FS = WAIT, then
`timerB` more refused requests.  After the last tick, the `(n+1)`-th timer-B
expiry, the channel is Idle (subStatus Idle, timer 0), and no `Diag_RxIndication`
is among the calls. -/
theorem C10_wait_budget (K : FblConfig) (E : Env) (w : World) (c : bl_CanTpChannel_t)
    (tr : List Call) (id L n : Nat) (buf : List Nat) (h : RxAt w c tr)
    (hbusy : ∀ t m, E.Diag_StartOfReception t m = ERR_BUSY)
    (hdrv : ∀ t f i len, E.FblCanSendData t f i len = ERR_OK)
    (hidle : c.status = CANTP_STATUS_IDLE)
    (hpci : c.pciInfo ∈ gs_CanTpPciInfo K)
    (hlen : c.frame.length = CANTP_MAX_FRAME_SIZE K)
    (hid : c.chnCfg.rxId = id)
    (haddr : c.chnCfg.type = CANTP_TYPE_STANDARD ∨ c.chnCfg.ta = rd buf CANTP_TA_OFFSET)
    (hphys : c.chnCfg.taType = CANTP_TATYPE_PHYSICAL)
    (hty : CANTP_GET_FRAME_TYPE c.pciInfo buf = CANTP_FRAME_TYPE_FF)
    (hL : CANTP_GET_FF_DATASIZE (rd buf c.pciInfo.pciPos) (rd buf (c.pciInfo.pciPos + 1)) = L)
    (hgt : L > c.pciInfo.maxFFDataSize)
    (hwft : c.chnCfg.wft = n) (hA : 1 ≤ c.chnCfg.timerA) :
    ∃ frames : List (List Nat),
      frames.length = n
      ∧ (∀ f ∈ frames, CANTP_GET_FRAME_TYPE c.pciInfo f = CANTP_FRAME_TYPE_FC
          ∧ CANTP_GET_FC_FS c.pciInfo f = CANTP_FC_FRAME_WAIT)
      ∧ (ticks K E (n * (c.chnCfg.timerB + 2) + (c.chnCfg.timerB + 1))
            (Cantp_RxIndication K E id (CANTP_MAX_FRAME_SIZE K) buf w)).trace
          = tr ++ (frames.map (waitRound K c.chnCfg L)).flatten
              ++ List.replicate c.chnCfg.timerB (Call.Diag_StartOfReception L)
      ∧ (∀ ta res, Call.Diag_RxIndication ta res ∉
          (frames.map (waitRound K c.chnCfg L)).flatten
              ++ List.replicate c.chnCfg.timerB (Call.Diag_StartOfReception L))
      ∧ (ticks K E (n * (c.chnCfg.timerB + 2) + (c.chnCfg.timerB + 1))
            (Cantp_RxIndication K E id (CANTP_MAX_FRAME_SIZE K) buf w)).rx0.status
          = CANTP_STATUS_IDLE
      ∧ (ticks K E (n * (c.chnCfg.timerB + 2) + (c.chnCfg.timerB + 1))
            (Cantp_RxIndication K E id (CANTP_MAX_FRAME_SIZE K) buf w)).rx0.subStatus
          = CANTP_SUB_STATUS_IDLE
      ∧ (ticks K E (n * (c.chnCfg.timerB + 2) + (c.chnCfg.timerB + 1))
            (Cantp_RxIndication K E id (CANTP_MAX_FRAME_SIZE K) buf w)).rx0.timer = 0 := by
  have hnb : c.status ≤ CANTP_STATUS_RECEIVING_FF := by rw [hidle]; decide
  have h1 := rxInd_FF K E w c tr id L buf h hid haddr hphys hnb hty hL hgt
  have hc : WaitingFF K c.chnCfg c.pciInfo L (acceptFF K c buf L) n :=
    ⟨rfl, rfl, hwft, rfl, rfl, rfl, by simp [acceptFF, _Cantp_SetMultipleFrameSize, hlen]⟩
  obtain ⟨frames, c', hl, hall, ⟨e0, etr, _, _⟩, hs, hsub, htm⟩ :=
    rx_wait_phase K E hbusy hdrv c.chnCfg c.pciInfo L hpci hA n _ _ _ h1 hc
  refine ⟨frames, hl, hall, etr, ?_, by rw [e0]; exact hs, by rw [e0]; exact hsub,
    by rw [e0]; exact htm⟩
  intro ta res hmem
  rcases List.mem_append.mp hmem with hm | hm
  · obtain ⟨l, hl1, hl2⟩ := List.mem_flatten.mp hm
    obtain ⟨f, _, rfl⟩ := List.mem_map.mp hl1
    simp [waitRound, List.mem_replicate] at hl2
  · simp [List.mem_replicate] at hm

theorem C10_wait_budget_witness :
    ∃ frames : List (List Nat),
      frames.length = 2
      ∧ (∀ f ∈ frames, CANTP_GET_FRAME_TYPE wft2World.rx0.pciInfo f = CANTP_FRAME_TYPE_FC
          ∧ CANTP_GET_FC_FS wft2World.rx0.pciInfo f = CANTP_FC_FRAME_WAIT)
      ∧ (ticks classicBuild envBusy (2 * (wft2World.rx0.chnCfg.timerB + 2)
              + (wft2World.rx0.chnCfg.timerB + 1))
            (Cantp_RxIndication classicBuild envBusy 0x7E0 (CANTP_MAX_FRAME_SIZE classicBuild)
              ff100 wft2World)).trace
          = wft2World.trace ++ (frames.map (waitRound classicBuild wft2World.rx0.chnCfg 100)).flatten
              ++ List.replicate wft2World.rx0.chnCfg.timerB (Call.Diag_StartOfReception 100)
      ∧ (∀ ta res, Call.Diag_RxIndication ta res ∉
          (frames.map (waitRound classicBuild wft2World.rx0.chnCfg 100)).flatten
              ++ List.replicate wft2World.rx0.chnCfg.timerB (Call.Diag_StartOfReception 100))
      ∧ (ticks classicBuild envBusy (2 * (wft2World.rx0.chnCfg.timerB + 2)
              + (wft2World.rx0.chnCfg.timerB + 1))
            (Cantp_RxIndication classicBuild envBusy 0x7E0 (CANTP_MAX_FRAME_SIZE classicBuild)
              ff100 wft2World)).rx0.status = CANTP_STATUS_IDLE
      ∧ (ticks classicBuild envBusy (2 * (wft2World.rx0.chnCfg.timerB + 2)
              + (wft2World.rx0.chnCfg.timerB + 1))
            (Cantp_RxIndication classicBuild envBusy 0x7E0 (CANTP_MAX_FRAME_SIZE classicBuild)
              ff100 wft2World)).rx0.subStatus = CANTP_SUB_STATUS_IDLE
      ∧ (ticks classicBuild envBusy (2 * (wft2World.rx0.chnCfg.timerB + 2)
              + (wft2World.rx0.chnCfg.timerB + 1))
            (Cantp_RxIndication classicBuild envBusy 0x7E0 (CANTP_MAX_FRAME_SIZE classicBuild)
              ff100 wft2World)).rx0.timer = 0 :=
  C10_wait_budget classicBuild envBusy wft2World wft2World.rx0 wft2World.trace 0x7E0 100 2 ff100
    ⟨rfl, rfl, rfl, rfl⟩ (fun _ _ => rfl) (fun _ _ _ _ => rfl) (by decide) (by decide)
    (by decide) (by decide) (by decide) (by decide) (by decide) (by decide) (by decide)
    (by decide) (by decide)

/-! ## Further steps of the physical Rx channel -/

/-- RecvFF, timer running, Diag grants the buffer and takes the First Frame
bytes: the channel goes to TranFC(CTS). -/
theorem rx_recvFF_grant (K : FblConfig) (E : Env) (w : World) (c : bl_CanTpChannel_t)
    (tr : List Call) (h : RxAt w c tr)
    (hsor : ∀ t n, E.Diag_StartOfReception t n = ERR_OK)
    (hcopy : ∀ t n b, E.Diag_CopyRxData t n b = ERR_OK)
    (hs : c.status = CANTP_STATUS_RECEIVING_FF) (ht : c.timer ≠ 0) :
    RxAt (Cantp_PeriodFunction K E w) (_Cantp_GotoTranFC (decTimer c) CANTP_FC_FRAME_CTS)
      (tr ++ [Call.Diag_StartOfReception c.totalSize,
              Call.Diag_CopyRxData c.pciInfo.maxFFDataSize
                (c.frame.take c.pciInfo.maxFFDataSize)]) := by
  have key := tick_RxAt K E w c tr h
  obtain ⟨rfl, rfl, _, _⟩ := h
  have hs' : w.rx0.status = 2 := hs
  have e1 : (periodChannel (gs_RxPeriodList K E) w .rx0).rx0
      = _Cantp_GotoTranFC (decTimer w.rx0) CANTP_FC_FRAME_CTS := by
    simp [periodChannel, ht, hs', gs_RxPeriodList, _Cantp_PeriodRecvFF, Diag_StartOfReception,
      Diag_CopyRxData, hsor, hcopy, decTimer]
  have e2 : (periodChannel (gs_RxPeriodList K E) w .rx0).trace
      = w.trace ++ [Call.Diag_StartOfReception w.rx0.totalSize,
              Call.Diag_CopyRxData w.rx0.pciInfo.maxFFDataSize
                (w.rx0.frame.take w.rx0.pciInfo.maxFFDataSize)] := by
    simp [periodChannel, ht, hs', gs_RxPeriodList, _Cantp_PeriodRecvFF, Diag_StartOfReception,
      Diag_CopyRxData, hsor, hcopy, decTimer]
  rw [e1, e2] at key
  exact key

/-- TranFC(CTS), timer running, driver accepts: the Flow Control frame is handed
to the driver, confirmed at once, and the channel is in RecvCF with timer C. -/
theorem rx_tranFC_cts (K : FblConfig) (E : Env) (w : World) (c : bl_CanTpChannel_t)
    (tr : List Call) (h : RxAt w c tr)
    (hdrv : ∀ t f id len, E.FblCanSendData t f id len = ERR_OK)
    (hs : c.status = CANTP_STATUS_TRANSMITTING_FC) (ht : c.timer ≠ 0)
    (hsub : c.subStatus = CANTP_SUB_STATUS_IDLE) (hp : c.pData = CANTP_FC_FRAME_CTS) :
    RxAt (Cantp_PeriodFunction K E w)
      { c with
        frame := fcFrame K c
        subStatus := CANTP_SUB_STATUS_TRANSMITTING
        status := CANTP_STATUS_RECEIVING_CF
        timer := c.chnCfg.timerC }
      (tr ++ [Call.FblCanSendData ((fcFrame K c).take (CANTP_MAX_FRAME_SIZE K)) c.chnCfg.txId
                (CANTP_MAX_FRAME_SIZE K)]) := by
  have key := tick_RxAt K E w c tr h
  obtain ⟨rfl, rfl, _, _⟩ := h
  have hs' : w.rx0.status = 4 := hs
  have hsub' : w.rx0.subStatus = 0 := hsub
  have hp' : w.rx0.pData = 0 := hp
  have e1 : (periodChannel (gs_RxPeriodList K E) w .rx0).rx0
      = { w.rx0 with
          frame := fcFrame K w.rx0
          subStatus := CANTP_SUB_STATUS_TRANSMITTING
          status := CANTP_STATUS_RECEIVING_CF
          timer := w.rx0.chnCfg.timerC } := by
    simp [periodChannel, ht, hs', gs_RxPeriodList, _Cantp_PeriodTranFC, hsub', decTimer,
      FblCanSendData, hdrv, afterSend, Cantp_TxConfirmation, gs_TxConfirmList, _Cantp_TxConfirmFC,
      hp', _Cantp_MakePciOfFC, fcFrame, CANTP_FC_FRAME_CTS, CANTP_SUB_STATUS_IDLE, putTa]
  have e2 : (periodChannel (gs_RxPeriodList K E) w .rx0).trace
      = w.trace ++ [Call.FblCanSendData ((fcFrame K w.rx0).take (CANTP_MAX_FRAME_SIZE K))
          w.rx0.chnCfg.txId (CANTP_MAX_FRAME_SIZE K)] := by
    simp [periodChannel, ht, hs', gs_RxPeriodList, _Cantp_PeriodTranFC, hsub', decTimer,
      FblCanSendData, hdrv, afterSend, Cantp_TxConfirmation, gs_TxConfirmList, _Cantp_TxConfirmFC,
      hp', _Cantp_MakePciOfFC, fcFrame, CANTP_FC_FRAME_CTS, CANTP_SUB_STATUS_IDLE, putTa]
  rw [e1, e2] at key
  exact key

/-- RecvCF with no Consecutive Frame left, timer running: the reception is
indicated OK and the channel goes Idle. -/
theorem rx_recvCF_done (K : FblConfig) (E : Env) (w : World) (c : bl_CanTpChannel_t)
    (tr : List Call) (h : RxAt w c tr)
    (hs : c.status = CANTP_STATUS_RECEIVING_CF) (ht : c.timer ≠ 0) (hcnt : c.cfCnt = 0) :
    RxAt (Cantp_PeriodFunction K E w) (_Cantp_GotoIdle (decTimer c))
      (tr ++ [Call.Diag_RxIndication c.taType ERR_OK]) := by
  have key := tick_RxAt K E w c tr h
  obtain ⟨rfl, rfl, _, _⟩ := h
  have hs' : w.rx0.status = 3 := hs
  have e1 : (periodChannel (gs_RxPeriodList K E) w .rx0).rx0
      = _Cantp_GotoIdle (decTimer w.rx0) := by
    simp [periodChannel, ht, hs', gs_RxPeriodList, _Cantp_PeriodRecvCF, Diag_RxIndication,
      hcnt, decTimer]
  have e2 : (periodChannel (gs_RxPeriodList K E) w .rx0).trace
      = w.trace ++ [Call.Diag_RxIndication w.rx0.taType ERR_OK] := by
    simp [periodChannel, ht, hs', gs_RxPeriodList, _Cantp_PeriodRecvCF, Diag_RxIndication,
      hcnt, decTimer]
  rw [e1, e2] at key
  exact key

/-- Acceptance of a Consecutive Frame with the expected sequence number by the
physical Rx channel in RecvCF, block size 0, Diag taking the bytes. -/
theorem rxInd_CF (K : FblConfig) (E : Env) (w : World) (c : bl_CanTpChannel_t) (tr : List Call)
    (id : Nat) (buf : List Nat) (h : RxAt w c tr)
    (hcopy : ∀ t n b, E.Diag_CopyRxData t n b = ERR_OK)
    (hid : c.chnCfg.rxId = id)
    (haddr : c.chnCfg.type = CANTP_TYPE_STANDARD ∨ c.chnCfg.ta = rd buf CANTP_TA_OFFSET)
    (hs : c.status = CANTP_STATUS_RECEIVING_CF) (hcnt : c.cfCnt ≠ 0) (hbs : c.bs = 0)
    (hty : CANTP_GET_FRAME_TYPE c.pciInfo buf = CANTP_FRAME_TYPE_CF)
    (hsn : CANTP_GET_CF_SN c.pciInfo buf = (c.sn + 1) % 16) :
    RxAt (Cantp_RxIndication K E id (CANTP_MAX_FRAME_SIZE K) buf w)
      { c with sn := (c.sn + 1) % 16, cfCnt := c.cfCnt - 1, timer := c.chnCfg.timerC }
      (tr ++ [Call.Diag_CopyRxData
                (if 0 = c.cfCnt - 1 then c.lastSize else c.pciInfo.maxDataSize)
                ((buf.drop c.pciInfo.dataPos).take
                  (if 0 = c.cfCnt - 1 then c.lastSize else c.pciInfo.maxDataSize))]) := by
  obtain ⟨rfl, rfl, h1, h2⟩ := h
  have hty' : CANTP_GET_FRAME_TYPE w.rx0.pciInfo buf = 2 := hty
  have hs' : w.rx0.status = 3 := hs
  have hcnt' : ¬ 0 = w.rx0.cfCnt := fun e => hcnt e.symm
  rw [rxInd_to_rx0 K E w id _ buf h2 hid (Nat.le_refl _)]
  refine ⟨?_, ?_, ?_, ?_⟩ <;>
    simp [_Cantp_RxIndToRxChannel, haddr, hty', CANTP_FRAME_TYPE_FC, gs_RxProcessList,
      _Cantp_ReceiveCF, h2, hs', hcnt', CANTP_STATUS_RECEIVING_CF, GET_LOW_HALF_eq, hsn,
      Diag_CopyRxData, hcopy, hbs, h1]

/-! ## C2: reassembly on the receive side -/

theorem take_FblMemCpy (dst src : List Nat) (n k : Nat) (h1 : k ≤ n) (h2 : k ≤ dst.length)
    (h3 : k ≤ src.length) : (FblMemCpy dst src n).take k = src.take k := by
  apply List.ext_getElem?
  intro i
  by_cases hi : i < k
  · have hi2 : i < dst.length := by omega
    have hi3 : i < src.length := by omega
    have hi4 : i < n := by omega
    simp [List.getElem?_take, hi, FblMemCpy, List.getElem?_map, List.getElem?_range, hi2, hi4,
      rd, List.getD_eq_getElem?_getD, List.getElem?_eq_getElem hi3]
  · simp [List.getElem?_take, hi]

theorem deliver_cons (K : FblConfig) (E : Env) (id : Nat) (f : List Nat) (fs : List (List Nat))
    (w : World) :
    deliver K E id (f :: fs) w
      = deliver K E id fs (Cantp_RxIndication K E id (CANTP_MAX_FRAME_SIZE K) f w) := rfl

/-- The Consecutive Frames of a transfer, delivered one after the other to a
channel in RecvCF, are each handed to Diag. -/
theorem rx_cf_loop (K : FblConfig) (E : Env)
    (hcopy : ∀ t n b, E.Diag_CopyRxData t n b = ERR_OK)
    (cfg : bl_CanTpChannelCfg_t) (pci : bl_CanTpPciInfo_t) (last ta : Nat) (cfs : List (List Nat)) :
    ∀ (w : World) (c : bl_CanTpChannel_t) (tr : List Call) (k : Nat),
      RxAt w c tr → RecvCFState cfg pci last ta c k cfs.length →
      (∀ i f, cfs[i]? = some f →
        (cfg.type = CANTP_TYPE_STANDARD ∨ cfg.ta = rd f CANTP_TA_OFFSET)
        ∧ CANTP_GET_FRAME_TYPE pci f = CANTP_FRAME_TYPE_CF
        ∧ CANTP_GET_CF_SN pci f = (k + i + 1) % 16) →
      ∃ c', RxAt (deliver K E cfg.rxId cfs w) c' (tr ++ cfCopies pci last cfs)
        ∧ RecvCFState cfg pci last ta c' (k + cfs.length) 0 := by
  induction cfs with
  | nil =>
    intro w c tr k h hc _
    exact ⟨c, by simpa [deliver, cfCopies] using h, by simpa using hc⟩
  | cons f fs ih =>
    intro w c tr k h hc hcf
    obtain ⟨hs, hbs, hcnt, hsn, rfl, rfl, rfl, rfl, htm⟩ := hc
    obtain ⟨ha, hty, hq⟩ := hcf 0 f (by simp)
    have hsn' : CANTP_GET_CF_SN c.pciInfo f = (c.sn + 1) % 16 := by
      rw [hq, hsn]; omega
    have hcnt' : c.cfCnt ≠ 0 := by rw [hcnt]; simp
    have s1 := rxInd_CF K E w c tr c.chnCfg.rxId f h hcopy rfl ha hs hcnt' hbs hty hsn'
    have hc1 : RecvCFState c.chnCfg c.pciInfo c.lastSize c.taType
        { c with sn := (c.sn + 1) % 16, cfCnt := c.cfCnt - 1, timer := c.chnCfg.timerC }
        (k + 1) fs.length := by
      refine ⟨hs, hbs, ?_, ?_, rfl, rfl, rfl, rfl, rfl⟩
      · simp [hcnt]
      · simp only [hsn]; omega
    have hcf1 : ∀ i g, fs[i]? = some g →
        (c.chnCfg.type = CANTP_TYPE_STANDARD ∨ c.chnCfg.ta = rd g CANTP_TA_OFFSET)
        ∧ CANTP_GET_FRAME_TYPE c.pciInfo g = CANTP_FRAME_TYPE_CF
        ∧ CANTP_GET_CF_SN c.pciInfo g = (k + 1 + i + 1) % 16 := by
      intro i g hg
      have := hcf (i + 1) g (by simpa using hg)
      refine ⟨this.1, this.2.1, ?_⟩
      rw [this.2.2]
      congr 1
      omega
    obtain ⟨c', h2, hc2⟩ := ih _ _ _ (k + 1) s1 hc1 hcf1
    refine ⟨c', ?_, ?_⟩
    · rw [deliver_cons]
      cases fs with
      | nil => simpa [cfCopies, hcnt] using h2
      | cons g gs => simpa [cfCopies, hcnt] using h2
    · have e : k + (f :: fs).length = k + 1 + fs.length := by simp; omega
      rw [e]
      exact hc2

theorem copiedLen_cfCopies (pci : bl_CanTpPciInfo_t) (last : Nat) (f : List Nat)
    (fs : List (List Nat)) :
    copiedLen (cfCopies pci last (f :: fs)) = fs.length * pci.maxDataSize + last := by
  induction fs generalizing f with
  | nil => simp [cfCopies, copiedLen]
  | cons g gs ih =>
    rw [cfCopies, copiedLen, ih g]
    simp only [List.length_cons]
    ring

theorem copiedLen_append (a b : List Call) : copiedLen (a ++ b) = copiedLen a + copiedLen b := by
  induction a with
  | nil => simp [copiedLen]
  | cons x xs ih => cases x <;> simp [copiedLen, ih, Nat.add_assoc]

/-- Bounds shared by the descriptors of `gs_CanTpPciInfo`. -/
theorem pci_bounds (K : FblConfig) (pci : bl_CanTpPciInfo_t) (h : pci ∈ gs_CanTpPciInfo K) :
    pci.ffDataPos + pci.maxFFDataSize ≤ CANTP_MAX_FRAME_SIZE K
    ∧ pci.dataPos + pci.maxDataSize ≤ CANTP_MAX_FRAME_SIZE K
    ∧ pci.maxFFDataSize + 1 = pci.maxDataSize
    ∧ pci.ffDataPos = pci.pciPos + 2 ∧ pci.dataPos = pci.pciPos + 1
    ∧ pci.pciPos ≤ 1 ∧ 6 ≤ pci.maxDataSize ∧ pci.maxDataSize ≤ 63
    ∧ CANTP_MAX_FRAME_SIZE K ≤ 64 := by
  simp only [gs_CanTpPciInfo, List.mem_cons, List.mem_singleton, List.not_mem_nil, or_false] at h
  rcases h with h | h <;> cases hk : K.ENABLE_CANFD <;>
    simp [h, pciStandard, pciExtended, CANTP_MAX_FRAME_SIZE, hk]

/-- C2: on a physical Rx channel that is Idle (Tx channel and functional Rx
channel Idle; Diag grants and takes every byte; the driver accepts every frame;
timers A, B, C at least 1; configured BS = 0), for every announced length `L` with
`maxDataSize < L <= 4095`: a full-size First Frame announcing `L`, two ticks (the
first obtains the buffer, the second emits FC/CTS), `cfCnt = L / maxDataSize`
Consecutive Frames numbered `1, 2, ...` modulo 16 and one more tick make exactly
these calls: `Diag_StartOfReception(L)`; `Diag_CopyRxData` of the `maxFFDataSize`
payload bytes of the First Frame; the FC/CTS frame to the driver; one
`Diag_CopyRxData` per Consecutive Frame with its payload bytes (`maxDataSize` bytes,
`L % maxDataSize + 1` for the last); one `Diag_RxIndication(taType, OK)`.  The
copied lengths sum to `L` and the channel ends Idle. -/
theorem C2_reassembly (K : FblConfig) (E : Env) (w : World) (c : bl_CanTpChannel_t)
    (tr : List Call) (id L : Nat) (ff : List Nat) (cfs : List (List Nat)) (h : RxAt w c tr)
    (hsor : ∀ t n, E.Diag_StartOfReception t n = ERR_OK)
    (hcopy : ∀ t n b, E.Diag_CopyRxData t n b = ERR_OK)
    (hdrv : ∀ t f i len, E.FblCanSendData t f i len = ERR_OK)
    (hidle : c.status = CANTP_STATUS_IDLE)
    (hpci : c.pciInfo ∈ gs_CanTpPciInfo K)
    (hlen : c.frame.length = CANTP_MAX_FRAME_SIZE K)
    (hid : c.chnCfg.rxId = id)
    (hphys : c.chnCfg.taType = CANTP_TATYPE_PHYSICAL)
    (hLlo : c.pciInfo.maxDataSize < L) (hLhi : L ≤ 4095)
    (hA : 1 ≤ c.chnCfg.timerA) (hB : 1 ≤ c.chnCfg.timerB) (hC : 1 ≤ c.chnCfg.timerC)
    (hbs : c.chnCfg.bs = 0)
    (hfflen : ff.length = CANTP_MAX_FRAME_SIZE K)
    (haddr : c.chnCfg.type = CANTP_TYPE_STANDARD ∨ c.chnCfg.ta = rd ff CANTP_TA_OFFSET)
    (hty : CANTP_GET_FRAME_TYPE c.pciInfo ff = CANTP_FRAME_TYPE_FF)
    (hL : CANTP_GET_FF_DATASIZE (rd ff c.pciInfo.pciPos) (rd ff (c.pciInfo.pciPos + 1)) = L)
    (hn : cfs.length = L / c.pciInfo.maxDataSize)
    (hcf : ∀ i f, cfs[i]? = some f →
      (c.chnCfg.type = CANTP_TYPE_STANDARD ∨ c.chnCfg.ta = rd f CANTP_TA_OFFSET)
      ∧ CANTP_GET_FRAME_TYPE c.pciInfo f = CANTP_FRAME_TYPE_CF
      ∧ CANTP_GET_CF_SN c.pciInfo f = (i + 1) % 16) :
    ∃ fc : List Nat,
      (Cantp_PeriodFunction K E (deliver K E id cfs (ticks K E 2
          (Cantp_RxIndication K E id (CANTP_MAX_FRAME_SIZE K) ff w)))).trace
        = tr ++ [Call.Diag_StartOfReception L,
                 Call.Diag_CopyRxData c.pciInfo.maxFFDataSize
                   ((ff.drop c.pciInfo.ffDataPos).take c.pciInfo.maxFFDataSize),
                 Call.FblCanSendData fc c.chnCfg.txId (CANTP_MAX_FRAME_SIZE K)]
              ++ cfCopies c.pciInfo (L % c.pciInfo.maxDataSize + 1) cfs
              ++ [Call.Diag_RxIndication c.taType ERR_OK]
      ∧ CANTP_GET_FRAME_TYPE c.pciInfo fc = CANTP_FRAME_TYPE_FC
      ∧ CANTP_GET_FC_FS c.pciInfo fc = CANTP_FC_FRAME_CTS
      ∧ copiedLen ([Call.Diag_StartOfReception L,
                 Call.Diag_CopyRxData c.pciInfo.maxFFDataSize
                   ((ff.drop c.pciInfo.ffDataPos).take c.pciInfo.maxFFDataSize),
                 Call.FblCanSendData fc c.chnCfg.txId (CANTP_MAX_FRAME_SIZE K)]
              ++ cfCopies c.pciInfo (L % c.pciInfo.maxDataSize + 1) cfs
              ++ [Call.Diag_RxIndication c.taType ERR_OK]) = L
      ∧ (Cantp_PeriodFunction K E (deliver K E id cfs (ticks K E 2
          (Cantp_RxIndication K E id (CANTP_MAX_FRAME_SIZE K) ff w)))).rx0.status
        = CANTP_STATUS_IDLE := by
  subst hid
  obtain ⟨b1, b2, b3, b4, b5, b6, b7, b8, b9⟩ := pci_bounds K _ hpci
  have h8 := max_frame_size_ge K
  have hnb : c.status ≤ CANTP_STATUS_RECEIVING_FF := by rw [hidle]; decide
  have hgt : L > c.pciInfo.maxFFDataSize := by omega
  have s0 := rxInd_FF K E w c tr _ L ff h rfl haddr hphys hnb hty hL hgt
  have s1 := rx_recvFF_grant K E _ _ _ s0 hsor hcopy rfl
    (by simp only [acceptFF]; omega)
  have s2 := rx_tranFC_cts K E _ _ _ s1 hdrv rfl
    (by simp only [_Cantp_GotoTranFC, decTimer, acceptFF, _Cantp_SetMultipleFrameSize]; omega)
    rfl rfl
  have hbytes : (acceptFF K c ff L).frame.take (acceptFF K c ff L).pciInfo.maxFFDataSize
      = (ff.drop c.pciInfo.ffDataPos).take c.pciInfo.maxFFDataSize := by
    simp only [acceptFF, _Cantp_SetMultipleFrameSize]
    apply take_FblMemCpy
    · simp only [UINT16]; omega
    · omega
    · simp only [List.length_drop]; omega
  have hpd := rd_fcFrame_pci K
      (_Cantp_GotoTranFC (decTimer (acceptFF K c ff L)) CANTP_FC_FRAME_CTS) hpci
      (by simp [_Cantp_GotoTranFC, decTimer, acceptFF, _Cantp_SetMultipleFrameSize, hlen])
  have hdiv : L / c.pciInfo.maxDataSize < 65536 :=
    Nat.lt_of_le_of_lt (Nat.div_le_self _ _) (by omega)
  have hmod : L % c.pciInfo.maxDataSize < c.pciInfo.maxDataSize := Nat.mod_lt _ (by omega)
  have hc3 : RecvCFState c.chnCfg c.pciInfo (L % c.pciInfo.maxDataSize + 1) c.taType
      { _Cantp_GotoTranFC (decTimer (acceptFF K c ff L)) CANTP_FC_FRAME_CTS with
        frame := fcFrame K (_Cantp_GotoTranFC (decTimer (acceptFF K c ff L)) CANTP_FC_FRAME_CTS)
        subStatus := CANTP_SUB_STATUS_TRANSMITTING
        status := CANTP_STATUS_RECEIVING_CF
        timer := (_Cantp_GotoTranFC (decTimer (acceptFF K c ff L))
                    CANTP_FC_FRAME_CTS).chnCfg.timerC } 0 cfs.length := by
    refine ⟨rfl, hbs, ?_, rfl, ?_, rfl, rfl, rfl, rfl⟩
    · simp only [_Cantp_GotoTranFC, decTimer, acceptFF, _Cantp_SetMultipleFrameSize, UINT16, hn]
      omega
    · simp only [_Cantp_GotoTranFC, decTimer, acceptFF, _Cantp_SetMultipleFrameSize, UINT16,
        UINT8]
      omega
  have hcf' : ∀ i f, cfs[i]? = some f →
      (c.chnCfg.type = CANTP_TYPE_STANDARD ∨ c.chnCfg.ta = rd f CANTP_TA_OFFSET)
      ∧ CANTP_GET_FRAME_TYPE c.pciInfo f = CANTP_FRAME_TYPE_CF
      ∧ CANTP_GET_CF_SN c.pciInfo f = (0 + i + 1) % 16 := by
    intro i f hf
    simpa using hcf i f hf
  obtain ⟨c4, s3, hc4⟩ := rx_cf_loop K E hcopy c.chnCfg c.pciInfo _ c.taType cfs _ _ _ 0 s2 hc3 hcf'
  obtain ⟨hs4, _, hcnt4, _, _, _, hcfg4, hta4, htm4⟩ := hc4
  have s4 := rx_recvCF_done K E _ _ _ s3 hs4 (by rw [htm4]; omega) hcnt4
  obtain ⟨e0, etr, _, _⟩ := s4
  refine ⟨(fcFrame K (_Cantp_GotoTranFC (decTimer (acceptFF K c ff L))
    CANTP_FC_FRAME_CTS)).take (CANTP_MAX_FRAME_SIZE K), ?_, ?_, ?_, ?_, ?_⟩
  · rw [show ticks K E 2 (Cantp_RxIndication K E c.chnCfg.rxId (CANTP_MAX_FRAME_SIZE K) ff w)
        = Cantp_PeriodFunction K E (Cantp_PeriodFunction K E
            (Cantp_RxIndication K E c.chnCfg.rxId (CANTP_MAX_FRAME_SIZE K) ff w)) from rfl]
    rw [etr, hta4, hbytes]
    simp only [List.append_assoc, List.cons_append, List.nil_append]
    rfl
  · exact (congrArg (fun x => GET_LOW_HALF (x >>> 4)) hpd).trans
      (by simp only [_Cantp_GotoTranFC]; decide)
  · exact (congrArg GET_LOW_HALF hpd).trans (by simp only [_Cantp_GotoTranFC]; decide)
  · cases cfs with
    | nil =>
      exfalso
      have : 0 < L / c.pciInfo.maxDataSize := Nat.div_pos (by omega) (by omega)
      simp at hn
      omega
    | cons g gs =>
      have e0 : copiedLen ([Call.Diag_StartOfReception L,
            Call.Diag_CopyRxData c.pciInfo.maxFFDataSize
              ((ff.drop c.pciInfo.ffDataPos).take c.pciInfo.maxFFDataSize),
            Call.FblCanSendData ((fcFrame K (_Cantp_GotoTranFC (decTimer (acceptFF K c ff L))
              CANTP_FC_FRAME_CTS)).take (CANTP_MAX_FRAME_SIZE K)) c.chnCfg.txId
              (CANTP_MAX_FRAME_SIZE K)]
            ++ cfCopies c.pciInfo (L % c.pciInfo.maxDataSize + 1) (g :: gs)
            ++ [Call.Diag_RxIndication c.taType ERR_OK])
          = c.pciInfo.maxFFDataSize
            + (gs.length * c.pciInfo.maxDataSize + (L % c.pciInfo.maxDataSize + 1)) := by
        rw [copiedLen_append, copiedLen_append, copiedLen_cfCopies]
        simp [copiedLen]
      rw [e0]
      simp only [List.length_cons] at hn
      have e1 := Nat.div_add_mod L c.pciInfo.maxDataSize
      rw [← hn] at e1
      have e2 : c.pciInfo.maxDataSize * (gs.length + 1)
          = gs.length * c.pciInfo.maxDataSize + c.pciInfo.maxDataSize := by ring
      omega
  · rw [show ticks K E 2 (Cantp_RxIndication K E c.chnCfg.rxId (CANTP_MAX_FRAME_SIZE K) ff w)
        = Cantp_PeriodFunction K E (Cantp_PeriodFunction K E
            (Cantp_RxIndication K E c.chnCfg.rxId (CANTP_MAX_FRAME_SIZE K) ff w)) from rfl]
    rw [e0]
    rfl

theorem C2_reassembly_witness :
    ∃ fc : List Nat,
      (Cantp_PeriodFunction classicBuild (envOf [])
        (deliver classicBuild (envOf []) 0x7E0 [[0x21, 7, 8, 9, 10, 0xAA, 0xAA, 0xAA]]
          (ticks classicBuild (envOf []) 2
            (Cantp_RxIndication classicBuild (envOf []) 0x7E0 8
              [0x10, 0x0A, 1, 2, 3, 4, 5, 6] classicInit)))).trace
        = [] ++ [Call.Diag_StartOfReception 10,
                 Call.Diag_CopyRxData 6 [1, 2, 3, 4, 5, 6],
                 Call.FblCanSendData fc 0x7E8 8]
              ++ [Call.Diag_CopyRxData 4 [7, 8, 9, 10]]
              ++ [Call.Diag_RxIndication CANTP_TATYPE_PHYSICAL ERR_OK]
      ∧ CANTP_GET_FRAME_TYPE (pciStandard classicBuild) fc = CANTP_FRAME_TYPE_FC
      ∧ CANTP_GET_FC_FS (pciStandard classicBuild) fc = CANTP_FC_FRAME_CTS
      ∧ copiedLen ([Call.Diag_StartOfReception 10,
                 Call.Diag_CopyRxData 6 [1, 2, 3, 4, 5, 6],
                 Call.FblCanSendData fc 0x7E8 8]
              ++ [Call.Diag_CopyRxData 4 [7, 8, 9, 10]]
              ++ [Call.Diag_RxIndication CANTP_TATYPE_PHYSICAL ERR_OK]) = 10
      ∧ (Cantp_PeriodFunction classicBuild (envOf [])
        (deliver classicBuild (envOf []) 0x7E0 [[0x21, 7, 8, 9, 10, 0xAA, 0xAA, 0xAA]]
          (ticks classicBuild (envOf []) 2
            (Cantp_RxIndication classicBuild (envOf []) 0x7E0 8
              [0x10, 0x0A, 1, 2, 3, 4, 5, 6] classicInit)))).rx0.status = CANTP_STATUS_IDLE :=
  C2_reassembly classicBuild (envOf []) classicInit classicInit.rx0 classicInit.trace 0x7E0 10
    [0x10, 0x0A, 1, 2, 3, 4, 5, 6] [[0x21, 7, 8, 9, 10, 0xAA, 0xAA, 0xAA]]
    ⟨rfl, rfl, rfl, rfl⟩ (fun _ _ => rfl) (fun _ _ _ => rfl) (fun _ _ _ _ => rfl)
    (by decide) (by decide) (by decide) (by decide) (by decide) (by decide) (by decide)
    (by decide) (by decide) (by decide) (by decide) (by decide) (by decide) (by decide)
    (by decide) (by decide)
    (by
      intro i f hf
      rcases i with _ | i
      · simp at hf
        subst hf
        decide
      · simp at hf)

/-! ## Single steps of the Tx channel -/

theorem periodChannel_tx_frame (K : FblConfig) (E : Env) (w : World) (r r' : ChnRef) (h : r' ≠ r) :
    (periodChannel (gs_TxPeriodList K E) w r).chn r' = w.chn r' := by
  unfold periodChannel
  generalize hs : (w.chn r).status = s
  rcases s with _ | _ | _ | _ | _ | s <;>
    simp only [gs_TxPeriodList, chn_upd_same, hs, decTimer_status,
      _Cantp_PeriodIdle, _Cantp_TimeoutIdle, _Cantp_PeriodTranSF, _Cantp_TimeoutTranSF,
      _Cantp_PeriodTranFF, _Cantp_TimeoutTranFF, _Cantp_PeriodTranCF, _Cantp_TimeoutTranCF,
      _Cantp_PeriodRecvFC, _Cantp_TimeoutRecvFC, _Cantp_TransmitCF, Diag_CopyTxData,
      Diag_TxConfirmation, FblCanSendData] <;>
    (try split_ifs) <;> simp [chn_upd_ne _ _ _ _ h, afterSend_frame _ _ _ _ _ _ h]

theorem tick_TxAt (K : FblConfig) (E : Env) (w : World) (c : bl_CanTpChannel_t) (tr : List Call)
    (h : TxAt w c tr) :
    TxAt (Cantp_PeriodFunction K E w)
      (periodChannel (gs_TxPeriodList K E) ((w.upd .rx0 decTimer).upd .rx1 decTimer) .tx0).tx0
      (periodChannel (gs_TxPeriodList K E) ((w.upd .rx0 decTimer).upd .rx1 decTimer) .tx0).trace := by
  obtain ⟨_, _, h0, h1⟩ := h
  have f0 := periodChannel_tx_frame K E ((w.upd .rx0 decTimer).upd .rx1 decTimer) .tx0 .rx0
    (by decide)
  have f1 := periodChannel_tx_frame K E ((w.upd .rx0 decTimer).upd .rx1 decTimer) .tx0 .rx1
    (by decide)
  simp only [chn_rx0, chn_rx1] at f0 f1
  rw [tick_tx0 K E w h0 h1]
  refine ⟨rfl, rfl, ?_, ?_⟩
  · rw [f0]; simpa using h0
  · rw [f1]; simpa using h1

/-- TranCF, watchdog running, separation delay not yet elapsed: the delay counts
down and nothing is sent. -/
theorem tx_tranCF_delay (K : FblConfig) (E : Env) (w : World) (c : bl_CanTpChannel_t)
    (tr : List Call) (h : TxAt w c tr)
    (hs : c.status = CANTP_STATUS_TRANSMITTING_CF) (ht : c.timer ≠ 0)
    (hsub : c.subStatus = CANTP_SUB_STATUS_IDLE) (hd : 2 ≤ c.txDelay) :
    TxAt (Cantp_PeriodFunction K E w)
      { c with timer := c.timer - 1, txDelay := c.txDelay - 1 } tr := by
  have key := tick_TxAt K E w c tr h
  obtain ⟨rfl, rfl, _, _⟩ := h
  have hs' : w.tx0.status = 3 := hs
  have hsub' : w.tx0.subStatus = 0 := hsub
  have hd1 : w.tx0.txDelay ≠ 0 := by omega
  have hd2 : w.tx0.txDelay - 1 ≠ 0 := by omega
  have e1 : (periodChannel (gs_TxPeriodList K E)
      ((w.upd .rx0 decTimer).upd .rx1 decTimer) .tx0).tx0
      = { w.tx0 with timer := w.tx0.timer - 1, txDelay := w.tx0.txDelay - 1 } := by
    simp [periodChannel, ht, hs', gs_TxPeriodList, _Cantp_PeriodTranCF, hsub', decTimer, hd1, hd2,
      CANTP_SUB_STATUS_IDLE]
  have e2 : (periodChannel (gs_TxPeriodList K E)
      ((w.upd .rx0 decTimer).upd .rx1 decTimer) .tx0).trace = w.trace := by
    simp [periodChannel, ht, hs', gs_TxPeriodList, _Cantp_PeriodTranCF, hsub', decTimer, hd1, hd2,
      CANTP_SUB_STATUS_IDLE]
  rw [e1, e2] at key
  exact key

/-- TranCF, watchdog running, separation delay elapsed with this tick, driver
accepts: one Consecutive Frame is handed to the driver and confirmed at once. -/
theorem tx_tranCF_send (K : FblConfig) (E : Env) (w : World) (c : bl_CanTpChannel_t)
    (tr : List Call) (h : TxAt w c tr)
    (hdrv : ∀ t f id len, E.FblCanSendData t f id len = ERR_OK)
    (hs : c.status = CANTP_STATUS_TRANSMITTING_CF) (ht : c.timer ≠ 0)
    (hsub : c.subStatus = CANTP_SUB_STATUS_IDLE) (hd : c.txDelay ≤ 1) :
    TxAt (Cantp_PeriodFunction K E w) (afterCF K c)
      (tr ++ Call.FblCanSendData ((cfFrame K c).take (CANTP_MAX_FRAME_SIZE K)) c.chnCfg.txId
                (CANTP_MAX_FRAME_SIZE K)
            :: (if UINT16 (c.cfCnt + 65535) = 0 then [Call.Diag_TxConfirmation ERR_OK]
                else [])) := by
  have key := tick_TxAt K E w c tr h
  obtain ⟨rfl, rfl, _, _⟩ := h
  have hs' : w.tx0.status = 3 := hs
  have hsub' : w.tx0.subStatus = 0 := hsub
  have hd1 : w.tx0.txDelay - 1 = 0 := by omega
  have hbs : w.tx0.bs = 0 ∨ w.tx0.bs = 1
      ∨ (w.tx0.bs ≠ 0 ∧ w.tx0.bs ≠ 1 ∧ w.tx0.bs - 1 ≠ 0) := by omega
  have e1 : (periodChannel (gs_TxPeriodList K E)
      ((w.upd .rx0 decTimer).upd .rx1 decTimer) .tx0).tx0 = afterCF K w.tx0 := by
    by_cases hz : w.tx0.txDelay = 0 <;> by_cases hc : UINT16 (w.tx0.cfCnt + 65535) = 0 <;>
      rcases hbs with hb | hb | ⟨hb, hb1, hb2⟩ <;>
      simp [periodChannel, ht, hs', gs_TxPeriodList, _Cantp_PeriodTranCF, hsub', decTimer, hd1,
        hz, hc, hb, CANTP_SUB_STATUS_IDLE, _Cantp_TransmitCF, FblCanSendData, hdrv,
        afterSend, Cantp_TxConfirmation, gs_TxConfirmList, _Cantp_TxConfirmCF, afterCF, cfFrame,
        _Cantp_MakePciOfCF, putTa, Diag_TxConfirmation, _Cantp_GotoIdle,
        CANTP_STATUS_TRANSMITTING_CF, CANTP_STATUS_RECEIVING_FC, CANTP_STATUS_IDLE, *]
  have e2 : (periodChannel (gs_TxPeriodList K E)
      ((w.upd .rx0 decTimer).upd .rx1 decTimer) .tx0).trace
      = w.trace ++ Call.FblCanSendData ((cfFrame K w.tx0).take (CANTP_MAX_FRAME_SIZE K))
            w.tx0.chnCfg.txId (CANTP_MAX_FRAME_SIZE K)
          :: (if UINT16 (w.tx0.cfCnt + 65535) = 0 then [Call.Diag_TxConfirmation ERR_OK]
              else []) := by
    by_cases hz : w.tx0.txDelay = 0 <;> by_cases hc : UINT16 (w.tx0.cfCnt + 65535) = 0 <;>
      rcases hbs with hb | hb | ⟨hb, hb1, hb2⟩ <;>
      simp [periodChannel, ht, hs', gs_TxPeriodList, _Cantp_PeriodTranCF, hsub', decTimer, hd1,
        hz, hc, hb, CANTP_SUB_STATUS_IDLE, _Cantp_TransmitCF, FblCanSendData, hdrv,
        afterSend, Cantp_TxConfirmation, gs_TxConfirmList, _Cantp_TxConfirmCF, cfFrame,
        _Cantp_MakePciOfCF, putTa, Diag_TxConfirmation, _Cantp_GotoIdle,
        CANTP_STATUS_TRANSMITTING_CF, CANTP_STATUS_RECEIVING_FC, CANTP_STATUS_IDLE, *]
  rw [e1, e2] at key
  exact key

/-- RecvFC, timer B running: nothing happens but the countdown. -/
theorem tx_recvFC_wait (K : FblConfig) (E : Env) (w : World) (c : bl_CanTpChannel_t)
    (tr : List Call) (h : TxAt w c tr)
    (hs : c.status = CANTP_STATUS_RECEIVING_FC) (ht : c.timer ≠ 0) :
    TxAt (Cantp_PeriodFunction K E w) (decTimer c) tr := by
  have key := tick_TxAt K E w c tr h
  obtain ⟨rfl, rfl, _, _⟩ := h
  have hs' : w.tx0.status = 4 := hs
  have e1 : (periodChannel (gs_TxPeriodList K E)
      ((w.upd .rx0 decTimer).upd .rx1 decTimer) .tx0).tx0 = decTimer w.tx0 := by
    simp [periodChannel, ht, hs', gs_TxPeriodList, _Cantp_PeriodRecvFC]
  have e2 : (periodChannel (gs_TxPeriodList K E)
      ((w.upd .rx0 decTimer).upd .rx1 decTimer) .tx0).trace = w.trace := by
    simp [periodChannel, ht, hs', gs_TxPeriodList, _Cantp_PeriodRecvFC]
  rw [e1, e2] at key
  exact key

/-- RecvFC, timer B expired: the transfer is confirmed with ERROR and the channel
goes Idle. -/
theorem tx_recvFC_timeout (K : FblConfig) (E : Env) (w : World) (c : bl_CanTpChannel_t)
    (tr : List Call) (h : TxAt w c tr)
    (hs : c.status = CANTP_STATUS_RECEIVING_FC) (ht : c.timer = 0) :
    TxAt (Cantp_PeriodFunction K E w) (_Cantp_GotoIdle c)
      (tr ++ [Call.Diag_TxConfirmation ERR_ERROR]) := by
  have key := tick_TxAt K E w c tr h
  obtain ⟨rfl, rfl, _, _⟩ := h
  have hs' : w.tx0.status = 4 := hs
  have e1 : (periodChannel (gs_TxPeriodList K E)
      ((w.upd .rx0 decTimer).upd .rx1 decTimer) .tx0).tx0 = _Cantp_GotoIdle w.tx0 := by
    simp [periodChannel, ht, hs', gs_TxPeriodList, _Cantp_TimeoutRecvFC, Diag_TxConfirmation]
  have e2 : (periodChannel (gs_TxPeriodList K E)
      ((w.upd .rx0 decTimer).upd .rx1 decTimer) .tx0).trace
      = w.trace ++ [Call.Diag_TxConfirmation ERR_ERROR] := by
    simp [periodChannel, ht, hs', gs_TxPeriodList, _Cantp_TimeoutRecvFC, Diag_TxConfirmation]
  rw [e1, e2] at key
  exact key

/-- An Idle Tx channel stays Idle over a tick and makes no call. -/
theorem tx_idle (K : FblConfig) (E : Env) (w : World) (c : bl_CanTpChannel_t)
    (tr : List Call) (h : TxAt w c tr) (hs : c.status = CANTP_STATUS_IDLE) :
    TxAt (Cantp_PeriodFunction K E w) (decTimer c) tr := by
  have key := tick_TxAt K E w c tr h
  obtain ⟨rfl, rfl, _, _⟩ := h
  rw [periodChannel_idle_tx K E _ .tx0 (by simpa using hs)] at key
  simpa using key

/-- FC/CTS received by the Tx channel in RecvFC while the physical Rx channel is
Idle. -/
theorem rxInd_FC_cts (K : FblConfig) (E : Env) (w : World) (c : bl_CanTpChannel_t)
    (tr : List Call) (id size : Nat) (buf : List Nat) (h : TxAt w c tr)
    (hsz : size ≤ CANTP_MAX_FRAME_SIZE K)
    (hid : c.chnCfg.rxId = id)
    (haddr : c.chnCfg.type = CANTP_TYPE_STANDARD ∨ c.chnCfg.ta = rd buf CANTP_TA_OFFSET)
    (hs : c.status = CANTP_STATUS_RECEIVING_FC)
    (hty : CANTP_GET_FRAME_TYPE c.pciInfo buf = CANTP_FRAME_TYPE_FC)
    (hfs : CANTP_GET_FC_FS c.pciInfo buf = CANTP_FC_FRAME_CTS) :
    TxAt (Cantp_RxIndication K E id size buf w)
      (_Cantp_GotoTranCF K
        { c with
          bs := CANTP_GET_FC_BS c.pciInfo buf
          st := _Cantp_GetSTMinFromFC (CANTP_GET_FC_STMIN c.pciInfo buf) }) tr := by
  obtain ⟨rfl, rfl, h0, h1⟩ := h
  have hl : _Cantp_GetChannelByRxId w id gs_CanTpTxChannel = some .tx0 := by
    simp [_Cantp_GetChannelByRxId, gs_CanTpTxChannel, List.find?, hid]
  have hty' : CANTP_GET_FRAME_TYPE w.tx0.pciInfo buf = 3 := hty
  have hs' : w.tx0.status = 4 := hs
  have hfs' : CANTP_GET_FC_FS w.tx0.pciInfo buf = 0 := hfs
  have e : Cantp_RxIndication K E id size buf w
      = w.upd .tx0 fun c => _Cantp_GotoTranCF K
        { c with
          bs := CANTP_GET_FC_BS w.tx0.pciInfo buf
          st := _Cantp_GetSTMinFromFC (CANTP_GET_FC_STMIN w.tx0.pciInfo buf) } := by
    simp [Cantp_RxIndication, hsz, hl, _Cantp_RxIndToTxChannel, haddr, hty', CANTP_FRAME_TYPE_FC,
      gs_RxProcessList, _Cantp_ReceiveFC, h0, hs', CANTP_STATUS_RECEIVING_FC, hfs',
      CANTP_FC_FRAME_CTS]
  rw [e]
  exact ⟨rfl, rfl, h0, h1⟩

/-! ## C9: the block size on the transmit side -/

theorem GetSTMin_pos (s : Nat) : 1 ≤ _Cantp_GetSTMinFromFC s := by
  simp only [_Cantp_GetSTMinFromFC, CANTP_SCHEDULE_PERIOD, CANTP_MAX_STMIN_VALUE,
    CANTP_MIN_STMIN_VALUE_US, CANTP_MAX_STMIN_VALUE_US]
  split_ifs <;> omega

/-- The type nibble of the PCI byte written by `_Cantp_MakePciOfCF`. -/
theorem cf_pci_type (x : Nat) :
    GET_LOW_HALF (UINT8 (CANTP_FRAME_CF_VALUE + GET_LOW_HALF x) >>> 4) = CANTP_FRAME_TYPE_CF := by
  simp only [GET_LOW_HALF_eq, UINT8, CANTP_FRAME_CF_VALUE, CANTP_FRAME_TYPE_CF,
    Nat.shiftRight_eq_div_pow]
  omega

/-- The PCI byte of the Consecutive Frame staged by `_Cantp_TransmitCF`. -/
theorem rd_cfFrame_pci (K : FblConfig) (c : bl_CanTpChannel_t)
    (hpci : c.pciInfo ∈ gs_CanTpPciInfo K) (hlen : c.frame.length = CANTP_MAX_FRAME_SIZE K)
    (hls : c.lastSize < 256) :
    rd ((cfFrame K c).take (CANTP_MAX_FRAME_SIZE K)) c.pciInfo.pciPos
      = UINT8 (CANTP_FRAME_CF_VALUE + GET_LOW_HALF c.sn) := by
  obtain ⟨_, b2, _, _, b5, b6, _, b8, b9⟩ := pci_bounds K _ hpci
  have h8 := max_frame_size_ge K
  rw [rd_take _ _ _ (by omega)]
  unfold cfFrame
  rw [rd_Bl_MemSet_lt _ _ _ _ _ (by simp only [UINT16]; split_ifs <;> omega)]
  simp only [_Cantp_MakePciOfCF]
  rw [rd_set_eq _ _ _ (by rw [length_putTa, hlen]; omega)]

theorem sentFrames_append (a b : List Call) :
    sentFrames (a ++ b) = sentFrames a ++ sentFrames b := by
  induction a with
  | nil => simp [sentFrames]
  | cons x xs ih => cases x <;> simp [sentFrames, ih]

/-- TranCF while the separation delay runs: `n` ticks only count down. -/
theorem tx_delay_ticks (K : FblConfig) (E : Env) (n : Nat) :
    ∀ (w : World) (c : bl_CanTpChannel_t) (tr : List Call), TxAt w c tr →
      c.status = CANTP_STATUS_TRANSMITTING_CF → c.subStatus = CANTP_SUB_STATUS_IDLE →
      n + 1 ≤ c.txDelay → n ≤ c.timer →
      TxAt (ticks K E n w) { c with timer := c.timer - n, txDelay := c.txDelay - n } tr := by
  induction n with
  | zero =>
    intro w c tr h _ _ _ _
    simpa [ticks] using h
  | succ n ih =>
    intro w c tr h hs hsub hd ht
    have h1 := tx_tranCF_delay K E w c tr h hs (by omega) hsub (by omega)
    have h2 := ih _ _ _ h1 hs hsub (by simp only; omega) (by simp only; omega)
    rw [ticks_succ]
    have e1 : ({ ({ c with timer := c.timer - 1, txDelay := c.txDelay - 1 } : bl_CanTpChannel_t) with
          timer := c.timer - 1 - n, txDelay := c.txDelay - 1 - n } : bl_CanTpChannel_t)
        = { c with timer := c.timer - (n + 1), txDelay := c.txDelay - (n + 1) } := by
      simp [Nat.sub_sub, Nat.add_comm]
    rw [← e1]
    exact h2


/-- One Consecutive Frame of a block: `st` ticks after the watchdog was armed the
frame is handed to the driver; the block goes on, or ends in RecvFC with timer B. -/
theorem tx_cf_round (K : FblConfig) (E : Env)
    (hdrv : ∀ t f id len, E.FblCanSendData t f id len = ERR_OK)
    (cfg : bl_CanTpChannelCfg_t) (pci : bl_CanTpPciInfo_t) (st : Nat)
    (hpci : pci ∈ gs_CanTpPciInfo K) (hst : 1 ≤ st) (hwd : st ≤ CANTP_CHNNEL_RX_CR K)
    (w : World) (c : bl_CanTpChannel_t) (tr : List Call) (bs cnt : Nat)
    (h : TxAt w c tr) (hc : SendingCF K cfg pci st c bs cnt)
    (hbs : 1 ≤ bs) (hcnt : 2 ≤ cnt) (hc16 : cnt < 65536) :
    ∃ c' f, TxAt (ticks K E st w) c'
        (tr ++ [Call.FblCanSendData f cfg.txId (CANTP_MAX_FRAME_SIZE K)])
      ∧ CANTP_GET_FRAME_TYPE pci f = CANTP_FRAME_TYPE_CF
      ∧ (bs = 1 → c'.status = CANTP_STATUS_RECEIVING_FC ∧ c'.timer = cfg.timerB)
      ∧ (2 ≤ bs → SendingCF K cfg pci st c' (bs - 1) (cnt - 1)) := by
  obtain ⟨hs, hsub, htm, rfl, hcst, rfl, rfl, rfl, rfl, hlen⟩ := hc
  have e : c.txDelay = (c.txDelay - 1) + 1 := by omega
  have s1 := tx_delay_ticks K E (c.txDelay - 1) w c tr h hs hsub (by omega) (by omega)
  have s2 := tx_tranCF_send K E _ _ _ s1 hdrv hs (by simp only; omega) hsub
    (by simp only; omega)
  have hcc : UINT16 (c.cfCnt + 65535) = c.cfCnt - 1 := by
    simp only [UINT16]; omega
  have hcc0 : ¬ UINT16 (c.cfCnt + 65535) = 0 := by rw [hcc]; omega
  have hcc0' : ¬ 0 = UINT16 (c.cfCnt + 65535) := fun e => hcc0 e.symm
  obtain ⟨_, b2, _, _, b5, b6, _, b8, b9⟩ := pci_bounds K _ hpci
  have h8 := max_frame_size_ge K
  have hpd : rd ((cfFrame K
        { c with timer := c.timer - (c.txDelay - 1), txDelay := c.txDelay - (c.txDelay - 1) }).take
        (CANTP_MAX_FRAME_SIZE K)) c.pciInfo.pciPos
      = UINT8 (CANTP_FRAME_CF_VALUE + GET_LOW_HALF c.sn) := by
    rw [rd_take _ _ _ (by omega)]
    unfold cfFrame
    simp only [hcc0', if_false]
    rw [rd_Bl_MemSet_lt _ _ _ _ _ (by simp only [UINT16]; omega)]
    simp only [_Cantp_MakePciOfCF]
    rw [rd_set_eq _ _ _ (by rw [length_putTa]; simp only; omega)]
  have hticks : ticks K E c.txDelay w
      = Cantp_PeriodFunction K E (ticks K E (c.txDelay - 1) w) := by
    have := ticks_add K E (c.txDelay - 1) 1 w
    rw [← e] at this
    exact this
  rw [hticks]
  simp only [hcc0, if_false] at s2
  refine ⟨_, _, s2, ?_, ?_, ?_⟩
  · exact (congrArg (fun x => GET_LOW_HALF (x >>> 4)) hpd).trans (cf_pci_type _)
  · intro hb1
    constructor <;> simp only [afterCF, hcc0, hb1, if_false, if_true]
  · intro hb2
    have hne : ¬ c.bs = 1 := by omega
    refine ⟨?_, ?_, ?_, ?_, ?_, ?_, ?_, ?_, ?_, ?_⟩
    · simp only [afterCF, hcc0, hne, if_false]
    · simp only [afterCF]
    · simp only [afterCF, hcc0, hne, if_false]
    · simp only [afterCF, hcc0, hne, if_false, or_self, hcst]
    · simp only [afterCF, hcst]
    · simp only [afterCF, hcc0, if_false]
    · simp only [afterCF, hcc]
    · simp only [afterCF]
    · simp only [afterCF]
    · simp only [afterCF, cfFrame, length_Bl_MemSet, _Cantp_MakePciOfCF, List.length_set,
        length_putTa, hlen]


/-- A whole block: with `n + 1` frames left in the block and more than that left
in the message, `(n + 1) * st` ticks hand `n + 1` Consecutive Frames to the driver
and leave the channel in RecvFC with timer B. -/
theorem tx_cf_block (K : FblConfig) (E : Env)
    (hdrv : ∀ t f id len, E.FblCanSendData t f id len = ERR_OK)
    (cfg : bl_CanTpChannelCfg_t) (pci : bl_CanTpPciInfo_t) (st : Nat)
    (hpci : pci ∈ gs_CanTpPciInfo K) (hst : 1 ≤ st) (hwd : st ≤ CANTP_CHNNEL_RX_CR K) (n : Nat) :
    ∀ (w : World) (c : bl_CanTpChannel_t) (tr : List Call) (cnt : Nat),
      TxAt w c tr → SendingCF K cfg pci st c (n + 1) cnt → n + 1 < cnt → cnt < 65536 →
      ∃ (c' : bl_CanTpChannel_t) (frames : List (List Nat)),
        frames.length = n + 1
        ∧ (∀ f ∈ frames, CANTP_GET_FRAME_TYPE pci f = CANTP_FRAME_TYPE_CF)
        ∧ TxAt (ticks K E ((n + 1) * st) w) c'
            (tr ++ frames.map fun f => Call.FblCanSendData f cfg.txId (CANTP_MAX_FRAME_SIZE K))
        ∧ c'.status = CANTP_STATUS_RECEIVING_FC ∧ c'.timer = cfg.timerB := by
  induction n with
  | zero =>
    intro w c tr cnt h hc h1 h2
    obtain ⟨c', f, s, hty, hend, _⟩ :=
      tx_cf_round K E hdrv cfg pci st hpci hst hwd w c tr 1 cnt h hc (by omega) (by omega) h2
    obtain ⟨hs', ht'⟩ := hend rfl
    refine ⟨c', [f], rfl, ?_, ?_, hs', ht'⟩
    · intro g hg
      rw [List.mem_singleton.mp hg]
      exact hty
    · simpa using s
  | succ n ih =>
    intro w c tr cnt h hc h1 h2
    obtain ⟨c1, f, s, hty, _, hgo⟩ :=
      tx_cf_round K E hdrv cfg pci st hpci hst hwd w c tr (n + 2) cnt h hc (by omega) (by omega) h2
    obtain ⟨c', frames, hl, hall, s', hs', ht'⟩ :=
      ih _ _ _ (cnt - 1) s (by simpa using hgo (by omega)) (by omega) (by omega)
    refine ⟨c', f :: frames, by simp [hl], ?_, ?_, hs', ht'⟩
    · intro g hg
      rcases List.mem_cons.mp hg with rfl | hg
      · exact hty
      · exact hall g hg
    · have e : (n + 1 + 1) * st = st + (n + 1) * st := by ring
      rw [e, ticks_add]
      simpa [List.append_assoc] using s'

/-- In RecvFC or Idle, with no frame coming in, ticks hand nothing to the driver. -/
theorem tx_quiet (K : FblConfig) (E : Env) (n : Nat) :
    ∀ (w : World) (c : bl_CanTpChannel_t) (tr : List Call), TxAt w c tr →
      (c.status = CANTP_STATUS_RECEIVING_FC ∨ c.status = CANTP_STATUS_IDLE) →
      ∃ c' tr', TxAt (ticks K E n w) c' tr'
        ∧ (c'.status = CANTP_STATUS_RECEIVING_FC ∨ c'.status = CANTP_STATUS_IDLE)
        ∧ sentFrames tr' = sentFrames tr := by
  induction n with
  | zero =>
    intro w c tr h hs
    exact ⟨c, tr, h, hs, rfl⟩
  | succ n ih =>
    intro w c tr h hs
    rw [ticks_succ]
    rcases hs with hs | hs
    · by_cases ht : c.timer = 0
      · obtain ⟨c', tr', s, hs', he⟩ :=
          ih _ _ _ (tx_recvFC_timeout K E w c tr h hs ht) (Or.inr rfl)
        exact ⟨c', tr', s, hs', by rw [he, sentFrames_append]; simp [sentFrames]⟩
      · exact ih _ _ _ (tx_recvFC_wait K E w c tr h hs ht) (Or.inl hs)
    · exact ih _ _ _ (tx_idle K E w c tr h hs) (Or.inr hs)

theorem sentFrames_map_send (frames : List (List Nat)) (id len : Nat) :
    sentFrames (frames.map fun f => Call.FblCanSendData f id len) = frames := by
  induction frames with
  | nil => rfl
  | cons f fs ih => simp [sentFrames, ih]


/-- C9 (counterexamples): a Tx channel in RecvFC with two Consecutive Frames left
receives FC/CTS with block size 1.  (a) With a driver that refuses the frame, the
same Consecutive Frame is handed to the driver on each of the 4 ticks of the CR
watchdog, then the transfer is confirmed with ERROR and the channel is Idle, not
RecvFC.  (b) With an accepting driver but STmin = 20 ms (11 ticks) against a CR
watchdog of 4 ticks, no Consecutive Frame is handed to the driver at all before the
channel goes Idle. -/
theorem C9_block_not_honoured_without_driver_or_watchdog :
    ((ticks quickBuild envFirstOnly 5
        (Cantp_RxIndication quickBuild envFirstOnly 0x7E0 8
          [0x30, 1, 0, 0xAA, 0xAA, 0xAA, 0xAA, 0xAA] quickRecvFC)).trace
      = quickRecvFC.trace
        ++ [Call.FblCanSendData [0x21, 0x14, 0, 0, 0, 0, 0, 0] 0x7E8 8,
            Call.FblCanSendData [0x21, 0x14, 0, 0, 0, 0, 0, 0] 0x7E8 8,
            Call.FblCanSendData [0x21, 0x14, 0, 0, 0, 0, 0, 0] 0x7E8 8,
            Call.FblCanSendData [0x21, 0x14, 0, 0, 0, 0, 0, 0] 0x7E8 8,
            Call.Diag_TxConfirmation ERR_ERROR]
      ∧ (ticks quickBuild envFirstOnly 5
        (Cantp_RxIndication quickBuild envFirstOnly 0x7E0 8
          [0x30, 1, 0, 0xAA, 0xAA, 0xAA, 0xAA, 0xAA] quickRecvFC)).tx0.status = CANTP_STATUS_IDLE)
    ∧ ((ticks quickBuild (envOf []) 5
        (Cantp_RxIndication quickBuild (envOf []) 0x7E0 8
          [0x30, 1, 0x14, 0xAA, 0xAA, 0xAA, 0xAA, 0xAA] quickRecvFC)).trace
      = quickRecvFC.trace ++ [Call.Diag_TxConfirmation ERR_ERROR]
      ∧ (ticks quickBuild (envOf []) 5
        (Cantp_RxIndication quickBuild (envOf []) 0x7E0 8
          [0x30, 1, 0x14, 0xAA, 0xAA, 0xAA, 0xAA, 0xAA] quickRecvFC)).tx0.status
        = CANTP_STATUS_IDLE) := by
  decide


/-! ## C7: the numbering of the Consecutive Frames sent -/

/-- The type nibble of the first PCI byte written by `_Cantp_MakePciOfFF`. -/
theorem ff_pci_type (t : Nat) :
    GET_LOW_HALF (UINT8 (UINT16 ((t &&& CANTP_FRAME_FF_DATASIZE_MASK)
      + CANTP_FRAME_FF_VAULE_16BITS) >>> 8) >>> 4) = CANTP_FRAME_TYPE_FF := by
  have h : t &&& CANTP_FRAME_FF_DATASIZE_MASK = t % 4096 :=
    Nat.and_pow_two_sub_one_eq_mod t 12
  rw [h]
  simp only [GET_LOW_HALF_eq, UINT8, UINT16, CANTP_FRAME_FF_VAULE_16BITS, CANTP_FRAME_TYPE_FF,
    Nat.shiftRight_eq_div_pow]
  omega

/-- The PCI byte written by `_Cantp_MakePciOfCF`, as a bitwise or. -/
theorem cf_pci_value (x : Nat) :
    UINT8 (CANTP_FRAME_CF_VALUE + GET_LOW_HALF x) = 0x20 ||| (x % 16) := by
  have h : 2 ^ 5 * 1 + x % 16 = 2 ^ 5 * 1 ||| x % 16 :=
    Nat.mul_add_lt_is_or (by omega) 1
  simp only [GET_LOW_HALF_eq, UINT8, CANTP_FRAME_CF_VALUE]
  have h2 : (32 + x % 16) % 256 = 32 + x % 16 := by omega
  rw [h2]
  simpa using h

/-- The first PCI byte of the First Frame staged by `_Cantp_PeriodTranFF`. -/
theorem rd_ffFrame_pci (K : FblConfig) (E : Env) (tr : List Call) (c : bl_CanTpChannel_t)
    (hpci : c.pciInfo ∈ gs_CanTpPciInfo K) (hlen : c.frame.length = CANTP_MAX_FRAME_SIZE K) :
    rd ((ffFrame E tr c).take (CANTP_MAX_FRAME_SIZE K)) c.pciInfo.pciPos
      = UINT8 (UINT16 ((c.totalSize &&& CANTP_FRAME_FF_DATASIZE_MASK)
          + CANTP_FRAME_FF_VAULE_16BITS) >>> 8) := by
  obtain ⟨_, b2, _, b4, b5, b6, _, b8, b9⟩ := pci_bounds K _ hpci
  have h8 := max_frame_size_ge K
  rw [rd_take _ _ _ (by omega)]
  unfold ffFrame
  rw [rd_writeAt_lt _ _ _ _ _ (by omega)]
  simp only [_Cantp_MakePciOfFF]
  rw [rd_set_ne _ _ _ _ (by omega), rd_set_eq _ _ _ (by rw [length_putTa, hlen]; omega)]

theorem length_ffFrame (E : Env) (tr : List Call) (c : bl_CanTpChannel_t) :
    (ffFrame E tr c).length = c.frame.length := by
  simp [ffFrame, length_writeAt, _Cantp_MakePciOfFF, length_putTa]

theorem length_cfFrame (K : FblConfig) (c : bl_CanTpChannel_t) :
    (cfFrame K c).length = c.frame.length := by
  simp [cfFrame, length_Bl_MemSet, _Cantp_MakePciOfCF, length_putTa]

theorem sentCFs_append (pci : bl_CanTpPciInfo_t) (a b : List Call) :
    sentCFs pci (a ++ b) = sentCFs pci a ++ sentCFs pci b := by
  simp [sentCFs, sentFrames_append]

theorem Numbered_of_eq (pci : bl_CanTpPciInfo_t) (a b : List Call)
    (h : sentCFs pci b = sentCFs pci a) (ha : Numbered pci a) : Numbered pci b := by
  intro k f hk
  rw [h] at hk
  exact ha k f hk

theorem Numbered_snoc (pci : bl_CanTpPciInfo_t) (a b : List Call) (f : List Nat)
    (h : sentCFs pci b = sentCFs pci a ++ [f]) (ha : Numbered pci a)
    (hf : rd f pci.pciPos = 0x20 ||| (((sentCFs pci a).length + 1) % 16)) :
    Numbered pci b := by
  intro k g hk
  rw [h] at hk
  by_cases hlt : k < (sentCFs pci a).length
  · rw [List.getElem?_append_left hlt] at hk
    exact ha k g hk
  · have hge : (sentCFs pci a).length ≤ k := by omega
    rw [List.getElem?_append_right hge] at hk
    have hk0 : k - (sentCFs pci a).length = 0 := by
      by_contra hne
      have : ([f] : List (List Nat))[k - (sentCFs pci a).length]? = none :=
        List.getElem?_eq_none (by simp only [List.length_singleton]; omega)
      rw [this] at hk
      cases hk
    rw [hk0] at hk
    have hg : f = g := by simpa using hk
    have hkk : k = (sentCFs pci a).length := by omega
    rw [← hg, hkk]
    exact hf


/-- TranFF, timer A running, driver accepts: the First Frame is filled by Diag,
handed to the driver and confirmed at once. -/
theorem tx_tranFF_send (K : FblConfig) (E : Env) (w : World) (c : bl_CanTpChannel_t)
    (tr : List Call) (h : TxAt w c tr)
    (hdrv : ∀ t f id len, E.FblCanSendData t f id len = ERR_OK)
    (hs : c.status = CANTP_STATUS_TRANSMITTING_FF) (ht : c.timer ≠ 0)
    (hsub : c.subStatus = CANTP_SUB_STATUS_IDLE) :
    TxAt (Cantp_PeriodFunction K E w) (afterFF E tr c)
      (tr ++ [Call.Diag_CopyTxData c.pciInfo.maxFFDataSize,
              Call.FblCanSendData ((ffFrame E tr c).take (CANTP_MAX_FRAME_SIZE K)) c.chnCfg.txId
                (CANTP_MAX_FRAME_SIZE K)]) := by
  have key := tick_TxAt K E w c tr h
  obtain ⟨rfl, rfl, _, _⟩ := h
  have hs' : w.tx0.status = 2 := hs
  have hsub' : w.tx0.subStatus = 0 := hsub
  have e1 : (periodChannel (gs_TxPeriodList K E)
      ((w.upd .rx0 decTimer).upd .rx1 decTimer) .tx0).tx0 = afterFF E w.trace w.tx0 := by
    simp [periodChannel, ht, hs', gs_TxPeriodList, _Cantp_PeriodTranFF, hsub', decTimer,
      CANTP_SUB_STATUS_IDLE, FblCanSendData, hdrv, Diag_CopyTxData,
      afterSend, Cantp_TxConfirmation, gs_TxConfirmList, _Cantp_TxConfirmFF, afterFF, ffFrame,
      _Cantp_MakePciOfFF, putTa, CANTP_STATUS_RECEIVING_FC]
  have e2 : (periodChannel (gs_TxPeriodList K E)
      ((w.upd .rx0 decTimer).upd .rx1 decTimer) .tx0).trace
      = w.trace ++ [Call.Diag_CopyTxData w.tx0.pciInfo.maxFFDataSize,
          Call.FblCanSendData ((ffFrame E w.trace w.tx0).take (CANTP_MAX_FRAME_SIZE K))
            w.tx0.chnCfg.txId (CANTP_MAX_FRAME_SIZE K)] := by
    simp [periodChannel, ht, hs', gs_TxPeriodList, _Cantp_PeriodTranFF, hsub', decTimer,
      CANTP_SUB_STATUS_IDLE, FblCanSendData, hdrv, Diag_CopyTxData,
      afterSend, Cantp_TxConfirmation, gs_TxConfirmList, _Cantp_TxConfirmFF, ffFrame,
      _Cantp_MakePciOfFF, putTa, CANTP_STATUS_RECEIVING_FC]
  rw [e1, e2] at key
  exact key

/-- TranFF or TranCF, timer expired: the transfer is confirmed with ERROR and the
channel goes Idle. -/
theorem tx_tran_timeout (K : FblConfig) (E : Env) (w : World) (c : bl_CanTpChannel_t)
    (tr : List Call) (h : TxAt w c tr)
    (hs : c.status = CANTP_STATUS_TRANSMITTING_FF ∨ c.status = CANTP_STATUS_TRANSMITTING_CF)
    (ht : c.timer = 0) :
    TxAt (Cantp_PeriodFunction K E w) (_Cantp_GotoIdle c)
      (tr ++ [Call.Diag_TxConfirmation ERR_ERROR]) := by
  have key := tick_TxAt K E w c tr h
  obtain ⟨rfl, rfl, _, _⟩ := h
  have hs' : w.tx0.status = 2 ∨ w.tx0.status = 3 := hs
  have e1 : (periodChannel (gs_TxPeriodList K E)
      ((w.upd .rx0 decTimer).upd .rx1 decTimer) .tx0).tx0 = _Cantp_GotoIdle w.tx0 := by
    rcases hs' with hs' | hs' <;>
      simp [periodChannel, ht, hs', gs_TxPeriodList, _Cantp_TimeoutTranFF, _Cantp_TimeoutTranCF,
        Diag_TxConfirmation]
  have e2 : (periodChannel (gs_TxPeriodList K E)
      ((w.upd .rx0 decTimer).upd .rx1 decTimer) .tx0).trace
      = w.trace ++ [Call.Diag_TxConfirmation ERR_ERROR] := by
    rcases hs' with hs' | hs' <;>
      simp [periodChannel, ht, hs', gs_TxPeriodList, _Cantp_TimeoutTranFF, _Cantp_TimeoutTranCF,
        Diag_TxConfirmation]
  rw [e1, e2] at key
  exact key

/-- A tick while both Rx channels are Idle leaves their descriptors alone. -/
theorem tick_rx_pci (K : FblConfig) (E : Env) (w : World)
    (h0 : w.rx0.status = CANTP_STATUS_IDLE) (h1 : w.rx1.status = CANTP_STATUS_IDLE) :
    (Cantp_PeriodFunction K E w).rx0.pciInfo = w.rx0.pciInfo
      ∧ (Cantp_PeriodFunction K E w).rx1.pciInfo = w.rx1.pciInfo := by
  have f0 := periodChannel_tx_frame K E ((w.upd .rx0 decTimer).upd .rx1 decTimer) .tx0 .rx0
    (by decide)
  have f1 := periodChannel_tx_frame K E ((w.upd .rx0 decTimer).upd .rx1 decTimer) .tx0 .rx1
    (by decide)
  simp only [chn_rx0, chn_rx1] at f0 f1
  rw [tick_tx0 K E w h0 h1, f0, f1]
  constructor <;> simp [decTimer]

/-- A Flow Control frame is refused by an Rx channel that reads it with the
descriptor `pci`. -/
theorem rxIndToRx_FC (K : FblConfig) (E : Env) (w : World) (id size : Nat) (buf : List Nat)
    (pci : bl_CanTpPciInfo_t) (h0 : w.rx0.pciInfo = pci) (h1 : w.rx1.pciInfo = pci)
    (hty : CANTP_GET_FRAME_TYPE pci buf = CANTP_FRAME_TYPE_FC) :
    (_Cantp_RxIndToRxChannel K E (_Cantp_GetChannelByRxId w id gs_CanTpRxChannel)
      size buf w).2 = w := by
  have hty' : CANTP_GET_FRAME_TYPE pci buf = 3 := hty
  simp only [_Cantp_GetChannelByRxId, gs_CanTpRxChannel, List.find?]
  by_cases a : w.rx0.chnCfg.rxId = id
  · simp [a, _Cantp_RxIndToRxChannel, h0, hty', CANTP_FRAME_TYPE_FC]
  · by_cases b : w.rx1.chnCfg.rxId = id
    · simp [a, b, _Cantp_RxIndToRxChannel, h1, hty', CANTP_FRAME_TYPE_FC]
    · simp [a, b, _Cantp_RxIndToRxChannel]

/-- The reception of a Flow Control frame while both Rx channels are Idle and read
frames with the descriptor of the Tx channel: nothing changes, or the Tx channel
in RecvFC goes to TranCF (CTS), re-arms timer B (WAIT), or confirms the transfer
with a failure and goes Idle. -/
theorem rxInd_FC (K : FblConfig) (E : Env) (w : World) (id size : Nat) (buf : List Nat)
    (h0 : w.rx0.status = CANTP_STATUS_IDLE)
    (p0 : w.rx0.pciInfo = w.tx0.pciInfo) (p1 : w.rx1.pciInfo = w.tx0.pciInfo)
    (hty : CANTP_GET_FRAME_TYPE w.tx0.pciInfo buf = CANTP_FRAME_TYPE_FC) :
    Cantp_RxIndication K E id size buf w = w
    ∨ (w.tx0.status = CANTP_STATUS_RECEIVING_FC
        ∧ Cantp_RxIndication K E id size buf w
          = w.upd .tx0 fun c => _Cantp_GotoTranCF K
              { c with
                bs := CANTP_GET_FC_BS w.tx0.pciInfo buf
                st := _Cantp_GetSTMinFromFC (CANTP_GET_FC_STMIN w.tx0.pciInfo buf) })
    ∨ (w.tx0.status = CANTP_STATUS_RECEIVING_FC
        ∧ Cantp_RxIndication K E id size buf w
          = w.upd .tx0 fun c => { c with timer := c.chnCfg.timerB })
    ∨ ∃ x, Cantp_RxIndication K E id size buf w
          = (Diag_TxConfirmation x w).upd .tx0 _Cantp_GotoIdle := by
  have hrx := rxIndToRx_FC K E w id size buf _ p0 p1 hty
  have hty' : CANTP_GET_FRAME_TYPE w.tx0.pciInfo buf = 3 := hty
  by_cases hsz : size ≤ CANTP_MAX_FRAME_SIZE K
  swap
  · left; simp [Cantp_RxIndication, hsz]
  by_cases hid : w.tx0.chnCfg.rxId = id
  swap
  · left
    have hl : _Cantp_GetChannelByRxId w id gs_CanTpTxChannel = none := by
      simp [_Cantp_GetChannelByRxId, gs_CanTpTxChannel, List.find?, hid]
    simp [Cantp_RxIndication, hsz, hl, _Cantp_RxIndToTxChannel, hrx]
  have hl : _Cantp_GetChannelByRxId w id gs_CanTpTxChannel = some .tx0 := by
    simp [_Cantp_GetChannelByRxId, gs_CanTpTxChannel, List.find?, hid]
  by_cases haddr : w.tx0.chnCfg.type = CANTP_TYPE_STANDARD
      ∨ w.tx0.chnCfg.ta = rd buf CANTP_TA_OFFSET
  swap
  · left
    simp [Cantp_RxIndication, hsz, hl, _Cantp_RxIndToTxChannel, haddr, hrx]
  by_cases hs : w.tx0.status = 4
  swap
  · left
    simp [Cantp_RxIndication, hsz, hl, _Cantp_RxIndToTxChannel, haddr, hty', CANTP_FRAME_TYPE_FC,
      gs_RxProcessList, _Cantp_ReceiveFC, h0, hs, CANTP_STATUS_RECEIVING_FC, hrx]
  by_cases f0 : CANTP_GET_FC_FS w.tx0.pciInfo buf = 0
  · right; left
    refine ⟨hs, ?_⟩
    simp [Cantp_RxIndication, hsz, hl, _Cantp_RxIndToTxChannel, haddr, hty', CANTP_FRAME_TYPE_FC,
      gs_RxProcessList, _Cantp_ReceiveFC, h0, hs, CANTP_STATUS_RECEIVING_FC, f0,
      CANTP_FC_FRAME_CTS]
  by_cases f1 : CANTP_GET_FC_FS w.tx0.pciInfo buf = 1
  · right; right; left
    refine ⟨hs, ?_⟩
    simp [Cantp_RxIndication, hsz, hl, _Cantp_RxIndToTxChannel, haddr, hty', CANTP_FRAME_TYPE_FC,
      gs_RxProcessList, _Cantp_ReceiveFC, h0, hs, CANTP_STATUS_RECEIVING_FC, f1,
      CANTP_FC_FRAME_CTS, CANTP_FC_FRAME_WAIT]
  by_cases f2 : CANTP_GET_FC_FS w.tx0.pciInfo buf = 2
  · right; right; right
    refine ⟨ERR_OVERFLOW, ?_⟩
    simp [Cantp_RxIndication, hsz, hl, _Cantp_RxIndToTxChannel, haddr, hty', CANTP_FRAME_TYPE_FC,
      gs_RxProcessList, _Cantp_ReceiveFC, h0, hs, CANTP_STATUS_RECEIVING_FC, f2,
      CANTP_FC_FRAME_CTS, CANTP_FC_FRAME_WAIT, CANTP_FC_FRAME_OVERFLOW]
  · right; right; right
    refine ⟨ERR_ERROR, ?_⟩
    simp [Cantp_RxIndication, hsz, hl, _Cantp_RxIndToTxChannel, haddr, hty', CANTP_FRAME_TYPE_FC,
      gs_RxProcessList, _Cantp_ReceiveFC, h0, hs, CANTP_STATUS_RECEIVING_FC, f0, f1, f2,
      CANTP_FC_FRAME_CTS, CANTP_FC_FRAME_WAIT, CANTP_FC_FRAME_OVERFLOW]


theorem sentCFs_confirm (pci : bl_CanTpPciInfo_t) (a : List Call) (x : bl_Return) :
    sentCFs pci (a ++ [Call.Diag_TxConfirmation x]) = sentCFs pci a := by
  rw [sentCFs_append]
  simp [sentCFs, sentFrames]

/-- A tick keeps a transmission in progress numbered. -/
theorem txRun_tick (K : FblConfig) (E : Env) (pci : bl_CanTpPciInfo_t) (tr0 : List Call)
    (hdrv : ∀ t f id len, E.FblCanSendData t f id len = ERR_OK)
    (hpci : pci ∈ gs_CanTpPciInfo K) (w : World) (h : TxRun K pci tr0 w) :
    TxRun K pci tr0 (Cantp_PeriodFunction K E w) := by
  obtain ⟨c, new, hat, p0, p1, hp, hlen, hls, hst, hnum⟩ := h
  obtain ⟨q0, q1⟩ := tick_rx_pci K E w hat.2.2.1 hat.2.2.2
  rw [p0] at q0
  rw [p1] at q1
  have hpc : c.pciInfo ∈ gs_CanTpPciInfo K := by rw [hp]; exact hpci
  rcases hst with hs | ⟨hs, hsub, hsn, hnone⟩ | ⟨hs, hsub, hsn⟩ | ⟨hs, hsn⟩
  · exact ⟨decTimer c, new, tx_idle K E w c _ hat hs, q0, q1, hp, hlen, hls, Or.inl hs, hnum⟩
  · by_cases ht : c.timer = 0
    · refine ⟨_Cantp_GotoIdle c, new ++ [Call.Diag_TxConfirmation ERR_ERROR], ?_, q0, q1, hp,
        hlen, hls,
        Or.inl rfl, Numbered_of_eq pci _ _ (sentCFs_confirm pci new _) hnum⟩
      rw [← List.append_assoc]
      exact tx_tran_timeout K E w c _ hat (Or.inl hs) ht
    · have s := tx_tranFF_send K E w c _ hat hdrv hs ht hsub
      have hty : CANTP_GET_FRAME_TYPE pci
          ((ffFrame E (tr0 ++ new) c).take (CANTP_MAX_FRAME_SIZE K)) ≠ CANTP_FRAME_TYPE_CF := by
        have := rd_ffFrame_pci K E (tr0 ++ new) c hpc hlen
        rw [hp] at this
        simp only [CANTP_GET_FRAME_TYPE, this, ff_pci_type]
        decide
      have hcf : sentCFs pci (new ++ [Call.Diag_CopyTxData c.pciInfo.maxFFDataSize,
          Call.FblCanSendData ((ffFrame E (tr0 ++ new) c).take (CANTP_MAX_FRAME_SIZE K))
            c.chnCfg.txId (CANTP_MAX_FRAME_SIZE K)]) = sentCFs pci new := by
        rw [sentCFs_append]
        simp [sentCFs, sentFrames, hty]
      refine ⟨afterFF E (tr0 ++ new) c, _, ?_, q0, q1, hp, ?_, hls, ?_,
        Numbered_of_eq pci _ _ hcf hnum⟩
      · rw [← List.append_assoc]
        exact s
      · simp only [afterFF, length_ffFrame, hlen]
      · right; right; right
        refine ⟨rfl, ?_⟩
        rw [hcf, hnone]
        simp [afterFF, hsn, UINT8]
  · by_cases ht : c.timer = 0
    · refine ⟨_Cantp_GotoIdle c, new ++ [Call.Diag_TxConfirmation ERR_ERROR], ?_, q0, q1, hp,
        hlen, hls,
        Or.inl rfl, Numbered_of_eq pci _ _ (sentCFs_confirm pci new _) hnum⟩
      rw [← List.append_assoc]
      exact tx_tran_timeout K E w c _ hat (Or.inr hs) ht
    · by_cases hd : 2 ≤ c.txDelay
      · exact ⟨{ c with timer := c.timer - 1, txDelay := c.txDelay - 1 }, new,
          tx_tranCF_delay K E w c _ hat hs ht hsub hd, q0, q1, hp, hlen, hls,
          Or.inr (Or.inr (Or.inl ⟨hs, hsub, hsn⟩)), hnum⟩
      · have s := tx_tranCF_send K E w c _ hat hdrv hs ht hsub (by omega)
        have hrd := rd_cfFrame_pci K c hpc hlen hls
        rw [hp] at hrd
        have hty : CANTP_GET_FRAME_TYPE pci
            ((cfFrame K c).take (CANTP_MAX_FRAME_SIZE K)) = CANTP_FRAME_TYPE_CF := by
          simp only [CANTP_GET_FRAME_TYPE, hrd, cf_pci_type]
        have hcf : sentCFs pci (new ++ Call.FblCanSendData
            ((cfFrame K c).take (CANTP_MAX_FRAME_SIZE K)) c.chnCfg.txId (CANTP_MAX_FRAME_SIZE K)
            :: (if UINT16 (c.cfCnt + 65535) = 0 then [Call.Diag_TxConfirmation ERR_OK]
                else []))
            = sentCFs pci new ++ [(cfFrame K c).take (CANTP_MAX_FRAME_SIZE K)] := by
          rw [sentCFs_append]
          split_ifs <;> simp [sentCFs, sentFrames, hty]
        have hnum' := Numbered_snoc pci _ _ _ hcf hnum
          (by rw [hrd, cf_pci_value, hsn])
        have hsn' : (UINT8 (c.sn + 1)) % 16
            = ((sentCFs pci new ++ [(cfFrame K c).take (CANTP_MAX_FRAME_SIZE K)]).length + 1)
                % 16 := by
          simp only [UINT8, List.length_append, List.length_singleton]
          omega
        refine ⟨afterCF K c, _, ?_, q0, q1, ?_, ?_, ?_, ?_, hnum'⟩
        · rw [← List.append_assoc]
          exact s
        · simp only [afterCF]; exact hp
        · simp only [afterCF, length_cfFrame, hlen]
        · simp only [afterCF]; exact hls
        · rw [hcf]
          by_cases hc : UINT16 (c.cfCnt + 65535) = 0
          · left; simp [afterCF, hc]
          · by_cases hb : c.bs = 1
            · right; right; right
              exact ⟨by simp [afterCF, hc, hb], hsn'⟩
            · right; right; left
              exact ⟨by simp [afterCF, hc, hb], rfl, hsn'⟩
  · by_cases ht : c.timer = 0
    · refine ⟨_Cantp_GotoIdle c, new ++ [Call.Diag_TxConfirmation ERR_ERROR], ?_, q0, q1, hp,
        hlen, hls,
        Or.inl rfl, Numbered_of_eq pci _ _ (sentCFs_confirm pci new _) hnum⟩
      rw [← List.append_assoc]
      exact tx_recvFC_timeout K E w c _ hat hs ht
    · exact ⟨decTimer c, new, tx_recvFC_wait K E w c _ hat hs ht, q0, q1, hp, hlen, hls,
        Or.inr (Or.inr (Or.inr ⟨hs, hsn⟩)), hnum⟩

/-- The reception of a Flow Control frame keeps a transmission in progress
numbered. -/
theorem txRun_rxInd (K : FblConfig) (E : Env) (pci : bl_CanTpPciInfo_t) (tr0 : List Call)
    (id size : Nat) (buf : List Nat)
    (hty : CANTP_GET_FRAME_TYPE pci buf = CANTP_FRAME_TYPE_FC)
    (w : World) (h : TxRun K pci tr0 w) :
    TxRun K pci tr0 (Cantp_RxIndication K E id size buf w) := by
  obtain ⟨c, new, ⟨rfl, htr, r0, r1⟩, p0, p1, hp, hlen, hls, hst, hnum⟩ := h
  rcases rxInd_FC K E w id size buf r0 (p0.trans hp.symm) (p1.trans hp.symm)
      (by rw [hp]; exact hty) with e | ⟨hs, e⟩ | ⟨hs, e⟩ | ⟨x, e⟩
  · rw [e]
    exact ⟨_, new, ⟨rfl, htr, r0, r1⟩, p0, p1, hp, hlen, hls, hst, hnum⟩
  · rw [e]
    have hsn : w.tx0.sn % 16 = ((sentCFs pci new).length + 1) % 16 := by
      rcases hst with h | ⟨h, _⟩ | ⟨h, _⟩ | ⟨_, h⟩
      · rw [hs] at h; cases h
      · rw [hs] at h; cases h
      · rw [hs] at h; cases h
      · exact h
    refine ⟨_, new, ⟨rfl, by simpa using htr, by simpa using r0, by simpa using r1⟩,
      by simpa using p0, by simpa using p1, ?_, ?_, ?_, ?_, hnum⟩
    · simpa [_Cantp_GotoTranCF] using hp
    · simpa [_Cantp_GotoTranCF] using hlen
    · simpa [_Cantp_GotoTranCF] using hls
    · right; right; left
      exact ⟨by simp [_Cantp_GotoTranCF], by simp [_Cantp_GotoTranCF], by
        simpa [_Cantp_GotoTranCF] using hsn⟩
  · rw [e]
    refine ⟨_, new, ⟨rfl, by simpa using htr, by simpa using r0, by simpa using r1⟩,
      by simpa using p0, by simpa using p1, ?_, ?_, ?_, ?_, hnum⟩
    · simpa using hp
    · simpa using hlen
    · simpa using hls
    · simpa using hst
  · rw [e]
    refine ⟨_, new ++ [Call.Diag_TxConfirmation x],
      ⟨rfl, by simp [Diag_TxConfirmation, htr], by simpa [Diag_TxConfirmation] using r0,
        by simpa [Diag_TxConfirmation] using r1⟩,
      by simpa [Diag_TxConfirmation] using p0, by simpa [Diag_TxConfirmation] using p1,
      ?_, ?_, ?_, ?_, Numbered_of_eq pci _ _ (sentCFs_confirm pci new _) hnum⟩
    · simpa [Diag_TxConfirmation, _Cantp_GotoIdle] using hp
    · simpa [Diag_TxConfirmation, _Cantp_GotoIdle] using hlen
    · simpa [Diag_TxConfirmation, _Cantp_GotoIdle] using hls
    · left; simp [Diag_TxConfirmation, _Cantp_GotoIdle]

/-- Ticks and received Flow Control frames, in any order, keep a transmission in
progress numbered. -/
theorem txRun_run (K : FblConfig) (E : Env) (pci : bl_CanTpPciInfo_t) (tr0 : List Call)
    (hdrv : ∀ t f id len, E.FblCanSendData t f id len = ERR_OK)
    (hpci : pci ∈ gs_CanTpPciInfo K) (evs : List Event) :
    ∀ w : World, (∀ e ∈ evs, PeerEvent pci e) → TxRun K pci tr0 w →
      TxRun K pci tr0 (run K E w evs) := by
  induction evs with
  | nil => intro w _ h; exact h
  | cons e es ih =>
    intro w hev h
    have he := hev e (List.mem_cons_self _ _)
    have hes : ∀ e' ∈ es, PeerEvent pci e' := fun e' m => hev e' (List.mem_cons_of_mem _ m)
    show TxRun K pci tr0 (run K E (step K E w e) es)
    apply ih _ hes
    cases e with
    | tick => exact txRun_tick K E pci tr0 hdrv hpci w h
    | rxInd id size buf => exact txRun_rxInd K E pci tr0 id size buf he w h
    | transmit a b => exact absurd he (by simp [PeerEvent])
    | txConf a => exact absurd he (by simp [PeerEvent])


/-- C7: on an Idle Tx channel (both Rx channels Idle and reading frames with the
same descriptor, driver accepting every frame) `Cantp_Transmit(0, size)` with
`size > maxDataSize` starts a multi-frame transmission; whatever ticks and
received Flow Control frames follow, in any order, the Consecutive Frames handed
to `FblCanSendData` since the call are numbered: the `k`-th of them (`k = 1, 2,
...`, here index `k - 1`) has PCI byte `0x20 | (k mod 16)`. -/
theorem C7_consecutive_frame_numbering (K : FblConfig) (E : Env) (w : World) (size : Nat)
    (evs : List Event) (k : Nat) (f : List Nat)
    (hdrv : ∀ t f id len, E.FblCanSendData t f id len = ERR_OK)
    (htx : w.tx0.status = CANTP_STATUS_IDLE)
    (hrx0 : w.rx0.status = CANTP_STATUS_IDLE) (hrx1 : w.rx1.status = CANTP_STATUS_IDLE)
    (hpci : w.tx0.pciInfo ∈ gs_CanTpPciInfo K)
    (hp0 : w.rx0.pciInfo = w.tx0.pciInfo) (hp1 : w.rx1.pciInfo = w.tx0.pciInfo)
    (hlen : w.tx0.frame.length = CANTP_MAX_FRAME_SIZE K)
    (hsize : w.tx0.pciInfo.maxDataSize < size)
    (hphys : w.tx0.chnCfg.taType = CANTP_TATYPE_PHYSICAL)
    (hev : ∀ e ∈ evs, PeerEvent w.tx0.pciInfo e)
    (hk : (sentCFs w.tx0.pciInfo
            ((run K E (Cantp_Transmit 0 size w).2 evs).trace.drop w.trace.length))[k]?
          = some f) :
    rd f w.tx0.pciInfo.pciPos = 0x20 ||| ((k + 1) % 16) := by
  have hs0 : w.tx0.status = 0 := htx
  have hph : w.tx0.chnCfg.taType = 0 := hphys
  have e : (Cantp_Transmit 0 size w).2
      = w.upd .tx0 fun c => _Cantp_GotoTranFF (_Cantp_SetMultipleFrameSize c size) := by
    rw [Cantp_Transmit_zero]
    simp [hs0, hsize, hph, CANTP_STATUS_IDLE, CANTP_TATYPE_PHYSICAL]
  have h0 : TxRun K w.tx0.pciInfo w.trace (Cantp_Transmit 0 size w).2 := by
    rw [e]
    refine ⟨_Cantp_GotoTranFF (_Cantp_SetMultipleFrameSize w.tx0 size), [],
      ⟨by simp, by simp, by simpa using hrx0, by simpa using hrx1⟩,
      by simpa using hp0, by simpa using hp1, rfl, hlen, ?_, ?_, ?_⟩
    · simp only [_Cantp_GotoTranFF, _Cantp_SetMultipleFrameSize, UINT8]
      omega
    · right; left
      exact ⟨rfl, rfl, rfl, rfl⟩
    · intro k f hk
      simp [sentCFs, sentFrames] at hk
  obtain ⟨c, new, hat, _, _, _, _, _, _, hnum⟩ :=
    txRun_run K E w.tx0.pciInfo w.trace hdrv hpci evs _ hev h0
  rw [hat.2.1, List.drop_left] at hk
  exact hnum k f hk

set_option maxRecDepth 100000 in
theorem C7_consecutive_frame_numbering_witness :
    (sentCFs classicInit.tx0.pciInfo
        ((run classicBuild (envOf []) (Cantp_Transmit 0 130 classicInit).2 peer17).trace.drop
          classicInit.trace.length))[16]?
      = some [0x21, 130, 0, 0, 0, 0, 0, 0]
    ∧ rd [0x21, 130, 0, 0, 0, 0, 0, 0] classicInit.tx0.pciInfo.pciPos
        = 0x20 ||| ((16 + 1) % 16) :=
  ⟨by decide,
   C7_consecutive_frame_numbering classicBuild (envOf []) classicInit 130 peer17 16
    [0x21, 130, 0, 0, 0, 0, 0, 0] (fun _ _ _ _ => rfl) (by decide) (by decide) (by decide)
    (by decide) (by decide) (by decide) (by decide) (by decide) (by decide) (by decide)
    (by decide)⟩


/-! ## C12, C13, C14: the translation of STmin -/

/-- C12: with `CANTP_SCHEDULE_PERIOD = 2`, for every byte `st` in `0x00..0x7F`
`_Cantp_GetSTMinFromFC(st) = st / CANTP_SCHEDULE_PERIOD + 1`, and for every reserved
byte `st` in `0x80..0xF0` or `0xFA..0xFF` the result is that of `0x7F`, which is 64
ticks. -/
theorem C12_stmin_ms_and_reserved (st : Nat) :
    (st ≤ 0x7F → _Cantp_GetSTMinFromFC st = st / CANTP_SCHEDULE_PERIOD + 1)
    ∧ ((0x80 ≤ st ∧ st ≤ 0xF0) ∨ (0xFA ≤ st ∧ st ≤ 0xFF) →
        _Cantp_GetSTMinFromFC st = _Cantp_GetSTMinFromFC 0x7F
        ∧ _Cantp_GetSTMinFromFC st = 64) := by
  simp only [_Cantp_GetSTMinFromFC, CANTP_SCHEDULE_PERIOD, CANTP_MAX_STMIN_VALUE,
    CANTP_MIN_STMIN_VALUE_US, CANTP_MAX_STMIN_VALUE_US]
  constructor
  · intro h
    split_ifs <;> omega
  · intro h
    split_ifs <;> omega

theorem C12_stmin_ms_and_reserved_witness :
    (_Cantp_GetSTMinFromFC 0x14 = 0x14 / CANTP_SCHEDULE_PERIOD + 1)
    ∧ (_Cantp_GetSTMinFromFC 0xFB = _Cantp_GetSTMinFromFC 0x7F
        ∧ _Cantp_GetSTMinFromFC 0xFB = 64) :=
  ⟨(C12_stmin_ms_and_reserved 0x14).1 (by decide),
   (C12_stmin_ms_and_reserved 0xFB).2 (Or.inr ⟨by decide, by decide⟩)⟩

set_option maxRecDepth 100000 in
/-- C13 (evaluation at the failing input): for the STmin bytes `0xF1` (100
microseconds) and `0xF9` (900 microseconds) `_Cantp_GetSTMinFromFC` returns 2, the
value of `CANTP_SCHEDULE_PERIOD` in milliseconds, and not 1; the result is counted
in ticks, as for the bytes `0x00` and `0x01` (0 and 1 ms), which give
`st / CANTP_SCHEDULE_PERIOD + 1 = 1` tick.  On the classical build, after the First
Frame of a 20-byte message and a Flow Control frame CTS with STmin `0xF1`, the
separation delay is 2 ticks: the first tick hands nothing to the driver and the
Consecutive Frame goes out in the second tick, while with STmin `0x01` it goes out
in the first tick. -/
theorem C13_stmin_us_is_not_one_tick :
    _Cantp_GetSTMinFromFC 0xF1 = 2 ∧ _Cantp_GetSTMinFromFC 0xF1 ≠ 1
    ∧ _Cantp_GetSTMinFromFC 0xF9 = 2
    ∧ _Cantp_GetSTMinFromFC 0xF1 = CANTP_SCHEDULE_PERIOD
    ∧ _Cantp_GetSTMinFromFC 0x00 = 1 ∧ _Cantp_GetSTMinFromFC 0x01 = 1
    ∧ (Cantp_RxIndication classicBuild (envOf []) 0x7E0 8
        [0x30, 0, 0xF1, 0xAA, 0xAA, 0xAA, 0xAA, 0xAA] classicRecvFC).tx0.txDelay = 2
    ∧ (ticks classicBuild (envOf []) 1
        (Cantp_RxIndication classicBuild (envOf []) 0x7E0 8
          [0x30, 0, 0xF1, 0xAA, 0xAA, 0xAA, 0xAA, 0xAA] classicRecvFC)).trace
        = classicRecvFC.trace
    ∧ sentFrames ((ticks classicBuild (envOf []) 2
        (Cantp_RxIndication classicBuild (envOf []) 0x7E0 8
          [0x30, 0, 0xF1, 0xAA, 0xAA, 0xAA, 0xAA, 0xAA] classicRecvFC)).trace.drop
          classicRecvFC.trace.length)
        = [[0x21, 0x14, 0, 0, 0, 0, 0, 0]]
    ∧ sentFrames ((ticks classicBuild (envOf []) 1
        (Cantp_RxIndication classicBuild (envOf []) 0x7E0 8
          [0x30, 0, 0x01, 0xAA, 0xAA, 0xAA, 0xAA, 0xAA] classicRecvFC)).trace.drop
          classicRecvFC.trace.length)
        = [[0x21, 0x14, 0, 0, 0, 0, 0, 0]] := by
  decide

/-- For every STmin byte `st` in `0xF1..0xF9`
`_Cantp_GetSTMinFromFC(st) = CANTP_SCHEDULE_PERIOD`, that is 2: the function returns
the period in milliseconds, which the channel then counts as 2 ticks. -/
theorem C13_stmin_us_range (st : Nat) (h1 : 0xF1 ≤ st) (h2 : st ≤ 0xF9) :
    _Cantp_GetSTMinFromFC st = CANTP_SCHEDULE_PERIOD ∧ _Cantp_GetSTMinFromFC st = 2 := by
  simp only [_Cantp_GetSTMinFromFC, CANTP_SCHEDULE_PERIOD, CANTP_MAX_STMIN_VALUE,
    CANTP_MIN_STMIN_VALUE_US, CANTP_MAX_STMIN_VALUE_US]
  split_ifs <;> omega

theorem C13_stmin_us_range_witness :
    _Cantp_GetSTMinFromFC 0xF5 = CANTP_SCHEDULE_PERIOD ∧ _Cantp_GetSTMinFromFC 0xF5 = 2 :=
  C13_stmin_us_range 0xF5 (by decide) (by decide)

/-- C14: for every STmin byte `st` the tick count `t = _Cantp_GetSTMinFromFC(st)` is
at least 1 and `t * CANTP_SCHEDULE_PERIOD` milliseconds cover the separation the
peer asked for: `st` ms for `st <= 0x7F`; `(st - 0xF0) * 100` microseconds for `st`
in `0xF1..0xF9` (compared in microseconds); 127 ms for every reserved value. -/
theorem C14_stmin_covers_request (st : Nat) (h : st ≤ 255) :
    1 ≤ _Cantp_GetSTMinFromFC st
    ∧ (st ≤ 0x7F → st ≤ _Cantp_GetSTMinFromFC st * CANTP_SCHEDULE_PERIOD)
    ∧ (0xF1 ≤ st ∧ st ≤ 0xF9 →
        (st - 0xF0) * 100 ≤ _Cantp_GetSTMinFromFC st * CANTP_SCHEDULE_PERIOD * 1000)
    ∧ ((0x80 ≤ st ∧ st ≤ 0xF0) ∨ (0xFA ≤ st ∧ st ≤ 0xFF) →
        127 ≤ _Cantp_GetSTMinFromFC st * CANTP_SCHEDULE_PERIOD) := by
  simp only [_Cantp_GetSTMinFromFC, CANTP_SCHEDULE_PERIOD, CANTP_MAX_STMIN_VALUE,
    CANTP_MIN_STMIN_VALUE_US, CANTP_MAX_STMIN_VALUE_US]
  refine ⟨?_, ?_, ?_, ?_⟩
  · split_ifs <;> omega
  · intro h1; split_ifs <;> omega
  · intro h1; split_ifs <;> omega
  · intro h1; split_ifs <;> omega

theorem C14_stmin_covers_request_witness :
    1 ≤ _Cantp_GetSTMinFromFC 0x7F
    ∧ (0x7F ≤ 0x7F → 0x7F ≤ _Cantp_GetSTMinFromFC 0x7F * CANTP_SCHEDULE_PERIOD)
    ∧ (0xF1 ≤ 0x7F ∧ 0x7F ≤ 0xF9 →
        (0x7F - 0xF0) * 100 ≤ _Cantp_GetSTMinFromFC 0x7F * CANTP_SCHEDULE_PERIOD * 1000)
    ∧ ((0x80 ≤ 0x7F ∧ 0x7F ≤ 0xF0) ∨ (0xFA ≤ 0x7F ∧ 0x7F ≤ 0xFF) →
        127 ≤ _Cantp_GetSTMinFromFC 0x7F * CANTP_SCHEDULE_PERIOD) :=
  C14_stmin_covers_request 0x7F (by decide)


/-! ## C16: a First Frame with length field zero -/

/-- C16: a frame that every channel reads as a First Frame and whose 12-bit length
field is zero is dropped, whatever the state of the channels, the identifier and
the frame size: `_Cantp_ReceiveFF` returns `ERR_ERROR` without touching anything,
and `Cantp_RxIndication` leaves the three channel records, the registry and the
list of calls made as they were (so no Diag call is made). -/
theorem C16_escape_first_frame_dropped (K : FblConfig) (E : Env) (w : World)
    (id size : Nat) (buf : List Nat)
    (hty : ∀ r : ChnRef, CANTP_GET_FRAME_TYPE (w.chn r).pciInfo buf = CANTP_FRAME_TYPE_FF)
    (hzero : ∀ r : ChnRef, CANTP_GET_FF_DATASIZE (rd buf (w.chn r).pciInfo.pciPos)
        (rd buf ((w.chn r).pciInfo.pciPos + 1)) = 0) :
    (∀ r : ChnRef, _Cantp_ReceiveFF K r size buf w = (ERR_ERROR, w))
    ∧ Cantp_RxIndication K E id size buf w = w := by
  have hff : ∀ r : ChnRef, _Cantp_ReceiveFF K r size buf w = (ERR_ERROR, w) := by
    intro r
    simp only [_Cantp_ReceiveFF, hzero r]
    split_ifs <;> first | rfl | omega
  refine ⟨hff, ?_⟩
  have t0 : CANTP_GET_FRAME_TYPE w.tx0.pciInfo buf = 1 := hty .tx0
  have t1 : CANTP_GET_FRAME_TYPE w.rx0.pciInfo buf = 1 := hty .rx0
  have t2 : CANTP_GET_FRAME_TYPE w.rx1.pciInfo buf = 1 := hty .rx1
  have htx : _Cantp_RxIndToTxChannel K E (_Cantp_GetChannelByRxId w id gs_CanTpTxChannel)
      size buf w = (ERR_ERROR, w) := by
    simp only [_Cantp_GetChannelByRxId, gs_CanTpTxChannel, List.find?]
    split <;> simp [_Cantp_RxIndToTxChannel, t0, CANTP_FRAME_TYPE_FC]
  have hrx : (_Cantp_RxIndToRxChannel K E (_Cantp_GetChannelByRxId w id gs_CanTpRxChannel)
      size buf w).2 = w := by
    simp only [_Cantp_GetChannelByRxId, gs_CanTpRxChannel, List.find?]
    by_cases a : w.rx0.chnCfg.rxId = id
    · simp only [a, decide_True, _Cantp_RxIndToRxChannel, chn_rx0, t1, gs_RxProcessList, hff]
      split_ifs <;> rfl
    · by_cases b : w.rx1.chnCfg.rxId = id
      · simp only [chn_rx0, a, decide_False, chn_rx1, b, decide_True, _Cantp_RxIndToRxChannel,
          t2, gs_RxProcessList, hff]
        split_ifs <;> rfl
      · simp [a, b, _Cantp_RxIndToRxChannel]
  simp only [Cantp_RxIndication, htx]
  split_ifs
  · exact hrx
  · rfl
  · rfl

theorem C16_escape_first_frame_dropped_witness :
    (∀ r : ChnRef, _Cantp_ReceiveFF classicBuild r 8 [0x10, 0x00, 0, 0, 0x20, 0, 1, 2] classicRecvCF
        = (ERR_ERROR, classicRecvCF))
    ∧ Cantp_RxIndication classicBuild (envOf []) 0x7E0 8 [0x10, 0x00, 0, 0, 0x20, 0, 1, 2]
        classicRecvCF = classicRecvCF :=
  C16_escape_first_frame_dropped classicBuild (envOf []) classicRecvCF 0x7E0 8
    [0x10, 0x00, 0, 0, 0x20, 0, 1, 2] (fun r => by cases r <;> decide)
    (fun r => by cases r <;> decide)

/-! ## C17: a First Frame announcing the Single Frame capacity -/

/-- C17 (evaluation at the failing input): on the classical build with standard
addressing (`maxDataSize = 7`, `maxFFDataSize = 6`) the First Frame
`10 07 01 02 03 04 05 06`, whose length 7 fits a Single Frame, is not rejected:
`_Cantp_ReceiveFF` returns `ERR_OK` and leaves the physical Rx channel in RecvFF
with `totalSize = 7`, `cfCnt = 1`, `lastSize = 1`; two ticks, the Consecutive Frame
`21 07 ..` and one more tick complete a 7-byte reception with
`Diag_RxIndication(OK)`. -/
theorem C17_first_frame_of_sf_capacity_accepted :
    (_Cantp_ReceiveFF classicBuild .rx0 8 [0x10, 0x07, 1, 2, 3, 4, 5, 6] classicInit).1 = ERR_OK
    ∧ (_Cantp_ReceiveFF classicBuild .rx0 8 [0x10, 0x07, 1, 2, 3, 4, 5, 6] classicInit).2.rx0.status
        = CANTP_STATUS_RECEIVING_FF
    ∧ (_Cantp_ReceiveFF classicBuild .rx0 8 [0x10, 0x07, 1, 2, 3, 4, 5, 6] classicInit).2.rx0.totalSize
        = 7
    ∧ (_Cantp_ReceiveFF classicBuild .rx0 8 [0x10, 0x07, 1, 2, 3, 4, 5, 6] classicInit).2.rx0.cfCnt
        = 1
    ∧ (_Cantp_ReceiveFF classicBuild .rx0 8 [0x10, 0x07, 1, 2, 3, 4, 5, 6] classicInit).2.rx0.lastSize
        = 1
    ∧ classicInit.rx0.pciInfo.maxDataSize = 7
    ∧ (run classicBuild (envOf []) classicInit
        [.rxInd 0x7E0 8 [0x10, 0x07, 1, 2, 3, 4, 5, 6], .tick, .tick,
         .rxInd 0x7E0 8 [0x21, 7, 0xAA, 0xAA, 0xAA, 0xAA, 0xAA, 0xAA], .tick]).trace
      = [Call.Diag_StartOfReception 7,
         Call.Diag_CopyRxData 6 [1, 2, 3, 4, 5, 6],
         Call.FblCanSendData [0x30, 0, 0, 0xAA, 0xAA, 0xAA, 0xAA, 0xAA] 0x7E8 8,
         Call.Diag_CopyRxData 1 [7],
         Call.Diag_RxIndication CANTP_TATYPE_PHYSICAL ERR_OK] := by
  decide

/-! ## C19, C20: half duplex -/

/-- C19: while the Tx channel `gs_CanTpTxChannel[0]` is not Idle, (1)
`_Cantp_ReceiveSF` on a channel that is not functional returns `ERR_ERROR` and
changes nothing; (2) a Single Frame delivered by `Cantp_RxIndication` under the
identifier of a physical Rx channel `gs_CanTpRxChannel[0]` leaves the whole state
and the list of calls unchanged; (3) on a functional channel a valid Single Frame
(length `n` with `1 <= n <= maxDataSize`, `n < size`) is accepted by
`_Cantp_ReceiveSF`: `ERR_OK`, status RecvSF, `lastSize = n`, timer B armed; (4)
delivered by `Cantp_RxIndication` to the functional Rx channel `gs_CanTpRxChannel[1]`
it puts that channel in RecvSF with `lastSize = n`. -/
theorem C19_half_duplex_reception (K : FblConfig) (E : Env) (w : World)
    (id size n : Nat) (buf : List Nat) (htx : w.tx0.status ≠ CANTP_STATUS_IDLE) :
    (∀ r : ChnRef, (w.chn r).chnCfg.taType ≠ CANTP_TATYPE_FUNCTIONAL →
        _Cantp_ReceiveSF K r size buf w = (ERR_ERROR, w))
    ∧ (w.rx0.chnCfg.taType = CANTP_TATYPE_PHYSICAL → w.rx0.chnCfg.rxId = id →
        CANTP_GET_FRAME_TYPE w.rx0.pciInfo buf = CANTP_FRAME_TYPE_SF →
        CANTP_GET_FRAME_TYPE w.tx0.pciInfo buf = CANTP_FRAME_TYPE_SF →
        Cantp_RxIndication K E id size buf w = w)
    ∧ (∀ r : ChnRef, (w.chn r).chnCfg.taType = CANTP_TATYPE_FUNCTIONAL →
        sfDataSize K (w.chn r).pciInfo size buf = some n →
        n ≠ 0 → n ≤ (w.chn r).pciInfo.maxDataSize → n < size →
        (_Cantp_ReceiveSF K r size buf w).1 = ERR_OK
        ∧ ((_Cantp_ReceiveSF K r size buf w).2.chn r).status = CANTP_STATUS_RECEIVING_SF
        ∧ ((_Cantp_ReceiveSF K r size buf w).2.chn r).lastSize = n
        ∧ ((_Cantp_ReceiveSF K r size buf w).2.chn r).timer = (w.chn r).chnCfg.timerB)
    ∧ (w.rx1.chnCfg.taType = CANTP_TATYPE_FUNCTIONAL →
        w.rx0.chnCfg.rxId ≠ id → w.rx1.chnCfg.rxId = id →
        size ≤ CANTP_MAX_FRAME_SIZE K →
        (w.rx1.chnCfg.type = CANTP_TYPE_STANDARD ∨ w.rx1.chnCfg.ta = rd buf CANTP_TA_OFFSET) →
        CANTP_GET_FRAME_TYPE w.rx1.pciInfo buf = CANTP_FRAME_TYPE_SF →
        CANTP_GET_FRAME_TYPE w.tx0.pciInfo buf = CANTP_FRAME_TYPE_SF →
        sfDataSize K w.rx1.pciInfo size buf = some n →
        n ≠ 0 → n ≤ w.rx1.pciInfo.maxDataSize → n < size →
        (Cantp_RxIndication K E id size buf w).rx1.status = CANTP_STATUS_RECEIVING_SF
        ∧ (Cantp_RxIndication K E id size buf w).rx1.lastSize = n
        ∧ (Cantp_RxIndication K E id size buf w).rx0 = w.rx0
        ∧ (Cantp_RxIndication K E id size buf w).tx0 = w.tx0) := by
  have htx' : ¬ w.tx0.status = 0 := htx
  have toTx : CANTP_GET_FRAME_TYPE w.tx0.pciInfo buf = CANTP_FRAME_TYPE_SF →
      _Cantp_RxIndToTxChannel K E (_Cantp_GetChannelByRxId w id gs_CanTpTxChannel)
        size buf w = (ERR_ERROR, w) := by
    intro t0
    have t0' : CANTP_GET_FRAME_TYPE w.tx0.pciInfo buf = 0 := t0
    simp only [_Cantp_GetChannelByRxId, gs_CanTpTxChannel, List.find?]
    split <;> simp [_Cantp_RxIndToTxChannel, t0', CANTP_FRAME_TYPE_FC]
  have h1 : ∀ r : ChnRef, (w.chn r).chnCfg.taType ≠ CANTP_TATYPE_FUNCTIONAL →
      _Cantp_ReceiveSF K r size buf w = (ERR_ERROR, w) := by
    intro r hr
    simp [_Cantp_ReceiveSF, htx', hr, CANTP_STATUS_IDLE]
  have h3 : ∀ r : ChnRef, (w.chn r).chnCfg.taType = CANTP_TATYPE_FUNCTIONAL →
      sfDataSize K (w.chn r).pciInfo size buf = some n →
      n ≠ 0 → n ≤ (w.chn r).pciInfo.maxDataSize → n < size →
      (_Cantp_ReceiveSF K r size buf w).1 = ERR_OK
      ∧ ((_Cantp_ReceiveSF K r size buf w).2.chn r).status = CANTP_STATUS_RECEIVING_SF
      ∧ ((_Cantp_ReceiveSF K r size buf w).2.chn r).lastSize = n
      ∧ ((_Cantp_ReceiveSF K r size buf w).2.chn r).timer = (w.chn r).chnCfg.timerB := by
    intro r hr hn n0 n1 n2
    simp only [_Cantp_ReceiveSF, hr, or_true, if_true, hn, n0, ne_eq, not_false_eq_true, n1, n2,
      and_self]
    split_ifs <;> simp [Diag_RxIndication]
  refine ⟨h1, ?_, h3, ?_⟩
  · intro hp hid t1 t0
    have t1' : CANTP_GET_FRAME_TYPE w.rx0.pciInfo buf = 0 := t1
    have hp' : w.rx0.chnCfg.taType ≠ CANTP_TATYPE_FUNCTIONAL := by
      rw [hp]; decide
    have hl : _Cantp_GetChannelByRxId w id gs_CanTpRxChannel = some .rx0 := by
      simp [_Cantp_GetChannelByRxId, gs_CanTpRxChannel, List.find?, hid]
    simp only [Cantp_RxIndication, toTx t0, hl, _Cantp_RxIndToRxChannel, chn_rx0, t1',
      gs_RxProcessList, h1 .rx0 hp']
    split_ifs <;> rfl
  · intro hf a b hsz haddr t1 t0 hn n0 n1 n2
    have t1' : CANTP_GET_FRAME_TYPE w.rx1.pciInfo buf = 0 := t1
    have hl : _Cantp_GetChannelByRxId w id gs_CanTpRxChannel = some .rx1 := by
      simp [_Cantp_GetChannelByRxId, gs_CanTpRxChannel, List.find?, a, b]
    have e : Cantp_RxIndication K E id size buf w = (_Cantp_ReceiveSF K .rx1 size buf w).2 := by
      simp [Cantp_RxIndication, hsz, toTx t0, hl, _Cantp_RxIndToRxChannel, haddr, t1',
        CANTP_FRAME_TYPE_FC, gs_RxProcessList]
    obtain ⟨_, q1, q2, _⟩ := h3 .rx1 hf hn n0 n1 n2
    rw [e]
    refine ⟨q1, q2, ?_, ?_⟩
    · simp only [_Cantp_ReceiveSF, chn_rx1, hf, or_true, if_true, hn, n0, ne_eq,
        not_false_eq_true, n1, n2, and_self]
      split_ifs <;> simp [Diag_RxIndication]
    · simp only [_Cantp_ReceiveSF, chn_rx1, hf, or_true, if_true, hn, n0, ne_eq,
        not_false_eq_true, n1, n2, and_self]
      split_ifs <;> simp [Diag_RxIndication]

theorem C19_half_duplex_reception_witness :
    (∀ r : ChnRef, (classicRecvFC.chn r).chnCfg.taType ≠ CANTP_TATYPE_FUNCTIONAL →
        _Cantp_ReceiveSF classicBuild r 8 [0x03, 0x22, 0xF1, 0x90, 0, 0, 0, 0] classicRecvFC
          = (ERR_ERROR, classicRecvFC))
    ∧ Cantp_RxIndication classicBuild (envOf []) 0x7E0 8 [0x03, 0x22, 0xF1, 0x90, 0, 0, 0, 0]
        classicRecvFC = classicRecvFC
    ∧ (Cantp_RxIndication classicBuild (envOf []) 0x7DF 8 [0x03, 0x22, 0xF1, 0x90, 0, 0, 0, 0]
        classicRecvFC).rx1.status = CANTP_STATUS_RECEIVING_SF
    ∧ (Cantp_RxIndication classicBuild (envOf []) 0x7DF 8 [0x03, 0x22, 0xF1, 0x90, 0, 0, 0, 0]
        classicRecvFC).rx1.lastSize = 3 :=
  ⟨(C19_half_duplex_reception classicBuild (envOf []) classicRecvFC 0x7E0 8 3
      [0x03, 0x22, 0xF1, 0x90, 0, 0, 0, 0] (by decide)).1,
   (C19_half_duplex_reception classicBuild (envOf []) classicRecvFC 0x7E0 8 3
      [0x03, 0x22, 0xF1, 0x90, 0, 0, 0, 0] (by decide)).2.1 (by decide) (by decide) (by decide)
      (by decide),
   ((C19_half_duplex_reception classicBuild (envOf []) classicRecvFC 0x7DF 8 3
      [0x03, 0x22, 0xF1, 0x90, 0, 0, 0, 0] (by decide)).2.2.2 (by decide) (by decide) (by decide)
      (by decide) (by decide) (by decide) (by decide) (by decide) (by decide) (by decide)
      (by decide)).1,
   ((C19_half_duplex_reception classicBuild (envOf []) classicRecvFC 0x7DF 8 3
      [0x03, 0x22, 0xF1, 0x90, 0, 0, 0, 0] (by decide)).2.2.2 (by decide) (by decide) (by decide)
      (by decide) (by decide) (by decide) (by decide) (by decide) (by decide) (by decide)
      (by decide)).2.1⟩

/-- C20 (evaluation at the failing input): on the classical build, while the
physical Rx channel `gs_CanTpRxChannel[0]` is in RecvCF (a First Frame announcing
10 bytes was accepted and answered), `Cantp_Transmit(0, 3)` returns `ERR_OK` and
puts the Tx channel in TranSF, and the next tick hands the Single Frame to the
driver while the reception is still in progress; `Cantp_Transmit(0, 20)` likewise
returns `ERR_OK` and puts the Tx channel in TranFF. -/
theorem C20_transmit_starts_during_reception :
    classicRecvCF.rx0.status = CANTP_STATUS_RECEIVING_CF
    ∧ classicRecvCF.tx0.status = CANTP_STATUS_IDLE
    ∧ (Cantp_Transmit 0 3 classicRecvCF).1 = ERR_OK
    ∧ (Cantp_Transmit 0 3 classicRecvCF).2.tx0.status = CANTP_STATUS_TRANSMITTING_SF
    ∧ (Cantp_Transmit 0 20 classicRecvCF).1 = ERR_OK
    ∧ (Cantp_Transmit 0 20 classicRecvCF).2.tx0.status = CANTP_STATUS_TRANSMITTING_FF
    ∧ (run classicBuild (envOf [0x62, 0xF1, 0x90]) classicRecvCF [.transmit 0 3, .tick]).trace
        = classicRecvCF.trace
            ++ [Call.Diag_CopyTxData 3,
                Call.FblCanSendData [0x03, 0x62, 0xF1, 0x90, 0xAA, 0xAA, 0xAA, 0xAA] 0x7E8 8,
                Call.Diag_TxConfirmation ERR_OK]
    ∧ (run classicBuild (envOf [0x62, 0xF1, 0x90]) classicRecvCF
        [.transmit 0 3, .tick]).rx0.status = CANTP_STATUS_RECEIVING_CF := by
  decide


/-! ## C18: terminal flow status -/

/-- An Idle Tx channel stays Idle over ticks, whatever the Rx channels do. -/
theorem tx_stays_idle (K : FblConfig) (E : Env) (n : Nat) :
    ∀ w : World, w.tx0.status = CANTP_STATUS_IDLE →
      (ticks K E n w).tx0.status = CANTP_STATUS_IDLE := by
  induction n with
  | zero => intro w h; exact h
  | succ n ih =>
    intro w h
    rw [ticks_succ]
    apply ih
    have f1 := periodChannel_rx_frame K E w .rx0 .tx0 (by decide)
    have f2 := periodChannel_rx_frame K E (periodChannel (gs_RxPeriodList K E) w .rx0) .rx1 .tx0
      (by decide)
    simp only [chn_tx0] at f1 f2
    rw [tick_eq, periodChannel_idle_tx K E _ .tx0 (by simp only [chn_tx0, f2, f1]; exact h)]
    simp only [upd_tx0_tx0, f2, f1, decTimer_status]
    exact h

/-- With all three channels Idle, ticks make no call. -/
theorem idle_ticks (K : FblConfig) (E : Env) (n : Nat) :
    ∀ (w : World) (c : bl_CanTpChannel_t) (tr : List Call), TxAt w c tr →
      c.status = CANTP_STATUS_IDLE → (ticks K E n w).trace = tr := by
  induction n with
  | zero => intro w c tr h _; exact h.2.1
  | succ n ih =>
    intro w c tr h hs
    rw [ticks_succ]
    exact ih _ _ _ (tx_idle K E w c tr h hs) hs

/-- C18: a Tx channel in RecvFC (physical Rx channel Idle) receives a Flow Control
frame addressed to it whose FS nibble `fs` is at least 2.  Then exactly one call
is made, `Diag_TxConfirmation(OVERFLOW)` for `fs = 2` and
`Diag_TxConfirmation(ERROR)` for `fs` in `3..15`; the channel is Idle with
subStatus Idle and timer 0; the Rx channels are untouched; the Tx channel stays
Idle over any number of ticks, and if the functional Rx channel is Idle too no
further call at all is made (so no Consecutive Frame is sent). -/
theorem C18_terminal_flow_status (K : FblConfig) (E : Env) (w : World) (id size fs : Nat)
    (buf : List Nat)
    (hs : w.tx0.status = CANTP_STATUS_RECEIVING_FC)
    (h0 : w.rx0.status = CANTP_STATUS_IDLE)
    (hsz : size ≤ CANTP_MAX_FRAME_SIZE K)
    (hid : w.tx0.chnCfg.rxId = id)
    (haddr : w.tx0.chnCfg.type = CANTP_TYPE_STANDARD ∨ w.tx0.chnCfg.ta = rd buf CANTP_TA_OFFSET)
    (hty : CANTP_GET_FRAME_TYPE w.tx0.pciInfo buf = CANTP_FRAME_TYPE_FC)
    (hfs : CANTP_GET_FC_FS w.tx0.pciInfo buf = fs) (h2 : 2 ≤ fs) :
    fs ≤ 15
    ∧ (Cantp_RxIndication K E id size buf w).trace
        = w.trace ++ [Call.Diag_TxConfirmation
            (if fs = CANTP_FC_FRAME_OVERFLOW then ERR_OVERFLOW else ERR_ERROR)]
    ∧ (Cantp_RxIndication K E id size buf w).tx0 = _Cantp_GotoIdle w.tx0
    ∧ (Cantp_RxIndication K E id size buf w).tx0.status = CANTP_STATUS_IDLE
    ∧ (Cantp_RxIndication K E id size buf w).tx0.subStatus = CANTP_SUB_STATUS_IDLE
    ∧ (Cantp_RxIndication K E id size buf w).tx0.timer = 0
    ∧ (Cantp_RxIndication K E id size buf w).rx0 = w.rx0
    ∧ (Cantp_RxIndication K E id size buf w).rx1 = w.rx1
    ∧ (∀ n, (ticks K E n (Cantp_RxIndication K E id size buf w)).tx0.status = CANTP_STATUS_IDLE)
    ∧ (w.rx1.status = CANTP_STATUS_IDLE →
        ∀ n, (ticks K E n (Cantp_RxIndication K E id size buf w)).trace
          = (Cantp_RxIndication K E id size buf w).trace) := by
  have hl : _Cantp_GetChannelByRxId w id gs_CanTpTxChannel = some .tx0 := by
    simp [_Cantp_GetChannelByRxId, gs_CanTpTxChannel, List.find?, hid]
  have hty' : CANTP_GET_FRAME_TYPE w.tx0.pciInfo buf = 3 := hty
  have hs' : w.tx0.status = 4 := hs
  have f0 : ¬ fs = 0 := by omega
  have f1 : ¬ fs = 1 := by omega
  have hle : fs ≤ 15 := by
    rw [← hfs]
    simp only [CANTP_GET_FC_FS, GET_LOW_HALF_eq]
    omega
  have e : Cantp_RxIndication K E id size buf w
      = (Diag_TxConfirmation (if fs = CANTP_FC_FRAME_OVERFLOW then ERR_OVERFLOW else ERR_ERROR)
          w).upd .tx0 _Cantp_GotoIdle := by
    by_cases f2 : fs = 2
    · simp [Cantp_RxIndication, hsz, hl, _Cantp_RxIndToTxChannel, haddr, hty',
        CANTP_FRAME_TYPE_FC, gs_RxProcessList, _Cantp_ReceiveFC, h0, hs',
        CANTP_STATUS_RECEIVING_FC, hfs, f2, CANTP_FC_FRAME_CTS, CANTP_FC_FRAME_WAIT,
        CANTP_FC_FRAME_OVERFLOW]
    · simp [Cantp_RxIndication, hsz, hl, _Cantp_RxIndToTxChannel, haddr, hty',
        CANTP_FRAME_TYPE_FC, gs_RxProcessList, _Cantp_ReceiveFC, h0, hs',
        CANTP_STATUS_RECEIVING_FC, hfs, f0, f1, f2, CANTP_FC_FRAME_CTS, CANTP_FC_FRAME_WAIT,
        CANTP_FC_FRAME_OVERFLOW]
  have hidle : (Cantp_RxIndication K E id size buf w).tx0.status = CANTP_STATUS_IDLE := by
    rw [e]; simp [Diag_TxConfirmation, _Cantp_GotoIdle]
  refine ⟨hle, ?_, ?_, hidle, ?_, ?_, ?_, ?_, ?_, ?_⟩
  · rw [e]; simp [Diag_TxConfirmation]
  · rw [e]; simp [Diag_TxConfirmation]
  · rw [e]; simp [Diag_TxConfirmation, _Cantp_GotoIdle]
  · rw [e]; simp [Diag_TxConfirmation, _Cantp_GotoIdle]
  · rw [e]; simp [Diag_TxConfirmation]
  · rw [e]; simp [Diag_TxConfirmation]
  · intro n
    exact tx_stays_idle K E n _ hidle
  · intro h1 n
    refine idle_ticks K E n _ _ _ ⟨rfl, rfl, ?_, ?_⟩ hidle
    · rw [e]; simpa [Diag_TxConfirmation] using h0
    · rw [e]; simpa [Diag_TxConfirmation] using h1

set_option maxRecDepth 100000 in
theorem C18_terminal_flow_status_witness :
    (2 : Nat) ≤ 15
    ∧ (Cantp_RxIndication classicBuild (envOf []) 0x7E0 8
          [0x32, 0, 0, 0xAA, 0xAA, 0xAA, 0xAA, 0xAA] classicRecvFC200).trace
        = classicRecvFC200.trace ++ [Call.Diag_TxConfirmation ERR_OVERFLOW]
    ∧ (Cantp_RxIndication classicBuild (envOf []) 0x7E0 8
          [0x32, 0, 0, 0xAA, 0xAA, 0xAA, 0xAA, 0xAA] classicRecvFC200).tx0
        = _Cantp_GotoIdle classicRecvFC200.tx0
    ∧ (Cantp_RxIndication classicBuild (envOf []) 0x7E0 8
          [0x32, 0, 0, 0xAA, 0xAA, 0xAA, 0xAA, 0xAA] classicRecvFC200).tx0.status
        = CANTP_STATUS_IDLE
    ∧ (Cantp_RxIndication classicBuild (envOf []) 0x7E0 8
          [0x32, 0, 0, 0xAA, 0xAA, 0xAA, 0xAA, 0xAA] classicRecvFC200).tx0.subStatus
        = CANTP_SUB_STATUS_IDLE
    ∧ (Cantp_RxIndication classicBuild (envOf []) 0x7E0 8
          [0x32, 0, 0, 0xAA, 0xAA, 0xAA, 0xAA, 0xAA] classicRecvFC200).tx0.timer = 0
    ∧ (Cantp_RxIndication classicBuild (envOf []) 0x7E0 8
          [0x32, 0, 0, 0xAA, 0xAA, 0xAA, 0xAA, 0xAA] classicRecvFC200).rx0 = classicRecvFC200.rx0
    ∧ (Cantp_RxIndication classicBuild (envOf []) 0x7E0 8
          [0x32, 0, 0, 0xAA, 0xAA, 0xAA, 0xAA, 0xAA] classicRecvFC200).rx1 = classicRecvFC200.rx1
    ∧ (∀ n, (ticks classicBuild (envOf []) n (Cantp_RxIndication classicBuild (envOf []) 0x7E0 8
          [0x32, 0, 0, 0xAA, 0xAA, 0xAA, 0xAA, 0xAA] classicRecvFC200)).tx0.status
        = CANTP_STATUS_IDLE)
    ∧ (classicRecvFC200.rx1.status = CANTP_STATUS_IDLE →
        ∀ n, (ticks classicBuild (envOf []) n (Cantp_RxIndication classicBuild (envOf []) 0x7E0 8
          [0x32, 0, 0, 0xAA, 0xAA, 0xAA, 0xAA, 0xAA] classicRecvFC200)).trace
          = (Cantp_RxIndication classicBuild (envOf []) 0x7E0 8
          [0x32, 0, 0, 0xAA, 0xAA, 0xAA, 0xAA, 0xAA] classicRecvFC200).trace) :=
  C18_terminal_flow_status classicBuild (envOf []) classicRecvFC200 0x7E0 8 2
    [0x32, 0, 0, 0xAA, 0xAA, 0xAA, 0xAA, 0xAA] (by decide) (by decide) (by decide) (by decide)
    (by decide) (by decide) (by decide) (by decide)


/-! ## C15: reception of a Single Frame -/

theorem rd_drop (l : List Nat) (p i : Nat) : rd (l.drop p) i = rd l (p + i) := by
  simp [rd, List.getD_eq_getElem?_getD, List.getElem?_drop]

/-- The first `n` bytes of a buffer filled by `FblMemCpy(dst, src, n)`. -/
theorem take_FblMemCpy_rd (dst src : List Nat) (n : Nat) (h : n ≤ dst.length) :
    (FblMemCpy dst src n).take n = (List.range n).map fun i => rd src i := by
  apply List.ext_getElem?
  intro i
  by_cases hi : i < n
  · have hi2 : i < dst.length := by omega
    simp [List.getElem?_take, hi, FblMemCpy, List.getElem?_map, List.getElem?_range, hi2]
  · have hn : (List.range n)[i]? = none :=
      List.getElem?_eq_none (by simp only [List.length_range]; omega)
    simp [List.getElem?_take, hi, List.getElem?_map, hn]

/-- A channel found by identifier in `gs_CanTpRxChannel` is one of its two
elements. -/
theorem rx_lookup_cases (w : World) (id : Nat) (r : ChnRef)
    (h : _Cantp_GetChannelByRxId w id gs_CanTpRxChannel = some r) : r = .rx0 ∨ r = .rx1 := by
  simp only [_Cantp_GetChannelByRxId, gs_CanTpRxChannel, List.find?] at h
  split at h
  · left; exact (Option.some.inj h).symm
  · split at h
    · right; exact (Option.some.inj h).symm
    · cases h

/-- RecvSF, timer running, Diag grants the buffer and takes the bytes: the three
Diag calls are made and the channel goes Idle. -/
theorem periodChannel_recvSF (K : FblConfig) (E : Env) (w : World) (r : ChnRef)
    (hsor : ∀ t n, E.Diag_StartOfReception t n = ERR_OK)
    (hcopy : ∀ t n b, E.Diag_CopyRxData t n b = ERR_OK)
    (hs : (w.chn r).status = CANTP_STATUS_RECEIVING_SF) (ht : (w.chn r).timer ≠ 0) :
    (periodChannel (gs_RxPeriodList K E) w r).chn r = _Cantp_GotoIdle (decTimer (w.chn r))
    ∧ (periodChannel (gs_RxPeriodList K E) w r).trace
        = w.trace ++ [Call.Diag_StartOfReception (w.chn r).lastSize,
            Call.Diag_CopyRxData (w.chn r).lastSize ((w.chn r).frame.take (w.chn r).lastSize),
            Call.Diag_RxIndication (w.chn r).taType ERR_OK] := by
  have hs' : (w.chn r).status = 1 := hs
  constructor <;>
    simp [periodChannel, ht, hs', gs_RxPeriodList, _Cantp_PeriodRecvSF, Diag_StartOfReception,
      Diag_CopyRxData, Diag_RxIndication, hsor, hcopy, decTimer]

/-- Acceptance of a classical Single Frame by an Rx channel while every channel is
Idle. -/
theorem rxInd_SF (K : FblConfig) (E : Env) (w : World) (r : ChnRef) (id size n : Nat)
    (buf : List Nat)
    (hr : _Cantp_GetChannelByRxId w id gs_CanTpRxChannel = some r)
    (hidle : (w.chn r).status = CANTP_STATUS_IDLE) (h2 : w.tx0.status = CANTP_STATUS_IDLE)
    (haddr : (w.chn r).chnCfg.type = CANTP_TYPE_STANDARD
      ∨ (w.chn r).chnCfg.ta = rd buf CANTP_TA_OFFSET)
    (hsize : size ≤ 8)
    (hty : CANTP_GET_FRAME_TYPE (w.chn r).pciInfo buf = CANTP_FRAME_TYPE_SF)
    (hn : CANTP_GET_SF_DATASIZE (rd buf (w.chn r).pciInfo.pciPos) = n)
    (hn1 : 1 ≤ n) (hn2 : n ≤ (w.chn r).pciInfo.maxDataSize) (hn3 : n < size) :
    Cantp_RxIndication K E id size buf w
      = w.upd r fun c =>
          { c with
            frame := FblMemCpy c.frame (buf.drop (w.chn r).pciInfo.dataPos) n
            lastSize := n
            status := CANTP_STATUS_RECEIVING_SF
            timer := c.chnCfg.timerB } := by
  have hsz : size ≤ CANTP_MAX_FRAME_SIZE K := le_trans hsize (max_frame_size_ge K)
  have hty' : CANTP_GET_FRAME_TYPE (w.chn r).pciInfo buf = 0 := hty
  have h2' : w.tx0.status = 0 := h2
  have hidle' : (w.chn r).status = 0 := hidle
  have hn0 : ¬ n = 0 := by omega
  have hn8 : ¬ 8 ≤ n := by omega
  have hsf : sfDataSize K (w.chn r).pciInfo size buf = some n := by
    simp only [sfDataSize, hsize, if_true, hn]
    split_ifs <;> rfl
  simp [Cantp_RxIndication, hsz, rxIndToTx_idle K E w id size buf h2, hr,
    _Cantp_RxIndToRxChannel, haddr, hty', CANTP_FRAME_TYPE_FC, gs_RxProcessList,
    _Cantp_ReceiveSF, h2', CANTP_STATUS_IDLE, hsf, hn0, hn2, hn3, CANTP_IS_GETTING_BUFFER,
    hidle', CANTP_STATUS_RECEIVING_FF, hn8]

/-- C15: every channel being Idle, a classical Single Frame (at most 8 bytes) with
length nibble `n`, `1 <= n <= maxDataSize`, `n < size`, is delivered by
`Cantp_RxIndication` to the Rx channel `r` found for its identifier (`timerB >= 1`);
the delivery itself makes no call and leaves the channel in RecvSF; one tick in
which `Diag_StartOfReception` and `Diag_CopyRxData` answer OK then makes exactly
the calls `Diag_StartOfReception(n)`, `Diag_CopyRxData(n, buffer[dataPos ..
dataPos+n))`, `Diag_RxIndication(taType, OK)`, in that order, and the channel is
Idle afterwards with timer 0. -/
theorem C15_single_frame_reception (K : FblConfig) (E : Env) (w : World) (r : ChnRef)
    (id size n : Nat) (buf : List Nat)
    (hsor : ∀ t n, E.Diag_StartOfReception t n = ERR_OK)
    (hcopy : ∀ t n b, E.Diag_CopyRxData t n b = ERR_OK)
    (hr : _Cantp_GetChannelByRxId w id gs_CanTpRxChannel = some r)
    (h0 : w.rx0.status = CANTP_STATUS_IDLE) (h1 : w.rx1.status = CANTP_STATUS_IDLE)
    (h2 : w.tx0.status = CANTP_STATUS_IDLE)
    (hlen : (w.chn r).frame.length = CANTP_MAX_FRAME_SIZE K)
    (haddr : (w.chn r).chnCfg.type = CANTP_TYPE_STANDARD
      ∨ (w.chn r).chnCfg.ta = rd buf CANTP_TA_OFFSET)
    (hsize : size ≤ 8)
    (hty : CANTP_GET_FRAME_TYPE (w.chn r).pciInfo buf = CANTP_FRAME_TYPE_SF)
    (hn : CANTP_GET_SF_DATASIZE (rd buf (w.chn r).pciInfo.pciPos) = n)
    (hn1 : 1 ≤ n) (hn2 : n ≤ (w.chn r).pciInfo.maxDataSize) (hn3 : n < size)
    (hB : 1 ≤ (w.chn r).chnCfg.timerB) :
    (Cantp_RxIndication K E id size buf w).trace = w.trace
    ∧ ((Cantp_RxIndication K E id size buf w).chn r).status = CANTP_STATUS_RECEIVING_SF
    ∧ (Cantp_PeriodFunction K E (Cantp_RxIndication K E id size buf w)).trace
        = w.trace ++ [Call.Diag_StartOfReception n,
            Call.Diag_CopyRxData n
              ((List.range n).map fun i => rd buf ((w.chn r).pciInfo.dataPos + i)),
            Call.Diag_RxIndication (w.chn r).taType ERR_OK]
    ∧ ((Cantp_PeriodFunction K E (Cantp_RxIndication K E id size buf w)).chn r).status
        = CANTP_STATUS_IDLE
    ∧ ((Cantp_PeriodFunction K E (Cantp_RxIndication K E id size buf w)).chn r).timer = 0 := by
  have hidle : (w.chn r).status = CANTP_STATUS_IDLE := by
    rcases rx_lookup_cases w id r hr with rfl | rfl
    · exact h0
    · exact h1
  have e := rxInd_SF K E w r id size n buf hr hidle h2 haddr hsize hty hn hn1 hn2 hn3
  have h8 := max_frame_size_ge K
  have hbytes : (FblMemCpy (w.chn r).frame (buf.drop (w.chn r).pciInfo.dataPos) n).take n
      = (List.range n).map fun i => rd buf ((w.chn r).pciInfo.dataPos + i) := by
    rw [take_FblMemCpy_rd _ _ _ (by omega)]
    simp only [rd_drop]
  have hB' : (w.chn r).chnCfg.timerB ≠ 0 := by omega
  rw [e]
  refine ⟨by simp, by simp, ?_⟩
  rcases rx_lookup_cases w id r hr with rfl | rfl
  · have p := periodChannel_recvSF K E
      (w.upd .rx0 fun c =>
          { c with
            frame := FblMemCpy c.frame (buf.drop (w.chn .rx0).pciInfo.dataPos) n
            lastSize := n
            status := CANTP_STATUS_RECEIVING_SF
            timer := c.chnCfg.timerB }) .rx0 hsor hcopy (by simp) (by simpa using hB')
    rw [tick_rx0 K E _ (by simpa using h1) (by simpa using h2)]
    simp only [chn_rx0, upd_rx0_rx0] at p hbytes
    obtain ⟨p1, p2⟩ := p
    refine ⟨?_, ?_, ?_⟩
    · simp only [trace_upd, p2, hbytes, chn_rx0]
    · simp only [chn_rx0, upd_tx0_rx0, upd_rx1_rx0, p1]
      rfl
    · simp only [chn_rx0, upd_tx0_rx0, upd_rx1_rx0, p1]
      rfl
  · have p := periodChannel_recvSF K E
      ((w.upd .rx1 fun c =>
          { c with
            frame := FblMemCpy c.frame (buf.drop (w.chn .rx1).pciInfo.dataPos) n
            lastSize := n
            status := CANTP_STATUS_RECEIVING_SF
            timer := c.chnCfg.timerB }).upd .rx0 decTimer) .rx1 hsor hcopy (by simp)
      (by simpa using hB')
    have f2 := periodChannel_rx_frame K E
      ((w.upd .rx1 fun c =>
          { c with
            frame := FblMemCpy c.frame (buf.drop (w.chn .rx1).pciInfo.dataPos) n
            lastSize := n
            status := CANTP_STATUS_RECEIVING_SF
            timer := c.chnCfg.timerB }).upd .rx0 decTimer) .rx1 .tx0 (by decide)
    simp only [chn_tx0, upd_rx0_tx0, upd_rx1_tx0] at f2
    rw [tick_eq, periodChannel_idle_rx K E _ .rx0 (by simpa using h0),
      periodChannel_idle_tx K E _ .tx0 (by simp only [chn_tx0, f2]; exact h2)]
    simp only [chn_rx1, upd_rx0_rx1, upd_rx1_rx1, trace_upd] at p hbytes
    obtain ⟨p1, p2⟩ := p
    refine ⟨?_, ?_, ?_⟩
    · simp only [trace_upd, p2, hbytes, chn_rx1]
    · simp only [chn_rx1, upd_tx0_rx1, p1]
      rfl
    · simp only [chn_rx1, upd_tx0_rx1, p1]
      rfl

theorem C15_single_frame_reception_witness :
    (Cantp_RxIndication classicBuild (envOf []) 0x7E0 8 [0x03, 0x22, 0xF1, 0x90, 0, 0, 0, 0]
        classicInit).trace = classicInit.trace
    ∧ ((Cantp_RxIndication classicBuild (envOf []) 0x7E0 8 [0x03, 0x22, 0xF1, 0x90, 0, 0, 0, 0]
        classicInit).chn .rx0).status = CANTP_STATUS_RECEIVING_SF
    ∧ (Cantp_PeriodFunction classicBuild (envOf [])
        (Cantp_RxIndication classicBuild (envOf []) 0x7E0 8 [0x03, 0x22, 0xF1, 0x90, 0, 0, 0, 0]
          classicInit)).trace
        = classicInit.trace ++ [Call.Diag_StartOfReception 3,
            Call.Diag_CopyRxData 3 [0x22, 0xF1, 0x90],
            Call.Diag_RxIndication CANTP_TATYPE_PHYSICAL ERR_OK]
    ∧ ((Cantp_PeriodFunction classicBuild (envOf [])
        (Cantp_RxIndication classicBuild (envOf []) 0x7E0 8 [0x03, 0x22, 0xF1, 0x90, 0, 0, 0, 0]
          classicInit)).chn .rx0).status = CANTP_STATUS_IDLE
    ∧ ((Cantp_PeriodFunction classicBuild (envOf [])
        (Cantp_RxIndication classicBuild (envOf []) 0x7E0 8 [0x03, 0x22, 0xF1, 0x90, 0, 0, 0, 0]
          classicInit)).chn .rx0).timer = 0 :=
  C15_single_frame_reception classicBuild (envOf []) classicInit .rx0 0x7E0 8 3
    [0x03, 0x22, 0xF1, 0x90, 0, 0, 0, 0] (fun _ _ => rfl) (fun _ _ _ => rfl) (by decide)
    (by decide) (by decide) (by decide) (by decide) (by decide) (by decide) (by decide)
    (by decide) (by decide) (by decide) (by decide) (by decide)


/-! ## C11: the separation time on the transmit side -/

/-- TranCF, watchdog running, separation delay elapsed with this tick: one
Consecutive Frame is handed to the driver; accepted, it is confirmed at once;
refused, it stays staged. -/
theorem tx_tranCF_try (K : FblConfig) (E : Env) (w : World) (c : bl_CanTpChannel_t)
    (tr : List Call) (h : TxAt w c tr)
    (hs : c.status = CANTP_STATUS_TRANSMITTING_CF) (ht : c.timer ≠ 0)
    (hsub : c.subStatus = CANTP_SUB_STATUS_IDLE) (hd : c.txDelay ≤ 1) :
    (E.FblCanSendData tr ((cfFrame K c).take (CANTP_MAX_FRAME_SIZE K)) c.chnCfg.txId
        (CANTP_MAX_FRAME_SIZE K) = ERR_OK →
      TxAt (Cantp_PeriodFunction K E w) (afterCF K c)
        (tr ++ Call.FblCanSendData ((cfFrame K c).take (CANTP_MAX_FRAME_SIZE K)) c.chnCfg.txId
                  (CANTP_MAX_FRAME_SIZE K)
              :: (if UINT16 (c.cfCnt + 65535) = 0 then [Call.Diag_TxConfirmation ERR_OK]
                  else [])))
    ∧ (E.FblCanSendData tr ((cfFrame K c).take (CANTP_MAX_FRAME_SIZE K)) c.chnCfg.txId
        (CANTP_MAX_FRAME_SIZE K) ≠ ERR_OK →
      TxAt (Cantp_PeriodFunction K E w) (refusedCF K c)
        (tr ++ [Call.FblCanSendData ((cfFrame K c).take (CANTP_MAX_FRAME_SIZE K)) c.chnCfg.txId
                  (CANTP_MAX_FRAME_SIZE K)])) := by
  have key := tick_TxAt K E w c tr h
  obtain ⟨rfl, rfl, _, _⟩ := h
  have hs' : w.tx0.status = 3 := hs
  have hsub' : w.tx0.subStatus = 0 := hsub
  have hd1 : w.tx0.txDelay - 1 = 0 := by omega
  have hbs : w.tx0.bs = 0 ∨ w.tx0.bs = 1
      ∨ (w.tx0.bs ≠ 0 ∧ w.tx0.bs ≠ 1 ∧ w.tx0.bs - 1 ≠ 0) := by omega
  constructor
  · intro hok
    have e1 : (periodChannel (gs_TxPeriodList K E)
        ((w.upd .rx0 decTimer).upd .rx1 decTimer) .tx0).tx0 = afterCF K w.tx0 := by
      by_cases hz : w.tx0.txDelay = 0 <;> by_cases hc : UINT16 (w.tx0.cfCnt + 65535) = 0 <;>
        rcases hbs with hb | hb | ⟨hb, hb1, hb2⟩ <;>
        simp [periodChannel, ht, hs', gs_TxPeriodList, _Cantp_PeriodTranCF, hsub', decTimer, hd1,
          hz, hc, hb, CANTP_SUB_STATUS_IDLE, _Cantp_TransmitCF, FblCanSendData,
          afterSend, Cantp_TxConfirmation, gs_TxConfirmList, _Cantp_TxConfirmCF, afterCF, cfFrame,
          _Cantp_MakePciOfCF, putTa, Diag_TxConfirmation, _Cantp_GotoIdle,
          CANTP_STATUS_TRANSMITTING_CF, CANTP_STATUS_RECEIVING_FC, CANTP_STATUS_IDLE, *] at hok ⊢ <;>
        simp [hok, hc, hb, afterSend, Cantp_TxConfirmation, gs_TxConfirmList, _Cantp_TxConfirmCF,
          Diag_TxConfirmation, _Cantp_GotoIdle, _Cantp_MakePciOfCF, putTa, decTimer, hs', hsub',
          CANTP_SUB_STATUS_TRANSMITTING, CANTP_SUB_STATUS_IDLE,
          CANTP_STATUS_TRANSMITTING_CF, CANTP_STATUS_RECEIVING_FC, CANTP_STATUS_IDLE, *]
    have e2 : (periodChannel (gs_TxPeriodList K E)
        ((w.upd .rx0 decTimer).upd .rx1 decTimer) .tx0).trace
        = w.trace ++ Call.FblCanSendData ((cfFrame K w.tx0).take (CANTP_MAX_FRAME_SIZE K))
              w.tx0.chnCfg.txId (CANTP_MAX_FRAME_SIZE K)
            :: (if UINT16 (w.tx0.cfCnt + 65535) = 0 then [Call.Diag_TxConfirmation ERR_OK]
                else []) := by
      by_cases hz : w.tx0.txDelay = 0 <;> by_cases hc : UINT16 (w.tx0.cfCnt + 65535) = 0 <;>
        rcases hbs with hb | hb | ⟨hb, hb1, hb2⟩ <;>
        simp [periodChannel, ht, hs', gs_TxPeriodList, _Cantp_PeriodTranCF, hsub', decTimer, hd1,
          hz, hc, hb, CANTP_SUB_STATUS_IDLE, _Cantp_TransmitCF, FblCanSendData,
          afterSend, Cantp_TxConfirmation, gs_TxConfirmList, _Cantp_TxConfirmCF, cfFrame,
          _Cantp_MakePciOfCF, putTa, Diag_TxConfirmation, _Cantp_GotoIdle,
          CANTP_STATUS_TRANSMITTING_CF, CANTP_STATUS_RECEIVING_FC, CANTP_STATUS_IDLE, *] at hok ⊢ <;>
        simp [hok, hc, hb, afterSend, Cantp_TxConfirmation, gs_TxConfirmList, _Cantp_TxConfirmCF,
          Diag_TxConfirmation, _Cantp_GotoIdle, _Cantp_MakePciOfCF, putTa, decTimer, hs', hsub',
          CANTP_SUB_STATUS_TRANSMITTING, CANTP_SUB_STATUS_IDLE,
          CANTP_STATUS_TRANSMITTING_CF, CANTP_STATUS_RECEIVING_FC, CANTP_STATUS_IDLE, *]
    rw [e1, e2] at key
    exact key
  · intro hno
    have e1 : (periodChannel (gs_TxPeriodList K E)
        ((w.upd .rx0 decTimer).upd .rx1 decTimer) .tx0).tx0 = refusedCF K w.tx0 := by
      by_cases hz : w.tx0.txDelay = 0 <;>
        simp [periodChannel, ht, hs', gs_TxPeriodList, _Cantp_PeriodTranCF, hsub', decTimer, hd1,
          hz, CANTP_SUB_STATUS_IDLE, _Cantp_TransmitCF, FblCanSendData, refusedCF, cfFrame,
          _Cantp_MakePciOfCF, putTa, *] at hno ⊢ <;>
        simp [hno, _Cantp_MakePciOfCF, putTa, decTimer, hs', hsub', CANTP_SUB_STATUS_IDLE, *]
    have e2 : (periodChannel (gs_TxPeriodList K E)
        ((w.upd .rx0 decTimer).upd .rx1 decTimer) .tx0).trace
        = w.trace ++ [Call.FblCanSendData ((cfFrame K w.tx0).take (CANTP_MAX_FRAME_SIZE K))
              w.tx0.chnCfg.txId (CANTP_MAX_FRAME_SIZE K)] := by
      by_cases hz : w.tx0.txDelay = 0 <;>
        simp [periodChannel, ht, hs', gs_TxPeriodList, _Cantp_PeriodTranCF, hsub', decTimer, hd1,
          hz, CANTP_SUB_STATUS_IDLE, _Cantp_TransmitCF, FblCanSendData, cfFrame,
          _Cantp_MakePciOfCF, putTa, *] at hno ⊢ <;>
        simp [hno, _Cantp_MakePciOfCF, putTa, decTimer, hs', hsub', CANTP_SUB_STATUS_IDLE, *]
    rw [e1, e2] at key
    exact key


theorem ticks_succ_last (K : FblConfig) (E : Env) (n : Nat) (w : World) :
    ticks K E (n + 1) w = Cantp_PeriodFunction K E (ticks K E n w) := by
  rw [ticks_add]
  rfl

/-- While a Tx channel is Idle, waits for a Flow Control frame, or is in TranCF with
more than `n` ticks of separation delay left, `n` ticks hand nothing to the
driver, whatever the driver and the watchdog do. -/
theorem tx_armed_quiet (K : FblConfig) (E : Env) (n : Nat) :
    ∀ (w : World) (c : bl_CanTpChannel_t) (tr : List Call), TxAt w c tr →
      (c.status = CANTP_STATUS_IDLE ∨ c.status = CANTP_STATUS_RECEIVING_FC
        ∨ (c.status = CANTP_STATUS_TRANSMITTING_CF ∧ c.subStatus = CANTP_SUB_STATUS_IDLE
            ∧ n < c.txDelay)) →
      sentFrames (ticks K E n w).trace = sentFrames tr := by
  induction n with
  | zero =>
    intro w c tr h _
    rw [← h.2.1]
    rfl
  | succ n ih =>
    intro w c tr h hs
    rw [ticks_succ]
    rcases hs with hs | hs | ⟨hs, hsub, hd⟩
    · exact ih _ _ _ (tx_idle K E w c tr h hs) (Or.inl hs)
    · by_cases ht : c.timer = 0
      · rw [ih _ _ _ (tx_recvFC_timeout K E w c tr h hs ht) (Or.inl rfl), sentFrames_append]
        simp [sentFrames]
      · exact ih _ _ _ (tx_recvFC_wait K E w c tr h hs ht) (Or.inr (Or.inl hs))
    · by_cases ht : c.timer = 0
      · rw [ih _ _ _ (tx_tran_timeout K E w c tr h (Or.inr hs) ht) (Or.inl rfl),
          sentFrames_append]
        simp [sentFrames]
      · exact ih _ _ _ (tx_tranCF_delay K E w c tr h hs ht hsub (by omega))
          (Or.inr (Or.inr ⟨hs, hsub, by simp only; omega⟩))

/-- One tick of a paced Tx channel: it stays paced, and if the tick hands a frame
to the driver and the driver accepts it, a channel still in TranCF has its
separation delay reloaded with `st`. -/
theorem paced_tick (K : FblConfig) (E : Env) (st : Nat) (w : World) (c : bl_CanTpChannel_t)
    (tr : List Call) (h : TxAt w c tr) (hp : Paced st c) :
    ∃ (c' : bl_CanTpChannel_t) (tr' : List Call),
      TxAt (Cantp_PeriodFunction K E w) c' tr' ∧ Paced st c'
      ∧ ∀ (f : List Nat) (i l : Nat) (rest : List Call),
          tr' = tr ++ Call.FblCanSendData f i l :: rest →
          E.FblCanSendData tr f i l = ERR_OK →
          c'.status = CANTP_STATUS_TRANSMITTING_CF → c'.txDelay = st := by
  have no_call : ∀ (f : List Nat) (i l : Nat) (rest : List Call),
      ¬ tr = tr ++ Call.FblCanSendData f i l :: rest := by
    intro f i l rest e
    have := congrArg List.length e
    simp at this
  rcases hp with hs | hs | ⟨hs, hsub, hst⟩
  · exact ⟨decTimer c, tr, tx_idle K E w c tr h hs, Or.inl hs,
      fun f i l rest e => absurd e (no_call f i l rest)⟩
  · by_cases ht : c.timer = 0
    · refine ⟨_Cantp_GotoIdle c, _, tx_recvFC_timeout K E w c tr h hs ht, Or.inl rfl, ?_⟩
      intro f i l rest _ _ h3
      cases h3
    · exact ⟨decTimer c, tr, tx_recvFC_wait K E w c tr h hs ht, Or.inr (Or.inl hs),
        fun f i l rest e => absurd e (no_call f i l rest)⟩
  · by_cases ht : c.timer = 0
    · refine ⟨_Cantp_GotoIdle c, _, tx_tran_timeout K E w c tr h (Or.inr hs) ht, Or.inl rfl, ?_⟩
      intro f i l rest _ _ h3
      cases h3
    · by_cases hd : 2 ≤ c.txDelay
      · exact ⟨{ c with timer := c.timer - 1, txDelay := c.txDelay - 1 }, tr,
          tx_tranCF_delay K E w c tr h hs ht hsub hd, Or.inr (Or.inr ⟨hs, hsub, hst⟩),
          fun f i l rest e => absurd e (no_call f i l rest)⟩
      · obtain ⟨acc, ref⟩ := tx_tranCF_try K E w c tr h hs ht hsub (by omega)
        by_cases hok : E.FblCanSendData tr ((cfFrame K c).take (CANTP_MAX_FRAME_SIZE K))
            c.chnCfg.txId (CANTP_MAX_FRAME_SIZE K) = ERR_OK
        · refine ⟨afterCF K c, _, acc hok, ?_, ?_⟩
          · by_cases hc : UINT16 (c.cfCnt + 65535) = 0
            · left; simp [afterCF, hc]
            · by_cases hb : c.bs = 1
              · right; left; simp [afterCF, hc, hb]
              · right; right
                refine ⟨by simp [afterCF, hc, hb], by simp [afterCF], ?_⟩
                simp only [afterCF]
                exact hst
          · intro f i l rest _ _ h3
            by_cases hc : UINT16 (c.cfCnt + 65535) = 0
            · simp [afterCF, hc, CANTP_STATUS_IDLE, CANTP_STATUS_TRANSMITTING_CF] at h3
            · by_cases hb : c.bs = 1
              · simp [afterCF, hc, hb, CANTP_STATUS_RECEIVING_FC,
                  CANTP_STATUS_TRANSMITTING_CF] at h3
              · simp [afterCF, hc, hb, hst]
        · refine ⟨refusedCF K c, _, ref hok, Or.inr (Or.inr ⟨hs, hsub, hst⟩), ?_⟩
          intro f i l rest e hacc _
          have e' := List.append_cancel_left e
          simp only [List.cons.injEq, Call.FblCanSendData.injEq] at e'
          obtain ⟨⟨e1, e2, e3⟩, _⟩ := e'
          rw [← e1, ← e2, ← e3] at hacc
          exact absurd hacc hok

/-- Ticks keep a paced Tx channel paced. -/
theorem paced_ticks (K : FblConfig) (E : Env) (st : Nat) (n : Nat) :
    ∀ (w : World) (c : bl_CanTpChannel_t) (tr : List Call), TxAt w c tr → Paced st c →
      ∃ (c' : bl_CanTpChannel_t) (tr' : List Call), TxAt (ticks K E n w) c' tr' ∧ Paced st c' := by
  induction n with
  | zero => intro w c tr h hp; exact ⟨c, tr, h, hp⟩
  | succ n ih =>
    intro w c tr h hp
    obtain ⟨c', tr', h', hp', _⟩ := paced_tick K E st w c tr h hp
    rw [ticks_succ]
    exact ih _ _ _ h' hp'

/-- C11: a Tx channel in RecvFC (both Rx channels Idle) receives FC/CTS with
STmin byte `s`; let `st = _Cantp_GetSTMinFromFC(s)`.  Whatever the driver answers
and with no further frame received: (a) the first `st - 1` ticks after the
reception hand nothing to the driver, so the first Consecutive Frame is handed no
earlier than the `st`-th tick; (b) whenever a tick hands a frame to the driver and
the driver accepts it, the next `st - 1` ticks hand nothing to the driver, so the
next Consecutive Frame is handed no earlier than `st` ticks after the accepted
one. -/
theorem C11_separation_time (K : FblConfig) (E : Env) (w : World) (c : bl_CanTpChannel_t)
    (tr : List Call) (id size : Nat) (buf : List Nat) (h : TxAt w c tr)
    (hs : c.status = CANTP_STATUS_RECEIVING_FC)
    (hsz : size ≤ CANTP_MAX_FRAME_SIZE K)
    (hid : c.chnCfg.rxId = id)
    (haddr : c.chnCfg.type = CANTP_TYPE_STANDARD ∨ c.chnCfg.ta = rd buf CANTP_TA_OFFSET)
    (hty : CANTP_GET_FRAME_TYPE c.pciInfo buf = CANTP_FRAME_TYPE_FC)
    (hfs : CANTP_GET_FC_FS c.pciInfo buf = CANTP_FC_FRAME_CTS) :
    (∀ n, n < _Cantp_GetSTMinFromFC (CANTP_GET_FC_STMIN c.pciInfo buf) →
        sentFrames (ticks K E n (Cantp_RxIndication K E id size buf w)).trace = sentFrames tr)
    ∧ (∀ (i : Nat) (f : List Nat) (id' len : Nat) (rest : List Call),
        (ticks K E (i + 1) (Cantp_RxIndication K E id size buf w)).trace
          = (ticks K E i (Cantp_RxIndication K E id size buf w)).trace
              ++ Call.FblCanSendData f id' len :: rest →
        E.FblCanSendData (ticks K E i (Cantp_RxIndication K E id size buf w)).trace f id' len
          = ERR_OK →
        ∀ n, n < _Cantp_GetSTMinFromFC (CANTP_GET_FC_STMIN c.pciInfo buf) →
          sentFrames (ticks K E (i + 1 + n) (Cantp_RxIndication K E id size buf w)).trace
            = sentFrames (ticks K E (i + 1) (Cantp_RxIndication K E id size buf w)).trace) := by
  have s0 := rxInd_FC_cts K E w c tr id size buf h hsz hid haddr hs hty hfs
  have hp0 : Paced (_Cantp_GetSTMinFromFC (CANTP_GET_FC_STMIN c.pciInfo buf))
      (_Cantp_GotoTranCF K
        { c with
          bs := CANTP_GET_FC_BS c.pciInfo buf
          st := _Cantp_GetSTMinFromFC (CANTP_GET_FC_STMIN c.pciInfo buf) }) :=
    Or.inr (Or.inr ⟨rfl, rfl, rfl⟩)
  constructor
  · intro n hn
    exact tx_armed_quiet K E n _ _ _ s0 (Or.inr (Or.inr ⟨rfl, rfl, hn⟩))
  · intro i f id' len rest htr hacc n hn
    obtain ⟨ci, tri, hi, hpi⟩ := paced_ticks K E _ i _ _ _ s0 hp0
    obtain ⟨c', tr', h', hp', hre⟩ := paced_tick K E _ _ ci tri hi hpi
    rw [← ticks_succ_last] at h'
    rw [hi.2.1, h'.2.1] at htr
    rw [hi.2.1] at hacc
    have hre' := hre f id' len rest htr hacc
    rw [ticks_add, h'.2.1]
    refine tx_armed_quiet K E n _ _ _ h' ?_
    rcases hp' with q | q | ⟨q1, q2, _⟩
    · exact Or.inl q
    · exact Or.inr (Or.inl q)
    · exact Or.inr (Or.inr ⟨q1, q2, by rw [hre' q1]; exact hn⟩)


set_option maxRecDepth 100000 in
theorem C11_separation_time_witness :
    _Cantp_GetSTMinFromFC (CANTP_GET_FC_STMIN classicRecvFC.tx0.pciInfo
        [0x30, 0, 0x0A, 0xAA, 0xAA, 0xAA, 0xAA, 0xAA]) = 6
    ∧ sentFrames (ticks classicBuild (envOf []) 5
          (Cantp_RxIndication classicBuild (envOf []) 0x7E0 8
            [0x30, 0, 0x0A, 0xAA, 0xAA, 0xAA, 0xAA, 0xAA] classicRecvFC)).trace
        = sentFrames classicRecvFC.trace
    ∧ (ticks classicBuild (envOf []) (5 + 1)
          (Cantp_RxIndication classicBuild (envOf []) 0x7E0 8
            [0x30, 0, 0x0A, 0xAA, 0xAA, 0xAA, 0xAA, 0xAA] classicRecvFC)).trace
        = (ticks classicBuild (envOf []) 5
          (Cantp_RxIndication classicBuild (envOf []) 0x7E0 8
            [0x30, 0, 0x0A, 0xAA, 0xAA, 0xAA, 0xAA, 0xAA] classicRecvFC)).trace
            ++ Call.FblCanSendData [0x21, 20, 0, 0, 0, 0, 0, 0] 0x7E8 8 :: []
    ∧ sentFrames (ticks classicBuild (envOf []) (5 + 1 + 5)
          (Cantp_RxIndication classicBuild (envOf []) 0x7E0 8
            [0x30, 0, 0x0A, 0xAA, 0xAA, 0xAA, 0xAA, 0xAA] classicRecvFC)).trace
        = sentFrames (ticks classicBuild (envOf []) (5 + 1)
          (Cantp_RxIndication classicBuild (envOf []) 0x7E0 8
            [0x30, 0, 0x0A, 0xAA, 0xAA, 0xAA, 0xAA, 0xAA] classicRecvFC)).trace
    ∧ (sentFrames (ticks classicBuild (envOf []) (5 + 1 + 6)
          (Cantp_RxIndication classicBuild (envOf []) 0x7E0 8
            [0x30, 0, 0x0A, 0xAA, 0xAA, 0xAA, 0xAA, 0xAA] classicRecvFC)).trace).length
        = (sentFrames (ticks classicBuild (envOf []) (5 + 1)
          (Cantp_RxIndication classicBuild (envOf []) 0x7E0 8
            [0x30, 0, 0x0A, 0xAA, 0xAA, 0xAA, 0xAA, 0xAA] classicRecvFC)).trace).length + 1 :=
  ⟨by decide,
   (C11_separation_time classicBuild (envOf []) classicRecvFC classicRecvFC.tx0
      classicRecvFC.trace 0x7E0 8 [0x30, 0, 0x0A, 0xAA, 0xAA, 0xAA, 0xAA, 0xAA]
      ⟨rfl, rfl, by decide, by decide⟩ (by decide) (by decide) (by decide) (by decide)
      (by decide) (by decide)).1 5 (by decide),
   by decide,
   (C11_separation_time classicBuild (envOf []) classicRecvFC classicRecvFC.tx0
      classicRecvFC.trace 0x7E0 8 [0x30, 0, 0x0A, 0xAA, 0xAA, 0xAA, 0xAA, 0xAA]
      ⟨rfl, rfl, by decide, by decide⟩ (by decide) (by decide) (by decide) (by decide)
      (by decide) (by decide)).2 5 [0x21, 20, 0, 0, 0, 0, 0, 0] 0x7E8 8 [] (by decide) rfl 5
      (by decide),
   by decide⟩


/-! ## C21: no multi-frame transmission on a functional channel -/

/-- C21: for every handle of an Idle Tx channel whose configured `taType` is
functional and every `size > maxDataSize`, `Cantp_Transmit` returns `ERR_ERROR` and
leaves the whole state (the channel record included) and the list of calls
unchanged. -/
theorem C21_functional_no_multi_frame (handle size : Nat) (w : World) (r : ChnRef)
    (hr : gs_CanTpTxChannel.get? handle = some r)
    (hidle : (w.chn r).status = CANTP_STATUS_IDLE)
    (hfun : (w.chn r).chnCfg.taType = CANTP_TATYPE_FUNCTIONAL)
    (hsize : (w.chn r).pciInfo.maxDataSize < size) :
    Cantp_Transmit handle size w = (ERR_ERROR, w)
    ∧ ((Cantp_Transmit handle size w).2.chn r).status = CANTP_STATUS_IDLE := by
  have hnp : ¬ (w.chn r).chnCfg.taType = CANTP_TATYPE_PHYSICAL := by
    rw [hfun]; decide
  have e : Cantp_Transmit handle size w = (ERR_ERROR, w) := by
    simp only [Cantp_Transmit, hr, hidle, if_true, gt_iff_lt, hsize, hnp, if_false]
  rw [e]
  exact ⟨rfl, hidle⟩

theorem C21_functional_no_multi_frame_witness :
    Cantp_Transmit 0 8 (classicInit.upd .tx0 fun c =>
        { c with chnCfg := { c.chnCfg with taType := CANTP_TATYPE_FUNCTIONAL } })
      = (ERR_ERROR, classicInit.upd .tx0 fun c =>
        { c with chnCfg := { c.chnCfg with taType := CANTP_TATYPE_FUNCTIONAL } })
    ∧ ((Cantp_Transmit 0 8 (classicInit.upd .tx0 fun c =>
        { c with chnCfg := { c.chnCfg with taType := CANTP_TATYPE_FUNCTIONAL } })).2.chn
          .tx0).status = CANTP_STATUS_IDLE :=
  C21_functional_no_multi_frame 0 8 _ .tx0 (by decide) (by decide) (by decide) (by decide)

/-! ## C25: the buffer-ownership guard -/

set_option maxRecDepth 100000 in
/-- C25 (evaluation at the failing input): on the classical build with Diag always
answering busy, a First Frame announcing 100 bytes and 36 ticks leave the physical
Rx channel in TranFC with flow status WAIT; every call made so far is a refused
`Diag_StartOfReception(100)`, so the channel owns no Diag buffer.  A Single Frame
(or a First Frame) received now is accepted and `Diag_RxIndication(physical,
ERROR)` is called: `CANTP_IS_GETTING_BUFFER` only tests `status > RECEIVING_FF`. -/
theorem C25_indication_without_buffer :
    classicWaitPending.rx0.status = CANTP_STATUS_TRANSMITTING_FC
    ∧ classicWaitPending.rx0.pData = CANTP_FC_FRAME_WAIT
    ∧ classicWaitPending.trace = List.replicate 35 (Call.Diag_StartOfReception 100)
    ∧ (Cantp_RxIndication classicBuild envBusy 0x7E0 8 [0x03, 0x22, 0xF1, 0x90, 0, 0, 0, 0]
        classicWaitPending).trace
        = classicWaitPending.trace ++ [Call.Diag_RxIndication CANTP_TATYPE_PHYSICAL ERR_ERROR]
    ∧ (Cantp_RxIndication classicBuild envBusy 0x7E0 8 [0x03, 0x22, 0xF1, 0x90, 0, 0, 0, 0]
        classicWaitPending).rx0.status = CANTP_STATUS_RECEIVING_SF
    ∧ (Cantp_RxIndication classicBuild envBusy 0x7E0 8 ff100 classicWaitPending).trace
        = classicWaitPending.trace ++ [Call.Diag_RxIndication CANTP_TATYPE_PHYSICAL ERR_ERROR]
    ∧ (Cantp_RxIndication classicBuild envBusy 0x7E0 8 ff100 classicWaitPending).rx0.status
        = CANTP_STATUS_RECEIVING_FF := by
  decide

/-! ## C27: messages longer than 4095 bytes -/

/-- C27 (evaluation at the failing input): on the classical build
`Cantp_Transmit(0, 5000)` on the Idle physical Tx channel returns `ERR_OK` and
starts a transfer with `cfCnt = 714`; the next tick hands to the driver the First
Frame `13 88 ..`, whose 12-bit length field is `0x388 = 904`, not 5000.  For
`size = 4096` the First Frame is `10 00 ..`, with length field 0. -/
theorem C27_long_message_not_refused :
    classicInit.tx0.status = CANTP_STATUS_IDLE
    ∧ classicInit.tx0.chnCfg.taType = CANTP_TATYPE_PHYSICAL
    ∧ (Cantp_Transmit 0 5000 classicInit).1 = ERR_OK
    ∧ (Cantp_Transmit 0 5000 classicInit).2.tx0.status = CANTP_STATUS_TRANSMITTING_FF
    ∧ (Cantp_Transmit 0 5000 classicInit).2.tx0.cfCnt = 714
    ∧ (run classicBuild (envOf []) classicInit [.transmit 0 5000, .tick]).trace
        = [Call.Diag_CopyTxData 6, Call.FblCanSendData [0x13, 0x88, 0, 0, 0, 0, 0, 0] 0x7E8 8]
    ∧ CANTP_GET_FF_DATASIZE 0x13 0x88 = 904
    ∧ (Cantp_Transmit 0 4096 classicInit).1 = ERR_OK
    ∧ (run classicBuild (envOf []) classicInit [.transmit 0 4096, .tick]).trace
        = [Call.Diag_CopyTxData 6, Call.FblCanSendData [0x10, 0x00, 0, 0, 0, 0, 0, 0] 0x7E8 8] := by
  decide

/-! ## C29: the long Single Frame of CAN FD -/

set_option maxRecDepth 100000 in
/-- C29 (evaluation at the failing input): on the CAN FD build (`maxDataSize = 63`)
a 64-byte Single Frame with PCI byte `0x00` and length byte `L = 24` is accepted by
the Idle physical Rx channel with `lastSize = 8`, not 24, and the next tick hands
only 8 bytes to Diag; with `L = 20` the frame is rejected (`ERR_ERROR`, nothing
changes), although `8 <= L <= maxDataSize` and `L < size`: `_Cantp_ReceiveSF` reads
the length byte with `CANTP_GET_SF_DATASIZE`, which keeps the low nibble only.
With `L = 12` the frame is accepted with `lastSize = 12`. -/
theorem C29_fd_single_frame_length_truncated :
    fdInit.rx0.pciInfo.maxDataSize = 63
    ∧ fdInit.rx0.status = CANTP_STATUS_IDLE
    ∧ (_Cantp_ReceiveSF fdBuild .rx0 64 (fdLongSF 24) fdInit).1 = ERR_OK
    ∧ (_Cantp_ReceiveSF fdBuild .rx0 64 (fdLongSF 24) fdInit).2.rx0.lastSize = 8
    ∧ (run fdBuild (envOf []) fdInit [.rxInd 0x7E0 64 (fdLongSF 24), .tick]).trace
        = [Call.Diag_StartOfReception 8,
           Call.Diag_CopyRxData 8 [1, 2, 3, 4, 5, 6, 7, 8],
           Call.Diag_RxIndication CANTP_TATYPE_PHYSICAL ERR_OK]
    ∧ _Cantp_ReceiveSF fdBuild .rx0 64 (fdLongSF 20) fdInit = (ERR_ERROR, fdInit)
    ∧ (run fdBuild (envOf []) fdInit [.rxInd 0x7E0 64 (fdLongSF 20), .tick]).trace = []
    ∧ (_Cantp_ReceiveSF fdBuild .rx0 64 (fdLongSF 12) fdInit).2.rx0.lastSize = 12 := by
  decide


/-! ## The dispatch of `Cantp_RxIndication` -/

/-- A receive handler run on channel `r` leaves the other channels alone. -/
theorem rxProcess_other (K : FblConfig) (E : Env) (t : Nat) (r r' : ChnRef) (size : Nat)
    (buf : List Nat) (w : World) (h : r' ≠ r) :
    (gs_RxProcessList K E t r size buf w).2.chn r' = w.chn r' := by
  rcases t with _ | _ | _ | _ | t
  · simp only [gs_RxProcessList, _Cantp_ReceiveSF]
    repeat' split
    all_goals simp [chn_upd_ne _ _ _ _ h, Diag_RxIndication]
  · simp only [gs_RxProcessList, _Cantp_ReceiveFF]
    repeat' split
    all_goals simp [chn_upd_ne _ _ _ _ h, Diag_RxIndication]
  · simp only [gs_RxProcessList, _Cantp_ReceiveCF]
    repeat' split
    all_goals simp [chn_upd_ne _ _ _ _ h, Diag_RxIndication, Diag_CopyRxData]
  · simp only [gs_RxProcessList, _Cantp_ReceiveFC]
    repeat' split
    all_goals simp [chn_upd_ne _ _ _ _ h, Diag_TxConfirmation]
  · simp [gs_RxProcessList]

/-- The two outcomes of `_Cantp_RxIndToTxChannel`: nothing happens and the result
is `ERR_ERROR`, or a Flow Control frame addressed to a channel in RecvFC is handled
by `_Cantp_ReceiveFC` with result `ERR_OK`. -/
theorem rxIndToTx_cases (K : FblConfig) (E : Env) (ch : Option ChnRef) (size : Nat)
    (buf : List Nat) (w : World) :
    _Cantp_RxIndToTxChannel K E ch size buf w = (ERR_ERROR, w)
    ∨ ∃ r, ch = some r
        ∧ ((w.chn r).chnCfg.type = CANTP_TYPE_STANDARD
            ∨ (w.chn r).chnCfg.ta = rd buf CANTP_TA_OFFSET)
        ∧ CANTP_GET_FRAME_TYPE (w.chn r).pciInfo buf = CANTP_FRAME_TYPE_FC
        ∧ w.rx0.status = CANTP_STATUS_IDLE
        ∧ (w.chn r).status = CANTP_STATUS_RECEIVING_FC
        ∧ _Cantp_RxIndToTxChannel K E ch size buf w
            = (ERR_OK, (_Cantp_ReceiveFC K r size buf w).2) := by
  cases ch with
  | none => left; rfl
  | some r =>
    by_cases haddr : (w.chn r).chnCfg.type = CANTP_TYPE_STANDARD
        ∨ (w.chn r).chnCfg.ta = rd buf CANTP_TA_OFFSET
    swap
    · left; simp [_Cantp_RxIndToTxChannel, haddr]
    by_cases hty : CANTP_GET_FRAME_TYPE (w.chn r).pciInfo buf = CANTP_FRAME_TYPE_FC
    swap
    · left; simp [_Cantp_RxIndToTxChannel, haddr, hty]
    have hty' : CANTP_GET_FRAME_TYPE (w.chn r).pciInfo buf = 3 := hty
    by_cases h0 : w.rx0.status = CANTP_STATUS_IDLE
    swap
    · left
      simp [_Cantp_RxIndToTxChannel, haddr, hty', CANTP_FRAME_TYPE_FC, gs_RxProcessList,
        _Cantp_ReceiveFC, h0]
    by_cases hs : (w.chn r).status = CANTP_STATUS_RECEIVING_FC
    swap
    · left
      simp [_Cantp_RxIndToTxChannel, haddr, hty', CANTP_FRAME_TYPE_FC, gs_RxProcessList,
        _Cantp_ReceiveFC, h0, hs]
    right
    refine ⟨r, rfl, haddr, hty, h0, hs, ?_⟩
    simp [_Cantp_RxIndToTxChannel, haddr, hty', CANTP_FRAME_TYPE_FC, gs_RxProcessList,
      _Cantp_ReceiveFC, h0, hs]

/-- A channel found by identifier in `gs_CanTpTxChannel` is its only element, and
has that identifier. -/
theorem tx_lookup_cases (w : World) (id : Nat) (r : ChnRef)
    (h : _Cantp_GetChannelByRxId w id gs_CanTpTxChannel = some r) :
    r = .tx0 ∧ w.tx0.chnCfg.rxId = id := by
  simp only [_Cantp_GetChannelByRxId, gs_CanTpTxChannel, List.find?] at h
  split at h
  · rename_i hd
    exact ⟨(Option.some.inj h).symm, by simpa using hd⟩
  · cases h

/-- A channel found by identifier in `gs_CanTpRxChannel` has that identifier. -/
theorem rx_lookup_id (w : World) (id : Nat) (r : ChnRef)
    (h : _Cantp_GetChannelByRxId w id gs_CanTpRxChannel = some r) :
    (w.chn r).chnCfg.rxId = id := by
  simp only [_Cantp_GetChannelByRxId] at h
  have := List.find?_some h
  simpa using this

/-- The three outcomes of `Cantp_RxIndication`: nothing happens; or the Tx channel,
in RecvFC, handles a Flow Control frame; or the Rx channel found for the
identifier handles a frame of type SF, FF or CF. -/
theorem rxInd_cases (K : FblConfig) (E : Env) (id size : Nat) (buf : List Nat) (w : World) :
    Cantp_RxIndication K E id size buf w = w
    ∨ (size ≤ CANTP_MAX_FRAME_SIZE K ∧ w.tx0.chnCfg.rxId = id
        ∧ (w.tx0.chnCfg.type = CANTP_TYPE_STANDARD ∨ w.tx0.chnCfg.ta = rd buf CANTP_TA_OFFSET)
        ∧ CANTP_GET_FRAME_TYPE w.tx0.pciInfo buf = CANTP_FRAME_TYPE_FC
        ∧ w.tx0.status = CANTP_STATUS_RECEIVING_FC
        ∧ Cantp_RxIndication K E id size buf w = (_Cantp_ReceiveFC K .tx0 size buf w).2)
    ∨ (size ≤ CANTP_MAX_FRAME_SIZE K
        ∧ ∃ r, _Cantp_GetChannelByRxId w id gs_CanTpRxChannel = some r
          ∧ (r = .rx0 ∨ r = .rx1) ∧ (w.chn r).chnCfg.rxId = id
          ∧ ((w.chn r).chnCfg.type = CANTP_TYPE_STANDARD
              ∨ (w.chn r).chnCfg.ta = rd buf CANTP_TA_OFFSET)
          ∧ CANTP_GET_FRAME_TYPE (w.chn r).pciInfo buf < CANTP_FRAME_TYPE_FC
          ∧ Cantp_RxIndication K E id size buf w
              = (gs_RxProcessList K E (CANTP_GET_FRAME_TYPE (w.chn r).pciInfo buf) r size buf
                  w).2) := by
  by_cases hsz : size ≤ CANTP_MAX_FRAME_SIZE K
  swap
  · left; simp [Cantp_RxIndication, hsz]
  rcases rxIndToTx_cases K E (_Cantp_GetChannelByRxId w id gs_CanTpTxChannel) size buf w with
    e | ⟨r, hr, haddr, hty, _, hs, e⟩
  · have e1 : Cantp_RxIndication K E id size buf w
        = (_Cantp_RxIndToRxChannel K E (_Cantp_GetChannelByRxId w id gs_CanTpRxChannel)
            size buf w).2 := by
      simp [Cantp_RxIndication, hsz, e]
    cases hl : _Cantp_GetChannelByRxId w id gs_CanTpRxChannel with
    | none => left; rw [e1, hl]; rfl
    | some r =>
      by_cases haddr : (w.chn r).chnCfg.type = CANTP_TYPE_STANDARD
          ∨ (w.chn r).chnCfg.ta = rd buf CANTP_TA_OFFSET
      swap
      · left; rw [e1, hl]; simp [_Cantp_RxIndToRxChannel, haddr]
      by_cases hty : CANTP_GET_FRAME_TYPE (w.chn r).pciInfo buf < CANTP_FRAME_TYPE_FC
      swap
      · left; rw [e1, hl]; simp [_Cantp_RxIndToRxChannel, haddr, hty]
      right; right
      refine ⟨hsz, r, rfl, rx_lookup_cases w id r hl, rx_lookup_id w id r hl, haddr, hty, ?_⟩
      rw [e1, hl]
      simp [_Cantp_RxIndToRxChannel, haddr, hty]
  · obtain ⟨rfl, hid⟩ := tx_lookup_cases w id r hr
    right; left
    refine ⟨hsz, hid, haddr, hty, hs, ?_⟩
    simp [Cantp_RxIndication, hsz, e]


/-- Every call of `Cantp_RxIndication` has a target channel outside of which no
record changes. -/
theorem rxInd_one (K : FblConfig) (E : Env) (id size : Nat) (buf : List Nat) (w : World) :
    ∃ t : ChnRef, ∀ r, r ≠ t → (Cantp_RxIndication K E id size buf w).chn r = w.chn r := by
  rcases rxInd_cases K E id size buf w with e | ⟨_, _, _, _, _, e⟩ | ⟨_, t, _, _, _, _, _, e⟩
  · exact ⟨.tx0, fun r _ => by rw [e]⟩
  · refine ⟨.tx0, fun r hr => ?_⟩
    rw [e]
    exact rxProcess_other K E 3 .tx0 r size buf w hr
  · refine ⟨t, fun r hr => ?_⟩
    rw [e]
    exact rxProcess_other K E _ t r size buf w hr

/-- A channel whose record is changed by `Cantp_RxIndication` has the identifier of
the frame, passes the address check, and is the Tx channel handling a Flow Control
frame or the Rx channel found for the identifier handling a frame of a lower
type. -/
theorem rxInd_changed (K : FblConfig) (E : Env) (id size : Nat) (buf : List Nat) (w : World)
    (r : ChnRef) (h : (Cantp_RxIndication K E id size buf w).chn r ≠ w.chn r) :
    size ≤ CANTP_MAX_FRAME_SIZE K ∧ (w.chn r).chnCfg.rxId = id
    ∧ ((w.chn r).chnCfg.type = CANTP_TYPE_STANDARD
        ∨ (w.chn r).chnCfg.ta = rd buf CANTP_TA_OFFSET)
    ∧ ((r = .tx0 ∧ CANTP_GET_FRAME_TYPE (w.chn r).pciInfo buf = CANTP_FRAME_TYPE_FC)
        ∨ ((r = .rx0 ∨ r = .rx1)
            ∧ _Cantp_GetChannelByRxId w id gs_CanTpRxChannel = some r
            ∧ CANTP_GET_FRAME_TYPE (w.chn r).pciInfo buf < CANTP_FRAME_TYPE_FC)) := by
  rcases rxInd_cases K E id size buf w with e | ⟨hsz, hid, haddr, hty, _, e⟩
    | ⟨hsz, t, hl, ht, hid, haddr, hty, e⟩
  · rw [e] at h
    exact absurd rfl h
  · have hr : r = .tx0 := by
      by_contra hne
      apply h
      rw [e]
      exact rxProcess_other K E 3 .tx0 r size buf w hne
    subst hr
    exact ⟨hsz, hid, haddr, Or.inl ⟨rfl, hty⟩⟩
  · have hr : r = t := by
      by_contra hne
      apply h
      rw [e]
      exact rxProcess_other K E _ t r size buf w hne
    subst hr
    exact ⟨hsz, hid, haddr, Or.inr ⟨ht, hl, hty⟩⟩

/-! ## C23: dispatch on the frame type -/

/-- C23: `Cantp_RxIndication` changes the record of the Tx channel only for a
frame whose type nibble (read with that channel's descriptor) is 3 (FC), and the
record of an Rx channel only for a frame whose type nibble is 0, 1 or 2 (SF, FF,
CF); a frame of type 3 changes no Rx channel; a frame whose type nibble is at
least 4 for every channel changes nothing at all: records, registry and the list
of calls stay as they were. -/
theorem C23_frame_type_dispatch (K : FblConfig) (E : Env) (id size : Nat) (buf : List Nat)
    (w : World) :
    ((Cantp_RxIndication K E id size buf w).tx0 ≠ w.tx0 →
        CANTP_GET_FRAME_TYPE w.tx0.pciInfo buf = CANTP_FRAME_TYPE_FC)
    ∧ (∀ r, r = ChnRef.rx0 ∨ r = ChnRef.rx1 →
        (Cantp_RxIndication K E id size buf w).chn r ≠ w.chn r →
        CANTP_GET_FRAME_TYPE (w.chn r).pciInfo buf = CANTP_FRAME_TYPE_SF
        ∨ CANTP_GET_FRAME_TYPE (w.chn r).pciInfo buf = CANTP_FRAME_TYPE_FF
        ∨ CANTP_GET_FRAME_TYPE (w.chn r).pciInfo buf = CANTP_FRAME_TYPE_CF)
    ∧ (∀ r, r = ChnRef.rx0 ∨ r = ChnRef.rx1 →
        CANTP_GET_FRAME_TYPE (w.chn r).pciInfo buf = CANTP_FRAME_TYPE_FC →
        (Cantp_RxIndication K E id size buf w).chn r = w.chn r)
    ∧ ((∀ r : ChnRef, 4 ≤ CANTP_GET_FRAME_TYPE (w.chn r).pciInfo buf) →
        Cantp_RxIndication K E id size buf w = w) := by
  refine ⟨?_, ?_, ?_, ?_⟩
  · intro h
    obtain ⟨_, _, _, h4⟩ := rxInd_changed K E id size buf w .tx0 h
    rcases h4 with ⟨_, hty⟩ | ⟨hr, _, _⟩
    · exact hty
    · rcases hr with hr | hr <;> cases hr
  · intro r hr h
    obtain ⟨_, _, _, h4⟩ := rxInd_changed K E id size buf w r h
    rcases h4 with ⟨hr', _⟩ | ⟨_, _, hty⟩
    · subst hr'
      rcases hr with hr | hr <;> cases hr
    · simp only [CANTP_FRAME_TYPE_FC, CANTP_FRAME_TYPE_SF, CANTP_FRAME_TYPE_FF,
        CANTP_FRAME_TYPE_CF] at hty ⊢
      omega
  · intro r hr hty
    by_contra h
    obtain ⟨_, _, _, h4⟩ := rxInd_changed K E id size buf w r h
    rcases h4 with ⟨hr', _⟩ | ⟨_, _, hlt⟩
    · subst hr'
      rcases hr with hr | hr <;> cases hr
    · rw [hty] at hlt
      exact absurd hlt (by decide)
  · intro h
    rcases rxInd_cases K E id size buf w with e | ⟨_, _, _, hty, _, _⟩
      | ⟨_, t, _, _, _, _, hty, _⟩
    · exact e
    · have := h .tx0
      simp only [chn_tx0, hty, CANTP_FRAME_TYPE_FC] at this
      omega
    · have := h t
      simp only [CANTP_FRAME_TYPE_FC] at hty
      omega

theorem C23_frame_type_dispatch_witness :
    ((Cantp_RxIndication classicBuild (envOf []) 0x7E0 8
          [0x30, 0, 0, 0xAA, 0xAA, 0xAA, 0xAA, 0xAA] classicRecvFC).tx0 ≠ classicRecvFC.tx0
      ∧ CANTP_GET_FRAME_TYPE classicRecvFC.tx0.pciInfo
          [0x30, 0, 0, 0xAA, 0xAA, 0xAA, 0xAA, 0xAA] = CANTP_FRAME_TYPE_FC)
    ∧ (Cantp_RxIndication classicBuild (envOf []) 0x7E0 8
          [0x30, 0, 0, 0xAA, 0xAA, 0xAA, 0xAA, 0xAA] classicRecvFC).chn .rx0
        = classicRecvFC.chn .rx0
    ∧ Cantp_RxIndication classicBuild (envOf []) 0x7E0 8
          [0x40, 0, 0, 0xAA, 0xAA, 0xAA, 0xAA, 0xAA] classicRecvFC = classicRecvFC :=
  ⟨⟨by decide,
    (C23_frame_type_dispatch classicBuild (envOf []) 0x7E0 8
      [0x30, 0, 0, 0xAA, 0xAA, 0xAA, 0xAA, 0xAA] classicRecvFC).1 (by decide)⟩,
   (C23_frame_type_dispatch classicBuild (envOf []) 0x7E0 8
      [0x30, 0, 0, 0xAA, 0xAA, 0xAA, 0xAA, 0xAA] classicRecvFC).2.2.1 .rx0 (Or.inl rfl)
      (by decide),
   (C23_frame_type_dispatch classicBuild (envOf []) 0x7E0 8
      [0x40, 0, 0, 0xAA, 0xAA, 0xAA, 0xAA, 0xAA] classicRecvFC).2.2.2
      (fun r => by cases r <;> decide)⟩

/-! ## C24: the frame of `Cantp_RxIndication` -/

/-- A list of calls that extends another without a further driver call. -/
theorem trace_ext (a b : List Call) (h1 : b.take a.length = a)
    (h2 : sentFrames b = sentFrames a) : ∃ new, b = a ++ new ∧ sentFrames new = [] := by
  refine ⟨b.drop a.length, ?_, ?_⟩
  · conv_lhs => rw [← List.take_append_drop a.length b, h1]
  · have e : b = a ++ b.drop a.length := by
      conv_lhs => rw [← List.take_append_drop a.length b, h1]
    rw [e, sentFrames_append] at h2
    exact List.append_right_eq_self.mp h2

theorem sentFrames_nil : sentFrames [] = [] := rfl

theorem sentFrames_sor (n : Nat) (t : List Call) :
    sentFrames (Call.Diag_StartOfReception n :: t) = sentFrames t := rfl

theorem sentFrames_copyRx (n : Nat) (b : List Nat) (t : List Call) :
    sentFrames (Call.Diag_CopyRxData n b :: t) = sentFrames t := rfl

theorem sentFrames_copyTx (n : Nat) (t : List Call) :
    sentFrames (Call.Diag_CopyTxData n :: t) = sentFrames t := rfl

theorem sentFrames_rxInd (a : Nat) (x : bl_Return) (t : List Call) :
    sentFrames (Call.Diag_RxIndication a x :: t) = sentFrames t := rfl

theorem sentFrames_txConf (x : bl_Return) (t : List Call) :
    sentFrames (Call.Diag_TxConfirmation x :: t) = sentFrames t := rfl

theorem sentFrames_send (f : List Nat) (i l : Nat) (t : List Call) :
    sentFrames (Call.FblCanSendData f i l :: t) = f :: sentFrames t := rfl

set_option maxHeartbeats 1000000 in
/-- The calls made by a receive handler are appended to the list of calls and none
of them is a driver call. -/
theorem rxProcess_trace (K : FblConfig) (E : Env) (t : Nat) (r : ChnRef) (size : Nat)
    (buf : List Nat) (w : World) :
    ∃ new, (gs_RxProcessList K E t r size buf w).2.trace = w.trace ++ new
      ∧ sentFrames new = [] := by
  apply trace_ext
  · rcases t with _ | _ | _ | _ | t
    · simp only [gs_RxProcessList, _Cantp_ReceiveSF]
      repeat' split
      all_goals simp [Diag_RxIndication]
    · simp only [gs_RxProcessList, _Cantp_ReceiveFF]
      repeat' split
      all_goals simp [Diag_RxIndication]
    · simp only [gs_RxProcessList, _Cantp_ReceiveCF]
      repeat' split
      all_goals simp [Diag_RxIndication, Diag_CopyRxData]
    · simp only [gs_RxProcessList, _Cantp_ReceiveFC]
      repeat' split
      all_goals simp [Diag_TxConfirmation]
    · simp [gs_RxProcessList]
  · rcases t with _ | _ | _ | _ | t
    · simp only [gs_RxProcessList, _Cantp_ReceiveSF]
      repeat' split
      all_goals simp [Diag_RxIndication, sentFrames_append, sentFrames_rxInd, sentFrames_nil]
    · simp only [gs_RxProcessList, _Cantp_ReceiveFF]
      repeat' split
      all_goals simp [Diag_RxIndication, sentFrames_append, sentFrames_rxInd, sentFrames_nil]
    · simp only [gs_RxProcessList, _Cantp_ReceiveCF]
      repeat' split
      all_goals simp [Diag_RxIndication, Diag_CopyRxData, sentFrames_append, sentFrames_rxInd,
        sentFrames_copyRx, sentFrames_nil]
    · simp only [gs_RxProcessList, _Cantp_ReceiveFC]
      repeat' split
      all_goals simp [Diag_TxConfirmation, sentFrames_append, sentFrames_txConf, sentFrames_nil]
    · simp [gs_RxProcessList]

/-- C24: a call `Cantp_RxIndication(id, size, buf)` (1) never changes the record of
a channel whose configured `rxId` differs from `id`; (2) changes the record of at
most one channel; (3) if `id` matches no channel's `rxId`, or (4) if `size`
exceeds `CANTP_MAX_FRAME_SIZE`, changes nothing: records, registry and the list of
calls stay as they were; (5) never makes a driver call: the calls it appends, if
any, are Diag calls. -/
theorem C24_rx_indication_frame (K : FblConfig) (E : Env) (id size : Nat) (buf : List Nat)
    (w : World) :
    (∀ r, (w.chn r).chnCfg.rxId ≠ id → (Cantp_RxIndication K E id size buf w).chn r = w.chn r)
    ∧ (∀ r1 r2, (Cantp_RxIndication K E id size buf w).chn r1 ≠ w.chn r1 →
        (Cantp_RxIndication K E id size buf w).chn r2 ≠ w.chn r2 → r1 = r2)
    ∧ ((∀ r : ChnRef, (w.chn r).chnCfg.rxId ≠ id) → Cantp_RxIndication K E id size buf w = w)
    ∧ (CANTP_MAX_FRAME_SIZE K < size → Cantp_RxIndication K E id size buf w = w)
    ∧ (∃ new, (Cantp_RxIndication K E id size buf w).trace = w.trace ++ new
        ∧ sentFrames new = []) := by
  refine ⟨?_, ?_, ?_, ?_, ?_⟩
  · intro r hr
    by_contra h
    exact hr (rxInd_changed K E id size buf w r h).2.1
  · intro r1 r2 h1 h2
    obtain ⟨t, ht⟩ := rxInd_one K E id size buf w
    have e1 : r1 = t := by
      by_contra hne
      exact h1 (ht r1 hne)
    have e2 : r2 = t := by
      by_contra hne
      exact h2 (ht r2 hne)
    rw [e1, e2]
  · intro h
    rcases rxInd_cases K E id size buf w with e | ⟨_, hid, _⟩ | ⟨_, t, _, _, hid, _⟩
    · exact e
    · exact absurd hid (h .tx0)
    · exact absurd hid (h t)
  · intro h
    have hsz : ¬ size ≤ CANTP_MAX_FRAME_SIZE K := by omega
    simp [Cantp_RxIndication, hsz]
  · rcases rxInd_cases K E id size buf w with e | ⟨_, _, _, _, _, e⟩ | ⟨_, t, _, _, _, _, _, e⟩
    · exact ⟨[], by rw [e]; simp, rfl⟩
    · rw [e]
      exact rxProcess_trace K E 3 .tx0 size buf w
    · rw [e]
      exact rxProcess_trace K E _ t size buf w

theorem C24_rx_indication_frame_witness :
    (Cantp_RxIndication classicBuild (envOf []) 0x7DF 8 [0x03, 0x22, 0xF1, 0x90, 0, 0, 0, 0]
        classicInit).chn .rx0 = classicInit.chn .rx0
    ∧ Cantp_RxIndication classicBuild (envOf []) 0x123 8 [0x03, 0x22, 0xF1, 0x90, 0, 0, 0, 0]
        classicInit = classicInit
    ∧ Cantp_RxIndication classicBuild (envOf []) 0x7E0 9 [0x03, 0x22, 0xF1, 0x90, 0, 0, 0, 0, 0]
        classicInit = classicInit :=
  ⟨(C24_rx_indication_frame classicBuild (envOf []) 0x7DF 8 [0x03, 0x22, 0xF1, 0x90, 0, 0, 0, 0]
      classicInit).1 .rx0 (by decide),
   (C24_rx_indication_frame classicBuild (envOf []) 0x123 8 [0x03, 0x22, 0xF1, 0x90, 0, 0, 0, 0]
      classicInit).2.2.1 (fun r => by cases r <;> decide),
   (C24_rx_indication_frame classicBuild (envOf []) 0x7E0 9
      [0x03, 0x22, 0xF1, 0x90, 0, 0, 0, 0, 0] classicInit).2.2.2.1 (by decide)⟩


/-! ## C30: the target-address check -/

/-- C30: (1) `Cantp_RxIndication` never changes the record of a channel whose
configured type is not `CANTP_TYPE_STANDARD` when byte 0 of the frame differs
from the configured `ta`; (2) if that holds for every channel with the identifier
of the frame, nothing changes at all (records, registry, list of calls); (3) a
channel set up by `_Cantp_InitChannel` reads the frame type from the PCI byte at
offset 0 when its type is standard, at offset 1 otherwise; (4), (5) for a channel
of standard type the address check is void: the frame is dispatched on its type
alone, whatever byte 0 is. -/
theorem C30_target_address (K : FblConfig) (E : Env) (id size : Nat) (buf : List Nat)
    (w : World) :
    (∀ r, (w.chn r).chnCfg.type ≠ CANTP_TYPE_STANDARD →
        (w.chn r).chnCfg.ta ≠ rd buf CANTP_TA_OFFSET →
        (Cantp_RxIndication K E id size buf w).chn r = w.chn r)
    ∧ ((∀ r : ChnRef, (w.chn r).chnCfg.rxId = id →
          (w.chn r).chnCfg.type ≠ CANTP_TYPE_STANDARD
          ∧ (w.chn r).chnCfg.ta ≠ rd buf CANTP_TA_OFFSET) →
        Cantp_RxIndication K E id size buf w = w)
    ∧ (∀ (c : bl_CanTpChannel_t) (cfg : bl_CanTpChannelCfg_t),
        CANTP_GET_FRAME_TYPE (_Cantp_InitChannel K c cfg).pciInfo buf
          = GET_LOW_HALF (rd buf (if cfg.type = CANTP_TYPE_STANDARD then 0 else 1) >>> 4))
    ∧ (∀ r, (w.chn r).chnCfg.type = CANTP_TYPE_STANDARD →
        _Cantp_RxIndToRxChannel K E (some r) size buf w
          = if CANTP_GET_FRAME_TYPE (w.chn r).pciInfo buf < CANTP_FRAME_TYPE_FC then
              gs_RxProcessList K E (CANTP_GET_FRAME_TYPE (w.chn r).pciInfo buf) r size buf w
            else (ERR_ERROR, w))
    ∧ (∀ r, (w.chn r).chnCfg.type = CANTP_TYPE_STANDARD →
        _Cantp_RxIndToTxChannel K E (some r) size buf w
          = if CANTP_GET_FRAME_TYPE (w.chn r).pciInfo buf = CANTP_FRAME_TYPE_FC then
              gs_RxProcessList K E (CANTP_GET_FRAME_TYPE (w.chn r).pciInfo buf) r size buf w
            else (ERR_ERROR, w)) := by
  refine ⟨?_, ?_, ?_, ?_, ?_⟩
  · intro r h1 h2
    by_contra h
    obtain ⟨_, _, haddr, _⟩ := rxInd_changed K E id size buf w r h
    rcases haddr with a | a
    · exact h1 a
    · exact h2 a
  · intro h
    rcases rxInd_cases K E id size buf w with e | ⟨_, hid, haddr, _⟩
      | ⟨_, t, _, _, hid, haddr, _⟩
    · exact e
    · obtain ⟨h1, h2⟩ := h .tx0 hid
      rcases haddr with a | a
      · exact absurd a h1
      · exact absurd a h2
    · obtain ⟨h1, h2⟩ := h t hid
      rcases haddr with a | a
      · exact absurd a h1
      · exact absurd a h2
  · intro c cfg
    by_cases hs : cfg.type = CANTP_TYPE_STANDARD
    · have hs' : CANTP_TYPE_STANDARD = cfg.type := hs.symm
      have e : (_Cantp_InitChannel K c cfg).pciInfo = pciStandard K := by
        show (if CANTP_TYPE_STANDARD = cfg.type then pciStandard K else pciExtended)
          = pciStandard K
        rw [if_pos hs']
      rw [e, if_pos hs]
      simp only [CANTP_GET_FRAME_TYPE, pciStandard]
      split_ifs <;> rfl
    · have hs' : ¬ CANTP_TYPE_STANDARD = cfg.type := fun e => hs e.symm
      have e : (_Cantp_InitChannel K c cfg).pciInfo = pciExtended := by
        show (if CANTP_TYPE_STANDARD = cfg.type then pciStandard K else pciExtended) = pciExtended
        rw [if_neg hs']
      rw [e, if_neg hs]
      rfl
  · intro r hs
    simp only [_Cantp_RxIndToRxChannel, hs, true_or, if_true]
  · intro r hs
    simp only [_Cantp_RxIndToTxChannel, hs, true_or, if_true]

theorem C30_target_address_witness :
    (Cantp_RxIndication classicBuild (envOf []) 0x7E0 8 [0x54, 0x03, 0x22, 0xF1, 0x90, 0, 0, 0]
        extendedInit).chn .rx0 = extendedInit.chn .rx0
    ∧ Cantp_RxIndication classicBuild (envOf []) 0x7E0 8 [0x54, 0x03, 0x22, 0xF1, 0x90, 0, 0, 0]
        extendedInit = extendedInit
    ∧ (Cantp_RxIndication classicBuild (envOf []) 0x7E0 8 [0x55, 0x03, 0x22, 0xF1, 0x90, 0, 0, 0]
        extendedInit).rx0.status = CANTP_STATUS_RECEIVING_SF
    ∧ (Cantp_RxIndication classicBuild (envOf []) 0x7E0 8 [0x55, 0x03, 0x22, 0xF1, 0x90, 0, 0, 0]
        extendedInit).rx0.frame.take 3 = [0x22, 0xF1, 0x90] :=
  ⟨(C30_target_address classicBuild (envOf []) 0x7E0 8 [0x54, 0x03, 0x22, 0xF1, 0x90, 0, 0, 0]
      extendedInit).1 .rx0 (by decide) (by decide),
   (C30_target_address classicBuild (envOf []) 0x7E0 8 [0x54, 0x03, 0x22, 0xF1, 0x90, 0, 0, 0]
      extendedInit).2.1 (fun r => by cases r <;> decide),
   by decide, by decide⟩


/-! ## C22: a functional Rx channel -/

/-- On a functional channel that is Idle or in RecvSF a receive handler either
accepts a Single Frame or does nothing; a First Frame, a Consecutive Frame or a
Flow Control frame is answered with `ERR_ERROR` and nothing changes. -/
theorem rxProcess_functional (K : FblConfig) (E : Env) (t : Nat) (r : ChnRef) (size : Nat)
    (buf : List Nat) (w : World) (h : FunctionalQuiet w r) :
    FunctionalQuiet (gs_RxProcessList K E t r size buf w).2 r
    ∧ (t ≠ 0 → gs_RxProcessList K E t r size buf w = (ERR_ERROR, w)) := by
  obtain ⟨hf, hs⟩ := h
  have hnp : ¬ (w.chn r).chnCfg.taType = CANTP_TATYPE_PHYSICAL := by rw [hf]; decide
  have hn3 : (w.chn r).status ≠ CANTP_STATUS_RECEIVING_CF := by
    rcases hs with e | e <;> rw [e] <;> decide
  have hn4 : ¬ (w.chn r).status = CANTP_STATUS_RECEIVING_FC := by
    rcases hs with e | e <;> rw [e] <;> decide
  have hnb : ¬ (w.chn r).status > CANTP_STATUS_RECEIVING_FF := by
    rcases hs with e | e <;> rw [e] <;> decide
  rcases t with _ | _ | _ | _ | t
  · refine ⟨?_, fun h0 => absurd rfl h0⟩
    simp only [gs_RxProcessList, _Cantp_ReceiveSF, CANTP_IS_GETTING_BUFFER, hnb, decide_False,
      Bool.false_eq_true, if_false]
    repeat' split
    all_goals first
      | exact ⟨hf, hs⟩
      | exact ⟨by simpa using hf, Or.inr (by simp)⟩
  · have e : gs_RxProcessList K E 1 r size buf w = (ERR_ERROR, w) := by
      simp only [gs_RxProcessList, _Cantp_ReceiveFF, hnp, if_false]
    exact ⟨by rw [e]; exact ⟨hf, hs⟩, fun _ => e⟩
  · have e : gs_RxProcessList K E 2 r size buf w = (ERR_ERROR, w) := by
      simp only [gs_RxProcessList, _Cantp_ReceiveCF, hn3, ne_eq, not_false_eq_true, true_or,
        if_true, ite_self]
    exact ⟨by rw [e]; exact ⟨hf, hs⟩, fun _ => e⟩
  · have e : gs_RxProcessList K E 3 r size buf w = (ERR_ERROR, w) := by
      simp only [gs_RxProcessList, _Cantp_ReceiveFC, hn4, if_false, ite_self]
    exact ⟨by rw [e]; exact ⟨hf, hs⟩, fun _ => e⟩
  · have e : gs_RxProcessList K E (t + 4) r size buf w = (ERR_ERROR, w) := by
      simp only [gs_RxProcessList]
    exact ⟨by rw [e]; exact ⟨hf, hs⟩, fun _ => e⟩

/-- The loop body of `_Cantp_PeriodFunction` keeps a functional Rx channel Idle or
in RecvSF. -/
theorem periodChannel_functional (K : FblConfig) (E : Env) (w : World) (r : ChnRef)
    (h : FunctionalQuiet w r) :
    FunctionalQuiet (periodChannel (gs_RxPeriodList K E) w r) r := by
  obtain ⟨hf, hs⟩ := h
  rcases hs with hs | hs
  · rw [periodChannel_idle_rx K E w r hs]
    exact ⟨by simpa [decTimer] using hf, Or.inl (by simpa using hs)⟩
  · have hs' : (w.chn r).status = 1 := hs
    by_cases ht : (w.chn r).timer = 0
    · refine ⟨?_, Or.inl ?_⟩ <;>
        simp [periodChannel, ht, hs', gs_RxPeriodList, _Cantp_TimeoutRecvSF, _Cantp_GotoIdle, hf]
    · unfold FunctionalQuiet
      simp only [periodChannel, ht, if_false, chn_upd_same, decTimer_status, hs',
        gs_RxPeriodList, _Cantp_PeriodRecvSF]
      split
      · refine ⟨?_, Or.inl ?_⟩
        · split_ifs <;>
            simpa [Diag_StartOfReception, Diag_CopyRxData, Diag_RxIndication, decTimer,
              _Cantp_GotoIdle] using hf
        · split_ifs <;>
            simp [Diag_StartOfReception, Diag_CopyRxData, Diag_RxIndication, _Cantp_GotoIdle]
      · exact ⟨by simpa [Diag_StartOfReception, decTimer] using hf,
          Or.inr (by simpa [Diag_StartOfReception] using hs)⟩

/-- No event moves a functional Rx channel out of Idle and RecvSF. -/
theorem functional_step (K : FblConfig) (E : Env) (w : World) (r : ChnRef) (e : Event)
    (hr : r = .rx0 ∨ r = .rx1) (h : FunctionalQuiet w r) :
    FunctionalQuiet (step K E w e) r := by
  have hne : r ≠ .tx0 := by rcases hr with rfl | rfl <;> decide
  cases e with
  | tick =>
    show FunctionalQuiet (Cantp_PeriodFunction K E w) r
    rw [tick_eq]
    unfold FunctionalQuiet
    rw [periodChannel_tx_frame K E _ .tx0 r hne]
    rcases hr with rfl | rfl
    · rw [periodChannel_rx_frame K E _ .rx1 .rx0 (by decide)]
      exact periodChannel_functional K E w .rx0 h
    · refine periodChannel_functional K E _ .rx1 ?_
      unfold FunctionalQuiet
      rw [periodChannel_rx_frame K E w .rx0 .rx1 (by decide)]
      exact h
  | rxInd id size buf =>
    show FunctionalQuiet (Cantp_RxIndication K E id size buf w) r
    rcases rxInd_cases K E id size buf w with e | ⟨_, _, _, _, _, e⟩
      | ⟨_, t, _, _, _, _, _, e⟩
    · rw [e]; exact h
    · rw [e]
      unfold FunctionalQuiet
      rw [show (_Cantp_ReceiveFC K .tx0 size buf w).2.chn r = w.chn r from
        rxProcess_other K E 3 .tx0 r size buf w hne]
      exact h
    · rw [e]
      by_cases ht : r = t
      · subst ht
        exact (rxProcess_functional K E _ r size buf w h).1
      · unfold FunctionalQuiet
        rw [rxProcess_other K E _ t r size buf w ht]
        exact h
  | transmit handle size =>
    show FunctionalQuiet (Cantp_Transmit handle size w).2 r
    have e : (Cantp_Transmit handle size w).2.chn r = w.chn r := by
      simp only [Cantp_Transmit]
      cases hg : gs_CanTpTxChannel.get? handle with
      | none => rfl
      | some r' =>
        have hr' : r' = .tx0 := by
          have := List.get?_mem hg
          simpa [gs_CanTpTxChannel] using this
        subst hr'
        simp only
        repeat' split
        all_goals simp [chn_upd_ne _ _ _ _ hne]
    unfold FunctionalQuiet
    rw [e]
    exact h
  | txConf id =>
    show FunctionalQuiet (Cantp_TxConfirmation K id w) r
    obtain ⟨hf, hs⟩ := h
    simp only [Cantp_TxConfirmation]
    split
    · rename_i r' _
      split
      · by_cases ht : r = r'
        · subst ht
          rcases hs with hs | hs
          · have hs' : (w.chn r).status = 0 := hs
            exact ⟨by simpa [hs', gs_TxConfirmList, _Cantp_TxConfirmIdle] using hf,
              Or.inl (by simpa [hs', gs_TxConfirmList, _Cantp_TxConfirmIdle] using hs)⟩
          · have hs' : (w.chn r).status = 1 := hs
            exact ⟨by simpa [hs', gs_TxConfirmList, _Cantp_TxConfirmSF, Diag_TxConfirmation,
                _Cantp_GotoIdle] using hf,
              Or.inl (by simp [hs', gs_TxConfirmList, _Cantp_TxConfirmSF, Diag_TxConfirmation,
                _Cantp_GotoIdle])⟩
        · unfold FunctionalQuiet
          rw [chn_setSlot, confirm_frame K _ w r' r ht]
          exact ⟨hf, hs⟩
      · exact ⟨hf, hs⟩
    · exact ⟨hf, hs⟩

theorem functional_run (K : FblConfig) (E : Env) (r : ChnRef) (hr : r = .rx0 ∨ r = .rx1)
    (evs : List Event) :
    ∀ w : World, FunctionalQuiet w r → FunctionalQuiet (run K E w evs) r := by
  induction evs with
  | nil => intro w h; exact h
  | cons e es ih =>
    intro w h
    exact ih _ (functional_step K E w r e hr h)

/-- C22: let `r` be an Rx channel configured functional that is Idle or in RecvSF
(as after `CanTp_Init`).  After any sequence of events (ticks, received frames,
transmit requests, confirmations) it is still functional and Idle or in RecvSF;
and in the state reached, a frame that the channel reads as a First Frame or a
Consecutive Frame leaves the record of the channel unchanged, and if it is
delivered to this channel (the channel is the one found for the identifier, the
Tx channel does not read the frame as Flow Control) `Cantp_RxIndication` changes
nothing at all: records, registry and the list of calls stay as they were. -/
theorem C22_functional_rx_channel (K : FblConfig) (E : Env) (w0 : World) (r : ChnRef)
    (evs : List Event) (id size : Nat) (buf : List Nat)
    (hr : r = .rx0 ∨ r = .rx1)
    (hfun : (w0.chn r).chnCfg.taType = CANTP_TATYPE_FUNCTIONAL)
    (hst : (w0.chn r).status = CANTP_STATUS_IDLE
      ∨ (w0.chn r).status = CANTP_STATUS_RECEIVING_SF) :
    ((run K E w0 evs).chn r).chnCfg.taType = CANTP_TATYPE_FUNCTIONAL
    ∧ (((run K E w0 evs).chn r).status = CANTP_STATUS_IDLE
        ∨ ((run K E w0 evs).chn r).status = CANTP_STATUS_RECEIVING_SF)
    ∧ (CANTP_GET_FRAME_TYPE ((run K E w0 evs).chn r).pciInfo buf = CANTP_FRAME_TYPE_FF
        ∨ CANTP_GET_FRAME_TYPE ((run K E w0 evs).chn r).pciInfo buf = CANTP_FRAME_TYPE_CF →
        (Cantp_RxIndication K E id size buf (run K E w0 evs)).chn r = (run K E w0 evs).chn r)
    ∧ (CANTP_GET_FRAME_TYPE ((run K E w0 evs).chn r).pciInfo buf = CANTP_FRAME_TYPE_FF
        ∨ CANTP_GET_FRAME_TYPE ((run K E w0 evs).chn r).pciInfo buf = CANTP_FRAME_TYPE_CF →
        _Cantp_GetChannelByRxId (run K E w0 evs) id gs_CanTpRxChannel = some r →
        CANTP_GET_FRAME_TYPE (run K E w0 evs).tx0.pciInfo buf ≠ CANTP_FRAME_TYPE_FC →
        Cantp_RxIndication K E id size buf (run K E w0 evs) = run K E w0 evs) := by
  have hq : FunctionalQuiet (run K E w0 evs) r := functional_run K E r hr evs w0 ⟨hfun, hst⟩
  have hne : r ≠ .tx0 := by rcases hr with rfl | rfl <;> decide
  refine ⟨hq.1, hq.2, ?_, ?_⟩
  · intro hty
    rcases rxInd_cases K E id size buf (run K E w0 evs) with e | ⟨_, _, _, _, _, e⟩
      | ⟨_, t, _, _, _, _, _, e⟩
    · rw [e]
    · rw [e]
      exact rxProcess_other K E 3 .tx0 r size buf _ hne
    · rw [e]
      by_cases ht : r = t
      · subst ht
        have h0 : CANTP_GET_FRAME_TYPE ((run K E w0 evs).chn r).pciInfo buf ≠ 0 := by
          rcases hty with a | a <;> rw [a] <;> decide
        rw [(rxProcess_functional K E _ r size buf _ hq).2 h0]
      · exact rxProcess_other K E _ t r size buf _ ht
  · intro hty hl htx
    rcases rxInd_cases K E id size buf (run K E w0 evs) with e | ⟨_, _, _, hfc, _, _⟩
      | ⟨_, t, hl', _, _, _, _, e⟩
    · exact e
    · exact absurd hfc htx
    · rw [hl] at hl'
      have ht : r = t := Option.some.inj hl'
      subst ht
      have h0 : CANTP_GET_FRAME_TYPE ((run K E w0 evs).chn r).pciInfo buf ≠ 0 := by
        rcases hty with a | a <;> rw [a] <;> decide
      rw [e, (rxProcess_functional K E _ r size buf _ hq).2 h0]

set_option maxRecDepth 100000 in
theorem C22_functional_rx_channel_witness :
    ((run classicBuild (envOf []) classicInit
        [.rxInd 0x7DF 8 [0x02, 0x3E, 0x80, 0, 0, 0, 0, 0], .transmit 0 20, .tick]).chn
          .rx1).chnCfg.taType = CANTP_TATYPE_FUNCTIONAL
    ∧ (((run classicBuild (envOf []) classicInit
        [.rxInd 0x7DF 8 [0x02, 0x3E, 0x80, 0, 0, 0, 0, 0], .transmit 0 20, .tick]).chn
          .rx1).status = CANTP_STATUS_IDLE
        ∨ ((run classicBuild (envOf []) classicInit
        [.rxInd 0x7DF 8 [0x02, 0x3E, 0x80, 0, 0, 0, 0, 0], .transmit 0 20, .tick]).chn
          .rx1).status = CANTP_STATUS_RECEIVING_SF)
    ∧ (Cantp_RxIndication classicBuild (envOf []) 0x7DF 8 [0x10, 0x0A, 1, 2, 3, 4, 5, 6]
        (run classicBuild (envOf []) classicInit
          [.rxInd 0x7DF 8 [0x02, 0x3E, 0x80, 0, 0, 0, 0, 0], .transmit 0 20, .tick])).chn .rx1
        = (run classicBuild (envOf []) classicInit
          [.rxInd 0x7DF 8 [0x02, 0x3E, 0x80, 0, 0, 0, 0, 0], .transmit 0 20, .tick]).chn .rx1
    ∧ Cantp_RxIndication classicBuild (envOf []) 0x7DF 8 [0x10, 0x0A, 1, 2, 3, 4, 5, 6]
        (run classicBuild (envOf []) classicInit
          [.rxInd 0x7DF 8 [0x02, 0x3E, 0x80, 0, 0, 0, 0, 0], .transmit 0 20, .tick])
        = run classicBuild (envOf []) classicInit
          [.rxInd 0x7DF 8 [0x02, 0x3E, 0x80, 0, 0, 0, 0, 0], .transmit 0 20, .tick] :=
  ⟨(C22_functional_rx_channel classicBuild (envOf []) classicInit .rx1
      [.rxInd 0x7DF 8 [0x02, 0x3E, 0x80, 0, 0, 0, 0, 0], .transmit 0 20, .tick] 0x7DF 8
      [0x10, 0x0A, 1, 2, 3, 4, 5, 6] (Or.inr rfl) (by decide) (by decide)).1,
   (C22_functional_rx_channel classicBuild (envOf []) classicInit .rx1
      [.rxInd 0x7DF 8 [0x02, 0x3E, 0x80, 0, 0, 0, 0, 0], .transmit 0 20, .tick] 0x7DF 8
      [0x10, 0x0A, 1, 2, 3, 4, 5, 6] (Or.inr rfl) (by decide) (by decide)).2.1,
   (C22_functional_rx_channel classicBuild (envOf []) classicInit .rx1
      [.rxInd 0x7DF 8 [0x02, 0x3E, 0x80, 0, 0, 0, 0, 0], .transmit 0 20, .tick] 0x7DF 8
      [0x10, 0x0A, 1, 2, 3, 4, 5, 6] (Or.inr rfl) (by decide) (by decide)).2.2.1
      (Or.inl (by decide)),
   (C22_functional_rx_channel classicBuild (envOf []) classicInit .rx1
      [.rxInd 0x7DF 8 [0x02, 0x3E, 0x80, 0, 0, 0, 0, 0], .transmit 0 20, .tick] 0x7DF 8
      [0x10, 0x0A, 1, 2, 3, 4, 5, 6] (Or.inr rfl) (by decide) (by decide)).2.2.2
      (Or.inl (by decide)) (by decide) (by decide)⟩


/-! ## C26: the timer over one tick -/

theorem confirm_mono (K : FblConfig) (s : Nat) (r : ChnRef) (w : World) :
    w.trace.length ≤ (gs_TxConfirmList K s r w).trace.length := by
  rcases s with _ | _ | _ | _ | _ | s <;>
    simp only [gs_TxConfirmList, _Cantp_TxConfirmIdle, _Cantp_TxConfirmSF, _Cantp_TxConfirmFF,
      _Cantp_TxConfirmCF, _Cantp_TxConfirmFC, Diag_TxConfirmation] <;>
    (try split_ifs) <;> simp

theorem afterSend_mono (K : FblConfig) (r : ChnRef) (id : Nat) (ret : bl_Return) (w : World) :
    w.trace.length ≤ (afterSend K r id ret w).trace.length := by
  simp only [afterSend, Cantp_TxConfirmation, slot_setSlot]
  split_ifs
  · have := confirm_mono K ((w.upd r fun c =>
        { c with subStatus := CANTP_SUB_STATUS_TRANSMITTING }).setSlot (some r) |>.chn r).status r
      ((w.upd r fun c => { c with subStatus := CANTP_SUB_STATUS_TRANSMITTING }).setSlot (some r))
    simpa using this
  · simp
  · simp

theorem periodChannel_rx_mono (K : FblConfig) (E : Env) (w : World) (r : ChnRef) :
    w.trace.length ≤ (periodChannel (gs_RxPeriodList K E) w r).trace.length := by
  by_cases ht : (w.chn r).timer = 0
  · unfold periodChannel
    generalize hs : (w.chn r).status = s
    rcases s with _ | _ | _ | _ | _ | s <;>
      simp only [ht, if_true, gs_RxPeriodList, _Cantp_TimeoutIdle, _Cantp_TimeoutRecvSF,
        _Cantp_TimeoutRecvFF, _Cantp_TimeoutRecvCF, _Cantp_TimeoutTranFC, Diag_RxIndication] <;>
      (try split_ifs) <;> simp
  · unfold periodChannel
    generalize hs : (w.chn r).status = s
    rcases s with _ | _ | _ | _ | _ | s
    · simp [ht, hs, gs_RxPeriodList, _Cantp_PeriodIdle]
    · simp only [ht, if_false, chn_upd_same, decTimer_status, hs, gs_RxPeriodList,
        _Cantp_PeriodRecvSF, Diag_StartOfReception, Diag_CopyRxData, Diag_RxIndication]
      split_ifs <;> simp
    · simp only [ht, if_false, chn_upd_same, decTimer_status, hs, gs_RxPeriodList,
        _Cantp_PeriodRecvFF, Diag_StartOfReception, Diag_CopyRxData, Diag_RxIndication]
      split_ifs <;> simp
    · simp only [ht, if_false, chn_upd_same, decTimer_status, hs, gs_RxPeriodList,
        _Cantp_PeriodRecvCF, Diag_RxIndication]
      split_ifs <;> simp
    · simp only [ht, if_false, chn_upd_same, decTimer_status, hs, gs_RxPeriodList,
        _Cantp_PeriodTranFC, FblCanSendData]
      split_ifs
      · refine le_trans ?_ (afterSend_mono K r _ _ _)
        simp
      · simp
    · simp [ht, hs, gs_RxPeriodList]

theorem periodChannel_tx_mono (K : FblConfig) (E : Env) (w : World) (r : ChnRef) :
    w.trace.length ≤ (periodChannel (gs_TxPeriodList K E) w r).trace.length := by
  by_cases ht : (w.chn r).timer = 0
  · unfold periodChannel
    generalize hs : (w.chn r).status = s
    rcases s with _ | _ | _ | _ | _ | s <;>
      simp only [ht, if_true, gs_TxPeriodList, _Cantp_TimeoutIdle, _Cantp_TimeoutTranSF,
        _Cantp_TimeoutTranFF, _Cantp_TimeoutTranCF, _Cantp_TimeoutRecvFC, Diag_TxConfirmation] <;>
      (try split_ifs) <;> simp
  · unfold periodChannel
    generalize hs : (w.chn r).status = s
    rcases s with _ | _ | _ | _ | _ | s
    · simp [ht, hs, gs_TxPeriodList, _Cantp_PeriodIdle]
    · simp only [ht, if_false, chn_upd_same, decTimer_status, hs, gs_TxPeriodList,
        _Cantp_PeriodTranSF, FblCanSendData, Diag_CopyTxData]
      split_ifs
      · refine le_trans ?_ (afterSend_mono K r _ _ _)
        simp
      · simp
    · simp only [ht, if_false, chn_upd_same, decTimer_status, hs, gs_TxPeriodList,
        _Cantp_PeriodTranFF, FblCanSendData, Diag_CopyTxData]
      split_ifs
      · refine le_trans ?_ (afterSend_mono K r _ _ _)
        simp
      · simp
    · simp only [ht, if_false, chn_upd_same, decTimer_status, hs, gs_TxPeriodList,
        _Cantp_PeriodTranCF, _Cantp_TransmitCF, FblCanSendData]
      split_ifs
      all_goals first
        | (simp; done)
        | (refine le_trans ?_ (afterSend_mono K r _ _ _); simp)
    · simp [ht, hs, gs_TxPeriodList, _Cantp_PeriodRecvFC]
    · simp [ht, hs, gs_TxPeriodList]

/-- The loop body of `_Cantp_PeriodFunction` for an Rx channel that is not Idle and
whose timer has run out: the timeout handler runs; the channel goes Idle, or, from
RecvFF with wait frames left, to TranFC with flow status WAIT. -/
theorem periodChannel_rx_timeout (K : FblConfig) (E : Env) (w : World) (r : ChnRef)
    (ht : (w.chn r).timer = 0) (h1 : 1 ≤ (w.chn r).status) (h4 : (w.chn r).status ≤ 4) :
    (periodChannel (gs_RxPeriodList K E) w r).chn r = _Cantp_GotoIdle (w.chn r)
    ∨ ((w.chn r).status = CANTP_STATUS_RECEIVING_FF ∧ (w.chn r).wft ≠ 0
        ∧ (periodChannel (gs_RxPeriodList K E) w r).chn r
            = _Cantp_GotoTranFC { w.chn r with wft := (w.chn r).wft - 1 } CANTP_FC_FRAME_WAIT) := by
  unfold periodChannel
  generalize hs : (w.chn r).status = s at h1 h4
  rcases s with _ | _ | _ | _ | _ | s
  · omega
  · left
    simp [ht, gs_RxPeriodList, _Cantp_TimeoutRecvSF]
  · by_cases hw : (w.chn r).wft = 0
    · left
      simp [ht, gs_RxPeriodList, _Cantp_TimeoutRecvFF, hw]
    · right
      refine ⟨rfl, hw, ?_⟩
      simp [ht, gs_RxPeriodList, _Cantp_TimeoutRecvFF, hw]
  · left
    simp [ht, gs_RxPeriodList, _Cantp_TimeoutRecvCF, Diag_RxIndication]
  · left
    simp only [ht, if_true, gs_RxPeriodList, _Cantp_TimeoutTranFC, Diag_RxIndication]
    split_ifs <;> simp_all
  · omega

/-- The loop body of `_Cantp_PeriodFunction` for a Tx channel that is not Idle and
whose timer has run out: the timeout handler runs and the channel goes Idle. -/
theorem periodChannel_tx_timeout (K : FblConfig) (E : Env) (w : World) (r : ChnRef)
    (ht : (w.chn r).timer = 0) (h1 : 1 ≤ (w.chn r).status) (h4 : (w.chn r).status ≤ 4) :
    (periodChannel (gs_TxPeriodList K E) w r).chn r = _Cantp_GotoIdle (w.chn r) := by
  unfold periodChannel
  generalize hs : (w.chn r).status = s at h1 h4
  rcases s with _ | _ | _ | _ | _ | s
  · omega
  · simp [ht, gs_TxPeriodList, _Cantp_TimeoutTranSF, Diag_TxConfirmation]
  · simp [ht, gs_TxPeriodList, _Cantp_TimeoutTranFF, Diag_TxConfirmation]
  · simp [ht, gs_TxPeriodList, _Cantp_TimeoutTranCF, Diag_TxConfirmation]
  · simp [ht, gs_TxPeriodList, _Cantp_TimeoutRecvFC, Diag_TxConfirmation]
  · omega

set_option maxRecDepth 100000 in
/-- C26 (counterexample): on the classical build the physical Rx channel is in
RecvFF with timer 35 after a First Frame; one tick in which Diag grants the buffer
leaves it in TranFC with timer 35 (timer A), not 34, although no timeout handler
ran.  Likewise the Tx channel, in TranFF with timer 35 after `Cantp_Transmit(0,
20)`, is in RecvFC with timer 75 (timer B) after one tick. -/
theorem C26_timer_rearmed_by_transition :
    (Cantp_RxIndication classicBuild (envOf []) 0x7E0 8 [0x10, 0x0A, 1, 2, 3, 4, 5, 6]
        classicInit).rx0.status = CANTP_STATUS_RECEIVING_FF
    ∧ (Cantp_RxIndication classicBuild (envOf []) 0x7E0 8 [0x10, 0x0A, 1, 2, 3, 4, 5, 6]
        classicInit).rx0.timer = 35
    ∧ (Cantp_PeriodFunction classicBuild (envOf [])
        (Cantp_RxIndication classicBuild (envOf []) 0x7E0 8 [0x10, 0x0A, 1, 2, 3, 4, 5, 6]
          classicInit)).rx0.status = CANTP_STATUS_TRANSMITTING_FC
    ∧ (Cantp_PeriodFunction classicBuild (envOf [])
        (Cantp_RxIndication classicBuild (envOf []) 0x7E0 8 [0x10, 0x0A, 1, 2, 3, 4, 5, 6]
          classicInit)).rx0.timer = 35
    ∧ (Cantp_Transmit 0 20 classicInit).2.tx0.status = CANTP_STATUS_TRANSMITTING_FF
    ∧ (Cantp_Transmit 0 20 classicInit).2.tx0.timer = 35
    ∧ (Cantp_PeriodFunction classicBuild (envOf []) (Cantp_Transmit 0 20 classicInit).2).tx0.status
        = CANTP_STATUS_RECEIVING_FC
    ∧ (Cantp_PeriodFunction classicBuild (envOf []) (Cantp_Transmit 0 20 classicInit).2).tx0.timer
        = 75 := by
  decide

/-! ## C28: twenty bytes on classical CAN -/

/-- A Flow Control frame received while the Tx channel is not in RecvFC changes
nothing. -/
theorem rxInd_FC_ignored (K : FblConfig) (E : Env) (w : World) (id size : Nat) (buf : List Nat)
    (pci : bl_CanTpPciInfo_t) (p0 : w.rx0.pciInfo = pci) (p1 : w.rx1.pciInfo = pci)
    (hty : CANTP_GET_FRAME_TYPE pci buf = CANTP_FRAME_TYPE_FC)
    (hs : w.tx0.status ≠ CANTP_STATUS_RECEIVING_FC) :
    Cantp_RxIndication K E id size buf w = w := by
  rcases rxInd_cases K E id size buf w with e | ⟨_, _, _, _, h, _⟩ | ⟨_, r, _, hr, _, _, hlt, _⟩
  · exact e
  · exact absurd h hs
  · rcases hr with rfl | rfl
    · simp only [chn_rx0, p0, hty] at hlt
      exact absurd hlt (by decide)
    · simp only [chn_rx1, p1, hty] at hlt
      exact absurd hlt (by decide)

/-- With all three channels Idle, ticks and received Flow Control frames, in any
order, make no call. -/
theorem allIdle_run (K : FblConfig) (E : Env) (pci : bl_CanTpPciInfo_t) (evs : List Event) :
    ∀ w : World, (∀ e ∈ evs, PeerEvent pci e) → AllIdle pci w →
      (run K E w evs).trace = w.trace := by
  induction evs with
  | nil => intro w _ _; rfl
  | cons e es ih =>
    intro w hev h
    have he := hev e (List.mem_cons_self _ _)
    have hes : ∀ e' ∈ es, PeerEvent pci e' := fun e' m => hev e' (List.mem_cons_of_mem _ m)
    obtain ⟨r0, r1, t0, p0, p1, pt⟩ := h
    show (run K E (step K E w e) es).trace = w.trace
    cases e with
    | tick =>
      have hat := tx_idle K E w w.tx0 w.trace ⟨rfl, rfl, r0, r1⟩ t0
      obtain ⟨q0, q1⟩ := tick_rx_pci K E w r0 r1
      have hi : AllIdle pci (Cantp_PeriodFunction K E w) :=
        ⟨hat.2.2.1, hat.2.2.2, by rw [hat.1]; exact t0, by rw [q0, p0], by rw [q1, p1],
          by rw [hat.1]; exact pt⟩
      rw [show step K E w .tick = Cantp_PeriodFunction K E w from rfl, ih _ hes hi, hat.2.1]
    | rxInd id size buf =>
      have e : step K E w (.rxInd id size buf) = w :=
        rxInd_FC_ignored K E w id size buf pci p0 p1 he (by rw [t0]; decide)
      rw [e]
      exact ih _ hes ⟨r0, r1, t0, p0, p1, pt⟩
    | transmit a b => exact absurd he (by simp [PeerEvent])
    | txConf a => exact absurd he (by simp [PeerEvent])

/-- Ticks while both Rx channels are Idle leave them Idle with their descriptors. -/
theorem ticks_rx_pci (K : FblConfig) (E : Env) (n : Nat) :
    ∀ w : World, w.rx0.status = CANTP_STATUS_IDLE → w.rx1.status = CANTP_STATUS_IDLE →
      (ticks K E n w).rx0.pciInfo = w.rx0.pciInfo
      ∧ (ticks K E n w).rx1.pciInfo = w.rx1.pciInfo := by
  induction n with
  | zero => intro w _ _; exact ⟨rfl, rfl⟩
  | succ n ih =>
    intro w h0 h1
    have hat := tick_TxAt K E w w.tx0 w.trace ⟨rfl, rfl, h0, h1⟩
    obtain ⟨q0, q1⟩ := tick_rx_pci K E w h0 h1
    obtain ⟨a, b⟩ := ih _ hat.2.2.1 hat.2.2.2
    rw [ticks_succ]
    exact ⟨a.trans q0, b.trans q1⟩


theorem pciStandard_classic (K : FblConfig) (hfd : K.ENABLE_CANFD = false) :
    pciStandard K = { pciPos := 0, dataPos := 1, ffDataPos := 2, fcBsPos := 1, fcStPos := 2,
                      maxDataSize := 7, maxFFDataSize := 6, maxFCDataSize := 3 } := by
  simp [pciStandard, hfd]

/-- The Tx channel record right after `CanTp_Init` and `Cantp_Transmit(0, 20)`. -/
theorem transmit20 (K : FblConfig) (hfd : K.ENABLE_CANFD = false) :
    (Cantp_Transmit 0 20 (CanTp_Init K (zeroWorld K))).1 = ERR_OK
    ∧ TxAt (Cantp_Transmit 0 20 (CanTp_Init K (zeroWorld K))).2
        (_Cantp_GotoTranFF (_Cantp_SetMultipleFrameSize (CanTp_Init K (zeroWorld K)).tx0 20)) []
    ∧ (Cantp_Transmit 0 20 (CanTp_Init K (zeroWorld K))).2.rx0.pciInfo = pciStandard K
    ∧ (Cantp_Transmit 0 20 (CanTp_Init K (zeroWorld K))).2.rx1.pciInfo = pciStandard K := by
  have hps := pciStandard_classic K hfd
  have e : Cantp_Transmit 0 20 (CanTp_Init K (zeroWorld K))
      = (ERR_OK, (CanTp_Init K (zeroWorld K)).upd .tx0 fun c =>
          _Cantp_GotoTranFF (_Cantp_SetMultipleFrameSize c 20)) := by
    rw [Cantp_Transmit_zero]
    simp [CanTp_Init, initChannels, _Cantp_InitChannel, g_CanTpTxChnsCfg, zeroWorld, zeroChannel,
      hps, CANTP_STATUS_IDLE, CANTP_TATYPE_PHYSICAL, CANTP_TYPE_STANDARD]
  rw [e]
  refine ⟨rfl, ⟨by simp, rfl, rfl, rfl⟩, ?_, ?_⟩
  · simp [CanTp_Init, initChannels, _Cantp_InitChannel, g_CanTpRxChnsCfg, CANTP_TYPE_STANDARD]
  · simp [CanTp_Init, initChannels, _Cantp_InitChannel, g_CanTpRxChnsCfg, CANTP_TYPE_STANDARD]


/-- The second PCI byte of the First Frame staged by `_Cantp_PeriodTranFF`. -/
theorem rd_ffFrame_pci2 (K : FblConfig) (E : Env) (tr : List Call) (c : bl_CanTpChannel_t)
    (hpci : c.pciInfo ∈ gs_CanTpPciInfo K) (hlen : c.frame.length = CANTP_MAX_FRAME_SIZE K) :
    rd ((ffFrame E tr c).take (CANTP_MAX_FRAME_SIZE K)) (c.pciInfo.pciPos + 1)
      = UINT8 (UINT16 ((c.totalSize &&& CANTP_FRAME_FF_DATASIZE_MASK)
          + CANTP_FRAME_FF_VAULE_16BITS)) := by
  obtain ⟨_, b2, _, b4, b5, b6, _, b8, b9⟩ := pci_bounds K _ hpci
  have h8 := max_frame_size_ge K
  rw [rd_take _ _ _ (by omega)]
  unfold ffFrame
  rw [rd_writeAt_lt _ _ _ _ _ (by omega)]
  simp only [_Cantp_MakePciOfFF]
  rw [rd_set_eq _ _ _ (by rw [List.length_set, length_putTa, hlen]; omega)]

/-- The scenario up to the First Frame: `Cantp_Transmit(0, 20)` after `CanTp_Init`
on a classical build, then one tick with an accepting driver. -/
theorem sent20_at (K : FblConfig) (E : Env) (hfd : K.ENABLE_CANFD = false)
    (hdrv : ∀ t f i len, E.FblCanSendData t f i len = ERR_OK)
    (hA : CANTP_MAKE_TIMEOUT K.TPL_TIMER_AS ≠ 0) :
    ∃ (c : bl_CanTpChannel_t) (ff : List Nat),
      TxAt (sent20 K E) c
        [Call.Diag_CopyTxData 6, Call.FblCanSendData ff K.FBL_CAN_TX_ID_PHY 8]
      ∧ rd ff 0 = 0x10 ∧ rd ff 1 = 20
      ∧ c.status = CANTP_STATUS_RECEIVING_FC ∧ c.pciInfo = pciStandard K
      ∧ c.chnCfg.rxId = K.FBL_CAN_RX_ID_PHY ∧ c.chnCfg.txId = K.FBL_CAN_TX_ID_PHY
      ∧ c.chnCfg.type = CANTP_TYPE_STANDARD
      ∧ c.cfCnt = 2 ∧ c.sn = 1 ∧ c.lastSize = 7 ∧ c.frame.length = 8
      ∧ (sent20 K E).rx0.pciInfo = pciStandard K ∧ (sent20 K E).rx1.pciInfo = pciStandard K := by
  have hps := pciStandard_classic K hfd
  have hmax : CANTP_MAX_FRAME_SIZE K = 8 := by simp [CANTP_MAX_FRAME_SIZE, hfd]
  obtain ⟨_, hat, q0, q1⟩ := transmit20 K hfd
  have hpc : (_Cantp_GotoTranFF (_Cantp_SetMultipleFrameSize
      (CanTp_Init K (zeroWorld K)).tx0 20)).pciInfo = pciStandard K := by
    simp [_Cantp_GotoTranFF, _Cantp_SetMultipleFrameSize, CanTp_Init, initChannels,
      _Cantp_InitChannel, g_CanTpTxChnsCfg, CANTP_TYPE_STANDARD]
  have hlen : (_Cantp_GotoTranFF (_Cantp_SetMultipleFrameSize
      (CanTp_Init K (zeroWorld K)).tx0 20)).frame.length = CANTP_MAX_FRAME_SIZE K := by
    simp [_Cantp_GotoTranFF, _Cantp_SetMultipleFrameSize, CanTp_Init, initChannels,
      _Cantp_InitChannel, zeroWorld, zeroChannel]
  have hmem : (_Cantp_GotoTranFF (_Cantp_SetMultipleFrameSize
      (CanTp_Init K (zeroWorld K)).tx0 20)).pciInfo ∈ gs_CanTpPciInfo K := by
    rw [hpc]; simp [gs_CanTpPciInfo]
  have s1 := tx_tranFF_send K E _ _ _ hat hdrv rfl
    (by simpa [_Cantp_GotoTranFF, _Cantp_SetMultipleFrameSize, CanTp_Init, initChannels,
      _Cantp_InitChannel, g_CanTpTxChnsCfg] using hA) rfl
  have r0 := rd_ffFrame_pci K E [] _ hmem hlen
  have r1 := rd_ffFrame_pci2 K E [] _ hmem hlen
  obtain ⟨p0, p1⟩ := tick_rx_pci K E _ hat.2.2.1 hat.2.2.2
  refine ⟨afterFF E [] (_Cantp_GotoTranFF (_Cantp_SetMultipleFrameSize
      (CanTp_Init K (zeroWorld K)).tx0 20)),
    (ffFrame E [] (_Cantp_GotoTranFF (_Cantp_SetMultipleFrameSize
      (CanTp_Init K (zeroWorld K)).tx0 20))).take 8,
    ?_, ?_, ?_, rfl, ?_, ?_, ?_, ?_, ?_, ?_, ?_, ?_, p0.trans q0, p1.trans q1⟩
  · have s1' := s1
    simp only [List.nil_append, hpc, hps, hmax] at s1'
    have e : (_Cantp_GotoTranFF (_Cantp_SetMultipleFrameSize
        (CanTp_Init K (zeroWorld K)).tx0 20)).chnCfg.txId = K.FBL_CAN_TX_ID_PHY := by
      simp [_Cantp_GotoTranFF, _Cantp_SetMultipleFrameSize, CanTp_Init, initChannels,
        _Cantp_InitChannel, g_CanTpTxChnsCfg]
    rw [e] at s1'
    exact s1'
  · rw [hpc, hps, hmax] at r0
    refine r0.trans ?_
    simp only [_Cantp_GotoTranFF, _Cantp_SetMultipleFrameSize, UINT8, UINT16,
      CANTP_FRAME_FF_DATASIZE_MASK, CANTP_FRAME_FF_VAULE_16BITS]
    decide
  · rw [hpc, hps, hmax] at r1
    refine r1.trans ?_
    simp only [_Cantp_GotoTranFF, _Cantp_SetMultipleFrameSize, UINT8, UINT16,
      CANTP_FRAME_FF_DATASIZE_MASK, CANTP_FRAME_FF_VAULE_16BITS]
    decide
  · exact hpc
  · simp [afterFF, _Cantp_GotoTranFF, _Cantp_SetMultipleFrameSize, CanTp_Init, initChannels,
      _Cantp_InitChannel, g_CanTpTxChnsCfg]
  · simp [afterFF, _Cantp_GotoTranFF, _Cantp_SetMultipleFrameSize, CanTp_Init, initChannels,
      _Cantp_InitChannel, g_CanTpTxChnsCfg]
  · simp [afterFF, _Cantp_GotoTranFF, _Cantp_SetMultipleFrameSize, CanTp_Init, initChannels,
      _Cantp_InitChannel, g_CanTpTxChnsCfg]
  · simp [afterFF, _Cantp_GotoTranFF, _Cantp_SetMultipleFrameSize, CanTp_Init, initChannels,
      _Cantp_InitChannel, g_CanTpTxChnsCfg, CANTP_TYPE_STANDARD, hps, UINT16]
  · simp [afterFF, _Cantp_GotoTranFF, UINT8]
  · simp [afterFF, _Cantp_GotoTranFF, _Cantp_SetMultipleFrameSize, CanTp_Init, initChannels,
      _Cantp_InitChannel, g_CanTpTxChnsCfg, CANTP_TYPE_STANDARD, hps, UINT16, UINT8]
  · rw [show (afterFF E [] _).frame = ffFrame E [] _ from rfl, length_ffFrame, hlen, hmax]


/-- A Flow Control frame received while the physical Rx channel is Idle leaves the
descriptors of both Rx channels alone. -/
theorem rxInd_FC_rx_pci (K : FblConfig) (E : Env) (w : World) (id size : Nat) (buf : List Nat)
    (h0 : w.rx0.status = CANTP_STATUS_IDLE)
    (p0 : w.rx0.pciInfo = w.tx0.pciInfo) (p1 : w.rx1.pciInfo = w.tx0.pciInfo)
    (hty : CANTP_GET_FRAME_TYPE w.tx0.pciInfo buf = CANTP_FRAME_TYPE_FC) :
    (Cantp_RxIndication K E id size buf w).rx0.pciInfo = w.rx0.pciInfo
    ∧ (Cantp_RxIndication K E id size buf w).rx1.pciInfo = w.rx1.pciInfo := by
  rcases rxInd_FC K E w id size buf h0 p0 p1 hty with e | ⟨_, e⟩ | ⟨_, e⟩ | ⟨x, e⟩ <;>
    rw [e] <;> simp [Diag_TxConfirmation]

/-- The scenario after the First Frame: a Tx channel in RecvFC with two Consecutive
Frames left receives FC/CTS with block size 2 and STmin 5 ms; the driver accepts
and the CR watchdog lasts at least 3 ticks.  Nothing is sent in the first two
ticks, the first Consecutive Frame in tick 3, the second in tick 6, which
completes the transfer. -/
theorem cts_two_frames (K : FblConfig) (E : Env) (p : Nat) (hfd : K.ENABLE_CANFD = false)
    (hdrv : ∀ t f i len, E.FblCanSendData t f i len = ERR_OK)
    (hCR : 3 ≤ CANTP_MAKE_TIMEOUT K.TPL_TIMER_CR)
    (w : World) (c : bl_CanTpChannel_t) (tr : List Call) (h : TxAt w c tr)
    (hs : c.status = CANTP_STATUS_RECEIVING_FC) (hp : c.pciInfo = pciStandard K)
    (hid : c.chnCfg.rxId = K.FBL_CAN_RX_ID_PHY) (hty : c.chnCfg.type = CANTP_TYPE_STANDARD)
    (hcnt : c.cfCnt = 2) (hsn : c.sn = 1) (hls : c.lastSize = 7) (hlen : c.frame.length = 8)
    (q0 : w.rx0.pciInfo = pciStandard K) (q1 : w.rx1.pciInfo = pciStandard K) :
    ∃ (cf1 cf2 : List Nat) (c6 : bl_CanTpChannel_t),
      rd cf1 0 = 0x21 ∧ rd cf2 0 = 0x22
      ∧ (∀ n, n ≤ 2 →
          (ticks K E n (Cantp_RxIndication K E K.FBL_CAN_RX_ID_PHY 8 (fcBs2St5 p) w)).trace = tr)
      ∧ (∀ n, n ≤ 2 →
          (ticks K E (3 + n) (Cantp_RxIndication K E K.FBL_CAN_RX_ID_PHY 8 (fcBs2St5 p) w)).trace
            = tr ++ [Call.FblCanSendData cf1 c.chnCfg.txId 8])
      ∧ TxAt (ticks K E 6 (Cantp_RxIndication K E K.FBL_CAN_RX_ID_PHY 8 (fcBs2St5 p) w)) c6
          (tr ++ [Call.FblCanSendData cf1 c.chnCfg.txId 8,
                  Call.FblCanSendData cf2 c.chnCfg.txId 8,
                  Call.Diag_TxConfirmation ERR_OK])
      ∧ c6.status = CANTP_STATUS_IDLE
      ∧ AllIdle (pciStandard K)
          (ticks K E 6 (Cantp_RxIndication K E K.FBL_CAN_RX_ID_PHY 8 (fcBs2St5 p) w)) := by
  have hps := pciStandard_classic K hfd
  have hmax : CANTP_MAX_FRAME_SIZE K = 8 := by simp [CANTP_MAX_FRAME_SIZE, hfd]
  have hcr : CANTP_CHNNEL_RX_CR K = CANTP_MAKE_TIMEOUT K.TPL_TIMER_CR := by
    simp [CANTP_CHNNEL_RX_CR, g_CanTpRxChnsCfg]
  have hpc := hp.trans hps
  have hmem : c.pciInfo ∈ gs_CanTpPciInfo K := by rw [hp]; simp [gs_CanTpPciInfo]
  have hbs : CANTP_GET_FC_BS c.pciInfo (fcBs2St5 p) = 2 := by rw [hpc]; rfl
  have hr0 : rd (fcBs2St5 p) 0 = 0x30 := rfl
  have hr2 : rd (fcBs2St5 p) 2 = 5 := rfl
  have hst : _Cantp_GetSTMinFromFC (CANTP_GET_FC_STMIN c.pciInfo (fcBs2St5 p)) = 3 := by
    rw [hpc]
    show _Cantp_GetSTMinFromFC (rd (fcBs2St5 p) 2) = 3
    rw [hr2]
    decide
  have hft : CANTP_GET_FRAME_TYPE c.pciInfo (fcBs2St5 p) = CANTP_FRAME_TYPE_FC := by
    rw [hpc]
    show GET_LOW_HALF (rd (fcBs2St5 p) 0 >>> 4) = CANTP_FRAME_TYPE_FC
    rw [hr0]
    decide
  have hfs : CANTP_GET_FC_FS c.pciInfo (fcBs2St5 p) = CANTP_FC_FRAME_CTS := by
    rw [hpc]
    show GET_LOW_HALF (rd (fcBs2St5 p) 0) = CANTP_FC_FRAME_CTS
    rw [hr0]
    decide
  have s0 := rxInd_FC_cts K E w c tr K.FBL_CAN_RX_ID_PHY 8 (fcBs2St5 p) h (by rw [hmax]) hid
    (Or.inl hty) hs hft hfs
  rw [hbs, hst] at s0
  -- the separation delay before the first Consecutive Frame
  have d1 : ∀ n, n ≤ 2 → TxAt
      (ticks K E n (Cantp_RxIndication K E K.FBL_CAN_RX_ID_PHY 8 (fcBs2St5 p) w))
      { _Cantp_GotoTranCF K { c with bs := 2, st := 3 } with
        timer := CANTP_CHNNEL_RX_CR K - n, txDelay := 3 - n } tr := by
    intro n hn
    exact tx_delay_ticks K E n _ _ _ s0 rfl rfl (by simp only [_Cantp_GotoTranCF]; omega)
      (by simp only [_Cantp_GotoTranCF]; omega)
  have hU2 : UINT16 (2 + 65535) = 1 := by simp [UINT16]
  have hU1 : UINT16 (1 + 65535) = 0 := by simp [UINT16]
  -- the first Consecutive Frame
  have s3 := tx_tranCF_send K E _ _ _ (d1 2 (le_refl 2)) hdrv rfl (by simp only; omega) rfl
    (by simp only; omega)
  rw [← ticks_succ_last] at s3
  have r1 := rd_cfFrame_pci K
    { _Cantp_GotoTranCF K { c with bs := 2, st := 3 } with
      timer := CANTP_CHNNEL_RX_CR K - 2, txDelay := 3 - 2 } hmem (by rw [hmax]; exact hlen)
    (by simp only [_Cantp_GotoTranCF]; omega)
  obtain ⟨c4, hc4⟩ : ∃ c4, c4 = afterCF K
      { _Cantp_GotoTranCF K { c with bs := 2, st := 3 } with
        timer := CANTP_CHNNEL_RX_CR K - 2, txDelay := 3 - 2 } := ⟨_, rfl⟩
  obtain ⟨cf1, hcf1⟩ : ∃ cf1, cf1 = (cfFrame K
      { _Cantp_GotoTranCF K { c with bs := 2, st := 3 } with
        timer := CANTP_CHNNEL_RX_CR K - 2, txDelay := 3 - 2 }).take (CANTP_MAX_FRAME_SIZE K) :=
    ⟨_, rfl⟩
  rw [← hc4, ← hcf1] at s3
  rw [← hcf1] at r1
  simp only [_Cantp_GotoTranCF, hcnt, hU2, one_ne_zero, if_false, hmax, hpc, hsn] at s3 r1
  have g1 : c4.status = CANTP_STATUS_TRANSMITTING_CF := by
    rw [hc4]; simp [afterCF, _Cantp_GotoTranCF, hcnt, hU2, CANTP_STATUS_TRANSMITTING_CF]
  have g2 : c4.subStatus = CANTP_SUB_STATUS_IDLE := by rw [hc4]; simp [afterCF]
  have g3 : c4.txDelay = 3 := by rw [hc4]; simp [afterCF, _Cantp_GotoTranCF, hcnt, hU2]
  have g4 : c4.timer = CANTP_CHNNEL_RX_CR K := by
    rw [hc4]; simp [afterCF, _Cantp_GotoTranCF, hcnt, hU2]
  have g5 : c4.cfCnt = 1 := by rw [hc4]; simp [afterCF, _Cantp_GotoTranCF, hcnt, hU2]
  have g6 : c4.sn = 2 := by rw [hc4]; simp [afterCF, _Cantp_GotoTranCF, hsn, UINT8]
  have g7 : c4.pciInfo = c.pciInfo := by rw [hc4]; simp [afterCF, _Cantp_GotoTranCF]
  have g8 : c4.frame.length = 8 := by
    rw [hc4, show (afterCF K _).frame = cfFrame K _ from rfl, length_cfFrame]
    exact hlen
  have g9 : c4.lastSize = 7 := by rw [hc4]; simp [afterCF, _Cantp_GotoTranCF, hls]
  have g10 : c4.chnCfg = c.chnCfg := by rw [hc4]; simp [afterCF, _Cantp_GotoTranCF]
  -- the separation delay before the second Consecutive Frame
  have d2 : ∀ n, n ≤ 2 → TxAt
      (ticks K E n (ticks K E 3 (Cantp_RxIndication K E K.FBL_CAN_RX_ID_PHY 8 (fcBs2St5 p) w)))
      { c4 with timer := c4.timer - n, txDelay := c4.txDelay - n }
      (tr ++ [Call.FblCanSendData cf1 c.chnCfg.txId 8]) := by
    intro n hn
    exact tx_delay_ticks K E n _ _ _ s3 g1 g2 (by omega) (by omega)
  have s6 := tx_tranCF_send K E _ _ _ (d2 2 (le_refl 2)) hdrv g1 (by simp only; omega) g2
    (by simp only; omega)
  rw [← ticks_succ_last, ← ticks_add] at s6
  have r2 := rd_cfFrame_pci K { c4 with timer := c4.timer - 2, txDelay := c4.txDelay - 2 }
    (by rw [show ({ c4 with timer := c4.timer - 2, txDelay := c4.txDelay - 2 }
      : bl_CanTpChannel_t).pciInfo = c4.pciInfo from rfl, g7]; exact hmem)
    (by rw [hmax]; exact g8) (by simp only; omega)
  obtain ⟨cf2, hcf2⟩ : ∃ cf2, cf2 = (cfFrame K
      { c4 with timer := c4.timer - 2, txDelay := c4.txDelay - 2 }).take
        (CANTP_MAX_FRAME_SIZE K) := ⟨_, rfl⟩
  rw [← hcf2] at s6 r2
  simp only [g5, hU1, if_true, hmax, g7, hpc, g6, g10, List.append_assoc, List.singleton_append]
    at s6 r2
  rw [show 3 + (2 + 1) = 6 from rfl] at s6
  obtain ⟨t0, t1⟩ := ticks_rx_pci K E 6 _ s0.2.2.1 s0.2.2.2
  obtain ⟨u0, u1⟩ := rxInd_FC_rx_pci K E w K.FBL_CAN_RX_ID_PHY 8 (fcBs2St5 p) h.2.2.1
    (by rw [h.1, q0, hp]) (by rw [h.1, q1, hp]) (by rw [h.1]; exact hft)
  refine ⟨cf1, cf2, _, ?_, ?_, fun n hn => (d1 n hn).2.1, ?_, s6, ?_,
    s6.2.2.1, s6.2.2.2, ?_, by rw [t0, u0, q0], by rw [t1, u1, q1], ?_⟩
  · rw [r1]; decide
  · rw [r2]; decide
  · intro n hn
    rw [ticks_add]
    exact (d2 n hn).2.1
  · simp only [afterCF, hU1, if_true]
  · rw [s6.1]
    simp only [afterCF, hU1, if_true]
  · rw [s6.1]
    simp only [afterCF]
    exact hps.symm


set_option maxRecDepth 100000 in
/-- C28 (counterexample): on the classical build with an accepting driver, after
`Cantp_Transmit(0, 20)`, one tick and the frame FC `[0x30, 0x02, 0x05, 0xAA, ...]`,
six ticks hand two Consecutive Frames to the driver and `Diag_TxConfirmation(OK)`
is called right after the second one; the Tx channel is then Idle, not in RecvFC,
with no Consecutive Frame left (`cfCnt = 0`).  A second FC/CTS followed by ten
ticks adds no call: there is no third Consecutive Frame (20 = 6 + 7 + 7). -/
theorem C28_no_third_consecutive_frame :
    (ticks classicBuild (envOf []) 6
        (Cantp_RxIndication classicBuild (envOf []) 0x7E0 8
          [0x30, 0x02, 0x05, 0xAA, 0xAA, 0xAA, 0xAA, 0xAA] classicRecvFC)).trace
      = [Call.Diag_CopyTxData 6,
         Call.FblCanSendData [0x10, 0x14, 0, 0, 0, 0, 0, 0] 0x7E8 8,
         Call.FblCanSendData [0x21, 0x14, 0, 0, 0, 0, 0, 0] 0x7E8 8,
         Call.FblCanSendData [0x22, 0x14, 0, 0, 0, 0, 0, 0] 0x7E8 8,
         Call.Diag_TxConfirmation ERR_OK]
    ∧ (ticks classicBuild (envOf []) 6
        (Cantp_RxIndication classicBuild (envOf []) 0x7E0 8
          [0x30, 0x02, 0x05, 0xAA, 0xAA, 0xAA, 0xAA, 0xAA] classicRecvFC)).tx0.status
      = CANTP_STATUS_IDLE
    ∧ (ticks classicBuild (envOf []) 6
        (Cantp_RxIndication classicBuild (envOf []) 0x7E0 8
          [0x30, 0x02, 0x05, 0xAA, 0xAA, 0xAA, 0xAA, 0xAA] classicRecvFC)).tx0.cfCnt = 0
    ∧ (ticks classicBuild (envOf []) 10
        (Cantp_RxIndication classicBuild (envOf []) 0x7E0 8
          [0x30, 0x00, 0x00, 0xAA, 0xAA, 0xAA, 0xAA, 0xAA]
          (ticks classicBuild (envOf []) 6
            (Cantp_RxIndication classicBuild (envOf []) 0x7E0 8
              [0x30, 0x02, 0x05, 0xAA, 0xAA, 0xAA, 0xAA, 0xAA] classicRecvFC)))).trace
      = (ticks classicBuild (envOf []) 6
        (Cantp_RxIndication classicBuild (envOf []) 0x7E0 8
          [0x30, 0x02, 0x05, 0xAA, 0xAA, 0xAA, 0xAA, 0xAA] classicRecvFC)).trace := by
  decide

/-- C28 (amended): scenario on a build without CAN FD, standard addressing, the
driver accepting every frame, timer A of the Tx channel at least 1 tick and the CR
watchdog `g_CanTpRxChnsCfg[0].timerC` at least 3 ticks.  After `CanTp_Init`,
`Cantp_Transmit(0, 20)` returns OK; after one tick the calls made are
`Diag_CopyTxData(6)` and one First Frame (PCI bytes `0x10 0x14`) and the channel is
in RecvFC.  After FC `[0x30, 0x02, 0x05, p, ...]` no call is made during the first
two ticks, the first Consecutive Frame (PCI `0x21`) is handed to the driver in tick
3 and the second (PCI `0x22`) in tick 6, followed at once by
`Diag_TxConfirmation(OK)`; the channel is then Idle.  Whatever ticks and Flow
Control frames follow, no further call is made: there is no third Consecutive
Frame. -/
theorem C28_twenty_bytes_two_consecutive_frames (K : FblConfig) (E : Env) (p : Nat)
    (hfd : K.ENABLE_CANFD = false)
    (hdrv : ∀ t f i len, E.FblCanSendData t f i len = ERR_OK)
    (hA : CANTP_MAKE_TIMEOUT K.TPL_TIMER_AS ≠ 0)
    (hCR : 3 ≤ CANTP_MAKE_TIMEOUT K.TPL_TIMER_CR) :
    (Cantp_Transmit 0 20 (CanTp_Init K (zeroWorld K))).1 = ERR_OK
    ∧ ∃ ff cf1 cf2 : List Nat,
        rd ff 0 = 0x10 ∧ rd ff 1 = 20 ∧ rd cf1 0 = 0x21 ∧ rd cf2 0 = 0x22
        ∧ (sent20 K E).trace
            = [Call.Diag_CopyTxData 6, Call.FblCanSendData ff K.FBL_CAN_TX_ID_PHY 8]
        ∧ (sent20 K E).tx0.status = CANTP_STATUS_RECEIVING_FC
        ∧ (∀ n, n ≤ 2 → (ticks K E n (sent20Cts K E p)).trace = (sent20 K E).trace)
        ∧ (∀ n, n ≤ 2 → (ticks K E (3 + n) (sent20Cts K E p)).trace
            = (sent20 K E).trace ++ [Call.FblCanSendData cf1 K.FBL_CAN_TX_ID_PHY 8])
        ∧ (ticks K E 6 (sent20Cts K E p)).trace
            = (sent20 K E).trace
              ++ [Call.FblCanSendData cf1 K.FBL_CAN_TX_ID_PHY 8,
                  Call.FblCanSendData cf2 K.FBL_CAN_TX_ID_PHY 8,
                  Call.Diag_TxConfirmation ERR_OK]
        ∧ (ticks K E 6 (sent20Cts K E p)).tx0.status = CANTP_STATUS_IDLE
        ∧ ∀ evs : List Event, (∀ e ∈ evs, PeerEvent (pciStandard K) e) →
            (run K E (ticks K E 6 (sent20Cts K E p)) evs).trace
              = (ticks K E 6 (sent20Cts K E p)).trace := by
  obtain ⟨hok, _, _, _⟩ := transmit20 K hfd
  obtain ⟨c, ff, hat, f0, f1, hs, hp, hid, htx, hty, hcnt, hsn, hls, hlen, q0, q1⟩ :=
    sent20_at K E hfd hdrv hA
  obtain ⟨cf1, cf2, c6, g1, g2, d1, d2, s6, hs6, hidle⟩ :=
    cts_two_frames K E p hfd hdrv hCR (sent20 K E) c _ hat hs hp hid hty hcnt hsn hls hlen q0 q1
  rw [htx] at d2 s6
  have hi := hidle.2.2.1
  unfold sent20Cts
  refine ⟨hok, ff, cf1, cf2, f0, f1, g1, g2, hat.2.1, ?_, ?_, ?_, ?_, ?_, ?_⟩
  · rw [hat.1]; exact hs
  · intro n hn
    rw [hat.2.1]
    exact d1 n hn
  · intro n hn
    rw [hat.2.1]
    exact d2 n hn
  · rw [hat.2.1]
    exact s6.2.1
  · exact hi
  · intro evs hev
    exact allIdle_run K E (pciStandard K) evs _ hev hidle

set_option maxRecDepth 100000 in
theorem C28_twenty_bytes_two_consecutive_frames_witness :
    (Cantp_Transmit 0 20 (CanTp_Init classicBuild (zeroWorld classicBuild))).1 = ERR_OK
    ∧ ∃ ff cf1 cf2 : List Nat,
        rd ff 0 = 0x10 ∧ rd ff 1 = 20 ∧ rd cf1 0 = 0x21 ∧ rd cf2 0 = 0x22
        ∧ (sent20 classicBuild (envOf [])).trace
            = [Call.Diag_CopyTxData 6,
               Call.FblCanSendData ff classicBuild.FBL_CAN_TX_ID_PHY 8]
        ∧ (sent20 classicBuild (envOf [])).tx0.status = CANTP_STATUS_RECEIVING_FC
        ∧ (∀ n, n ≤ 2 → (ticks classicBuild (envOf []) n
              (sent20Cts classicBuild (envOf []) 0xAA)).trace
            = (sent20 classicBuild (envOf [])).trace)
        ∧ (∀ n, n ≤ 2 → (ticks classicBuild (envOf []) (3 + n)
              (sent20Cts classicBuild (envOf []) 0xAA)).trace
            = (sent20 classicBuild (envOf [])).trace
              ++ [Call.FblCanSendData cf1 classicBuild.FBL_CAN_TX_ID_PHY 8])
        ∧ (ticks classicBuild (envOf []) 6 (sent20Cts classicBuild (envOf []) 0xAA)).trace
            = (sent20 classicBuild (envOf [])).trace
              ++ [Call.FblCanSendData cf1 classicBuild.FBL_CAN_TX_ID_PHY 8,
                  Call.FblCanSendData cf2 classicBuild.FBL_CAN_TX_ID_PHY 8,
                  Call.Diag_TxConfirmation ERR_OK]
        ∧ (ticks classicBuild (envOf []) 6 (sent20Cts classicBuild (envOf []) 0xAA)).tx0.status
            = CANTP_STATUS_IDLE
        ∧ ∀ evs : List Event, (∀ e ∈ evs, PeerEvent (pciStandard classicBuild) e) →
            (run classicBuild (envOf [])
              (ticks classicBuild (envOf []) 6 (sent20Cts classicBuild (envOf []) 0xAA)) evs).trace
              = (ticks classicBuild (envOf []) 6
                  (sent20Cts classicBuild (envOf []) 0xAA)).trace :=
  C28_twenty_bytes_two_consecutive_frames classicBuild (envOf []) 0xAA rfl (fun _ _ _ _ => rfl)
    (by decide) (by decide)


/-! ## C35: the header of the First Frame -/

/-- The PCI bytes of a First Frame announcing `t <= 4095` bytes decode to `t`. -/
theorem ff_header_size (t : Nat) (h : t ≤ 4095) :
    CANTP_GET_FF_DATASIZE
        (UINT8 (UINT16 ((t &&& CANTP_FRAME_FF_DATASIZE_MASK) + CANTP_FRAME_FF_VAULE_16BITS) >>> 8))
        (UINT8 (UINT16 ((t &&& CANTP_FRAME_FF_DATASIZE_MASK) + CANTP_FRAME_FF_VAULE_16BITS)))
      = t := by
  have hm : t &&& CANTP_FRAME_FF_DATASIZE_MASK = t % 4096 :=
    Nat.and_pow_two_sub_one_eq_mod t 12
  have hor : 2 ^ 8 * (t / 256) + t % 256 = 2 ^ 8 * (t / 256) ||| t % 256 :=
    Nat.mul_add_lt_is_or (by omega) (t / 256)
  have hand : ∀ x : Nat, x &&& CANTP_FRAME_FF_DATASIZE_MASK = x % 4096 :=
    fun x => Nat.and_pow_two_sub_one_eq_mod x 12
  rw [hm]
  simp only [CANTP_GET_FF_DATASIZE, GET_LOW_HALF_eq, UINT8, UINT16, CANTP_FRAME_FF_VAULE_16BITS,
    Nat.shiftRight_eq_div_pow, Nat.shiftLeft_eq, hand]
  have e1 : ((t % 4096 + 4096) % 65536 / 2 ^ 8 % 256 % 16 * 2 ^ 8) % 65536 = 2 ^ 8 * (t / 256) := by
    omega
  have e2 : (t % 4096 + 4096) % 65536 % 256 % 65536 = t % 256 := by omega
  rw [e1, e2, ← hor]
  omega

/-- C35: for every channel record whose descriptor is one of `gs_CanTpPciInfo` and
whose staged frame has `CANTP_MAX_FRAME_SIZE` bytes, and every `totalSize <= 4095`
(0 included), the two bytes that `_Cantp_MakePciOfFF` writes at `pciPos` and
`pciPos + 1` decode with `CANTP_GET_FRAME_TYPE` to 1 (FF) and with
`CANTP_GET_FF_DATASIZE` to `totalSize`. -/
theorem C35_first_frame_header (K : FblConfig) (c : bl_CanTpChannel_t)
    (hpci : c.pciInfo ∈ gs_CanTpPciInfo K) (hlen : c.frame.length = CANTP_MAX_FRAME_SIZE K)
    (hsize : c.totalSize ≤ 4095) :
    CANTP_GET_FRAME_TYPE c.pciInfo (_Cantp_MakePciOfFF c).frame = CANTP_FRAME_TYPE_FF
    ∧ CANTP_GET_FF_DATASIZE (rd (_Cantp_MakePciOfFF c).frame c.pciInfo.pciPos)
        (rd (_Cantp_MakePciOfFF c).frame (c.pciInfo.pciPos + 1)) = c.totalSize := by
  obtain ⟨_, _, _, _, _, b6, _, _, _⟩ := pci_bounds K _ hpci
  have h8 := max_frame_size_ge K
  have r0 : rd (_Cantp_MakePciOfFF c).frame c.pciInfo.pciPos
      = UINT8 (UINT16 ((c.totalSize &&& CANTP_FRAME_FF_DATASIZE_MASK)
          + CANTP_FRAME_FF_VAULE_16BITS) >>> 8) := by
    simp only [_Cantp_MakePciOfFF]
    rw [rd_set_ne _ _ _ _ (by omega), rd_set_eq _ _ _ (by rw [length_putTa, hlen]; omega)]
  have r1 : rd (_Cantp_MakePciOfFF c).frame (c.pciInfo.pciPos + 1)
      = UINT8 (UINT16 ((c.totalSize &&& CANTP_FRAME_FF_DATASIZE_MASK)
          + CANTP_FRAME_FF_VAULE_16BITS)) := by
    simp only [_Cantp_MakePciOfFF]
    rw [rd_set_eq _ _ _ (by rw [List.length_set, length_putTa, hlen]; omega)]
  constructor
  · show GET_LOW_HALF (rd (_Cantp_MakePciOfFF c).frame c.pciInfo.pciPos >>> 4)
      = CANTP_FRAME_TYPE_FF
    rw [r0]
    exact ff_pci_type c.totalSize
  · rw [r0, r1]
    exact ff_header_size c.totalSize hsize

set_option maxRecDepth 100000 in
theorem C35_first_frame_header_witness :
    CANTP_GET_FRAME_TYPE (Cantp_Transmit 0 300 classicInit).2.tx0.pciInfo
        (_Cantp_MakePciOfFF (Cantp_Transmit 0 300 classicInit).2.tx0).frame = CANTP_FRAME_TYPE_FF
    ∧ CANTP_GET_FF_DATASIZE
        (rd (_Cantp_MakePciOfFF (Cantp_Transmit 0 300 classicInit).2.tx0).frame
          (Cantp_Transmit 0 300 classicInit).2.tx0.pciInfo.pciPos)
        (rd (_Cantp_MakePciOfFF (Cantp_Transmit 0 300 classicInit).2.tx0).frame
          ((Cantp_Transmit 0 300 classicInit).2.tx0.pciInfo.pciPos + 1))
      = (Cantp_Transmit 0 300 classicInit).2.tx0.totalSize :=
  C35_first_frame_header classicBuild (Cantp_Transmit 0 300 classicInit).2.tx0 (by decide)
    (by decide) (by decide)

/-! ## C36: malformed Single Frames -/

/-- C36: for every channel in every state and every classical Single Frame (build
without CAN FD, or received size at most 8) whose length nibble `n`, read at
`pciPos`, is 0, or exceeds `maxDataSize`, or is at least the received size,
`_Cantp_ReceiveSF` returns `ERR_ERROR` and leaves everything as it was: the
record of the channel, the other records, the registry and the list of calls. -/
theorem C36_malformed_single_frame_dropped (K : FblConfig) (r : ChnRef) (size : Nat)
    (buf : List Nat) (w : World)
    (hclassic : K.ENABLE_CANFD = false ∨ size ≤ 8)
    (hbad : CANTP_GET_SF_DATASIZE (rd buf (w.chn r).pciInfo.pciPos) = 0
      ∨ CANTP_GET_SF_DATASIZE (rd buf (w.chn r).pciInfo.pciPos) > (w.chn r).pciInfo.maxDataSize
      ∨ CANTP_GET_SF_DATASIZE (rd buf (w.chn r).pciInfo.pciPos) ≥ size) :
    _Cantp_ReceiveSF K r size buf w = (ERR_ERROR, w) := by
  have hn : sfDataSize K (w.chn r).pciInfo size buf
      = some (CANTP_GET_SF_DATASIZE (rd buf (w.chn r).pciInfo.pciPos)) := by
    unfold sfDataSize
    rcases hclassic with h | h
    · simp [h]
    · simp [h]
  have hno : ¬ (CANTP_GET_SF_DATASIZE (rd buf (w.chn r).pciInfo.pciPos) ≠ 0
      ∧ CANTP_GET_SF_DATASIZE (rd buf (w.chn r).pciInfo.pciPos) ≤ (w.chn r).pciInfo.maxDataSize
      ∧ CANTP_GET_SF_DATASIZE (rd buf (w.chn r).pciInfo.pciPos) < size) := by
    rintro ⟨a, b, c⟩
    rcases hbad with h | h | h
    · exact a h
    · omega
    · omega
  unfold _Cantp_ReceiveSF
  simp only [hn, hno, if_false]
  split_ifs <;> rfl

set_option maxRecDepth 100000 in
theorem C36_malformed_single_frame_dropped_witness :
    _Cantp_ReceiveSF classicBuild .rx0 8 [0x00, 1, 2, 3, 4, 5, 6, 7] classicInit
        = (ERR_ERROR, classicInit)
    ∧ _Cantp_ReceiveSF classicBuild .rx0 3 [0x05, 1, 2] classicInit = (ERR_ERROR, classicInit)
    ∧ _Cantp_ReceiveSF classicBuild .rx1 8 [0x08, 1, 2, 3, 4, 5, 6, 7] classicRecvCF
        = (ERR_ERROR, classicRecvCF) :=
  ⟨C36_malformed_single_frame_dropped classicBuild .rx0 8 [0x00, 1, 2, 3, 4, 5, 6, 7] classicInit
      (Or.inl rfl) (Or.inl (by decide)),
   C36_malformed_single_frame_dropped classicBuild .rx0 3 [0x05, 1, 2] classicInit
      (Or.inl rfl) (Or.inr (Or.inr (by decide))),
   C36_malformed_single_frame_dropped classicBuild .rx1 8 [0x08, 1, 2, 3, 4, 5, 6, 7]
      classicRecvCF (Or.inl rfl) (Or.inr (Or.inl (by decide)))⟩

/-! ## C31: Flow Control received in RecvFC -/

/-- C31: the Tx channel is in RecvFC, the physical Rx channel is Idle, and a Flow
Control frame addressed to the Tx channel is received.  With FS = 0 (CTS) the
whole effect of `Cantp_RxIndication` is to set, on the Tx channel, `bs` to the
block-size byte, `st` to `_Cantp_GetSTMinFromFC` of the STmin byte, `txDelay` to
that `st`, `status` to TranCF, `subStatus` to Idle and `timer` to
`CANTP_CHNNEL_RX_CR`, which is `g_CanTpRxChnsCfg[0].timerC`; with FS = 1 (WAIT) the
whole effect is to set `timer` to `cfg.timerB`.  Every other field (`sn`, `cfCnt`,
`lastSize`, `totalSize`, the staged frame), the other channels, the registry and
the list of calls are as they were. -/
theorem C31_flow_control_cts_wait (K : FblConfig) (E : Env) (w : World) (id size : Nat)
    (buf : List Nat)
    (hrx : w.rx0.status = CANTP_STATUS_IDLE)
    (hs : w.tx0.status = CANTP_STATUS_RECEIVING_FC)
    (hsz : size ≤ CANTP_MAX_FRAME_SIZE K)
    (hid : w.tx0.chnCfg.rxId = id)
    (haddr : w.tx0.chnCfg.type = CANTP_TYPE_STANDARD
      ∨ w.tx0.chnCfg.ta = rd buf CANTP_TA_OFFSET)
    (hty : CANTP_GET_FRAME_TYPE w.tx0.pciInfo buf = CANTP_FRAME_TYPE_FC) :
    (CANTP_GET_FC_FS w.tx0.pciInfo buf = CANTP_FC_FRAME_CTS →
      Cantp_RxIndication K E id size buf w
        = w.upd .tx0 fun c =>
            { c with
              bs := CANTP_GET_FC_BS w.tx0.pciInfo buf
              st := _Cantp_GetSTMinFromFC (CANTP_GET_FC_STMIN w.tx0.pciInfo buf)
              txDelay := _Cantp_GetSTMinFromFC (CANTP_GET_FC_STMIN w.tx0.pciInfo buf)
              status := CANTP_STATUS_TRANSMITTING_CF
              subStatus := CANTP_SUB_STATUS_IDLE
              timer := CANTP_CHNNEL_RX_CR K })
    ∧ (CANTP_GET_FC_FS w.tx0.pciInfo buf = CANTP_FC_FRAME_WAIT →
      Cantp_RxIndication K E id size buf w
        = w.upd .tx0 fun c => { c with timer := c.chnCfg.timerB })
    ∧ CANTP_CHNNEL_RX_CR K = ((g_CanTpRxChnsCfg K).getD 0 nullChannelCfg).timerC := by
  have hl : _Cantp_GetChannelByRxId w id gs_CanTpTxChannel = some .tx0 := by
    simp [_Cantp_GetChannelByRxId, gs_CanTpTxChannel, List.find?, hid]
  have hty' : CANTP_GET_FRAME_TYPE w.tx0.pciInfo buf = 3 := hty
  have hs' : w.tx0.status = 4 := hs
  refine ⟨?_, ?_, rfl⟩
  · intro hfs
    have hfs' : CANTP_GET_FC_FS w.tx0.pciInfo buf = 0 := hfs
    simp [Cantp_RxIndication, hsz, hl, _Cantp_RxIndToTxChannel, haddr, hty', CANTP_FRAME_TYPE_FC,
      gs_RxProcessList, _Cantp_ReceiveFC, hrx, hs', CANTP_STATUS_RECEIVING_FC, hfs',
      CANTP_FC_FRAME_CTS, _Cantp_GotoTranCF]
  · intro hfs
    have hfs' : CANTP_GET_FC_FS w.tx0.pciInfo buf = 1 := hfs
    simp [Cantp_RxIndication, hsz, hl, _Cantp_RxIndToTxChannel, haddr, hty', CANTP_FRAME_TYPE_FC,
      gs_RxProcessList, _Cantp_ReceiveFC, hrx, hs', CANTP_STATUS_RECEIVING_FC, hfs',
      CANTP_FC_FRAME_CTS, CANTP_FC_FRAME_WAIT]

set_option maxRecDepth 100000 in
theorem C31_flow_control_cts_wait_witness :
    (CANTP_GET_FC_FS classicRecvFC.tx0.pciInfo [0x30, 3, 0x14, 0xAA, 0xAA, 0xAA, 0xAA, 0xAA]
        = CANTP_FC_FRAME_CTS →
      Cantp_RxIndication classicBuild (envOf []) 0x7E0 8
          [0x30, 3, 0x14, 0xAA, 0xAA, 0xAA, 0xAA, 0xAA] classicRecvFC
        = classicRecvFC.upd .tx0 fun c =>
            { c with
              bs := CANTP_GET_FC_BS classicRecvFC.tx0.pciInfo
                      [0x30, 3, 0x14, 0xAA, 0xAA, 0xAA, 0xAA, 0xAA]
              st := _Cantp_GetSTMinFromFC (CANTP_GET_FC_STMIN classicRecvFC.tx0.pciInfo
                      [0x30, 3, 0x14, 0xAA, 0xAA, 0xAA, 0xAA, 0xAA])
              txDelay := _Cantp_GetSTMinFromFC (CANTP_GET_FC_STMIN classicRecvFC.tx0.pciInfo
                      [0x30, 3, 0x14, 0xAA, 0xAA, 0xAA, 0xAA, 0xAA])
              status := CANTP_STATUS_TRANSMITTING_CF
              subStatus := CANTP_SUB_STATUS_IDLE
              timer := CANTP_CHNNEL_RX_CR classicBuild })
    ∧ (CANTP_GET_FC_FS classicRecvFC.tx0.pciInfo [0x30, 3, 0x14, 0xAA, 0xAA, 0xAA, 0xAA, 0xAA]
        = CANTP_FC_FRAME_WAIT →
      Cantp_RxIndication classicBuild (envOf []) 0x7E0 8
          [0x30, 3, 0x14, 0xAA, 0xAA, 0xAA, 0xAA, 0xAA] classicRecvFC
        = classicRecvFC.upd .tx0 fun c => { c with timer := c.chnCfg.timerB })
    ∧ CANTP_CHNNEL_RX_CR classicBuild
        = ((g_CanTpRxChnsCfg classicBuild).getD 0 nullChannelCfg).timerC :=
  C31_flow_control_cts_wait classicBuild (envOf []) classicRecvFC 0x7E0 8
    [0x30, 3, 0x14, 0xAA, 0xAA, 0xAA, 0xAA, 0xAA] (by decide) (by decide) (by decide)
    (by decide) (by decide) (by decide)


/-! ## C37, C38, C39: the bytes read from the received frame -/

set_option maxRecDepth 100000 in
/-- C37 (evaluation at the failing input): on the classical build the Idle
physical Rx channel receives a First Frame of 8 bytes announcing 10 bytes; the
memory behind the frame holds `DE AD`.  The frame is accepted and `_Cantp_ReceiveFF`
copies `size - pciPos = 8` bytes from `&buffer[ffDataPos]`, that is the indices
`2 .. 9`: the staged frame ends with `DE AD`, the two bytes behind the received
frame.  With the extended descriptor the copy is of 7 bytes from index 3, again
up to index 9.  The writes stay inside the staged frame (8 and 7 bytes at most
`CANTP_MAX_FRAME_SIZE`). -/
theorem C37_first_frame_copy_overruns :
    (_Cantp_ReceiveFF classicBuild .rx0 8 [0x10, 0x0A, 1, 2, 3, 4, 5, 6, 0xDE, 0xAD]
        classicInit).1 = ERR_OK
    ∧ (_Cantp_ReceiveFF classicBuild .rx0 8 [0x10, 0x0A, 1, 2, 3, 4, 5, 6, 0xDE, 0xAD]
        classicInit).2.rx0.frame = [1, 2, 3, 4, 5, 6, 0xDE, 0xAD]
    ∧ (Cantp_RxIndication classicBuild (envOf []) 0x7E0 8
        [0x10, 0x0A, 1, 2, 3, 4, 5, 6, 0xDE, 0xAD] classicInit).rx0.frame
        = [1, 2, 3, 4, 5, 6, 0xDE, 0xAD]
    ∧ (pciStandard classicBuild).ffDataPos
        + UINT16 (8 + 65536 - (pciStandard classicBuild).pciPos) = 8 + 2
    ∧ pciExtended.ffDataPos + UINT16 (8 + 65536 - pciExtended.pciPos) = 8 + 2
    ∧ (_Cantp_ReceiveFF classicBuild .rx0 8 [0x55, 0x10, 0x0A, 1, 2, 3, 4, 5, 0xDE, 0xAD]
        extendedInit).1 = ERR_OK
    ∧ (_Cantp_ReceiveFF classicBuild .rx0 8 [0x55, 0x10, 0x0A, 1, 2, 3, 4, 5, 0xDE, 0xAD]
        extendedInit).2.rx0.frame = [1, 2, 3, 4, 5, 0xDE, 0xAD, 0]
    ∧ UINT16 (8 + 65536 - (pciStandard classicBuild).pciPos) ≤ CANTP_MAX_FRAME_SIZE classicBuild
    ∧ UINT16 (8 + 65536 - pciExtended.pciPos) ≤ CANTP_MAX_FRAME_SIZE classicBuild := by
  decide

set_option maxRecDepth 100000 in
/-- C38 (evaluation at the failing input): on the classical build the physical Rx
channel is in RecvCF and expects one last Consecutive Frame of `lastSize = 4`
bytes.  A Consecutive Frame of received size 2 (`21 07`, the memory behind it
holding `DE AD BE EF`) is accepted: `Diag_CopyRxData(4, &buffer[1])` hands the
bytes `07 DE AD BE` to Diag, three of them from behind the received frame
(`dataPos + 4 = 5 > 2`), and the next tick indicates the reception as OK. -/
theorem C38_short_consecutive_frame_accepted :
    classicRecvCF.rx0.status = CANTP_STATUS_RECEIVING_CF
    ∧ classicRecvCF.rx0.cfCnt = 1 ∧ classicRecvCF.rx0.lastSize = 4
    ∧ (_Cantp_ReceiveCF (envOf []) .rx0 2 [0x21, 0x07, 0xDE, 0xAD, 0xBE, 0xEF, 0, 0]
        classicRecvCF).1 = ERR_OK
    ∧ (run classicBuild (envOf []) classicRecvCF
        [.rxInd 0x7E0 2 [0x21, 0x07, 0xDE, 0xAD, 0xBE, 0xEF, 0, 0], .tick]).trace
        = classicRecvCF.trace
          ++ [Call.Diag_CopyRxData 4 [0x07, 0xDE, 0xAD, 0xBE],
              Call.Diag_RxIndication CANTP_TATYPE_PHYSICAL ERR_OK]
    ∧ classicRecvCF.rx0.pciInfo.dataPos + 4 > 2 := by
  decide

set_option maxRecDepth 100000 in
/-- C34 (counterexample): on the classical build, `Cantp_Transmit(0, 130)`, one
tick, a Flow Control frame CTS with block size 0 and 17 more ticks (driver
accepting) leave the Tx channel in TranCF with `sn = 18`: `CANTP_ADD_SN` is
`sn += 1` on a `UINT8`, and only `_Cantp_MakePciOfCF` masks the value, so that the
last frame sent carries the PCI byte `0x21`. -/
theorem C34_tx_sequence_number_exceeds_nibble :
    (run classicBuild (envOf []) (Cantp_Transmit 0 130 classicInit).2 peer17).tx0.sn = 18
    ∧ (run classicBuild (envOf []) (Cantp_Transmit 0 130 classicInit).2 peer17).tx0.status
        = CANTP_STATUS_TRANSMITTING_CF
    ∧ (sentFrames (run classicBuild (envOf []) (Cantp_Transmit 0 130 classicInit).2
        peer17).trace).getLast? = some [0x21, 130, 0, 0, 0, 0, 0, 0] := by
  decide


/-! ## C40: the Idle invariant -/

theorem idleOk_gotoIdle (c : bl_CanTpChannel_t) : IdleOk (_Cantp_GotoIdle c) :=
  fun _ => ⟨rfl, rfl⟩

theorem idleOk_of_status (c : bl_CanTpChannel_t) (h : c.status ≠ CANTP_STATUS_IDLE) :
    IdleOk c := fun e => absurd e h

/-- A confirmation handler, chosen by the status of the channel, keeps `IdleOk`. -/
theorem confirm_idleOk (K : FblConfig) (r : ChnRef) (w : World) (h : IdleOk (w.chn r)) :
    IdleOk ((gs_TxConfirmList K (w.chn r).status r w).chn r) := by
  generalize hs : (w.chn r).status = s
  rcases s with _ | _ | _ | _ | _ | s
  · simpa [gs_TxConfirmList, _Cantp_TxConfirmIdle] using h
  · simpa [gs_TxConfirmList, _Cantp_TxConfirmSF, Diag_TxConfirmation] using idleOk_gotoIdle _
  · apply idleOk_of_status
    simp [gs_TxConfirmList, _Cantp_TxConfirmFF, CANTP_STATUS_RECEIVING_FC, CANTP_STATUS_IDLE]
  · simp only [gs_TxConfirmList, _Cantp_TxConfirmCF, Diag_TxConfirmation]
    split_ifs
    · simpa using idleOk_gotoIdle _
    · apply idleOk_of_status
      simp [CANTP_STATUS_RECEIVING_FC, CANTP_STATUS_IDLE]
    · apply idleOk_of_status
      simp [hs, CANTP_STATUS_IDLE]
    · apply idleOk_of_status
      simp [hs, CANTP_STATUS_IDLE]
  · simp only [gs_TxConfirmList, _Cantp_TxConfirmFC]
    split_ifs
    · apply idleOk_of_status
      simp [CANTP_STATUS_RECEIVING_CF, CANTP_STATUS_IDLE]
    · apply idleOk_of_status
      simp [CANTP_STATUS_RECEIVING_FF, CANTP_STATUS_IDLE]
    · simpa using idleOk_gotoIdle _
  · apply idleOk_of_status
    simp [gs_TxConfirmList, hs, CANTP_STATUS_IDLE]

/-- The tail of a transmitting period handler keeps `IdleOk` on a channel that is
not Idle. -/
theorem afterSend_idleOk (K : FblConfig) (r : ChnRef) (id : Nat) (ret : bl_Return) (w : World)
    (h : (w.chn r).status ≠ CANTP_STATUS_IDLE) : IdleOk ((afterSend K r id ret w).chn r) := by
  simp only [afterSend, Cantp_TxConfirmation, slot_setSlot]
  split_ifs
  · rw [chn_setSlot]
    have e := confirm_idleOk K r
      ((w.upd r fun c => { c with subStatus := CANTP_SUB_STATUS_TRANSMITTING }).setSlot (some r))
      (idleOk_of_status _ (by simpa using h))
    simpa using e
  · exact idleOk_of_status _ (by simpa using h)
  · exact idleOk_of_status _ h


/-- The loop body of `_Cantp_PeriodFunction` for an Rx channel keeps `IdleOk`. -/
theorem periodChannel_rx_idleOk (K : FblConfig) (E : Env) (w : World) (r : ChnRef)
    (h : IdleOk (w.chn r)) : IdleOk ((periodChannel (gs_RxPeriodList K E) w r).chn r) := by
  by_cases hi : (w.chn r).status = CANTP_STATUS_IDLE
  · have ht := (h hi).2
    rw [periodChannel_idle_rx K E w r hi, upd_self w r _ (decTimer_zero _ ht)]
    exact h
  unfold periodChannel
  generalize hs : (w.chn r).status = s at hi
  rcases s with _ | _ | _ | _ | _ | s
  · exact absurd rfl hi
  all_goals
    by_cases ht : (w.chn r).timer = 0
    · simp only [ht, if_true, gs_RxPeriodList, _Cantp_TimeoutRecvSF, _Cantp_TimeoutRecvFF,
        _Cantp_TimeoutRecvCF, _Cantp_TimeoutTranFC, Diag_RxIndication]
      try split_ifs
      all_goals first
        | exact idleOk_gotoIdle _
        | (simpa using idleOk_gotoIdle _)
        | (apply idleOk_of_status
           simp [hs, _Cantp_GotoTranFC, CANTP_STATUS_TRANSMITTING_FC, CANTP_STATUS_IDLE])
    · simp only [ht, if_false, chn_upd_same, decTimer_status, hs, gs_RxPeriodList,
        _Cantp_PeriodRecvSF, _Cantp_PeriodRecvFF, _Cantp_PeriodRecvCF, _Cantp_PeriodTranFC,
        Diag_StartOfReception, Diag_CopyRxData, Diag_RxIndication, FblCanSendData]
      try split_ifs
      all_goals first
        | exact idleOk_gotoIdle _
        | (simpa using idleOk_gotoIdle _)
        | (apply afterSend_idleOk
           simp [hs, _Cantp_MakePciOfFC, CANTP_STATUS_IDLE])
        | (apply idleOk_of_status
           simp [hs, _Cantp_GotoTranFC, CANTP_STATUS_TRANSMITTING_FC, CANTP_STATUS_IDLE])

/-- The loop body of `_Cantp_PeriodFunction` for a Tx channel keeps `IdleOk`. -/
theorem periodChannel_tx_idleOk (K : FblConfig) (E : Env) (w : World) (r : ChnRef)
    (h : IdleOk (w.chn r)) : IdleOk ((periodChannel (gs_TxPeriodList K E) w r).chn r) := by
  by_cases hi : (w.chn r).status = CANTP_STATUS_IDLE
  · have ht := (h hi).2
    rw [periodChannel_idle_tx K E w r hi, upd_self w r _ (decTimer_zero _ ht)]
    exact h
  unfold periodChannel
  generalize hs : (w.chn r).status = s at hi
  rcases s with _ | _ | _ | _ | _ | s
  · exact absurd rfl hi
  all_goals
    by_cases ht : (w.chn r).timer = 0
    · simp only [ht, if_true, gs_TxPeriodList, _Cantp_TimeoutTranSF, _Cantp_TimeoutTranFF,
        _Cantp_TimeoutTranCF, _Cantp_TimeoutRecvFC, Diag_TxConfirmation]
      try split_ifs
      all_goals first
        | exact idleOk_gotoIdle _
        | (simpa using idleOk_gotoIdle _)
        | (apply idleOk_of_status
           simp [hs, CANTP_STATUS_IDLE])
    · simp only [ht, if_false, chn_upd_same, decTimer_status, hs, gs_TxPeriodList,
        _Cantp_PeriodTranSF, _Cantp_PeriodTranFF, _Cantp_PeriodTranCF, _Cantp_PeriodRecvFC,
        _Cantp_TransmitCF, Diag_CopyTxData, FblCanSendData]
      try split_ifs
      all_goals first
        | (apply afterSend_idleOk
           simp [hs, _Cantp_MakePciOfSF, _Cantp_MakePciOfFF, _Cantp_MakePciOfCF, CANTP_STATUS_IDLE])
        | (apply idleOk_of_status
           simp [hs, _Cantp_MakePciOfCF, CANTP_STATUS_IDLE])

/-- A receive handler keeps `IdleOk` on the channel it runs on. -/
theorem rxProcess_idleOk (K : FblConfig) (E : Env) (t : Nat) (r : ChnRef) (size : Nat)
    (buf : List Nat) (w : World) (h : IdleOk (w.chn r)) :
    IdleOk ((gs_RxProcessList K E t r size buf w).2.chn r) := by
  rcases t with _ | _ | _ | _ | t
  · simp only [gs_RxProcessList, _Cantp_ReceiveSF, Diag_RxIndication]
    repeat' split
    all_goals first
      | exact h
      | (apply idleOk_of_status
         simp [CANTP_STATUS_RECEIVING_SF, CANTP_STATUS_IDLE])
  · simp only [gs_RxProcessList, _Cantp_ReceiveFF, Diag_RxIndication]
    repeat' split
    all_goals first
      | exact h
      | (apply idleOk_of_status
         simp [CANTP_STATUS_RECEIVING_FF, CANTP_STATUS_IDLE])
  · by_cases hst : (w.chn r).status = 3
    · simp only [gs_RxProcessList, _Cantp_ReceiveCF, Diag_CopyRxData, Diag_RxIndication]
      repeat' split
      all_goals first
        | exact h
        | exact idleOk_gotoIdle _
        | (simpa using idleOk_gotoIdle _)
        | (apply idleOk_of_status
           simp [hst, _Cantp_GotoTranFC, CANTP_STATUS_TRANSMITTING_FC, CANTP_STATUS_IDLE])
    · have e : gs_RxProcessList K E 2 r size buf w = (ERR_ERROR, w) := by
        simp [gs_RxProcessList, _Cantp_ReceiveCF, hst, CANTP_STATUS_RECEIVING_CF]
      rw [e]
      exact h
  · by_cases hst : (w.chn r).status = 4
    · simp only [gs_RxProcessList, _Cantp_ReceiveFC, Diag_TxConfirmation]
      repeat' split
      all_goals first
        | exact h
        | exact idleOk_gotoIdle _
        | (simpa using idleOk_gotoIdle _)
        | (apply idleOk_of_status
           simp [hst, _Cantp_GotoTranCF, CANTP_STATUS_TRANSMITTING_CF, CANTP_STATUS_IDLE])
    · have e : gs_RxProcessList K E 3 r size buf w = (ERR_ERROR, w) := by
        simp [gs_RxProcessList, _Cantp_ReceiveFC, hst, CANTP_STATUS_RECEIVING_FC]
      rw [e]
      exact h
  · exact h


/-- Every event keeps `IdleOk` on every channel. -/
theorem idleOk_step (K : FblConfig) (E : Env) (w : World) (e : Event)
    (h : ∀ r, IdleOk (w.chn r)) : ∀ r, IdleOk ((step K E w e).chn r) := by
  cases e with
  | tick =>
    show ∀ r, IdleOk ((Cantp_PeriodFunction K E w).chn r)
    rw [tick_eq]
    have a0 := periodChannel_rx_idleOk K E w .rx0 (h .rx0)
    have a1 := periodChannel_rx_idleOk K E (periodChannel (gs_RxPeriodList K E) w .rx0) .rx1
      (by rw [periodChannel_rx_frame K E w .rx0 .rx1 (by decide)]; exact h .rx1)
    have a2 := periodChannel_tx_idleOk K E
      (periodChannel (gs_RxPeriodList K E) (periodChannel (gs_RxPeriodList K E) w .rx0) .rx1)
      .tx0 (by
        rw [periodChannel_rx_frame K E _ .rx1 .tx0 (by decide),
          periodChannel_rx_frame K E w .rx0 .tx0 (by decide)]
        exact h .tx0)
    intro r
    cases r with
    | rx0 =>
      rw [periodChannel_tx_frame K E _ .tx0 .rx0 (by decide),
        periodChannel_rx_frame K E _ .rx1 .rx0 (by decide)]
      exact a0
    | rx1 =>
      rw [periodChannel_tx_frame K E _ .tx0 .rx1 (by decide)]
      exact a1
    | tx0 => exact a2
  | rxInd id size buf =>
    show ∀ r, IdleOk ((Cantp_RxIndication K E id size buf w).chn r)
    intro r
    rcases rxInd_cases K E id size buf w with e | ⟨_, _, _, _, _, e⟩
      | ⟨_, t, _, _, _, _, _, e⟩
    · rw [e]; exact h r
    · rw [e]
      by_cases hr : r = .tx0
      · subst hr
        exact rxProcess_idleOk K E 3 .tx0 size buf w (h .tx0)
      · rw [show (_Cantp_ReceiveFC K .tx0 size buf w).2.chn r = w.chn r from
          rxProcess_other K E 3 .tx0 r size buf w hr]
        exact h r
    · rw [e]
      by_cases hr : r = t
      · subst hr
        exact rxProcess_idleOk K E _ r size buf w (h r)
      · rw [rxProcess_other K E _ t r size buf w hr]
        exact h r
  | transmit handle size =>
    show ∀ r, IdleOk ((Cantp_Transmit handle size w).2.chn r)
    intro r
    simp only [Cantp_Transmit]
    cases hg : gs_CanTpTxChannel.get? handle with
    | none => exact h r
    | some r' =>
      simp only
      repeat' split
      all_goals first
        | exact h r
        | (by_cases hr : r = r'
           · subst hr
             apply idleOk_of_status
             simp [_Cantp_GotoTranFF, _Cantp_GotoTranSF, CANTP_STATUS_TRANSMITTING_FF,
               CANTP_STATUS_TRANSMITTING_SF, CANTP_STATUS_IDLE]
           · rw [chn_upd_ne _ _ _ _ hr]
             exact h r)
  | txConf id =>
    show ∀ r, IdleOk ((Cantp_TxConfirmation K id w).chn r)
    intro r
    simp only [Cantp_TxConfirmation]
    split
    · rename_i r' _
      split
      · rw [chn_setSlot]
        by_cases hr : r = r'
        · subst hr
          exact confirm_idleOk K r w (h r)
        · rw [confirm_frame K _ w r' r hr]
          exact h r
      · exact h r
    · exact h r

theorem idleOk_run (K : FblConfig) (E : Env) (evs : List Event) :
    ∀ w : World, (∀ r, IdleOk (w.chn r)) → ∀ r, IdleOk ((run K E w evs).chn r) := by
  induction evs with
  | nil => intro w h; exact h
  | cons e es ih =>
    intro w h
    exact ih _ (idleOk_step K E w e h)

theorem idleOk_init (K : FblConfig) (w : World) : ∀ r, IdleOk ((CanTp_Init K w).chn r) := by
  intro r
  cases r <;> exact fun _ => ⟨rfl, rfl⟩

/-- The loop body of `_Cantp_PeriodFunction` on an Idle channel whose timer is 0
takes the timeout branch, which does nothing. -/
theorem periodChannel_idle_zero (K : FblConfig) (E : Env) (w : World) (r : ChnRef)
    (hs : (w.chn r).status = CANTP_STATUS_IDLE) (ht : (w.chn r).timer = 0) :
    periodChannel (gs_RxPeriodList K E) w r = w ∧ periodChannel (gs_TxPeriodList K E) w r = w := by
  rw [periodChannel_idle_rx K E w r hs, periodChannel_idle_tx K E w r hs,
    upd_self w r _ (decTimer_zero _ ht)]
  exact ⟨rfl, rfl⟩

/-- C40: in every state reached from `CanTp_Init` (run on any prior state) through
any sequence of calls of `Cantp_Transmit`, `Cantp_RxIndication`,
`Cantp_TxConfirmation` and `Cantp_PeriodFunction`, for any build and any
collaborators: (1) every channel whose status is Idle has subStatus Idle and timer
0; (2) for such a channel the loop body of `_Cantp_PeriodFunction` (with either
period table, on any world in which the channel has this record) returns the world
unchanged: the timer being 0 it takes the timeout branch, `_Cantp_TimeoutIdle`,
and `_Cantp_PeriodIdle` is not called; (3) a tick leaves the record of every Idle
channel unchanged. -/
theorem C40_idle_invariant (K : FblConfig) (E : Env) (w0 : World) (evs : List Event)
    (r : ChnRef) (hidle : ((run K E (CanTp_Init K w0) evs).chn r).status = CANTP_STATUS_IDLE) :
    (((run K E (CanTp_Init K w0) evs).chn r).subStatus = CANTP_SUB_STATUS_IDLE
      ∧ ((run K E (CanTp_Init K w0) evs).chn r).timer = 0)
    ∧ (∀ w : World, w.chn r = (run K E (CanTp_Init K w0) evs).chn r →
        periodChannel (gs_RxPeriodList K E) w r = w
        ∧ periodChannel (gs_TxPeriodList K E) w r = w)
    ∧ (Cantp_PeriodFunction K E (run K E (CanTp_Init K w0) evs)).chn r
        = (run K E (CanTp_Init K w0) evs).chn r := by
  have hinv := idleOk_run K E evs _ (idleOk_init K w0)
  obtain ⟨hsub, ht⟩ := hinv r hidle
  have key : ∀ w : World, w.chn r = (run K E (CanTp_Init K w0) evs).chn r →
      periodChannel (gs_RxPeriodList K E) w r = w
      ∧ periodChannel (gs_TxPeriodList K E) w r = w := by
    intro w hw
    exact periodChannel_idle_zero K E w r (by rw [hw]; exact hidle) (by rw [hw]; exact ht)
  refine ⟨⟨hsub, ht⟩, key, ?_⟩
  rw [tick_eq]
  cases r with
  | rx0 =>
    rw [periodChannel_tx_frame K E _ .tx0 .rx0 (by decide),
      periodChannel_rx_frame K E _ .rx1 .rx0 (by decide), (key _ rfl).1]
  | rx1 =>
    rw [periodChannel_tx_frame K E _ .tx0 .rx1 (by decide),
      (key _ (periodChannel_rx_frame K E _ .rx0 .rx1 (by decide))).1,
      periodChannel_rx_frame K E _ .rx0 .rx1 (by decide)]
  | tx0 =>
    have f : (periodChannel (gs_RxPeriodList K E)
        (periodChannel (gs_RxPeriodList K E) (run K E (CanTp_Init K w0) evs) .rx0) .rx1).chn .tx0
        = (run K E (CanTp_Init K w0) evs).chn .tx0 := by
      rw [periodChannel_rx_frame K E _ .rx1 .tx0 (by decide),
        periodChannel_rx_frame K E _ .rx0 .tx0 (by decide)]
    rw [(key _ f).2, f]

set_option maxRecDepth 100000 in
theorem C40_idle_invariant_witness :
    (((run classicBuild (envOf []) (CanTp_Init classicBuild (zeroWorld classicBuild))
          [.rxInd 0x7E0 8 [0x03, 0x22, 0xF1, 0x90, 0, 0, 0, 0], .tick, .transmit 0 3,
           .tick]).chn .rx0).subStatus = CANTP_SUB_STATUS_IDLE
      ∧ ((run classicBuild (envOf []) (CanTp_Init classicBuild (zeroWorld classicBuild))
          [.rxInd 0x7E0 8 [0x03, 0x22, 0xF1, 0x90, 0, 0, 0, 0], .tick, .transmit 0 3,
           .tick]).chn .rx0).timer = 0)
    ∧ (∀ w : World, w.chn .rx0
          = (run classicBuild (envOf []) (CanTp_Init classicBuild (zeroWorld classicBuild))
              [.rxInd 0x7E0 8 [0x03, 0x22, 0xF1, 0x90, 0, 0, 0, 0], .tick, .transmit 0 3,
               .tick]).chn .rx0 →
        periodChannel (gs_RxPeriodList classicBuild (envOf [])) w .rx0 = w
        ∧ periodChannel (gs_TxPeriodList classicBuild (envOf [])) w .rx0 = w)
    ∧ (Cantp_PeriodFunction classicBuild (envOf [])
        (run classicBuild (envOf []) (CanTp_Init classicBuild (zeroWorld classicBuild))
          [.rxInd 0x7E0 8 [0x03, 0x22, 0xF1, 0x90, 0, 0, 0, 0], .tick, .transmit 0 3,
           .tick])).chn .rx0
        = (run classicBuild (envOf []) (CanTp_Init classicBuild (zeroWorld classicBuild))
          [.rxInd 0x7E0 8 [0x03, 0x22, 0xF1, 0x90, 0, 0, 0, 0], .tick, .transmit 0 3,
           .tick]).chn .rx0 :=
  C40_idle_invariant classicBuild (envOf []) (zeroWorld classicBuild)
    [.rxInd 0x7E0 8 [0x03, 0x22, 0xF1, 0x90, 0, 0, 0, 0], .tick, .transmit 0 3, .tick] .rx0
    (by decide)


/-! ## C34: bounds of the sequence number -/

theorem confirm_slot (K : FblConfig) (s : Nat) (r : ChnRef) (w : World) :
    (gs_TxConfirmList K s r w).gs_TransmittingChannel = w.gs_TransmittingChannel := by
  rcases s with _ | _ | _ | _ | _ | s <;>
    simp only [gs_TxConfirmList, _Cantp_TxConfirmIdle, _Cantp_TxConfirmSF, _Cantp_TxConfirmFF,
      _Cantp_TxConfirmCF, _Cantp_TxConfirmFC, Diag_TxConfirmation] <;>
    (try split_ifs) <;> simp

/-- A confirmation handler leaves `sn` alone or sets it to a `UINT8`. -/
theorem confirm_sn (K : FblConfig) (s : Nat) (r : ChnRef) (w : World) :
    ((gs_TxConfirmList K s r w).chn r).sn = (w.chn r).sn
    ∨ ((gs_TxConfirmList K s r w).chn r).sn < 256 := by
  have hu : ∀ x : Nat, UINT8 x < 256 := fun x => Nat.mod_lt _ (by decide)
  rcases s with _ | _ | _ | _ | _ | s <;>
    simp only [gs_TxConfirmList, _Cantp_TxConfirmIdle, _Cantp_TxConfirmSF, _Cantp_TxConfirmFF,
      _Cantp_TxConfirmCF, _Cantp_TxConfirmFC, Diag_TxConfirmation] <;>
    (try split_ifs) <;> simp [_Cantp_GotoIdle, hu]

/-- The confirmation handler of TranFC leaves `sn` alone. -/
theorem confirmFC_sn (r : ChnRef) (w : World) :
    ((_Cantp_TxConfirmFC r w).chn r).sn = (w.chn r).sn := by
  simp only [_Cantp_TxConfirmFC]
  split_ifs <;> simp [_Cantp_GotoIdle]

/-- The tail of a transmitting period handler, called with the identifier of the
channel, leaves the registry empty. -/
theorem afterSend_slot (K : FblConfig) (r : ChnRef) (id : Nat) (ret : bl_Return) (w : World)
    (h : w.gs_TransmittingChannel = none) (hid : (w.chn r).chnCfg.txId = id) :
    (afterSend K r id ret w).gs_TransmittingChannel = none := by
  simp only [afterSend, Cantp_TxConfirmation, slot_setSlot]
  split_ifs
  · simp
  · rename_i hne
    exact absurd (by simpa using hid) hne
  · exact h

/-- The tail of `_Cantp_PeriodTranFC` leaves `sn` alone. -/
theorem afterSend_sn_FC (K : FblConfig) (r : ChnRef) (id : Nat) (ret : bl_Return) (w : World)
    (hs : (w.chn r).status = 4) :
    ((afterSend K r id ret w).chn r).sn = (w.chn r).sn := by
  simp only [afterSend, Cantp_TxConfirmation, slot_setSlot]
  split_ifs
  · rw [chn_setSlot]
    have e : ((w.upd r fun c => { c with subStatus := CANTP_SUB_STATUS_TRANSMITTING }).setSlot
        (some r) |>.chn r).status = 4 := by simpa using hs
    rw [e]
    simp only [gs_TxConfirmList]
    rw [confirmFC_sn]
    simp
  · simp
  · rfl

theorem afterSend_sn (K : FblConfig) (r : ChnRef) (id : Nat) (ret : bl_Return) (w : World) :
    ((afterSend K r id ret w).chn r).sn = (w.chn r).sn
    ∨ ((afterSend K r id ret w).chn r).sn < 256 := by
  simp only [afterSend, Cantp_TxConfirmation, slot_setSlot]
  split_ifs
  · rw [chn_setSlot]
    rcases confirm_sn K ((w.upd r fun c =>
        { c with subStatus := CANTP_SUB_STATUS_TRANSMITTING }).setSlot (some r) |>.chn r).status r
      ((w.upd r fun c => { c with subStatus := CANTP_SUB_STATUS_TRANSMITTING }).setSlot (some r))
      with e | e
    · left; simpa using e
    · right; exact e
  · left; simp
  · left; rfl

/-- The loop body of `_Cantp_PeriodFunction` for an Rx channel leaves the registry
empty and does not change `sn`. -/
theorem periodChannel_rx_sn (K : FblConfig) (E : Env) (w : World) (r : ChnRef)
    (h : w.gs_TransmittingChannel = none) :
    (periodChannel (gs_RxPeriodList K E) w r).gs_TransmittingChannel = none
    ∧ ((periodChannel (gs_RxPeriodList K E) w r).chn r).sn = (w.chn r).sn := by
  unfold periodChannel
  generalize hs : (w.chn r).status = s
  rcases s with _ | _ | _ | _ | _ | s
  case succ.succ.succ.succ.zero =>
    by_cases ht : (w.chn r).timer = 0
    · simp only [ht, if_true, gs_RxPeriodList, _Cantp_TimeoutTranFC, Diag_RxIndication]
      split_ifs <;> simp_all [_Cantp_GotoIdle]
    · simp only [ht, if_false, chn_upd_same, decTimer_status, hs, gs_RxPeriodList,
        _Cantp_PeriodTranFC, FblCanSendData]
      split_ifs
      · refine ⟨afterSend_slot K r _ _ _ (by simp [h]) (by simp [_Cantp_MakePciOfFC, decTimer]), ?_⟩
        rw [afterSend_sn_FC K r _ _ _ (by simp [hs, _Cantp_MakePciOfFC])]
        simp [_Cantp_MakePciOfFC, decTimer]
      · simp [h, decTimer]
  all_goals
    by_cases ht : (w.chn r).timer = 0
    · simp only [ht, if_true, gs_RxPeriodList, _Cantp_TimeoutIdle, _Cantp_TimeoutRecvSF,
        _Cantp_TimeoutRecvFF, _Cantp_TimeoutRecvCF, Diag_RxIndication]
      try split_ifs
      all_goals simp_all [_Cantp_GotoIdle, _Cantp_GotoTranFC]
    · simp only [ht, if_false, chn_upd_same, decTimer_status, hs, gs_RxPeriodList,
        _Cantp_PeriodIdle, _Cantp_PeriodRecvSF, _Cantp_PeriodRecvFF, _Cantp_PeriodRecvCF,
        Diag_StartOfReception, Diag_CopyRxData, Diag_RxIndication]
      try split_ifs
      all_goals simp [h, decTimer, _Cantp_GotoIdle, _Cantp_GotoTranFC]

/-- The loop body of `_Cantp_PeriodFunction` for a Tx channel leaves the registry
empty and keeps `sn` a `UINT8`. -/
theorem periodChannel_tx_sn (K : FblConfig) (E : Env) (w : World) (r : ChnRef)
    (h : w.gs_TransmittingChannel = none) (hsn : (w.chn r).sn < 256) :
    (periodChannel (gs_TxPeriodList K E) w r).gs_TransmittingChannel = none
    ∧ ((periodChannel (gs_TxPeriodList K E) w r).chn r).sn < 256 := by
  unfold periodChannel
  generalize hs : (w.chn r).status = s
  rcases s with _ | _ | _ | _ | _ | s
  all_goals
    by_cases ht : (w.chn r).timer = 0
    · simp only [ht, if_true, gs_TxPeriodList, _Cantp_TimeoutIdle, _Cantp_TimeoutTranSF,
        _Cantp_TimeoutTranFF, _Cantp_TimeoutTranCF, _Cantp_TimeoutRecvFC, Diag_TxConfirmation]
      try split_ifs
      all_goals simp_all [_Cantp_GotoIdle]
    · simp only [ht, if_false, chn_upd_same, decTimer_status, hs, gs_TxPeriodList,
        _Cantp_PeriodIdle, _Cantp_PeriodTranSF, _Cantp_PeriodTranFF, _Cantp_PeriodTranCF,
        _Cantp_PeriodRecvFC, _Cantp_TransmitCF, Diag_CopyTxData, FblCanSendData]
      try split_ifs
      all_goals first
        | (refine ⟨afterSend_slot K r _ _ _ (by simp [h]) (by
              simp [_Cantp_MakePciOfSF, _Cantp_MakePciOfFF, _Cantp_MakePciOfCF, decTimer]), ?_⟩
           rcases afterSend_sn K r _ _ _ with e | e
           · rw [e]
             simpa [_Cantp_MakePciOfSF, _Cantp_MakePciOfFF, _Cantp_MakePciOfCF, decTimer] using hsn
           · exact e)
        | (simp [h, decTimer, _Cantp_MakePciOfCF]
           exact hsn)


/-- A receive handler leaves the registry alone, and on the channel it runs on it
leaves `sn` alone or sets it to a value below 16. -/
theorem rxProcess_sn (K : FblConfig) (E : Env) (t : Nat) (r : ChnRef) (size : Nat)
    (buf : List Nat) (w : World) :
    (gs_RxProcessList K E t r size buf w).2.gs_TransmittingChannel = w.gs_TransmittingChannel
    ∧ (((gs_RxProcessList K E t r size buf w).2.chn r).sn = (w.chn r).sn
        ∨ ((gs_RxProcessList K E t r size buf w).2.chn r).sn < 16) := by
  have hl : ∀ x : Nat, GET_LOW_HALF x < 16 := fun x => by
    rw [GET_LOW_HALF_eq]; exact Nat.mod_lt _ (by decide)
  rcases t with _ | _ | _ | _ | t
  · simp only [gs_RxProcessList, _Cantp_ReceiveSF, Diag_RxIndication]
    repeat' split
    all_goals simp
  · simp only [gs_RxProcessList, _Cantp_ReceiveFF, Diag_RxIndication]
    repeat' split
    all_goals simp [_Cantp_SetMultipleFrameSize]
  · simp only [gs_RxProcessList, _Cantp_ReceiveCF, Diag_CopyRxData, Diag_RxIndication]
    repeat' split
    all_goals simp [_Cantp_GotoIdle, _Cantp_GotoTranFC, hl]
  · simp only [gs_RxProcessList, _Cantp_ReceiveFC, Diag_TxConfirmation]
    repeat' split
    all_goals simp [_Cantp_GotoIdle, _Cantp_GotoTranCF]
  · simp [gs_RxProcessList]

/-- The Flow Control handler does not change `sn`. -/
theorem receiveFC_sn (K : FblConfig) (r : ChnRef) (size : Nat) (buf : List Nat) (w : World) :
    ((_Cantp_ReceiveFC K r size buf w).2.chn r).sn = (w.chn r).sn := by
  simp only [_Cantp_ReceiveFC, Diag_TxConfirmation]
  repeat' split
  all_goals simp [_Cantp_GotoIdle, _Cantp_GotoTranCF]

/-- Every event keeps the registry empty, `sn` below 16 on the Rx channels and
`sn` a `UINT8` on the Tx channel. -/
theorem snInv_step (K : FblConfig) (E : Env) (w : World) (e : Event) (h : SnInv w) :
    SnInv (step K E w e) := by
  obtain ⟨hslot, h0, h1, h2⟩ := h
  cases e with
  | tick =>
    show SnInv (Cantp_PeriodFunction K E w)
    rw [tick_eq]
    obtain ⟨s0, a0⟩ := periodChannel_rx_sn K E w .rx0 hslot
    obtain ⟨s1, a1⟩ := periodChannel_rx_sn K E (periodChannel (gs_RxPeriodList K E) w .rx0) .rx1 s0
    have f2 : (periodChannel (gs_RxPeriodList K E)
        (periodChannel (gs_RxPeriodList K E) w .rx0) .rx1).chn .tx0 = w.chn .tx0 := by
      rw [periodChannel_rx_frame K E _ .rx1 .tx0 (by decide),
        periodChannel_rx_frame K E w .rx0 .tx0 (by decide)]
    obtain ⟨s2, a2⟩ := periodChannel_tx_sn K E _ .tx0 s1 (by rw [f2]; exact h2)
    have g0 := periodChannel_tx_frame K E (periodChannel (gs_RxPeriodList K E)
      (periodChannel (gs_RxPeriodList K E) w .rx0) .rx1) .tx0 .rx0 (by decide)
    have g1 := periodChannel_tx_frame K E (periodChannel (gs_RxPeriodList K E)
      (periodChannel (gs_RxPeriodList K E) w .rx0) .rx1) .tx0 .rx1 (by decide)
    have g2 := periodChannel_rx_frame K E (periodChannel (gs_RxPeriodList K E) w .rx0) .rx1 .rx0
      (by decide)
    have g3 := periodChannel_rx_frame K E w .rx0 .rx1 (by decide)
    simp only [chn_rx0, chn_rx1, chn_tx0] at a0 a1 a2 g0 g1 g2 g3
    refine ⟨s2, ?_, ?_, a2⟩
    · rw [g0, g2, a0]; exact h0
    · rw [g1, a1, g3]; exact h1
  | rxInd id size buf =>
    show SnInv (Cantp_RxIndication K E id size buf w)
    rcases rxInd_cases K E id size buf w with e | ⟨_, _, _, _, _, e⟩
      | ⟨_, t, _, ht, _, _, _, e⟩
    · rw [e]; exact ⟨hslot, h0, h1, h2⟩
    · rw [e]
      have a := rxProcess_sn K E 3 .tx0 size buf w
      have b := receiveFC_sn K .tx0 size buf w
      have c0 : (_Cantp_ReceiveFC K .tx0 size buf w).2.chn .rx0 = w.chn .rx0 :=
        rxProcess_other K E 3 .tx0 .rx0 size buf w (by decide)
      have c1 : (_Cantp_ReceiveFC K .tx0 size buf w).2.chn .rx1 = w.chn .rx1 :=
        rxProcess_other K E 3 .tx0 .rx1 size buf w (by decide)
      simp only [chn_rx0, chn_rx1, chn_tx0, gs_RxProcessList] at a b c0 c1
      exact ⟨a.1.trans hslot, by rw [c0]; exact h0, by rw [c1]; exact h1, by rw [b]; exact h2⟩
    · rw [e]
      obtain ⟨a, b⟩ := rxProcess_sn K E (CANTP_GET_FRAME_TYPE (w.chn t).pciInfo buf) t size buf w
      rcases ht with rfl | rfl
      · have c1 := rxProcess_other K E (CANTP_GET_FRAME_TYPE (w.chn .rx0).pciInfo buf) .rx0 .rx1
          size buf w (by decide)
        have c2 := rxProcess_other K E (CANTP_GET_FRAME_TYPE (w.chn .rx0).pciInfo buf) .rx0 .tx0
          size buf w (by decide)
        simp only [chn_rx0, chn_rx1, chn_tx0] at b c1 c2 ⊢
        refine ⟨a.trans hslot, ?_, by rw [c1]; exact h1, by rw [c2]; exact h2⟩
        rcases b with b | b
        · rw [b]; exact h0
        · exact b
      · have c1 := rxProcess_other K E (CANTP_GET_FRAME_TYPE (w.chn .rx1).pciInfo buf) .rx1 .rx0
          size buf w (by decide)
        have c2 := rxProcess_other K E (CANTP_GET_FRAME_TYPE (w.chn .rx1).pciInfo buf) .rx1 .tx0
          size buf w (by decide)
        simp only [chn_rx0, chn_rx1, chn_tx0] at b c1 c2 ⊢
        refine ⟨a.trans hslot, by rw [c1]; exact h0, ?_, by rw [c2]; exact h2⟩
        rcases b with b | b
        · rw [b]; exact h1
        · exact b
  | transmit handle size =>
    show SnInv (Cantp_Transmit handle size w).2
    simp only [Cantp_Transmit]
    cases hg : gs_CanTpTxChannel.get? handle with
    | none => exact ⟨hslot, h0, h1, h2⟩
    | some r' =>
      have hr' : r' = .tx0 := by
        have := List.get?_mem hg
        simpa [gs_CanTpTxChannel] using this
      subst hr'
      simp only
      repeat' split
      all_goals first
        | exact ⟨hslot, h0, h1, h2⟩
        | (refine ⟨by simpa using hslot, by simpa using h0, by simpa using h1, ?_⟩
           simp [_Cantp_GotoTranFF, _Cantp_GotoTranSF, _Cantp_SetMultipleFrameSize]
           try exact h2)
  | txConf id =>
    show SnInv (Cantp_TxConfirmation K id w)
    simp only [Cantp_TxConfirmation, hslot]
    exact ⟨hslot, h0, h1, h2⟩

theorem snInv_run (K : FblConfig) (E : Env) (evs : List Event) :
    ∀ w : World, SnInv w → SnInv (run K E w evs) := by
  induction evs with
  | nil => intro w h; exact h
  | cons e es ih =>
    intro w h
    exact ih _ (snInv_step K E w e h)

/-- C34 (amended): in every state reached from `CanTp_Init` (static storage
zeroed) through any sequence of calls of `Cantp_Transmit`, `Cantp_RxIndication`,
`Cantp_TxConfirmation` and `Cantp_PeriodFunction`, for any build and any
collaborators, the field `sn` of both Rx channels is below 16 and the field `sn`
of the Tx channel is below 256 (it is a `UINT8` of which `_Cantp_MakePciOfCF`
writes the low nibble). -/
theorem C34_sequence_number_bounds (K : FblConfig) (E : Env) (evs : List Event) :
    (run K E (CanTp_Init K (zeroWorld K)) evs).rx0.sn < 16
    ∧ (run K E (CanTp_Init K (zeroWorld K)) evs).rx1.sn < 16
    ∧ (run K E (CanTp_Init K (zeroWorld K)) evs).tx0.sn < 256 :=
  (snInv_run K E evs _
    ⟨rfl, show (0 : Nat) < 16 by decide, show (0 : Nat) < 16 by decide,
      show (0 : Nat) < 256 by decide⟩).2


/-! ## C32: block size zero -/

/-- One Consecutive Frame with block size 0: during the first `st - 1` ticks the
channel stays in TranCF and makes no call; in tick `st` the frame is handed to the
driver; the transfer goes on in TranCF, or, after the last frame, is confirmed with
OK and the channel is Idle. -/
theorem tx_cf_round0 (K : FblConfig) (E : Env)
    (hdrv : ∀ t f id len, E.FblCanSendData t f id len = ERR_OK)
    (cfg : bl_CanTpChannelCfg_t) (pci : bl_CanTpPciInfo_t) (st : Nat)
    (hpci : pci ∈ gs_CanTpPciInfo K) (hst : 1 ≤ st) (hwd : st ≤ CANTP_CHNNEL_RX_CR K)
    (w : World) (c : bl_CanTpChannel_t) (tr : List Call) (cnt : Nat)
    (h : TxAt w c tr) (hc : SendingCF K cfg pci st c 0 cnt) (hls : c.lastSize < 256)
    (hcnt : 1 ≤ cnt) (hc16 : cnt < 65536) :
    (∀ m, m < st → (ticks K E m w).tx0.status = CANTP_STATUS_TRANSMITTING_CF
        ∧ (ticks K E m w).trace = tr)
    ∧ ∃ c' f, CANTP_GET_FRAME_TYPE pci f = CANTP_FRAME_TYPE_CF
      ∧ c'.lastSize = c.lastSize
      ∧ TxAt (ticks K E st w) c'
          (tr ++ Call.FblCanSendData f cfg.txId (CANTP_MAX_FRAME_SIZE K)
            :: (if cnt = 1 then [Call.Diag_TxConfirmation ERR_OK] else []))
      ∧ (cnt = 1 → c'.status = CANTP_STATUS_IDLE)
      ∧ (2 ≤ cnt → SendingCF K cfg pci st c' 0 (cnt - 1)) := by
  obtain ⟨hs, hsub, htm, rfl, hcst, hbs, rfl, rfl, rfl, hlen⟩ := hc
  have e : c.txDelay = (c.txDelay - 1) + 1 := by omega
  have d : ∀ m, m < c.txDelay → TxAt (ticks K E m w)
      { c with timer := c.timer - m, txDelay := c.txDelay - m } tr :=
    fun m hm => tx_delay_ticks K E m w c tr h hs hsub (by omega) (by omega)
  have s2 := tx_tranCF_send K E _ _ _ (d (c.txDelay - 1) (by omega)) hdrv hs
    (by simp only; omega) hsub (by simp only; omega)
  have hcc : UINT16 (c.cfCnt + 65535) = c.cfCnt - 1 := by
    simp only [UINT16]; omega
  have hpd := rd_cfFrame_pci K
    { c with timer := c.timer - (c.txDelay - 1), txDelay := c.txDelay - (c.txDelay - 1) }
    hpci (by simpa using hlen) (by simpa using hls)
  have hticks : ticks K E c.txDelay w
      = Cantp_PeriodFunction K E (ticks K E (c.txDelay - 1) w) := by
    have := ticks_add K E (c.txDelay - 1) 1 w
    rw [← e] at this
    exact this
  refine ⟨fun m hm => ⟨by rw [(d m hm).1]; exact hs, (d m hm).2.1⟩, ?_⟩
  rw [hticks]
  have hif : (UINT16 (c.cfCnt + 65535) = 0) = (c.cfCnt = 1) := by
    rw [hcc]
    exact propext ⟨fun a => by omega, fun a => by omega⟩
  simp only [hif] at s2
  refine ⟨_, _, ?_, ?_, s2, ?_, ?_⟩
  · exact (congrArg (fun x => GET_LOW_HALF (x >>> 4)) hpd).trans (cf_pci_type _)
  · simp only [afterCF]
  · intro h1
    have h0 : UINT16 (c.cfCnt + 65535) = 0 := by rw [hcc]; omega
    simp only [afterCF, h0, if_true]
  · intro h2
    have hcc0 : ¬ UINT16 (c.cfCnt + 65535) = 0 := by rw [hcc]; omega
    have hne : ¬ c.bs = 1 := by omega
    refine ⟨?_, ?_, ?_, ?_, ?_, ?_, ?_, ?_, ?_, ?_⟩
    · simp only [afterCF, hcc0, hne, if_false]
    · simp only [afterCF]
    · simp only [afterCF, hcc0, hne, if_false]
    · simp only [afterCF, hcc0, hne, if_false, or_self, hcst]
    · simp only [afterCF, hcst]
    · simp only [afterCF, hcc0, if_false, hbs]
    · simp only [afterCF, hcc]
    · simp only [afterCF]
    · simp only [afterCF]
    · simp only [afterCF, cfFrame, length_Bl_MemSet, _Cantp_MakePciOfCF, List.length_set,
        length_putTa, hlen]

/-- With block size 0 and `n + 1` Consecutive Frames left, `(n + 1) * st` ticks hand
all of them to the driver, the channel staying in TranCF in between, then confirm
the transfer with OK and leave the channel Idle. -/
theorem tx_cf_all (K : FblConfig) (E : Env)
    (hdrv : ∀ t f id len, E.FblCanSendData t f id len = ERR_OK)
    (cfg : bl_CanTpChannelCfg_t) (pci : bl_CanTpPciInfo_t) (st : Nat)
    (hpci : pci ∈ gs_CanTpPciInfo K) (hst : 1 ≤ st) (hwd : st ≤ CANTP_CHNNEL_RX_CR K) (n : Nat) :
    ∀ (w : World) (c : bl_CanTpChannel_t) (tr : List Call),
      TxAt w c tr → SendingCF K cfg pci st c 0 (n + 1) → c.lastSize < 256 → n + 1 < 65536 →
      ∃ (frames : List (List Nat)) (c' : bl_CanTpChannel_t),
        frames.length = n + 1
        ∧ (∀ f ∈ frames, CANTP_GET_FRAME_TYPE pci f = CANTP_FRAME_TYPE_CF)
        ∧ TxAt (ticks K E ((n + 1) * st) w) c'
            (tr ++ frames.map (fun f => Call.FblCanSendData f cfg.txId (CANTP_MAX_FRAME_SIZE K))
              ++ [Call.Diag_TxConfirmation ERR_OK])
        ∧ c'.status = CANTP_STATUS_IDLE
        ∧ ∀ m, m < (n + 1) * st →
            (ticks K E m w).tx0.status = CANTP_STATUS_TRANSMITTING_CF := by
  induction n with
  | zero =>
    intro w c tr h hc hls h16
    obtain ⟨hq, c', f, hty, _, s, hend, _⟩ :=
      tx_cf_round0 K E hdrv cfg pci st hpci hst hwd w c tr 1 h hc hls (by omega) h16
    refine ⟨[f], c', rfl, ?_, ?_, hend rfl, ?_⟩
    · intro g hg
      rw [List.mem_singleton.mp hg]
      exact hty
    · simpa using s
    · intro m hm
      exact (hq m (by omega)).1
  | succ n ih =>
    intro w c tr h hc hls h16
    obtain ⟨hq, c1, f, hty, hl1, s, _, hgo⟩ :=
      tx_cf_round0 K E hdrv cfg pci st hpci hst hwd w c tr (n + 2) h hc hls (by omega) h16
    have hne : ¬ n + 2 = 1 := by omega
    simp only [hne, if_false] at s
    obtain ⟨frames, c', hlen, hall, s', hs', hq'⟩ :=
      ih _ _ _ s (by simpa using hgo (by omega)) (by rw [hl1]; exact hls) (by omega)
    refine ⟨f :: frames, c', by simp [hlen], ?_, ?_, hs', ?_⟩
    · intro g hg
      rcases List.mem_cons.mp hg with rfl | hg
      · exact hty
      · exact hall g hg
    · have e : (n + 1 + 1) * st = st + (n + 1) * st := by ring
      rw [e, ticks_add]
      simpa [List.append_assoc] using s'
    · intro m hm
      by_cases hlt : m < st
      · exact (hq m hlt).1
      · obtain ⟨k, rfl⟩ : ∃ k, m = st + k := ⟨m - st, by omega⟩
        rw [ticks_add]
        apply hq'
        have e : (n + 1 + 1) * st = st + (n + 1) * st := by ring
        omega

/-- C32: a Tx channel in RecvFC (both Rx channels Idle) with `n = cfCnt >= 1`
Consecutive Frames left receives FC/CTS with block-size byte 0; the driver accepts
every frame and the CR watchdog `g_CanTpRxChnsCfg[0].timerC` is at least `st =
_Cantp_GetSTMinFromFC(STmin byte)`.  Then after `n * st` ticks the calls made are
exactly `n` Consecutive Frames handed to the driver followed by one
`Diag_TxConfirmation(OK)`, and the channel is Idle; at every tick before that the
channel is in TranCF (it never re-enters RecvFC); and however many ticks follow, no
further call is made. -/
theorem C32_block_size_zero (K : FblConfig) (E : Env) (w : World) (c : bl_CanTpChannel_t)
    (tr : List Call) (id size : Nat) (buf : List Nat) (h : TxAt w c tr)
    (hdrv : ∀ t f i len, E.FblCanSendData t f i len = ERR_OK)
    (hs : c.status = CANTP_STATUS_RECEIVING_FC)
    (hpci : c.pciInfo ∈ gs_CanTpPciInfo K)
    (hlen : c.frame.length = CANTP_MAX_FRAME_SIZE K)
    (hls : c.lastSize < 256)
    (hsz : size ≤ CANTP_MAX_FRAME_SIZE K)
    (hid : c.chnCfg.rxId = id)
    (haddr : c.chnCfg.type = CANTP_TYPE_STANDARD ∨ c.chnCfg.ta = rd buf CANTP_TA_OFFSET)
    (hty : CANTP_GET_FRAME_TYPE c.pciInfo buf = CANTP_FRAME_TYPE_FC)
    (hfs : CANTP_GET_FC_FS c.pciInfo buf = CANTP_FC_FRAME_CTS)
    (hb : CANTP_GET_FC_BS c.pciInfo buf = 0)
    (hcnt : 1 ≤ c.cfCnt) (hc16 : c.cfCnt < 65536)
    (hwd : _Cantp_GetSTMinFromFC (CANTP_GET_FC_STMIN c.pciInfo buf) ≤ CANTP_CHNNEL_RX_CR K) :
    ∃ frames : List (List Nat),
      frames.length = c.cfCnt
      ∧ (∀ f ∈ frames, CANTP_GET_FRAME_TYPE c.pciInfo f = CANTP_FRAME_TYPE_CF)
      ∧ (ticks K E (c.cfCnt * _Cantp_GetSTMinFromFC (CANTP_GET_FC_STMIN c.pciInfo buf))
            (Cantp_RxIndication K E id size buf w)).trace
          = tr ++ frames.map (fun f =>
              Call.FblCanSendData f c.chnCfg.txId (CANTP_MAX_FRAME_SIZE K))
            ++ [Call.Diag_TxConfirmation ERR_OK]
      ∧ (ticks K E (c.cfCnt * _Cantp_GetSTMinFromFC (CANTP_GET_FC_STMIN c.pciInfo buf))
            (Cantp_RxIndication K E id size buf w)).tx0.status = CANTP_STATUS_IDLE
      ∧ (∀ m, m < c.cfCnt * _Cantp_GetSTMinFromFC (CANTP_GET_FC_STMIN c.pciInfo buf) →
          (ticks K E m (Cantp_RxIndication K E id size buf w)).tx0.status
            = CANTP_STATUS_TRANSMITTING_CF)
      ∧ ∀ m, (ticks K E
            (c.cfCnt * _Cantp_GetSTMinFromFC (CANTP_GET_FC_STMIN c.pciInfo buf) + m)
            (Cantp_RxIndication K E id size buf w)).trace
          = tr ++ frames.map (fun f =>
              Call.FblCanSendData f c.chnCfg.txId (CANTP_MAX_FRAME_SIZE K))
            ++ [Call.Diag_TxConfirmation ERR_OK] := by
  have s0 := rxInd_FC_cts K E w c tr id size buf h hsz hid haddr hs hty hfs
  obtain ⟨n, hn⟩ : ∃ n, c.cfCnt = n + 1 := ⟨c.cfCnt - 1, by omega⟩
  have hc0 : SendingCF K c.chnCfg c.pciInfo
      (_Cantp_GetSTMinFromFC (CANTP_GET_FC_STMIN c.pciInfo buf))
      (_Cantp_GotoTranCF K
        { c with
          bs := CANTP_GET_FC_BS c.pciInfo buf
          st := _Cantp_GetSTMinFromFC (CANTP_GET_FC_STMIN c.pciInfo buf) }) 0 (n + 1) :=
    ⟨rfl, rfl, rfl, rfl, rfl, hb, hn, rfl, rfl, hlen⟩
  obtain ⟨frames, c', hl, hall, s1, hs', hq⟩ :=
    tx_cf_all K E hdrv c.chnCfg c.pciInfo _ hpci (GetSTMin_pos _) hwd n _ _ _ s0 hc0 hls
      (by omega)
  rw [hn]
  refine ⟨frames, hl, hall, s1.2.1, ?_, hq, ?_⟩
  · rw [s1.1]; exact hs'
  · intro m
    rw [ticks_add]
    exact idle_ticks K E m _ _ _ s1 hs'


set_option maxRecDepth 100000 in
theorem C32_block_size_zero_witness :
    ∃ frames : List (List Nat),
      frames.length = classicRecvFC.tx0.cfCnt
      ∧ (∀ f ∈ frames, CANTP_GET_FRAME_TYPE classicRecvFC.tx0.pciInfo f = CANTP_FRAME_TYPE_CF)
      ∧ (ticks classicBuild (envOf [])
            (classicRecvFC.tx0.cfCnt * _Cantp_GetSTMinFromFC
              (CANTP_GET_FC_STMIN classicRecvFC.tx0.pciInfo
                [0x30, 0, 0x05, 0xAA, 0xAA, 0xAA, 0xAA, 0xAA]))
            (Cantp_RxIndication classicBuild (envOf []) 0x7E0 8
              [0x30, 0, 0x05, 0xAA, 0xAA, 0xAA, 0xAA, 0xAA] classicRecvFC)).trace
          = classicRecvFC.trace ++ frames.map (fun f =>
              Call.FblCanSendData f classicRecvFC.tx0.chnCfg.txId
                (CANTP_MAX_FRAME_SIZE classicBuild))
            ++ [Call.Diag_TxConfirmation ERR_OK]
      ∧ (ticks classicBuild (envOf [])
            (classicRecvFC.tx0.cfCnt * _Cantp_GetSTMinFromFC
              (CANTP_GET_FC_STMIN classicRecvFC.tx0.pciInfo
                [0x30, 0, 0x05, 0xAA, 0xAA, 0xAA, 0xAA, 0xAA]))
            (Cantp_RxIndication classicBuild (envOf []) 0x7E0 8
              [0x30, 0, 0x05, 0xAA, 0xAA, 0xAA, 0xAA, 0xAA] classicRecvFC)).tx0.status
          = CANTP_STATUS_IDLE
      ∧ (∀ m, m < classicRecvFC.tx0.cfCnt * _Cantp_GetSTMinFromFC
              (CANTP_GET_FC_STMIN classicRecvFC.tx0.pciInfo
                [0x30, 0, 0x05, 0xAA, 0xAA, 0xAA, 0xAA, 0xAA]) →
          (ticks classicBuild (envOf []) m
            (Cantp_RxIndication classicBuild (envOf []) 0x7E0 8
              [0x30, 0, 0x05, 0xAA, 0xAA, 0xAA, 0xAA, 0xAA] classicRecvFC)).tx0.status
            = CANTP_STATUS_TRANSMITTING_CF)
      ∧ ∀ m, (ticks classicBuild (envOf [])
            (classicRecvFC.tx0.cfCnt * _Cantp_GetSTMinFromFC
              (CANTP_GET_FC_STMIN classicRecvFC.tx0.pciInfo
                [0x30, 0, 0x05, 0xAA, 0xAA, 0xAA, 0xAA, 0xAA]) + m)
            (Cantp_RxIndication classicBuild (envOf []) 0x7E0 8
              [0x30, 0, 0x05, 0xAA, 0xAA, 0xAA, 0xAA, 0xAA] classicRecvFC)).trace
          = classicRecvFC.trace ++ frames.map (fun f =>
              Call.FblCanSendData f classicRecvFC.tx0.chnCfg.txId
                (CANTP_MAX_FRAME_SIZE classicBuild))
            ++ [Call.Diag_TxConfirmation ERR_OK] :=
  C32_block_size_zero classicBuild (envOf []) classicRecvFC classicRecvFC.tx0 classicRecvFC.trace
    0x7E0 8 [0x30, 0, 0x05, 0xAA, 0xAA, 0xAA, 0xAA, 0xAA]
    ⟨rfl, rfl, by decide, by decide⟩ (fun _ _ _ _ => rfl) (by decide) (by decide) (by decide)
    (by decide) (by decide) (by decide) (by decide) (by decide) (by decide) (by decide)
    (by decide) (by decide) (by decide)


/-! ## C33: a frame refused by the driver -/

/-- A confirmation handler only appends calls. -/
theorem confirm_trace (K : FblConfig) (s : Nat) (r : ChnRef) (w : World) :
    ∃ rest, (gs_TxConfirmList K s r w).trace = w.trace ++ rest := by
  rcases s with _ | _ | _ | _ | _ | s <;>
    simp only [gs_TxConfirmList, _Cantp_TxConfirmIdle, _Cantp_TxConfirmSF, _Cantp_TxConfirmFF,
      _Cantp_TxConfirmCF, _Cantp_TxConfirmFC, Diag_TxConfirmation] <;>
    (try split_ifs) <;>
    first
      | (refine ⟨[], ?_⟩
         simp
         done)
      | (refine ⟨[Call.Diag_TxConfirmation ERR_OK], ?_⟩
         simp [World.log])

/-- The tail of a transmitting period handler only appends calls. -/
theorem afterSend_trace (K : FblConfig) (r : ChnRef) (id : Nat) (ret : bl_Return) (w : World) :
    ∃ rest, (afterSend K r id ret w).trace = w.trace ++ rest := by
  simp only [afterSend, Cantp_TxConfirmation, slot_setSlot]
  split_ifs
  · obtain ⟨rest, e⟩ := confirm_trace K ((w.upd r fun c =>
        { c with subStatus := CANTP_SUB_STATUS_TRANSMITTING }).setSlot (some r) |>.chn r).status r
      ((w.upd r fun c => { c with subStatus := CANTP_SUB_STATUS_TRANSMITTING }).setSlot (some r))
    exact ⟨rest, by simpa using e⟩
  · exact ⟨[], by simp⟩
  · exact ⟨[], by simp⟩

theorem afterSend_trace2 (K : FblConfig) (r : ChnRef) (id : Nat) (ret : bl_Return) (w : World)
    (a l : List Call) (h : w.trace = a ++ l) :
    ∃ rest, (afterSend K r id ret w).trace = a ++ (l ++ rest) := by
  obtain ⟨rest, e⟩ := afterSend_trace K r id ret w
  exact ⟨rest, by rw [e, h, List.append_assoc]⟩

/-- TranSF, timer running, subStatus Idle: the loop body of `_Cantp_PeriodFunction`
asks Diag for the payload and hands the staged Single Frame to the driver. -/
theorem tranSF_attempt (K : FblConfig) (E : Env) (w : World) (r : ChnRef)
    (hs : (w.chn r).status = CANTP_STATUS_TRANSMITTING_SF) (ht : (w.chn r).timer ≠ 0)
    (hsub : (w.chn r).subStatus = CANTP_SUB_STATUS_IDLE) :
    ∃ rest, (periodChannel (gs_TxPeriodList K E) w r).trace
      = w.trace ++ Call.Diag_CopyTxData (w.chn r).lastSize
          :: Call.FblCanSendData ((sfFrame K E w.trace (w.chn r)).take (CANTP_MAX_FRAME_SIZE K))
              (w.chn r).chnCfg.txId (CANTP_MAX_FRAME_SIZE K) :: rest := by
  have hs' : (w.chn r).status = 1 := hs
  have hsub' : (decTimer (w.chn r)).subStatus = CANTP_SUB_STATUS_IDLE := hsub
  simp only [periodChannel, ht, if_false, chn_upd_same, decTimer_status, hs', gs_TxPeriodList,
    _Cantp_PeriodTranSF, hsub', if_true, Diag_CopyTxData, FblCanSendData]
  exact afterSend_trace2 K r _ _ _ w.trace
    [Call.Diag_CopyTxData (w.chn r).lastSize,
     Call.FblCanSendData ((sfFrame K E w.trace (w.chn r)).take (CANTP_MAX_FRAME_SIZE K))
       (w.chn r).chnCfg.txId (CANTP_MAX_FRAME_SIZE K)]
    (by simp [sfFrame, _Cantp_MakePciOfSF, decTimer, putTa])


/-- TranSF, timer running, subStatus Idle, the driver refuses the staged frame: the
frame stays staged, the timer has gone down by 1, nothing else changes and no
other call is made. -/
theorem tranSF_refused (K : FblConfig) (E : Env) (w : World) (r : ChnRef)
    (hs : (w.chn r).status = CANTP_STATUS_TRANSMITTING_SF) (ht : (w.chn r).timer ≠ 0)
    (hsub : (w.chn r).subStatus = CANTP_SUB_STATUS_IDLE)
    (hrej : E.FblCanSendData (w.trace ++ [Call.Diag_CopyTxData (w.chn r).lastSize])
        ((sfFrame K E w.trace (w.chn r)).take (CANTP_MAX_FRAME_SIZE K)) (w.chn r).chnCfg.txId
        (CANTP_MAX_FRAME_SIZE K) ≠ ERR_OK) :
    (periodChannel (gs_TxPeriodList K E) w r).chn r = refusedSF K E w.trace (w.chn r)
    ∧ (periodChannel (gs_TxPeriodList K E) w r).trace
        = w.trace ++ [Call.Diag_CopyTxData (w.chn r).lastSize,
            Call.FblCanSendData ((sfFrame K E w.trace (w.chn r)).take (CANTP_MAX_FRAME_SIZE K))
              (w.chn r).chnCfg.txId (CANTP_MAX_FRAME_SIZE K)] := by
  have hs' : (w.chn r).status = 1 := hs
  have hsub' : (decTimer (w.chn r)).subStatus = CANTP_SUB_STATUS_IDLE := hsub
  constructor <;>
    simp [periodChannel, ht, hs', gs_TxPeriodList, _Cantp_PeriodTranSF, hsub', Diag_CopyTxData,
      FblCanSendData, afterSend, sfFrame, refusedSF, _Cantp_MakePciOfSF, decTimer, putTa, *]
      at hrej ⊢ <;>
    simp [hrej, afterSend, decTimer, _Cantp_MakePciOfSF, putTa]
  try exact ⟨hs', hsub⟩

/-- TranFF, timer running, subStatus Idle: the loop body of `_Cantp_PeriodFunction`
asks Diag for the payload and hands the staged First Frame to the driver. -/
theorem tranFF_attempt (K : FblConfig) (E : Env) (w : World) (r : ChnRef)
    (hs : (w.chn r).status = CANTP_STATUS_TRANSMITTING_FF) (ht : (w.chn r).timer ≠ 0)
    (hsub : (w.chn r).subStatus = CANTP_SUB_STATUS_IDLE) :
    ∃ rest, (periodChannel (gs_TxPeriodList K E) w r).trace
      = w.trace ++ Call.Diag_CopyTxData (w.chn r).pciInfo.maxFFDataSize
          :: Call.FblCanSendData ((ffFrame E w.trace (w.chn r)).take (CANTP_MAX_FRAME_SIZE K))
              (w.chn r).chnCfg.txId (CANTP_MAX_FRAME_SIZE K) :: rest := by
  have hs' : (w.chn r).status = 2 := hs
  have hsub' : (decTimer (w.chn r)).subStatus = CANTP_SUB_STATUS_IDLE := hsub
  simp only [periodChannel, ht, if_false, chn_upd_same, decTimer_status, hs', gs_TxPeriodList,
    _Cantp_PeriodTranFF, hsub', if_true, Diag_CopyTxData, FblCanSendData]
  exact afterSend_trace2 K r _ _ _ w.trace
    [Call.Diag_CopyTxData (w.chn r).pciInfo.maxFFDataSize,
     Call.FblCanSendData ((ffFrame E w.trace (w.chn r)).take (CANTP_MAX_FRAME_SIZE K))
       (w.chn r).chnCfg.txId (CANTP_MAX_FRAME_SIZE K)]
    (by simp [ffFrame, _Cantp_MakePciOfFF, decTimer, putTa])

/-- TranFF, timer running, subStatus Idle, the driver refuses the staged frame: the
frame stays staged, the timer has gone down by 1, nothing else changes and no
other call is made. -/
theorem tranFF_refused (K : FblConfig) (E : Env) (w : World) (r : ChnRef)
    (hs : (w.chn r).status = CANTP_STATUS_TRANSMITTING_FF) (ht : (w.chn r).timer ≠ 0)
    (hsub : (w.chn r).subStatus = CANTP_SUB_STATUS_IDLE)
    (hrej : E.FblCanSendData (w.trace ++ [Call.Diag_CopyTxData (w.chn r).pciInfo.maxFFDataSize])
        ((ffFrame E w.trace (w.chn r)).take (CANTP_MAX_FRAME_SIZE K)) (w.chn r).chnCfg.txId
        (CANTP_MAX_FRAME_SIZE K) ≠ ERR_OK) :
    (periodChannel (gs_TxPeriodList K E) w r).chn r = refusedFF E w.trace (w.chn r)
    ∧ (periodChannel (gs_TxPeriodList K E) w r).trace
        = w.trace ++ [Call.Diag_CopyTxData (w.chn r).pciInfo.maxFFDataSize,
            Call.FblCanSendData ((ffFrame E w.trace (w.chn r)).take (CANTP_MAX_FRAME_SIZE K))
              (w.chn r).chnCfg.txId (CANTP_MAX_FRAME_SIZE K)] := by
  have hs' : (w.chn r).status = 2 := hs
  have hsub' : (decTimer (w.chn r)).subStatus = CANTP_SUB_STATUS_IDLE := hsub
  constructor <;>
    simp [periodChannel, ht, hs', gs_TxPeriodList, _Cantp_PeriodTranFF, hsub', Diag_CopyTxData,
      FblCanSendData, afterSend, ffFrame, refusedFF, _Cantp_MakePciOfFF, decTimer, putTa, *]
      at hrej ⊢ <;>
    simp [hrej, afterSend, decTimer, _Cantp_MakePciOfFF, putTa]
  try exact ⟨hs', hsub⟩

/-- TranCF, timer running, subStatus Idle, separation delay elapsed with this tick:
the loop body of `_Cantp_PeriodFunction` hands the staged Consecutive Frame to the
driver; refused, the frame stays staged, the timer has gone down by 1, the
separation delay is 0 and nothing else changes. -/
theorem tranCF_try (K : FblConfig) (E : Env) (w : World) (r : ChnRef)
    (hs : (w.chn r).status = CANTP_STATUS_TRANSMITTING_CF) (ht : (w.chn r).timer ≠ 0)
    (hsub : (w.chn r).subStatus = CANTP_SUB_STATUS_IDLE) (hd : (w.chn r).txDelay ≤ 1) :
    (E.FblCanSendData w.trace ((cfFrame K (w.chn r)).take (CANTP_MAX_FRAME_SIZE K))
        (w.chn r).chnCfg.txId (CANTP_MAX_FRAME_SIZE K) = ERR_OK →
      (periodChannel (gs_TxPeriodList K E) w r).trace
        = w.trace ++ Call.FblCanSendData ((cfFrame K (w.chn r)).take (CANTP_MAX_FRAME_SIZE K))
            (w.chn r).chnCfg.txId (CANTP_MAX_FRAME_SIZE K)
          :: (if UINT16 ((w.chn r).cfCnt + 65535) = 0 then [Call.Diag_TxConfirmation ERR_OK]
              else []))
    ∧ (E.FblCanSendData w.trace ((cfFrame K (w.chn r)).take (CANTP_MAX_FRAME_SIZE K))
        (w.chn r).chnCfg.txId (CANTP_MAX_FRAME_SIZE K) ≠ ERR_OK →
      (periodChannel (gs_TxPeriodList K E) w r).chn r = refusedCF K (w.chn r)
      ∧ (periodChannel (gs_TxPeriodList K E) w r).trace
        = w.trace ++ [Call.FblCanSendData ((cfFrame K (w.chn r)).take (CANTP_MAX_FRAME_SIZE K))
            (w.chn r).chnCfg.txId (CANTP_MAX_FRAME_SIZE K)]) := by
  have hs' : (w.chn r).status = 3 := hs
  have hsub' : (w.chn r).subStatus = 0 := hsub
  have hd1 : (w.chn r).txDelay - 1 = 0 := by omega
  have hbs : (w.chn r).bs = 0 ∨ (w.chn r).bs = 1
      ∨ ((w.chn r).bs ≠ 0 ∧ (w.chn r).bs ≠ 1 ∧ (w.chn r).bs - 1 ≠ 0) := by omega
  constructor
  · intro hok
    by_cases hz : (w.chn r).txDelay = 0 <;> by_cases hc : UINT16 ((w.chn r).cfCnt + 65535) = 0 <;>
      rcases hbs with hb | hb | ⟨hb, hb1, hb2⟩ <;>
      simp [periodChannel, ht, hs', gs_TxPeriodList, _Cantp_PeriodTranCF, hsub', decTimer, hd1,
        hz, hc, hb, CANTP_SUB_STATUS_IDLE, _Cantp_TransmitCF, FblCanSendData,
        afterSend, Cantp_TxConfirmation, gs_TxConfirmList, _Cantp_TxConfirmCF, cfFrame,
        _Cantp_MakePciOfCF, putTa, Diag_TxConfirmation, _Cantp_GotoIdle,
        CANTP_STATUS_TRANSMITTING_CF, CANTP_STATUS_RECEIVING_FC, CANTP_STATUS_IDLE, *] at hok ⊢ <;>
      simp [hok, hc, hb, afterSend, Cantp_TxConfirmation, gs_TxConfirmList, _Cantp_TxConfirmCF,
        Diag_TxConfirmation, _Cantp_GotoIdle, _Cantp_MakePciOfCF, putTa, decTimer, hs', hsub',
        CANTP_SUB_STATUS_TRANSMITTING, CANTP_SUB_STATUS_IDLE,
        CANTP_STATUS_TRANSMITTING_CF, CANTP_STATUS_RECEIVING_FC, CANTP_STATUS_IDLE, *]
  · intro hno
    constructor <;>
      by_cases hz : (w.chn r).txDelay = 0 <;>
      simp [periodChannel, ht, hs', gs_TxPeriodList, _Cantp_PeriodTranCF, hsub', decTimer, hd1,
        hz, CANTP_SUB_STATUS_IDLE, _Cantp_TransmitCF, FblCanSendData, refusedCF, cfFrame,
        _Cantp_MakePciOfCF, putTa, *] at hno ⊢ <;>
      simp [hno, _Cantp_MakePciOfCF, putTa, decTimer, hs', hsub', CANTP_SUB_STATUS_IDLE, *]

/-- TranCF, timer running, subStatus Idle, separation delay elapsed with this tick:
whatever the driver answers, the staged Consecutive Frame is handed to it. -/
theorem tranCF_attempt (K : FblConfig) (E : Env) (w : World) (r : ChnRef)
    (hs : (w.chn r).status = CANTP_STATUS_TRANSMITTING_CF) (ht : (w.chn r).timer ≠ 0)
    (hsub : (w.chn r).subStatus = CANTP_SUB_STATUS_IDLE) (hd : (w.chn r).txDelay ≤ 1) :
    ∃ rest, (periodChannel (gs_TxPeriodList K E) w r).trace
      = w.trace ++ Call.FblCanSendData ((cfFrame K (w.chn r)).take (CANTP_MAX_FRAME_SIZE K))
              (w.chn r).chnCfg.txId (CANTP_MAX_FRAME_SIZE K) :: rest := by
  obtain ⟨a, b⟩ := tranCF_try K E w r hs ht hsub hd
  by_cases hok : E.FblCanSendData w.trace ((cfFrame K (w.chn r)).take (CANTP_MAX_FRAME_SIZE K))
      (w.chn r).chnCfg.txId (CANTP_MAX_FRAME_SIZE K) = ERR_OK
  · exact ⟨_, a hok⟩
  · exact ⟨[], (b hok).2⟩

/-- TranFC, timer running, subStatus Idle: the loop body of `_Cantp_PeriodFunction`
hands the staged Flow Control frame to the driver. -/
theorem tranFC_attempt (K : FblConfig) (E : Env) (w : World) (r : ChnRef)
    (hs : (w.chn r).status = CANTP_STATUS_TRANSMITTING_FC) (ht : (w.chn r).timer ≠ 0)
    (hsub : (w.chn r).subStatus = CANTP_SUB_STATUS_IDLE) :
    ∃ rest, (periodChannel (gs_RxPeriodList K E) w r).trace
      = w.trace ++ Call.FblCanSendData ((fcFrame K (w.chn r)).take (CANTP_MAX_FRAME_SIZE K))
              (w.chn r).chnCfg.txId (CANTP_MAX_FRAME_SIZE K) :: rest := by
  have hs' : (w.chn r).status = 4 := hs
  have hsub' : (decTimer (w.chn r)).subStatus = CANTP_SUB_STATUS_IDLE := hsub
  simp only [periodChannel, ht, if_false, chn_upd_same, decTimer_status, hs', gs_RxPeriodList,
    _Cantp_PeriodTranFC, hsub', if_true, FblCanSendData]
  exact afterSend_trace2 K r _ _ _ w.trace
    [Call.FblCanSendData ((fcFrame K (w.chn r)).take (CANTP_MAX_FRAME_SIZE K))
       (w.chn r).chnCfg.txId (CANTP_MAX_FRAME_SIZE K)]
    (by simp [fcFrame, _Cantp_MakePciOfFC, decTimer, putTa])

/-- TranFC, timer running, subStatus Idle, the driver refuses the staged frame: the
frame stays staged, the timer has gone down by 1, nothing else changes and no
other call is made. -/
theorem tranFC_refused (K : FblConfig) (E : Env) (w : World) (r : ChnRef)
    (hs : (w.chn r).status = CANTP_STATUS_TRANSMITTING_FC) (ht : (w.chn r).timer ≠ 0)
    (hsub : (w.chn r).subStatus = CANTP_SUB_STATUS_IDLE)
    (hrej : E.FblCanSendData w.trace
        ((fcFrame K (w.chn r)).take (CANTP_MAX_FRAME_SIZE K)) (w.chn r).chnCfg.txId
        (CANTP_MAX_FRAME_SIZE K) ≠ ERR_OK) :
    (periodChannel (gs_RxPeriodList K E) w r).chn r = refusedFC K (w.chn r)
    ∧ (periodChannel (gs_RxPeriodList K E) w r).trace
        = w.trace ++ [Call.FblCanSendData ((fcFrame K (w.chn r)).take (CANTP_MAX_FRAME_SIZE K))
              (w.chn r).chnCfg.txId (CANTP_MAX_FRAME_SIZE K)] := by
  have hs' : (w.chn r).status = 4 := hs
  have hsub' : (decTimer (w.chn r)).subStatus = CANTP_SUB_STATUS_IDLE := hsub
  constructor <;>
    simp [periodChannel, ht, hs', gs_RxPeriodList, _Cantp_PeriodTranFC, hsub',
      FblCanSendData, afterSend, fcFrame, refusedFC, _Cantp_MakePciOfFC, decTimer, putTa, *]
      at hrej ⊢ <;>
    simp [hrej, afterSend, decTimer, _Cantp_MakePciOfFC, putTa]
  try exact ⟨hs', hsub⟩

theorem length_sfFrame (K : FblConfig) (E : Env) (tr : List Call) (c : bl_CanTpChannel_t) :
    (sfFrame K E tr c).length = c.frame.length := by
  simp [sfFrame, length_Bl_MemSet, length_writeAt, _Cantp_MakePciOfSF, length_putTa]

theorem length_fcFrame (K : FblConfig) (c : bl_CanTpChannel_t) :
    (fcFrame K c).length = c.frame.length := by
  simp [fcFrame, length_Bl_MemSet, _Cantp_MakePciOfFC, length_putTa]

/-- The PCI byte of the Single Frame staged by `_Cantp_PeriodTranSF`. -/
theorem rd_sfFrame_pci (K : FblConfig) (E : Env) (tr : List Call) (c : bl_CanTpChannel_t)
    (hpci : c.pciInfo ∈ gs_CanTpPciInfo K) (hlen : c.frame.length = CANTP_MAX_FRAME_SIZE K)
    (hls : c.lastSize < 256) :
    rd ((sfFrame K E tr c).take (CANTP_MAX_FRAME_SIZE K)) c.pciInfo.pciPos
      = GET_LOW_HALF c.lastSize := by
  obtain ⟨_, b2, _, _, b5, b6, _, b8, b9⟩ := pci_bounds K _ hpci
  have h8 := max_frame_size_ge K
  rw [rd_take _ _ _ (by omega)]
  unfold sfFrame
  rw [rd_Bl_MemSet_lt _ _ _ _ _ (by simp only [UINT16]; omega)]
  rw [rd_writeAt_lt _ _ _ _ _ (by omega)]
  simp only [_Cantp_MakePciOfSF]
  rw [rd_set_eq _ _ _ (by rw [length_putTa, hlen]; omega)]

/-- The block-size byte of the Flow Control frame staged by `_Cantp_PeriodTranFC`. -/
theorem rd_fcFrame_bs (K : FblConfig) (c : bl_CanTpChannel_t)
    (hpci : c.pciInfo ∈ gs_CanTpPciInfo K) (hlen : c.frame.length = CANTP_MAX_FRAME_SIZE K) :
    rd ((fcFrame K c).take (CANTP_MAX_FRAME_SIZE K)) c.pciInfo.fcBsPos = c.bs := by
  have h8 := max_frame_size_ge K
  rcases pci_cases K _ hpci with h | h | h <;>
    · rw [rd_take _ _ _ (by rw [h]; simp only [pciExtended]; omega)]
      unfold fcFrame
      rw [rd_Bl_MemSet_lt _ _ _ _ _ (by rw [h]; simp only [pciExtended]; omega)]
      simp only [_Cantp_MakePciOfFC]
      rw [rd_set_ne _ _ _ _ (by rw [h]; simp only [pciExtended]; omega),
        rd_set_eq _ _ _ (by rw [List.length_set, length_putTa, hlen, h];
                            simp only [pciExtended]; omega)]

/-- The separation-time byte of the Flow Control frame staged by
`_Cantp_PeriodTranFC`. -/
theorem rd_fcFrame_st (K : FblConfig) (c : bl_CanTpChannel_t)
    (hpci : c.pciInfo ∈ gs_CanTpPciInfo K) (hlen : c.frame.length = CANTP_MAX_FRAME_SIZE K) :
    rd ((fcFrame K c).take (CANTP_MAX_FRAME_SIZE K)) c.pciInfo.fcStPos = c.st := by
  have h8 := max_frame_size_ge K
  rcases pci_cases K _ hpci with h | h | h <;>
    · rw [rd_take _ _ _ (by rw [h]; simp only [pciExtended]; omega)]
      unfold fcFrame
      rw [rd_Bl_MemSet_lt _ _ _ _ _ (by rw [h]; simp only [pciExtended]; omega)]
      simp only [_Cantp_MakePciOfFC]
      have hl : ((((putTa c).set c.pciInfo.pciPos
          (UINT8 (CANTP_FRAME_FC_VALUE + GET_LOW_HALF c.pData))).set c.pciInfo.fcBsPos c.bs).length
          = CANTP_MAX_FRAME_SIZE K) := by
        rw [List.length_set, List.length_set, length_putTa, hlen]
      rw [rd_set_eq _ _ _ (by rw [hl, h]; simp only [pciExtended]; omega)]

/-- A refused Single Frame is submitted again by the next loop body. -/
theorem tranSF_retry (K : FblConfig) (E : Env) (w w1 : World) (r : ChnRef)
    (hpci : (w.chn r).pciInfo ∈ gs_CanTpPciInfo K)
    (hlen : (w.chn r).frame.length = CANTP_MAX_FRAME_SIZE K)
    (hls : (w.chn r).lastSize < 256) (ht1 : (w.chn r).timer - 1 ≠ 0)
    (hsub : (w.chn r).subStatus = CANTP_SUB_STATUS_IDLE)
    (hs : (w.chn r).status = CANTP_STATUS_TRANSMITTING_SF)
    (h1 : w1.chn r = refusedSF K E w.trace (w.chn r)) :
    ∃ f1 rest, (periodChannel (gs_TxPeriodList K E) w1 r).trace
        = w1.trace ++ Call.Diag_CopyTxData (w.chn r).lastSize
            :: Call.FblCanSendData f1 (w.chn r).chnCfg.txId (CANTP_MAX_FRAME_SIZE K) :: rest
      ∧ rd f1 (w.chn r).pciInfo.pciPos
          = rd ((sfFrame K E w.trace (w.chn r)).take (CANTP_MAX_FRAME_SIZE K))
              (w.chn r).pciInfo.pciPos := by
  have hs1 : (w1.chn r).status = CANTP_STATUS_TRANSMITTING_SF := by rw [h1]; exact hs
  have ht : (w1.chn r).timer ≠ 0 := by rw [h1]; exact ht1
  have hsub1 : (w1.chn r).subStatus = CANTP_SUB_STATUS_IDLE := by rw [h1]; exact hsub
  obtain ⟨rest, hr⟩ := tranSF_attempt K E w1 r hs1 ht hsub1
  rw [h1] at hr
  refine ⟨(sfFrame K E w1.trace (refusedSF K E w.trace (w.chn r))).take (CANTP_MAX_FRAME_SIZE K),
    rest, hr, ?_⟩
  exact (rd_sfFrame_pci K E w1.trace (refusedSF K E w.trace (w.chn r)) hpci
    ((length_sfFrame K E w.trace (w.chn r)).trans hlen) hls).trans
    (rd_sfFrame_pci K E w.trace (w.chn r) hpci hlen hls).symm

/-- A refused First Frame is submitted again by the next loop body. -/
theorem tranFF_retry (K : FblConfig) (E : Env) (w w1 : World) (r : ChnRef)
    (hpci : (w.chn r).pciInfo ∈ gs_CanTpPciInfo K)
    (hlen : (w.chn r).frame.length = CANTP_MAX_FRAME_SIZE K)
    (ht1 : (w.chn r).timer - 1 ≠ 0)
    (hsub : (w.chn r).subStatus = CANTP_SUB_STATUS_IDLE)
    (hs : (w.chn r).status = CANTP_STATUS_TRANSMITTING_FF)
    (h1 : w1.chn r = refusedFF E w.trace (w.chn r)) :
    ∃ f1 rest, (periodChannel (gs_TxPeriodList K E) w1 r).trace
        = w1.trace ++ Call.Diag_CopyTxData (w.chn r).pciInfo.maxFFDataSize
            :: Call.FblCanSendData f1 (w.chn r).chnCfg.txId (CANTP_MAX_FRAME_SIZE K) :: rest
      ∧ rd f1 (w.chn r).pciInfo.pciPos
          = rd ((ffFrame E w.trace (w.chn r)).take (CANTP_MAX_FRAME_SIZE K))
              (w.chn r).pciInfo.pciPos
      ∧ rd f1 ((w.chn r).pciInfo.pciPos + 1)
          = rd ((ffFrame E w.trace (w.chn r)).take (CANTP_MAX_FRAME_SIZE K))
              ((w.chn r).pciInfo.pciPos + 1) := by
  have hs1 : (w1.chn r).status = CANTP_STATUS_TRANSMITTING_FF := by rw [h1]; exact hs
  have ht : (w1.chn r).timer ≠ 0 := by rw [h1]; exact ht1
  have hsub1 : (w1.chn r).subStatus = CANTP_SUB_STATUS_IDLE := by rw [h1]; exact hsub
  obtain ⟨rest, hr⟩ := tranFF_attempt K E w1 r hs1 ht hsub1
  rw [h1] at hr
  refine ⟨(ffFrame E w1.trace (refusedFF E w.trace (w.chn r))).take (CANTP_MAX_FRAME_SIZE K),
    rest, hr, ?_, ?_⟩
  · exact (rd_ffFrame_pci K E w1.trace (refusedFF E w.trace (w.chn r)) hpci
      ((length_ffFrame E w.trace (w.chn r)).trans hlen)).trans
      (rd_ffFrame_pci K E w.trace (w.chn r) hpci hlen).symm
  · exact (rd_ffFrame_pci2 K E w1.trace (refusedFF E w.trace (w.chn r)) hpci
      ((length_ffFrame E w.trace (w.chn r)).trans hlen)).trans
      (rd_ffFrame_pci2 K E w.trace (w.chn r) hpci hlen).symm

/-- A refused Consecutive Frame is submitted again by the next loop body. -/
theorem tranCF_retry (K : FblConfig) (E : Env) (w w1 : World) (r : ChnRef)
    (hpci : (w.chn r).pciInfo ∈ gs_CanTpPciInfo K)
    (hlen : (w.chn r).frame.length = CANTP_MAX_FRAME_SIZE K)
    (hls : (w.chn r).lastSize < 256) (ht1 : (w.chn r).timer - 1 ≠ 0)
    (hsub : (w.chn r).subStatus = CANTP_SUB_STATUS_IDLE)
    (hs : (w.chn r).status = CANTP_STATUS_TRANSMITTING_CF)
    (h1 : w1.chn r = refusedCF K (w.chn r)) :
    ∃ f1 rest, (periodChannel (gs_TxPeriodList K E) w1 r).trace
        = w1.trace
            ++ Call.FblCanSendData f1 (w.chn r).chnCfg.txId (CANTP_MAX_FRAME_SIZE K) :: rest
      ∧ rd f1 (w.chn r).pciInfo.pciPos
          = rd ((cfFrame K (w.chn r)).take (CANTP_MAX_FRAME_SIZE K))
              (w.chn r).pciInfo.pciPos := by
  have hs1 : (w1.chn r).status = CANTP_STATUS_TRANSMITTING_CF := by rw [h1]; exact hs
  have ht : (w1.chn r).timer ≠ 0 := by rw [h1]; exact ht1
  have hsub1 : (w1.chn r).subStatus = CANTP_SUB_STATUS_IDLE := by rw [h1]; exact hsub
  have hd1 : (w1.chn r).txDelay ≤ 1 := by rw [h1]; exact Nat.zero_le 1
  obtain ⟨rest, hr⟩ := tranCF_attempt K E w1 r hs1 ht hsub1 hd1
  rw [h1] at hr
  refine ⟨(cfFrame K (refusedCF K (w.chn r))).take (CANTP_MAX_FRAME_SIZE K), rest, hr, ?_⟩
  exact (rd_cfFrame_pci K (refusedCF K (w.chn r)) hpci
    ((length_cfFrame K (w.chn r)).trans hlen) hls).trans
    (rd_cfFrame_pci K (w.chn r) hpci hlen hls).symm

/-- A refused Flow Control frame is submitted again by the next loop body. -/
theorem tranFC_retry (K : FblConfig) (E : Env) (w w1 : World) (r : ChnRef)
    (hpci : (w.chn r).pciInfo ∈ gs_CanTpPciInfo K)
    (hlen : (w.chn r).frame.length = CANTP_MAX_FRAME_SIZE K)
    (ht1 : (w.chn r).timer - 1 ≠ 0)
    (hsub : (w.chn r).subStatus = CANTP_SUB_STATUS_IDLE)
    (hs : (w.chn r).status = CANTP_STATUS_TRANSMITTING_FC)
    (h1 : w1.chn r = refusedFC K (w.chn r)) :
    ∃ f1 rest, (periodChannel (gs_RxPeriodList K E) w1 r).trace
        = w1.trace
            ++ Call.FblCanSendData f1 (w.chn r).chnCfg.txId (CANTP_MAX_FRAME_SIZE K) :: rest
      ∧ rd f1 (w.chn r).pciInfo.pciPos
          = rd ((fcFrame K (w.chn r)).take (CANTP_MAX_FRAME_SIZE K)) (w.chn r).pciInfo.pciPos
      ∧ rd f1 (w.chn r).pciInfo.fcBsPos
          = rd ((fcFrame K (w.chn r)).take (CANTP_MAX_FRAME_SIZE K)) (w.chn r).pciInfo.fcBsPos
      ∧ rd f1 (w.chn r).pciInfo.fcStPos
          = rd ((fcFrame K (w.chn r)).take (CANTP_MAX_FRAME_SIZE K))
              (w.chn r).pciInfo.fcStPos := by
  have hs1 : (w1.chn r).status = CANTP_STATUS_TRANSMITTING_FC := by rw [h1]; exact hs
  have ht : (w1.chn r).timer ≠ 0 := by rw [h1]; exact ht1
  have hsub1 : (w1.chn r).subStatus = CANTP_SUB_STATUS_IDLE := by rw [h1]; exact hsub
  obtain ⟨rest, hr⟩ := tranFC_attempt K E w1 r hs1 ht hsub1
  rw [h1] at hr
  refine ⟨(fcFrame K (refusedFC K (w.chn r))).take (CANTP_MAX_FRAME_SIZE K), rest, hr, ?_, ?_, ?_⟩
  · exact (rd_fcFrame_pci K (refusedFC K (w.chn r)) hpci
      ((length_fcFrame K (w.chn r)).trans hlen)).trans
      (rd_fcFrame_pci K (w.chn r) hpci hlen).symm
  · exact (rd_fcFrame_bs K (refusedFC K (w.chn r)) hpci
      ((length_fcFrame K (w.chn r)).trans hlen)).trans
      (rd_fcFrame_bs K (w.chn r) hpci hlen).symm
  · exact (rd_fcFrame_st K (refusedFC K (w.chn r)) hpci
      ((length_fcFrame K (w.chn r)).trans hlen)).trans
      (rd_fcFrame_st K (w.chn r) hpci hlen).symm

/-! ## C33: a frame refused by the driver is offered again -/

/-- C33: a driver refusal is retried.  Take the loop body of `_Cantp_PeriodFunction`
on a channel whose timer is running and whose subStatus is Idle, in TranSF, TranFF,
TranCF (separation delay elapsing with this tick) or TranFC, and let `FblCanSendData`
refuse the staged frame.  Then the channel record is the one before the attempt with
the frame staged and the timer one lower, so status, subStatus Idle, sn, cfCnt and bs
are kept and txDelay is kept (SF, FF, FC) or 0 (CF, as after the countdown alone); the
only calls made are the payload request (SF, FF) and the submit, so neither
`Diag_TxConfirmation` nor `Diag_RxIndication` is called; and in any world `w1` in
which the channel holds that record, the next loop body (timer not yet expired)
submits a frame with the same PCI bytes. -/
theorem C33_driver_refusal_retried (K : FblConfig) (E : Env) (w w1 : World) (r : ChnRef)
    (hpci : (w.chn r).pciInfo ∈ gs_CanTpPciInfo K)
    (hlen : (w.chn r).frame.length = CANTP_MAX_FRAME_SIZE K)
    (hls : (w.chn r).lastSize < 256)
    (ht : (w.chn r).timer ≠ 0) (ht1 : (w.chn r).timer - 1 ≠ 0)
    (hsub : (w.chn r).subStatus = CANTP_SUB_STATUS_IDLE) :
    ((w.chn r).status = CANTP_STATUS_TRANSMITTING_SF →
      E.FblCanSendData (w.trace ++ [Call.Diag_CopyTxData (w.chn r).lastSize])
        ((sfFrame K E w.trace (w.chn r)).take (CANTP_MAX_FRAME_SIZE K)) (w.chn r).chnCfg.txId
        (CANTP_MAX_FRAME_SIZE K) ≠ ERR_OK →
      (periodChannel (gs_TxPeriodList K E) w r).chn r = refusedSF K E w.trace (w.chn r)
      ∧ (periodChannel (gs_TxPeriodList K E) w r).trace
          = w.trace ++ [Call.Diag_CopyTxData (w.chn r).lastSize,
              Call.FblCanSendData ((sfFrame K E w.trace (w.chn r)).take (CANTP_MAX_FRAME_SIZE K))
                (w.chn r).chnCfg.txId (CANTP_MAX_FRAME_SIZE K)]
      ∧ (w1.chn r = (periodChannel (gs_TxPeriodList K E) w r).chn r →
          ∃ f1 rest, (periodChannel (gs_TxPeriodList K E) w1 r).trace
              = w1.trace ++ Call.Diag_CopyTxData (w.chn r).lastSize
                  :: Call.FblCanSendData f1 (w.chn r).chnCfg.txId (CANTP_MAX_FRAME_SIZE K)
                  :: rest
            ∧ rd f1 (w.chn r).pciInfo.pciPos
                = rd ((sfFrame K E w.trace (w.chn r)).take (CANTP_MAX_FRAME_SIZE K))
                    (w.chn r).pciInfo.pciPos))
    ∧ ((w.chn r).status = CANTP_STATUS_TRANSMITTING_FF →
      E.FblCanSendData (w.trace ++ [Call.Diag_CopyTxData (w.chn r).pciInfo.maxFFDataSize])
        ((ffFrame E w.trace (w.chn r)).take (CANTP_MAX_FRAME_SIZE K)) (w.chn r).chnCfg.txId
        (CANTP_MAX_FRAME_SIZE K) ≠ ERR_OK →
      (periodChannel (gs_TxPeriodList K E) w r).chn r = refusedFF E w.trace (w.chn r)
      ∧ (periodChannel (gs_TxPeriodList K E) w r).trace
          = w.trace ++ [Call.Diag_CopyTxData (w.chn r).pciInfo.maxFFDataSize,
              Call.FblCanSendData ((ffFrame E w.trace (w.chn r)).take (CANTP_MAX_FRAME_SIZE K))
                (w.chn r).chnCfg.txId (CANTP_MAX_FRAME_SIZE K)]
      ∧ (w1.chn r = (periodChannel (gs_TxPeriodList K E) w r).chn r →
          ∃ f1 rest, (periodChannel (gs_TxPeriodList K E) w1 r).trace
              = w1.trace ++ Call.Diag_CopyTxData (w.chn r).pciInfo.maxFFDataSize
                  :: Call.FblCanSendData f1 (w.chn r).chnCfg.txId (CANTP_MAX_FRAME_SIZE K)
                  :: rest
            ∧ rd f1 (w.chn r).pciInfo.pciPos
                = rd ((ffFrame E w.trace (w.chn r)).take (CANTP_MAX_FRAME_SIZE K))
                    (w.chn r).pciInfo.pciPos
            ∧ rd f1 ((w.chn r).pciInfo.pciPos + 1)
                = rd ((ffFrame E w.trace (w.chn r)).take (CANTP_MAX_FRAME_SIZE K))
                    ((w.chn r).pciInfo.pciPos + 1)))
    ∧ ((w.chn r).status = CANTP_STATUS_TRANSMITTING_CF → (w.chn r).txDelay ≤ 1 →
      E.FblCanSendData w.trace
        ((cfFrame K (w.chn r)).take (CANTP_MAX_FRAME_SIZE K)) (w.chn r).chnCfg.txId
        (CANTP_MAX_FRAME_SIZE K) ≠ ERR_OK →
      (periodChannel (gs_TxPeriodList K E) w r).chn r = refusedCF K (w.chn r)
      ∧ (periodChannel (gs_TxPeriodList K E) w r).trace
          = w.trace ++ [Call.FblCanSendData
                ((cfFrame K (w.chn r)).take (CANTP_MAX_FRAME_SIZE K))
                (w.chn r).chnCfg.txId (CANTP_MAX_FRAME_SIZE K)]
      ∧ (w1.chn r = (periodChannel (gs_TxPeriodList K E) w r).chn r →
          ∃ f1 rest, (periodChannel (gs_TxPeriodList K E) w1 r).trace
              = w1.trace
                  ++ Call.FblCanSendData f1 (w.chn r).chnCfg.txId (CANTP_MAX_FRAME_SIZE K)
                  :: rest
            ∧ rd f1 (w.chn r).pciInfo.pciPos
                = rd ((cfFrame K (w.chn r)).take (CANTP_MAX_FRAME_SIZE K))
                    (w.chn r).pciInfo.pciPos))
    ∧ ((w.chn r).status = CANTP_STATUS_TRANSMITTING_FC →
      E.FblCanSendData w.trace
        ((fcFrame K (w.chn r)).take (CANTP_MAX_FRAME_SIZE K)) (w.chn r).chnCfg.txId
        (CANTP_MAX_FRAME_SIZE K) ≠ ERR_OK →
      (periodChannel (gs_RxPeriodList K E) w r).chn r = refusedFC K (w.chn r)
      ∧ (periodChannel (gs_RxPeriodList K E) w r).trace
          = w.trace ++ [Call.FblCanSendData
                ((fcFrame K (w.chn r)).take (CANTP_MAX_FRAME_SIZE K))
                (w.chn r).chnCfg.txId (CANTP_MAX_FRAME_SIZE K)]
      ∧ (w1.chn r = (periodChannel (gs_RxPeriodList K E) w r).chn r →
          ∃ f1 rest, (periodChannel (gs_RxPeriodList K E) w1 r).trace
              = w1.trace
                  ++ Call.FblCanSendData f1 (w.chn r).chnCfg.txId (CANTP_MAX_FRAME_SIZE K)
                  :: rest
            ∧ rd f1 (w.chn r).pciInfo.pciPos
                = rd ((fcFrame K (w.chn r)).take (CANTP_MAX_FRAME_SIZE K))
                    (w.chn r).pciInfo.pciPos
            ∧ rd f1 (w.chn r).pciInfo.fcBsPos
                = rd ((fcFrame K (w.chn r)).take (CANTP_MAX_FRAME_SIZE K))
                    (w.chn r).pciInfo.fcBsPos
            ∧ rd f1 (w.chn r).pciInfo.fcStPos
                = rd ((fcFrame K (w.chn r)).take (CANTP_MAX_FRAME_SIZE K))
                    (w.chn r).pciInfo.fcStPos)) := by
  refine ⟨fun hs hrej => ?_, fun hs hrej => ?_, fun hs hd hrej => ?_, fun hs hrej => ?_⟩
  · obtain ⟨e1, e2⟩ := tranSF_refused K E w r hs ht hsub hrej
    exact ⟨e1, e2, fun h1 => tranSF_retry K E w w1 r hpci hlen hls ht1 hsub hs (h1.trans e1)⟩
  · obtain ⟨e1, e2⟩ := tranFF_refused K E w r hs ht hsub hrej
    exact ⟨e1, e2, fun h1 => tranFF_retry K E w w1 r hpci hlen ht1 hsub hs (h1.trans e1)⟩
  · obtain ⟨e1, e2⟩ := (tranCF_try K E w r hs ht hsub hd).2 hrej
    exact ⟨e1, e2, fun h1 => tranCF_retry K E w w1 r hpci hlen hls ht1 hsub hs (h1.trans e1)⟩
  · obtain ⟨e1, e2⟩ := tranFC_refused K E w r hs ht hsub hrej
    exact ⟨e1, e2, fun h1 => tranFC_retry K E w w1 r hpci hlen ht1 hsub hs (h1.trans e1)⟩

set_option maxRecDepth 100000 in
theorem C33_driver_refusal_retried_witness :
    ((periodChannel (gs_TxPeriodList classicBuild envRefuse) classicTranSF .tx0).chn .tx0
        = refusedSF classicBuild envRefuse classicTranSF.trace (classicTranSF.chn .tx0)
      ∧ (periodChannel (gs_TxPeriodList classicBuild envRefuse) classicTranSF .tx0).trace
        = classicTranSF.trace ++ [Call.Diag_CopyTxData
              (classicTranSF.chn .tx0).lastSize,
            Call.FblCanSendData
              ((sfFrame classicBuild envRefuse classicTranSF.trace (classicTranSF.chn .tx0)).take
                (CANTP_MAX_FRAME_SIZE classicBuild))
              (classicTranSF.chn .tx0).chnCfg.txId (CANTP_MAX_FRAME_SIZE classicBuild)]
      ∧ ∃ f1 rest,
          (periodChannel (gs_TxPeriodList classicBuild envRefuse)
              (periodChannel (gs_TxPeriodList classicBuild envRefuse) classicTranSF .tx0)
              .tx0).trace
            = (periodChannel (gs_TxPeriodList classicBuild envRefuse) classicTranSF .tx0).trace
              ++ Call.Diag_CopyTxData (classicTranSF.chn .tx0).lastSize
              :: Call.FblCanSendData f1 (classicTranSF.chn .tx0).chnCfg.txId
                  (CANTP_MAX_FRAME_SIZE classicBuild)
              :: rest
          ∧ rd f1 (classicTranSF.chn .tx0).pciInfo.pciPos
            = rd
              ((sfFrame classicBuild envRefuse classicTranSF.trace (classicTranSF.chn .tx0)).take
                (CANTP_MAX_FRAME_SIZE classicBuild))
              (classicTranSF.chn .tx0).pciInfo.pciPos)
    ∧ ((periodChannel (gs_TxPeriodList classicBuild envRefuse) classicTranFF .tx0).chn .tx0
        = refusedFF envRefuse classicTranFF.trace (classicTranFF.chn .tx0)
      ∧ (periodChannel (gs_TxPeriodList classicBuild envRefuse) classicTranFF .tx0).trace
        = classicTranFF.trace ++ [Call.Diag_CopyTxData
              (classicTranFF.chn .tx0).pciInfo.maxFFDataSize,
            Call.FblCanSendData
              ((ffFrame envRefuse classicTranFF.trace (classicTranFF.chn .tx0)).take
                (CANTP_MAX_FRAME_SIZE classicBuild))
              (classicTranFF.chn .tx0).chnCfg.txId (CANTP_MAX_FRAME_SIZE classicBuild)]
      ∧ ∃ f1 rest,
          (periodChannel (gs_TxPeriodList classicBuild envRefuse)
              (periodChannel (gs_TxPeriodList classicBuild envRefuse) classicTranFF .tx0)
              .tx0).trace
            = (periodChannel (gs_TxPeriodList classicBuild envRefuse) classicTranFF .tx0).trace
              ++ Call.Diag_CopyTxData (classicTranFF.chn .tx0).pciInfo.maxFFDataSize
              :: Call.FblCanSendData f1 (classicTranFF.chn .tx0).chnCfg.txId
                  (CANTP_MAX_FRAME_SIZE classicBuild)
              :: rest
          ∧ rd f1 (classicTranFF.chn .tx0).pciInfo.pciPos
            = rd
              ((ffFrame envRefuse classicTranFF.trace (classicTranFF.chn .tx0)).take
                (CANTP_MAX_FRAME_SIZE classicBuild))
              (classicTranFF.chn .tx0).pciInfo.pciPos
          ∧ rd f1 ((classicTranFF.chn .tx0).pciInfo.pciPos + 1)
            = rd
              ((ffFrame envRefuse classicTranFF.trace (classicTranFF.chn .tx0)).take
                (CANTP_MAX_FRAME_SIZE classicBuild))
              ((classicTranFF.chn .tx0).pciInfo.pciPos + 1))
    ∧ ((periodChannel (gs_TxPeriodList classicBuild envRefuse) classicTranCF .tx0).chn .tx0
        = refusedCF classicBuild (classicTranCF.chn .tx0)
      ∧ (periodChannel (gs_TxPeriodList classicBuild envRefuse) classicTranCF .tx0).trace
        = classicTranCF.trace ++ [Call.FblCanSendData
              ((cfFrame classicBuild (classicTranCF.chn .tx0)).take
                (CANTP_MAX_FRAME_SIZE classicBuild))
              (classicTranCF.chn .tx0).chnCfg.txId (CANTP_MAX_FRAME_SIZE classicBuild)]
      ∧ ∃ f1 rest,
          (periodChannel (gs_TxPeriodList classicBuild envRefuse)
              (periodChannel (gs_TxPeriodList classicBuild envRefuse) classicTranCF .tx0)
              .tx0).trace
            = (periodChannel (gs_TxPeriodList classicBuild envRefuse) classicTranCF .tx0).trace
              ++ Call.FblCanSendData f1 (classicTranCF.chn .tx0).chnCfg.txId
                  (CANTP_MAX_FRAME_SIZE classicBuild)
              :: rest
          ∧ rd f1 (classicTranCF.chn .tx0).pciInfo.pciPos
            = rd
              ((cfFrame classicBuild (classicTranCF.chn .tx0)).take
                (CANTP_MAX_FRAME_SIZE classicBuild))
              (classicTranCF.chn .tx0).pciInfo.pciPos)
    ∧ ((periodChannel (gs_RxPeriodList classicBuild envRefuse) classicTranFC .rx0).chn .rx0
        = refusedFC classicBuild (classicTranFC.chn .rx0)
      ∧ (periodChannel (gs_RxPeriodList classicBuild envRefuse) classicTranFC .rx0).trace
        = classicTranFC.trace ++ [Call.FblCanSendData
              ((fcFrame classicBuild (classicTranFC.chn .rx0)).take
                (CANTP_MAX_FRAME_SIZE classicBuild))
              (classicTranFC.chn .rx0).chnCfg.txId (CANTP_MAX_FRAME_SIZE classicBuild)]
      ∧ ∃ f1 rest,
          (periodChannel (gs_RxPeriodList classicBuild envRefuse)
              (periodChannel (gs_RxPeriodList classicBuild envRefuse) classicTranFC .rx0)
              .rx0).trace
            = (periodChannel (gs_RxPeriodList classicBuild envRefuse) classicTranFC .rx0).trace
              ++ Call.FblCanSendData f1 (classicTranFC.chn .rx0).chnCfg.txId
                  (CANTP_MAX_FRAME_SIZE classicBuild)
              :: rest
          ∧ rd f1 (classicTranFC.chn .rx0).pciInfo.pciPos
            = rd
              ((fcFrame classicBuild (classicTranFC.chn .rx0)).take
                (CANTP_MAX_FRAME_SIZE classicBuild))
              (classicTranFC.chn .rx0).pciInfo.pciPos
          ∧ rd f1 (classicTranFC.chn .rx0).pciInfo.fcBsPos
            = rd
              ((fcFrame classicBuild (classicTranFC.chn .rx0)).take
                (CANTP_MAX_FRAME_SIZE classicBuild))
              (classicTranFC.chn .rx0).pciInfo.fcBsPos
          ∧ rd f1 (classicTranFC.chn .rx0).pciInfo.fcStPos
            = rd
              ((fcFrame classicBuild (classicTranFC.chn .rx0)).take
                (CANTP_MAX_FRAME_SIZE classicBuild))
              (classicTranFC.chn .rx0).pciInfo.fcStPos) :=
  ⟨(let h := C33_driver_refusal_retried classicBuild envRefuse classicTranSF
        (periodChannel (gs_TxPeriodList classicBuild envRefuse) classicTranSF .tx0) .tx0
        (by decide) (by decide) (by decide) (by decide) (by decide) (by decide)
      let a := h.1 (by decide) (by decide)
      ⟨a.1, a.2.1, a.2.2 rfl⟩),
   (let h := C33_driver_refusal_retried classicBuild envRefuse classicTranFF
        (periodChannel (gs_TxPeriodList classicBuild envRefuse) classicTranFF .tx0) .tx0
        (by decide) (by decide) (by decide) (by decide) (by decide) (by decide)
      let a := h.2.1 (by decide) (by decide)
      ⟨a.1, a.2.1, a.2.2 rfl⟩),
   (let h := C33_driver_refusal_retried classicBuild envRefuse classicTranCF
        (periodChannel (gs_TxPeriodList classicBuild envRefuse) classicTranCF .tx0) .tx0
        (by decide) (by decide) (by decide) (by decide) (by decide) (by decide)
      let a := h.2.2.1 (by decide) (by decide) (by decide)
      ⟨a.1, a.2.1, a.2.2 rfl⟩),
   (let h := C33_driver_refusal_retried classicBuild envRefuse classicTranFC
        (periodChannel (gs_RxPeriodList classicBuild envRefuse) classicTranFC .rx0) .rx0
        (by decide) (by decide) (by decide) (by decide) (by decide) (by decide)
      let a := h.2.2.2 (by decide) (by decide)
      ⟨a.1, a.2.1, a.2.2 rfl⟩)⟩

/-! ## The PCI descriptor and the length of the staged frame never change -/

theorem sameShape_refl (c : bl_CanTpChannel_t) : SameShape c c := ⟨rfl, rfl⟩

theorem sameShape_trans (a b c : bl_CanTpChannel_t) (h1 : SameShape a b) (h2 : SameShape b c) :
    SameShape a c := ⟨h2.1.trans h1.1, h2.2.trans h1.2⟩

/-- A confirmation handler writes neither the descriptor nor the frame. -/
theorem confirm_shape (K : FblConfig) (s : Nat) (r : ChnRef) (w : World) :
    SameShape (w.chn r) ((gs_TxConfirmList K s r w).chn r) := by
  rcases s with _ | _ | _ | _ | _ | s <;>
    simp only [gs_TxConfirmList, _Cantp_TxConfirmIdle, _Cantp_TxConfirmSF, _Cantp_TxConfirmFF,
      _Cantp_TxConfirmCF, _Cantp_TxConfirmFC, Diag_TxConfirmation, SameShape] <;>
    (try split_ifs) <;> simp [_Cantp_GotoIdle]

theorem afterSend_shape (K : FblConfig) (r : ChnRef) (id : Nat) (ret : bl_Return) (w : World) :
    SameShape (w.chn r) ((afterSend K r id ret w).chn r) := by
  simp only [afterSend, Cantp_TxConfirmation, slot_setSlot]
  split_ifs
  · rw [chn_setSlot]
    have h := confirm_shape K ((w.upd r fun c =>
        { c with subStatus := CANTP_SUB_STATUS_TRANSMITTING }).setSlot (some r) |>.chn r).status r
      ((w.upd r fun c => { c with subStatus := CANTP_SUB_STATUS_TRANSMITTING }).setSlot (some r))
    exact sameShape_trans _ _ _ (by simp [SameShape]) h
  · simp [SameShape]
  · exact sameShape_refl _

/-- The loop body of `_Cantp_PeriodFunction` for an Rx channel keeps the descriptor
and the frame length. -/
theorem periodChannel_rx_shape (K : FblConfig) (E : Env) (w : World) (r : ChnRef) :
    SameShape (w.chn r) ((periodChannel (gs_RxPeriodList K E) w r).chn r) := by
  unfold periodChannel
  generalize hs : (w.chn r).status = s
  rcases s with _ | _ | _ | _ | _ | s
  all_goals
    by_cases ht : (w.chn r).timer = 0
    · simp only [ht, if_true, gs_RxPeriodList, _Cantp_TimeoutIdle, _Cantp_TimeoutRecvSF,
        _Cantp_TimeoutRecvFF, _Cantp_TimeoutRecvCF, _Cantp_TimeoutTranFC, Diag_RxIndication]
      try split_ifs
      all_goals simp [SameShape, _Cantp_GotoIdle, _Cantp_GotoTranFC]
    · simp only [ht, if_false, chn_upd_same, decTimer_status, hs, gs_RxPeriodList,
        _Cantp_PeriodIdle, _Cantp_PeriodRecvSF, _Cantp_PeriodRecvFF, _Cantp_PeriodRecvCF,
        _Cantp_PeriodTranFC, FblCanSendData,
        Diag_StartOfReception, Diag_CopyRxData, Diag_RxIndication]
      try split_ifs
      all_goals first
        | (refine sameShape_trans _ _ _ ?_ (afterSend_shape K r _ _ _)
           simp [SameShape, decTimer, _Cantp_MakePciOfFC, length_Bl_MemSet, length_putTa])
        | simp [SameShape, decTimer, _Cantp_GotoIdle, _Cantp_GotoTranFC]

/-- The loop body of `_Cantp_PeriodFunction` for a Tx channel keeps the descriptor
and the frame length. -/
theorem periodChannel_tx_shape (K : FblConfig) (E : Env) (w : World) (r : ChnRef) :
    SameShape (w.chn r) ((periodChannel (gs_TxPeriodList K E) w r).chn r) := by
  unfold periodChannel
  generalize hs : (w.chn r).status = s
  rcases s with _ | _ | _ | _ | _ | s
  all_goals
    by_cases ht : (w.chn r).timer = 0
    · simp only [ht, if_true, gs_TxPeriodList, _Cantp_TimeoutIdle, _Cantp_TimeoutTranSF,
        _Cantp_TimeoutTranFF, _Cantp_TimeoutTranCF, _Cantp_TimeoutRecvFC, Diag_TxConfirmation]
      try split_ifs
      all_goals simp [SameShape, _Cantp_GotoIdle]
    · simp only [ht, if_false, chn_upd_same, decTimer_status, hs, gs_TxPeriodList,
        _Cantp_PeriodIdle, _Cantp_PeriodTranSF, _Cantp_PeriodTranFF, _Cantp_PeriodTranCF,
        _Cantp_PeriodRecvFC, _Cantp_TransmitCF, Diag_CopyTxData, FblCanSendData]
      try split_ifs
      all_goals first
        | (refine sameShape_trans _ _ _ ?_ (afterSend_shape K r _ _ _)
           simp [SameShape, decTimer, _Cantp_MakePciOfSF, _Cantp_MakePciOfFF, _Cantp_MakePciOfCF,
             length_Bl_MemSet, length_writeAt, length_putTa])
        | simp [SameShape, decTimer, _Cantp_MakePciOfCF, length_Bl_MemSet, length_putTa]

/-- A receive handler keeps the descriptor and the frame length. -/
theorem rxProcess_shape (K : FblConfig) (E : Env) (t : Nat) (r : ChnRef) (size : Nat)
    (buf : List Nat) (w : World) :
    SameShape (w.chn r) ((gs_RxProcessList K E t r size buf w).2.chn r) := by
  rcases t with _ | _ | _ | _ | t
  · simp only [gs_RxProcessList, _Cantp_ReceiveSF, Diag_RxIndication]
    repeat' split
    all_goals simp [SameShape, length_FblMemCpy]
  · simp only [gs_RxProcessList, _Cantp_ReceiveFF, Diag_RxIndication]
    repeat' split
    all_goals simp [SameShape, _Cantp_SetMultipleFrameSize, length_FblMemCpy]
  · simp only [gs_RxProcessList, _Cantp_ReceiveCF, Diag_CopyRxData, Diag_RxIndication]
    repeat' split
    all_goals simp [SameShape, _Cantp_GotoIdle, _Cantp_GotoTranFC]
  · simp only [gs_RxProcessList, _Cantp_ReceiveFC, Diag_TxConfirmation]
    repeat' split
    all_goals simp [SameShape, _Cantp_GotoIdle, _Cantp_GotoTranCF]
  · simp [gs_RxProcessList, SameShape]

/-- Every event keeps, on every channel, the descriptor and the frame length. -/
theorem step_shape (K : FblConfig) (E : Env) (w : World) (e : Event) (q : ChnRef) :
    SameShape (w.chn q) ((step K E w e).chn q) := by
  cases e with
  | tick =>
    show SameShape (w.chn q) ((Cantp_PeriodFunction K E w).chn q)
    rw [tick_eq]
    have a0 := periodChannel_rx_shape K E w .rx0
    have a1 := periodChannel_rx_shape K E (periodChannel (gs_RxPeriodList K E) w .rx0) .rx1
    have a2 := periodChannel_tx_shape K E (periodChannel (gs_RxPeriodList K E)
      (periodChannel (gs_RxPeriodList K E) w .rx0) .rx1) .tx0
    cases q with
    | rx0 =>
      rw [periodChannel_tx_frame K E _ .tx0 .rx0 (by decide),
        periodChannel_rx_frame K E _ .rx1 .rx0 (by decide)]
      exact a0
    | rx1 =>
      rw [periodChannel_tx_frame K E _ .tx0 .rx1 (by decide)]
      rw [periodChannel_rx_frame K E w .rx0 .rx1 (by decide)] at a1
      exact a1
    | tx0 =>
      rw [periodChannel_rx_frame K E _ .rx1 .tx0 (by decide),
        periodChannel_rx_frame K E w .rx0 .tx0 (by decide)] at a2
      exact a2
  | rxInd id size buf =>
    show SameShape (w.chn q) ((Cantp_RxIndication K E id size buf w).chn q)
    rcases rxInd_cases K E id size buf w with e | ⟨_, _, _, _, _, e⟩
      | ⟨_, t, _, ht, _, _, _, e⟩
    · rw [e]; exact sameShape_refl _
    · rw [e]
      by_cases hq : q = .tx0
      · subst hq
        exact rxProcess_shape K E 3 .tx0 size buf w
      · rw [show (_Cantp_ReceiveFC K .tx0 size buf w).2.chn q = w.chn q from
          rxProcess_other K E 3 .tx0 q size buf w hq]
        exact sameShape_refl _
    · rw [e]
      by_cases hq : q = t
      · subst hq
        exact rxProcess_shape K E _ q size buf w
      · rw [rxProcess_other K E _ t q size buf w hq]
        exact sameShape_refl _
  | transmit handle size =>
    show SameShape (w.chn q) ((Cantp_Transmit handle size w).2.chn q)
    simp only [Cantp_Transmit]
    cases hg : gs_CanTpTxChannel.get? handle with
    | none => exact sameShape_refl _
    | some r' =>
      simp only
      repeat' split
      all_goals first
        | exact sameShape_refl _
        | (by_cases hq : q = r'
           · subst hq
             simp [SameShape, _Cantp_GotoTranFF, _Cantp_GotoTranSF, _Cantp_SetMultipleFrameSize]
           · rw [chn_upd_ne _ _ _ _ hq]
             exact sameShape_refl _)
  | txConf id =>
    show SameShape (w.chn q) ((Cantp_TxConfirmation K id w).chn q)
    simp only [Cantp_TxConfirmation]
    split
    · split_ifs
      · rename_i r _ _
        rw [chn_setSlot]
        by_cases hq : q = r
        · subst hq
          exact confirm_shape K _ q w
        · rw [confirm_frame K _ w r q hq]
          exact sameShape_refl _
      · exact sameShape_refl _
    · exact sameShape_refl _

theorem run_shape (K : FblConfig) (E : Env) (evs : List Event) (q : ChnRef) :
    ∀ w : World, SameShape (w.chn q) ((run K E w evs).chn q) := by
  induction evs with
  | nil => intro w; exact sameShape_refl _
  | cons e es ih =>
    intro w
    exact sameShape_trans _ _ _ (step_shape K E w e q) (ih _)

/-! ## C39: the bytes a Single Frame reads -/

theorem init_pci (K : FblConfig) (w0 : World) (q : ChnRef) :
    ((CanTp_Init K w0).chn q).pciInfo = pciStandard K := by
  cases q <;>
    simp [CanTp_Init, initChannels, _Cantp_InitChannel, g_CanTpRxChnsCfg, g_CanTpTxChnsCfg,
      World.chn]

/-- Every channel of every state reached from `CanTp_Init` has the
standard-addressing descriptor. -/
theorem reach_pci (K : FblConfig) (E : Env) (w0 : World) (evs : List Event) (q : ChnRef) :
    ((run K E (CanTp_Init K w0) evs).chn q).pciInfo = pciStandard K :=
  (run_shape K E evs q _).1.trans (init_pci K w0 q)

/-- The tail of the period handler of TranFC, on a record that differs from the
record `c` before the loop body by the timer, the staged frame and nothing else
that matters here. -/
theorem afterSend_rxStep (K : FblConfig) (r : ChnRef) (id : Nat) (ret : bl_Return) (w : World)
    (c : bl_CanTpChannel_t) (hid : (w.chn r).chnCfg.txId = id)
    (hs : c.status = CANTP_STATUS_TRANSMITTING_FC) (hs' : (w.chn r).status = c.status)
    (ht : (w.chn r).timer = c.timer - 1) (hcfg : (w.chn r).chnCfg = c.chnCfg) :
    RxTimerStep c ((afterSend K r id ret w).chn r) := by
  have h4 : c.status = 4 := hs
  subst hid
  simp only [afterSend, Cantp_TxConfirmation, slot_setSlot]
  split_ifs
  · simp only [chn_setSlot, chn_upd_same, hs', h4, gs_TxConfirmList, _Cantp_TxConfirmFC]
    split_ifs <;>
      simp [RxTimerStep, h4, hcfg, _Cantp_GotoIdle, CANTP_STATUS_IDLE, CANTP_STATUS_RECEIVING_FF,
        CANTP_STATUS_TRANSMITTING_FC, CANTP_STATUS_RECEIVING_CF]
  · rename_i h
    exact absurd (by simp) h
  · left; exact ⟨ht, hs'⟩

/-- The loop body of `_Cantp_PeriodFunction` for an Rx channel whose timer is
running: the timer goes down by 1 and the status is kept, or the period handler
changes the status and arms the timer of the new status. -/
theorem periodChannel_rx_timer_exact (K : FblConfig) (E : Env) (w : World) (r : ChnRef)
    (ht : (w.chn r).timer ≠ 0) :
    RxTimerStep (w.chn r) ((periodChannel (gs_RxPeriodList K E) w r).chn r) := by
  unfold periodChannel
  generalize hs : (w.chn r).status = s
  rcases s with _ | _ | _ | _ | _ | s
  case succ.succ.succ.succ.zero =>
    simp only [ht, if_false, chn_upd_same, decTimer_status, hs, gs_RxPeriodList,
      _Cantp_PeriodTranFC, FblCanSendData]
    split_ifs
    · exact afterSend_rxStep K r _ _ _ _ (by simp [_Cantp_MakePciOfFC, decTimer]) hs
        (by simp [_Cantp_MakePciOfFC, decTimer]) (by simp [_Cantp_MakePciOfFC, decTimer])
        (by simp [_Cantp_MakePciOfFC, decTimer])
    · left; simp [decTimer]
  all_goals
    simp only [ht, if_false, chn_upd_same, decTimer_status, hs, gs_RxPeriodList,
      _Cantp_PeriodIdle, _Cantp_PeriodRecvSF, _Cantp_PeriodRecvFF, _Cantp_PeriodRecvCF,
      Diag_StartOfReception, Diag_CopyRxData, Diag_RxIndication]
    try split_ifs
    all_goals
      simp [RxTimerStep, decTimer, _Cantp_GotoIdle, _Cantp_GotoTranFC, hs,
        CANTP_STATUS_IDLE, CANTP_STATUS_RECEIVING_FF,
        CANTP_STATUS_TRANSMITTING_FC, CANTP_STATUS_RECEIVING_CF]

/-- The confirmation of a Consecutive Frame advances `sn` and leaves the channel
Idle with timer 0, or in RecvFC with timer B, or in its status with the CR
watchdog. -/
theorem confirmCF_timer (K : FblConfig) (r : ChnRef) (w : World) :
    ((_Cantp_TxConfirmCF K r w).chn r).sn = UINT8 ((w.chn r).sn + 1)
    ∧ ((((_Cantp_TxConfirmCF K r w).chn r).status = CANTP_STATUS_IDLE
          ∧ ((_Cantp_TxConfirmCF K r w).chn r).timer = 0)
      ∨ (((_Cantp_TxConfirmCF K r w).chn r).status = CANTP_STATUS_RECEIVING_FC
          ∧ ((_Cantp_TxConfirmCF K r w).chn r).timer = (w.chn r).chnCfg.timerB)
      ∨ (((_Cantp_TxConfirmCF K r w).chn r).status = (w.chn r).status
          ∧ ((_Cantp_TxConfirmCF K r w).chn r).timer = CANTP_CHNNEL_RX_CR K)) := by
  simp only [_Cantp_TxConfirmCF, chn_upd_same, Diag_TxConfirmation]
  split_ifs <;> simp [_Cantp_GotoIdle]

/-- The tail of a transmitting period handler of a Tx channel, on a record that
differs from the record `c` before the loop body by the timer, the staged frame,
the separation delay and the frame count. -/
theorem afterSend_txStep (K : FblConfig) (r : ChnRef) (id : Nat) (ret : bl_Return) (w : World)
    (c : bl_CanTpChannel_t) (hid : (w.chn r).chnCfg.txId = id)
    (hs : c.status ≤ 3) (hs' : (w.chn r).status = c.status) (hsn : (w.chn r).sn = c.sn)
    (ht : (w.chn r).timer = c.timer - 1) (hcfg : (w.chn r).chnCfg = c.chnCfg) :
    TxTimerStep K c ((afterSend K r id ret w).chn r) := by
  subst hid
  simp only [afterSend, Cantp_TxConfirmation, slot_setSlot]
  split_ifs
  · simp only [chn_setSlot, chn_upd_same, hs']
    rcases hc : c.status with _ | _ | _ | _ | s
    · left
      simp [gs_TxConfirmList, _Cantp_TxConfirmIdle, ht, hs', hsn, hc]
    · right; left
      refine ⟨Or.inl hc, ?_⟩
      simp [gs_TxConfirmList, _Cantp_TxConfirmSF, Diag_TxConfirmation, _Cantp_GotoIdle,
        CANTP_STATUS_IDLE]
    · right; right; left
      refine ⟨Or.inl hc, ?_⟩
      simp [gs_TxConfirmList, _Cantp_TxConfirmFF, CANTP_STATUS_RECEIVING_FC, hcfg]
    · simp only [gs_TxConfirmList]
      obtain ⟨a, b⟩ := confirmCF_timer K r
        ((w.upd r fun c => { c with subStatus := CANTP_SUB_STATUS_TRANSMITTING }).setSlot (some r))
      simp only [chn_setSlot, chn_upd_same] at a b
      rcases b with ⟨b1, b2⟩ | ⟨b1, b2⟩ | ⟨b1, b2⟩
      · right; left
        exact ⟨Or.inr hc, b1, b2⟩
      · right; right; left
        exact ⟨Or.inr hc, b1, by rw [b2, hcfg]⟩
      · right; right; right
        exact ⟨hc, by rw [b1, hs', hc]; rfl, by rw [a, hsn], b2⟩
    · omega
  · rename_i h
    exact absurd (by simp) h
  · left; exact ⟨ht, hs', hsn⟩

/-- The loop body of `_Cantp_PeriodFunction` for a Tx channel whose timer is
running: the timer goes down by 1 while status and `sn` are kept, or a frame was
confirmed and the timer is the one armed by the confirmation handler. -/
theorem periodChannel_tx_timer_exact (K : FblConfig) (E : Env) (w : World) (r : ChnRef)
    (ht : (w.chn r).timer ≠ 0) :
    TxTimerStep K (w.chn r) ((periodChannel (gs_TxPeriodList K E) w r).chn r) := by
  unfold periodChannel
  generalize hs : (w.chn r).status = s
  rcases s with _ | _ | _ | _ | _ | s
  all_goals
    simp only [ht, if_false, chn_upd_same, decTimer_status, hs, gs_TxPeriodList,
      _Cantp_PeriodIdle, _Cantp_PeriodTranSF, _Cantp_PeriodTranFF, _Cantp_PeriodTranCF,
      _Cantp_PeriodRecvFC, _Cantp_TransmitCF, FblCanSendData, Diag_CopyTxData]
    try split_ifs
    all_goals first
      | (refine afterSend_txStep K r _ _ _ _ ?_ ?_ ?_ ?_ ?_ ?_ <;>
          simp [_Cantp_MakePciOfSF, _Cantp_MakePciOfFF, _Cantp_MakePciOfCF, decTimer, hs])
      | (left
         simp [decTimer, _Cantp_MakePciOfCF, hs])

/-- With status and `sn` kept, an Rx timer step is a decrement by exactly 1. -/
theorem rxTimerStep_kept (c c' : bl_CanTpChannel_t) (h : RxTimerStep c c')
    (hs : c'.status = c.status) : c'.timer = c.timer - 1 := by
  simp only [RxTimerStep, CANTP_STATUS_IDLE, CANTP_STATUS_RECEIVING_FF,
    CANTP_STATUS_TRANSMITTING_FC, CANTP_STATUS_RECEIVING_CF] at h
  rcases h with ⟨a, _⟩ | ⟨a, b, _⟩ | ⟨a, b, _⟩ | ⟨a, b, _⟩ | ⟨a, b, _⟩
  · exact a
  all_goals omega

/-- With status and `sn` kept, a Tx timer step is a decrement by exactly 1. -/
theorem txTimerStep_kept (K : FblConfig) (c c' : bl_CanTpChannel_t) (h : TxTimerStep K c c')
    (hs : c'.status = c.status) (hsn : c'.sn = c.sn) : c'.timer = c.timer - 1 := by
  simp only [TxTimerStep, CANTP_STATUS_IDLE, CANTP_STATUS_TRANSMITTING_SF,
    CANTP_STATUS_TRANSMITTING_FF, CANTP_STATUS_TRANSMITTING_CF, CANTP_STATUS_RECEIVING_FC,
    UINT8] at h
  rcases h with ⟨a, _⟩ | ⟨a, b, _⟩ | ⟨a, b, _⟩ | ⟨a, b, d, _⟩
  · exact a
  all_goals omega

/-- C26 (amended): over one call of `Cantp_PeriodFunction`, for every channel `r`:
(1) if its timer is not 0 before the tick, then the record after the tick is
related to the record before by `RxTimerStep` (Rx channels) or `TxTimerStep` (Tx
channel): the timer is the old value minus exactly 1 with the status (and, on the
Tx channel, `sn`) kept, or this channel has made one of the listed state
transitions and its timer is the one armed for the new state; in particular (2)
whenever the status and `sn` of the channel are the same after the tick as before,
as in every tick of polling Diag, of a refused submit or of waiting, the timer has
gone down by exactly 1; (3) if the channel is not Idle and its timer is 0 before
the tick, its timeout handler runs: after the tick the channel is Idle with timer
0, or, for an Rx channel in RecvFF with wait frames left, in TranFC with flow
status WAIT and timer A. -/
theorem C26_timer_over_tick (K : FblConfig) (E : Env) (w : World) (r : ChnRef) :
    ((w.chn r).timer ≠ 0 →
        (r ≠ .tx0 → RxTimerStep (w.chn r) ((Cantp_PeriodFunction K E w).chn r))
        ∧ (r = .tx0 → TxTimerStep K (w.chn r) ((Cantp_PeriodFunction K E w).chn r)))
    ∧ ((w.chn r).timer ≠ 0 →
        ((Cantp_PeriodFunction K E w).chn r).status = (w.chn r).status →
        ((Cantp_PeriodFunction K E w).chn r).sn = (w.chn r).sn →
        ((Cantp_PeriodFunction K E w).chn r).timer = (w.chn r).timer - 1)
    ∧ ((w.chn r).timer = 0 → 1 ≤ (w.chn r).status → (w.chn r).status ≤ 4 →
        (Cantp_PeriodFunction K E w).chn r = _Cantp_GotoIdle (w.chn r)
        ∨ (r ≠ .tx0 ∧ (w.chn r).status = CANTP_STATUS_RECEIVING_FF ∧ (w.chn r).wft ≠ 0
            ∧ (Cantp_PeriodFunction K E w).chn r
                = _Cantp_GotoTranFC { w.chn r with wft := (w.chn r).wft - 1 }
                    CANTP_FC_FRAME_WAIT)) := by
  rw [tick_eq]
  cases r with
  | rx0 =>
    have f1 := periodChannel_tx_frame K E
      (periodChannel (gs_RxPeriodList K E) (periodChannel (gs_RxPeriodList K E) w .rx0) .rx1)
      .tx0 .rx0 (by decide)
    have f2 := periodChannel_rx_frame K E (periodChannel (gs_RxPeriodList K E) w .rx0) .rx1 .rx0
      (by decide)
    rw [f1, f2]
    refine ⟨fun ht => ⟨fun _ => periodChannel_rx_timer_exact K E w .rx0 ht,
      fun h => absurd h (by decide)⟩,
      fun ht hs _ => rxTimerStep_kept _ _ (periodChannel_rx_timer_exact K E w .rx0 ht) hs, ?_⟩
    intro ht h1 h4
    rcases periodChannel_rx_timeout K E w .rx0 ht h1 h4 with h | ⟨a, b, c⟩
    · exact Or.inl h
    · exact Or.inr ⟨by decide, a, b, c⟩
  | rx1 =>
    have f1 := periodChannel_tx_frame K E
      (periodChannel (gs_RxPeriodList K E) (periodChannel (gs_RxPeriodList K E) w .rx0) .rx1)
      .tx0 .rx1 (by decide)
    have f0 := periodChannel_rx_frame K E w .rx0 .rx1 (by decide)
    rw [f1]
    have key : (w.chn .rx1).timer ≠ 0 → RxTimerStep (w.chn .rx1)
        ((periodChannel (gs_RxPeriodList K E) (periodChannel (gs_RxPeriodList K E) w .rx0)
          .rx1).chn .rx1) := by
      intro ht
      have h := periodChannel_rx_timer_exact K E (periodChannel (gs_RxPeriodList K E) w .rx0)
        .rx1 (by rw [f0]; exact ht)
      rw [f0] at h
      exact h
    refine ⟨fun ht => ⟨fun _ => key ht, fun h => absurd h (by decide)⟩,
      fun ht hs _ => rxTimerStep_kept _ _ (key ht) hs, ?_⟩
    intro ht h1 h4
    rcases periodChannel_rx_timeout K E (periodChannel (gs_RxPeriodList K E) w .rx0) .rx1
      (by rw [f0]; exact ht) (by rw [f0]; exact h1) (by rw [f0]; exact h4) with h | ⟨a, b, c⟩
    · rw [f0] at h
      exact Or.inl h
    · rw [f0] at a b c
      exact Or.inr ⟨by decide, a, b, c⟩
  | tx0 =>
    have f0 := periodChannel_rx_frame K E w .rx0 .tx0 (by decide)
    have f1 := periodChannel_rx_frame K E (periodChannel (gs_RxPeriodList K E) w .rx0) .rx1 .tx0
      (by decide)
    have f : (periodChannel (gs_RxPeriodList K E) (periodChannel (gs_RxPeriodList K E) w .rx0)
        .rx1).chn .tx0 = w.chn .tx0 := by rw [f1, f0]
    have key : (w.chn .tx0).timer ≠ 0 → TxTimerStep K (w.chn .tx0)
        ((periodChannel (gs_TxPeriodList K E)
          (periodChannel (gs_RxPeriodList K E) (periodChannel (gs_RxPeriodList K E) w .rx0)
            .rx1) .tx0).chn .tx0) := by
      intro ht
      have h := periodChannel_tx_timer_exact K E _ .tx0 (by rw [f]; exact ht)
      rw [f] at h
      exact h
    refine ⟨fun ht => ⟨fun h => absurd rfl h, fun _ => key ht⟩,
      fun ht hs hsn => txTimerStep_kept K _ _ (key ht) hs hsn, ?_⟩
    intro ht h1 h4
    have h := periodChannel_tx_timeout K E _ .tx0 (by rw [f]; exact ht) (by rw [f]; exact h1)
      (by rw [f]; exact h4)
    rw [f] at h
    exact Or.inl h


set_option maxRecDepth 100000 in
theorem C26_timer_over_tick_witness :
    ((Cantp_PeriodFunction classicBuild envBusy
        (Cantp_RxIndication classicBuild envBusy 0x7E0 8 ff100 classicInit)).chn .rx0).timer
      = ((Cantp_RxIndication classicBuild envBusy 0x7E0 8 ff100 classicInit).chn .rx0).timer - 1
    ∧ ((Cantp_PeriodFunction classicBuild envRefuse classicTranSF).chn .tx0).timer
      = (classicTranSF.chn .tx0).timer - 1
    ∧ RxTimerStep
        ((Cantp_RxIndication classicBuild (envOf []) 0x7E0 8 ff100 classicInit).chn .rx0)
        ((Cantp_PeriodFunction classicBuild (envOf [])
          (Cantp_RxIndication classicBuild (envOf []) 0x7E0 8 ff100 classicInit)).chn .rx0)
    ∧ TxTimerStep classicBuild (classicTranFF.chn .tx0)
        ((Cantp_PeriodFunction classicBuild (envOf []) classicTranFF).chn .tx0) :=
  ⟨(C26_timer_over_tick classicBuild envBusy
      (Cantp_RxIndication classicBuild envBusy 0x7E0 8 ff100 classicInit) .rx0).2.1
      (by decide) (by decide) (by decide),
   (C26_timer_over_tick classicBuild envRefuse classicTranSF .tx0).2.1
      (by decide) (by decide) (by decide),
   ((C26_timer_over_tick classicBuild (envOf [])
      (Cantp_RxIndication classicBuild (envOf []) 0x7E0 8 ff100 classicInit) .rx0).1
      (by decide)).1 (by decide),
   ((C26_timer_over_tick classicBuild (envOf []) classicTranFF .tx0).1 (by decide)).2 rfl⟩

/-! ## C9: no Consecutive Frame without a Flow Control frame CTS -/

/-- The tail of a transmitting period handler hands nothing to the driver. -/
theorem afterSend_sent (K : FblConfig) (r : ChnRef) (id : Nat) (ret : bl_Return) (w : World) :
    sentFrames (afterSend K r id ret w).trace = sentFrames w.trace := by
  simp only [afterSend, Cantp_TxConfirmation, slot_setSlot]
  split_ifs
  · simp only [chn_setSlot, chn_upd_same]
    rcases (w.chn r).status with _ | _ | _ | _ | _ | s <;>
      simp only [gs_TxConfirmList, _Cantp_TxConfirmIdle, _Cantp_TxConfirmSF, _Cantp_TxConfirmFF,
        _Cantp_TxConfirmCF, _Cantp_TxConfirmFC, Diag_TxConfirmation] <;>
      (try split_ifs) <;> simp [sentFrames_append, sentFrames_txConf, sentFrames_nil]
  · simp
  · rfl

/-- The tail of a transmitting period handler does not write `lastSize`. -/
theorem afterSend_lastSize (K : FblConfig) (r : ChnRef) (id : Nat) (ret : bl_Return)
    (w : World) : ((afterSend K r id ret w).chn r).lastSize = (w.chn r).lastSize := by
  simp only [afterSend, Cantp_TxConfirmation, slot_setSlot]
  split_ifs
  · simp only [chn_setSlot, chn_upd_same]
    rcases (w.chn r).status with _ | _ | _ | _ | _ | s <;>
      simp only [gs_TxConfirmList, _Cantp_TxConfirmIdle, _Cantp_TxConfirmSF, _Cantp_TxConfirmFF,
        _Cantp_TxConfirmCF, _Cantp_TxConfirmFC, Diag_TxConfirmation] <;>
      (try split_ifs) <;> simp [_Cantp_GotoIdle]
  · simp
  · rfl

/-- The type nibble of the PCI byte written by `_Cantp_MakePciOfFC`. -/
theorem fc_pci_type (x : Nat) :
    GET_LOW_HALF (UINT8 (CANTP_FRAME_FC_VALUE + GET_LOW_HALF x) >>> 4) = CANTP_FRAME_TYPE_FC := by
  simp only [GET_LOW_HALF_eq, UINT8, CANTP_FRAME_FC_VALUE, CANTP_FRAME_TYPE_FC,
    Nat.shiftRight_eq_div_pow]
  omega

/-- The type nibble of the PCI byte written by `_Cantp_MakePciOfSF`. -/
theorem sf_pci_type (x : Nat) : GET_LOW_HALF (GET_LOW_HALF x >>> 4) = CANTP_FRAME_TYPE_SF := by
  simp only [GET_LOW_HALF_eq, CANTP_FRAME_TYPE_SF, Nat.shiftRight_eq_div_pow]
  omega

/-- A frame that is not of type CF adds nothing to the Consecutive Frames sent. -/
theorem sentCFs_of_sent (pci : bl_CanTpPciInfo_t) (a b : List Call) (f : List Nat)
    (h : sentFrames b = sentFrames a ∨ sentFrames b = sentFrames a ++ [f])
    (hf : CANTP_GET_FRAME_TYPE pci f ≠ CANTP_FRAME_TYPE_CF) :
    sentCFs pci b = sentCFs pci a := by
  unfold sentCFs
  rcases h with h | h
  · rw [h]
  · rw [h, List.filter_append]
    simp [hf]

/-- The loop body of `_Cantp_PeriodFunction` for an Rx channel hands no frame to
the driver, or the Flow Control frame it has staged. -/
theorem periodChannel_rx_sent (K : FblConfig) (E : Env) (w : World) (r : ChnRef) :
    sentFrames (periodChannel (gs_RxPeriodList K E) w r).trace = sentFrames w.trace
    ∨ sentFrames (periodChannel (gs_RxPeriodList K E) w r).trace
        = sentFrames w.trace ++ [(fcFrame K (w.chn r)).take (CANTP_MAX_FRAME_SIZE K)] := by
  unfold periodChannel
  generalize hs : (w.chn r).status = s
  rcases s with _ | _ | _ | _ | _ | s
  all_goals
    by_cases ht : (w.chn r).timer = 0
    · left
      simp only [ht, if_true, gs_RxPeriodList, _Cantp_TimeoutIdle, _Cantp_TimeoutRecvSF,
        _Cantp_TimeoutRecvFF, _Cantp_TimeoutRecvCF, _Cantp_TimeoutTranFC, Diag_RxIndication]
      try split_ifs
      all_goals simp [sentFrames_append, sentFrames_rxInd, sentFrames_nil]
    · simp only [ht, if_false, chn_upd_same, decTimer_status, hs, gs_RxPeriodList,
        _Cantp_PeriodIdle, _Cantp_PeriodRecvSF, _Cantp_PeriodRecvFF, _Cantp_PeriodRecvCF,
        _Cantp_PeriodTranFC, FblCanSendData,
        Diag_StartOfReception, Diag_CopyRxData, Diag_RxIndication]
      try split_ifs
      all_goals first
        | (right
           rw [afterSend_sent]
           simp [sentFrames_append, sentFrames_send, sentFrames_nil, fcFrame, _Cantp_MakePciOfFC,
             decTimer, putTa])
        | (left
           simp [sentFrames_append, sentFrames_rxInd, sentFrames_sor, sentFrames_copyRx,
             sentFrames_nil])

/-- The loop body of `_Cantp_PeriodFunction` for a Tx channel that is not in TranCF
hands no frame to the driver, or the Single Frame or First Frame it has staged. -/
theorem periodChannel_tx_sent (K : FblConfig) (E : Env) (w : World) (r : ChnRef)
    (h3 : (w.chn r).status ≠ CANTP_STATUS_TRANSMITTING_CF) :
    sentFrames (periodChannel (gs_TxPeriodList K E) w r).trace = sentFrames w.trace
    ∨ ((w.chn r).status = CANTP_STATUS_TRANSMITTING_SF
        ∧ sentFrames (periodChannel (gs_TxPeriodList K E) w r).trace
          = sentFrames w.trace
            ++ [(sfFrame K E w.trace (w.chn r)).take (CANTP_MAX_FRAME_SIZE K)])
    ∨ ((w.chn r).status = CANTP_STATUS_TRANSMITTING_FF
        ∧ sentFrames (periodChannel (gs_TxPeriodList K E) w r).trace
          = sentFrames w.trace ++ [(ffFrame E w.trace (w.chn r)).take (CANTP_MAX_FRAME_SIZE K)]) := by
  unfold periodChannel
  generalize hs : (w.chn r).status = s at h3
  rcases s with _ | _ | _ | _ | _ | s
  case succ.succ.succ.zero => exact absurd rfl h3
  all_goals
    by_cases ht : (w.chn r).timer = 0
    · left
      simp only [ht, if_true, gs_TxPeriodList, _Cantp_TimeoutIdle, _Cantp_TimeoutTranSF,
        _Cantp_TimeoutTranFF, _Cantp_TimeoutRecvFC, Diag_TxConfirmation]
      try split_ifs
      all_goals simp [sentFrames_append, sentFrames_txConf, sentFrames_nil]
    · simp only [ht, if_false, chn_upd_same, decTimer_status, hs, gs_TxPeriodList,
        _Cantp_PeriodIdle, _Cantp_PeriodTranSF, _Cantp_PeriodTranFF,
        _Cantp_PeriodRecvFC, Diag_CopyTxData, FblCanSendData]
      try split_ifs
      all_goals first
        | (left
           simp [sentFrames_append, sentFrames_nil]
           done)
        | (right; left
           refine ⟨rfl, ?_⟩
           rw [afterSend_sent]
           simp [sentFrames_append, sentFrames_send, sentFrames_copyTx, sentFrames_nil, sfFrame,
             _Cantp_MakePciOfSF, decTimer, putTa])
        | (right; right
           refine ⟨rfl, ?_⟩
           rw [afterSend_sent]
           simp [sentFrames_append, sentFrames_send, sentFrames_copyTx, sentFrames_nil, ffFrame,
             _Cantp_MakePciOfFF, decTimer, putTa])


/-- The loop body of `_Cantp_PeriodFunction` for a Tx channel leaves the registry
empty. -/
theorem periodChannel_tx_slot (K : FblConfig) (E : Env) (w : World) (r : ChnRef)
    (h : w.gs_TransmittingChannel = none) :
    (periodChannel (gs_TxPeriodList K E) w r).gs_TransmittingChannel = none := by
  unfold periodChannel
  generalize hs : (w.chn r).status = s
  rcases s with _ | _ | _ | _ | _ | s
  all_goals
    by_cases ht : (w.chn r).timer = 0
    · simp only [ht, if_true, gs_TxPeriodList, _Cantp_TimeoutIdle, _Cantp_TimeoutTranSF,
        _Cantp_TimeoutTranFF, _Cantp_TimeoutTranCF, _Cantp_TimeoutRecvFC, Diag_TxConfirmation]
      try split_ifs
      all_goals simp_all [_Cantp_GotoIdle]
    · simp only [ht, if_false, chn_upd_same, decTimer_status, hs, gs_TxPeriodList,
        _Cantp_PeriodIdle, _Cantp_PeriodTranSF, _Cantp_PeriodTranFF, _Cantp_PeriodTranCF,
        _Cantp_PeriodRecvFC, _Cantp_TransmitCF, Diag_CopyTxData, FblCanSendData]
      try split_ifs
      all_goals first
        | exact afterSend_slot K r _ _ _ (by simp [h]) (by
              simp [_Cantp_MakePciOfSF, _Cantp_MakePciOfFF, _Cantp_MakePciOfCF, decTimer])
        | simp [h]

/-- The loop body of `_Cantp_PeriodFunction` for a Tx channel does not write
`lastSize`. -/
theorem periodChannel_tx_lastSize (K : FblConfig) (E : Env) (w : World) (r : ChnRef) :
    ((periodChannel (gs_TxPeriodList K E) w r).chn r).lastSize = (w.chn r).lastSize := by
  unfold periodChannel
  generalize hs : (w.chn r).status = s
  rcases s with _ | _ | _ | _ | _ | s
  all_goals
    by_cases ht : (w.chn r).timer = 0
    · simp only [ht, if_true, gs_TxPeriodList, _Cantp_TimeoutIdle, _Cantp_TimeoutTranSF,
        _Cantp_TimeoutTranFF, _Cantp_TimeoutTranCF, _Cantp_TimeoutRecvFC, Diag_TxConfirmation]
      try split_ifs
      all_goals simp [_Cantp_GotoIdle]
    · simp only [ht, if_false, chn_upd_same, decTimer_status, hs, gs_TxPeriodList,
        _Cantp_PeriodIdle, _Cantp_PeriodTranSF, _Cantp_PeriodTranFF, _Cantp_PeriodTranCF,
        _Cantp_PeriodRecvFC, _Cantp_TransmitCF, Diag_CopyTxData, FblCanSendData]
      try split_ifs
      all_goals first
        | (rw [afterSend_lastSize]
           simp [_Cantp_MakePciOfSF, _Cantp_MakePciOfFF, _Cantp_MakePciOfCF, decTimer])
        | simp [decTimer, _Cantp_MakePciOfCF]

/-- The loop body of `_Cantp_PeriodFunction` for a Tx channel that is not in TranCF
does not bring it to TranCF, and brings it to no status below RecvFC that it did
not have. -/
theorem periodChannel_tx_status (K : FblConfig) (E : Env) (w : World) (r : ChnRef)
    (h3 : (w.chn r).status ≠ CANTP_STATUS_TRANSMITTING_CF) :
    ((periodChannel (gs_TxPeriodList K E) w r).chn r).status = (w.chn r).status
    ∨ ((periodChannel (gs_TxPeriodList K E) w r).chn r).status = CANTP_STATUS_IDLE
    ∨ ((periodChannel (gs_TxPeriodList K E) w r).chn r).status = CANTP_STATUS_RECEIVING_FC := by
  by_cases ht : (w.chn r).timer = 0
  · by_cases h14 : 1 ≤ (w.chn r).status ∧ (w.chn r).status ≤ 4
    · right; left
      rw [periodChannel_tx_timeout K E w r ht h14.1 h14.2]
      rfl
    · left
      unfold periodChannel
      generalize hs : (w.chn r).status = s at h14
      rcases s with _ | _ | _ | _ | _ | s
      · simp [ht, gs_TxPeriodList, _Cantp_TimeoutIdle, hs]
      · omega
      · omega
      · omega
      · omega
      · simp [ht, gs_TxPeriodList, hs]
  · have h := periodChannel_tx_timer_exact K E w r ht
    simp only [TxTimerStep] at h
    rcases h with ⟨_, a, _⟩ | ⟨_, a, _⟩ | ⟨_, a, _⟩ | ⟨a, _⟩
    · exact Or.inl a
    · exact Or.inr (Or.inl a)
    · exact Or.inr (Or.inr a)
    · exact absurd a h3

/-- The Flow Control frame staged by an Rx channel is not of type CF. -/
theorem fcFrame_not_cf (K : FblConfig) (c : bl_CanTpChannel_t)
    (hpci : c.pciInfo ∈ gs_CanTpPciInfo K) (hlen : c.frame.length = CANTP_MAX_FRAME_SIZE K) :
    CANTP_GET_FRAME_TYPE c.pciInfo ((fcFrame K c).take (CANTP_MAX_FRAME_SIZE K))
      ≠ CANTP_FRAME_TYPE_CF := by
  unfold CANTP_GET_FRAME_TYPE
  rw [rd_fcFrame_pci K c hpci hlen, fc_pci_type]
  decide

/-- The Single Frame staged by a Tx channel is not of type CF. -/
theorem sfFrame_not_cf (K : FblConfig) (E : Env) (tr : List Call) (c : bl_CanTpChannel_t)
    (hpci : c.pciInfo ∈ gs_CanTpPciInfo K) (hlen : c.frame.length = CANTP_MAX_FRAME_SIZE K)
    (hls : c.lastSize < 256) :
    CANTP_GET_FRAME_TYPE c.pciInfo ((sfFrame K E tr c).take (CANTP_MAX_FRAME_SIZE K))
      ≠ CANTP_FRAME_TYPE_CF := by
  unfold CANTP_GET_FRAME_TYPE
  rw [rd_sfFrame_pci K E tr c hpci hlen hls, sf_pci_type]
  decide

/-- The First Frame staged by a Tx channel is not of type CF. -/
theorem ffFrame_not_cf (K : FblConfig) (E : Env) (tr : List Call) (c : bl_CanTpChannel_t)
    (hpci : c.pciInfo ∈ gs_CanTpPciInfo K) (hlen : c.frame.length = CANTP_MAX_FRAME_SIZE K) :
    CANTP_GET_FRAME_TYPE c.pciInfo ((ffFrame E tr c).take (CANTP_MAX_FRAME_SIZE K))
      ≠ CANTP_FRAME_TYPE_CF := by
  unfold CANTP_GET_FRAME_TYPE
  rw [rd_ffFrame_pci K E tr c hpci hlen, ff_pci_type]
  decide

/-- The loop body of `_Cantp_PeriodFunction` for an Rx channel hands no Consecutive
Frame to the driver. -/
theorem periodChannel_rx_noCF (K : FblConfig) (E : Env) (w : World) (r : ChnRef)
    (hpci : (w.chn r).pciInfo ∈ gs_CanTpPciInfo K)
    (hlen : (w.chn r).frame.length = CANTP_MAX_FRAME_SIZE K) :
    sentCFs (w.chn r).pciInfo (periodChannel (gs_RxPeriodList K E) w r).trace
      = sentCFs (w.chn r).pciInfo w.trace :=
  sentCFs_of_sent _ _ _ _ (periodChannel_rx_sent K E w r) (fcFrame_not_cf K _ hpci hlen)

/-- The loop body of `_Cantp_PeriodFunction` for a Tx channel that is not in TranCF
hands no Consecutive Frame to the driver. -/
theorem periodChannel_tx_noCF (K : FblConfig) (E : Env) (w : World) (r : ChnRef)
    (hpci : (w.chn r).pciInfo ∈ gs_CanTpPciInfo K)
    (hlen : (w.chn r).frame.length = CANTP_MAX_FRAME_SIZE K)
    (h3 : (w.chn r).status ≠ CANTP_STATUS_TRANSMITTING_CF)
    (hls : (w.chn r).status = CANTP_STATUS_TRANSMITTING_SF → (w.chn r).lastSize < 256) :
    sentCFs (w.chn r).pciInfo (periodChannel (gs_TxPeriodList K E) w r).trace
      = sentCFs (w.chn r).pciInfo w.trace := by
  rcases periodChannel_tx_sent K E w r h3 with h | ⟨hs, h⟩ | ⟨_, h⟩
  · unfold sentCFs
    rw [h]
  · exact sentCFs_of_sent _ _ _ _ (Or.inr h) (sfFrame_not_cf K E _ _ hpci hlen (hls hs))
  · exact sentCFs_of_sent _ _ _ _ (Or.inr h) (ffFrame_not_cf K E _ _ hpci hlen)


/-- A tick keeps `AwaitingCts` and hands no Consecutive Frame to the driver. -/
theorem awaitingCts_tick (K : FblConfig) (E : Env) (pci : bl_CanTpPciInfo_t)
    (hpci : pci ∈ gs_CanTpPciInfo K) (w : World) (h : AwaitingCts K pci w) :
    AwaitingCts K pci (Cantp_PeriodFunction K E w)
    ∧ sentCFs pci (Cantp_PeriodFunction K E w).trace = sentCFs pci w.trace := by
  obtain ⟨hslot, hsh, h3, hls⟩ := h
  have hshape : ∀ q, ((Cantp_PeriodFunction K E w).chn q).pciInfo = pci
      ∧ ((Cantp_PeriodFunction K E w).chn q).frame.length = CANTP_MAX_FRAME_SIZE K := by
    intro q
    have s := step_shape K E w .tick q
    exact ⟨s.1.trans (hsh q).1, s.2.trans (hsh q).2⟩
  rw [tick_eq] at hshape ⊢
  have s0 := (periodChannel_rx_sn K E w .rx0 hslot).1
  have s1 := (periodChannel_rx_sn K E (periodChannel (gs_RxPeriodList K E) w .rx0) .rx1 s0).1
  have s2 := periodChannel_tx_slot K E _ .tx0 s1
  have f0 := periodChannel_rx_frame K E w .rx0 .rx1 (by decide)
  have f : (periodChannel (gs_RxPeriodList K E) (periodChannel (gs_RxPeriodList K E) w .rx0)
      .rx1).chn .tx0 = w.chn .tx0 := by
    rw [periodChannel_rx_frame K E _ .rx1 .tx0 (by decide),
      periodChannel_rx_frame K E w .rx0 .tx0 (by decide)]
  have h3' : ((periodChannel (gs_RxPeriodList K E) (periodChannel (gs_RxPeriodList K E) w .rx0)
      .rx1).chn .tx0).status ≠ CANTP_STATUS_TRANSMITTING_CF := by rw [f]; exact h3
  have c0 := periodChannel_rx_noCF K E w .rx0 (by rw [(hsh .rx0).1]; exact hpci) (hsh .rx0).2
  have c1 := periodChannel_rx_noCF K E (periodChannel (gs_RxPeriodList K E) w .rx0) .rx1
    (by rw [f0, (hsh .rx1).1]; exact hpci) (by rw [f0]; exact (hsh .rx1).2)
  have c2 := periodChannel_tx_noCF K E
    (periodChannel (gs_RxPeriodList K E) (periodChannel (gs_RxPeriodList K E) w .rx0) .rx1) .tx0
    (by rw [f, (hsh .tx0).1]; exact hpci) (by rw [f]; exact (hsh .tx0).2) h3'
    (by rw [f]; exact hls)
  rw [(hsh .rx0).1] at c0
  rw [f0, (hsh .rx1).1] at c1
  rw [f, (hsh .tx0).1] at c2
  refine ⟨⟨s2, hshape, ?_, ?_⟩, by rw [c2, c1, c0]⟩
  · have hst := periodChannel_tx_status K E _ .tx0 h3'
    rw [f] at hst
    show ((periodChannel (gs_TxPeriodList K E) _ .tx0).chn .tx0).status
      ≠ CANTP_STATUS_TRANSMITTING_CF
    rcases hst with e | e | e
    · rw [e]; exact h3
    · rw [e]; decide
    · rw [e]; decide
  · intro hsf
    have hst := periodChannel_tx_status K E _ .tx0 h3'
    have hl := periodChannel_tx_lastSize K E
      (periodChannel (gs_RxPeriodList K E) (periodChannel (gs_RxPeriodList K E) w .rx0) .rx1) .tx0
    rw [f] at hst hl
    change ((periodChannel (gs_TxPeriodList K E) _ .tx0).chn .tx0).status
      = CANTP_STATUS_TRANSMITTING_SF at hsf
    show ((periodChannel (gs_TxPeriodList K E) _ .tx0).chn .tx0).lastSize < 256
    rw [hl]
    rcases hst with e | e | e
    · exact hls (e.symm.trans hsf)
    · rw [hsf] at e; exact absurd e (by decide)
    · rw [hsf] at e; exact absurd e (by decide)

/-- A Flow Control frame whose flow status is not CTS does not bring the Tx channel
to TranCF. -/
theorem receiveFC_notCts (K : FblConfig) (size : Nat) (buf : List Nat) (w : World)
    (hfs : CANTP_GET_FC_FS w.tx0.pciInfo buf ≠ CANTP_FC_FRAME_CTS) :
    (_Cantp_ReceiveFC K .tx0 size buf w).2.tx0.status = w.tx0.status
    ∨ (_Cantp_ReceiveFC K .tx0 size buf w).2.tx0.status = CANTP_STATUS_IDLE := by
  simp only [_Cantp_ReceiveFC, Diag_TxConfirmation, chn_tx0]
  split_ifs <;> simp [_Cantp_GotoIdle, CANTP_STATUS_IDLE]

/-- The Flow Control handler does not write `lastSize`. -/
theorem receiveFC_lastSize (K : FblConfig) (r : ChnRef) (size : Nat) (buf : List Nat)
    (w : World) : ((_Cantp_ReceiveFC K r size buf w).2.chn r).lastSize = (w.chn r).lastSize := by
  simp only [_Cantp_ReceiveFC, Diag_TxConfirmation]
  repeat' split
  all_goals simp [_Cantp_GotoIdle, _Cantp_GotoTranCF]

/-- An event other than the reception of FC/CTS keeps `AwaitingCts` and hands no
Consecutive Frame to the driver. -/
theorem awaitingCts_step (K : FblConfig) (E : Env) (pci : bl_CanTpPciInfo_t)
    (hpci : pci ∈ gs_CanTpPciInfo K) (w : World) (e : Event) (h : AwaitingCts K pci w)
    (he : NotCts pci e) :
    AwaitingCts K pci (step K E w e) ∧ sentCFs pci (step K E w e).trace = sentCFs pci w.trace := by
  have hshape : ∀ q, ((step K E w e).chn q).pciInfo = pci
      ∧ ((step K E w e).chn q).frame.length = CANTP_MAX_FRAME_SIZE K := by
    intro q
    have s := step_shape K E w e q
    exact ⟨s.1.trans (h.2.1 q).1, s.2.trans (h.2.1 q).2⟩
  cases e with
  | tick => exact awaitingCts_tick K E pci hpci w h
  | rxInd id size buf =>
    obtain ⟨hslot, hsh, h3, hls⟩ := h
    change ∀ q, ((Cantp_RxIndication K E id size buf w).chn q).pciInfo = pci
      ∧ ((Cantp_RxIndication K E id size buf w).chn q).frame.length = CANTP_MAX_FRAME_SIZE K
      at hshape
    show AwaitingCts K pci (Cantp_RxIndication K E id size buf w)
      ∧ sentCFs pci (Cantp_RxIndication K E id size buf w).trace = sentCFs pci w.trace
    rcases rxInd_cases K E id size buf w with e | ⟨_, _, _, hty, _, e⟩
      | ⟨_, t, _, ht, _, _, _, e⟩
    · rw [e]; exact ⟨⟨hslot, hsh, h3, hls⟩, rfl⟩
    · rw [e] at hshape ⊢
      have a := rxProcess_sn K E 3 .tx0 size buf w
      obtain ⟨new, hn, hsent⟩ := rxProcess_trace K E 3 .tx0 size buf w
      simp only [gs_RxProcessList] at a hn
      have hp : w.tx0.pciInfo = pci := (hsh .tx0).1
      have hfs : CANTP_GET_FC_FS w.tx0.pciInfo buf ≠ CANTP_FC_FRAME_CTS := by
        intro hc
        rw [hp] at hc hty
        exact he ⟨hty, hc⟩
      have hst := receiveFC_notCts K size buf w hfs
      have hl := receiveFC_lastSize K .tx0 size buf w
      simp only [chn_tx0] at hl
      refine ⟨⟨a.1.trans hslot, hshape, ?_, ?_⟩, ?_⟩
      · rcases hst with e | e
        · rw [e]; exact h3
        · rw [e]; decide
      · intro hsf
        rw [hl]
        rcases hst with e | e
        · exact hls (e.symm.trans hsf)
        · rw [hsf] at e; exact absurd e (by decide)
      · unfold sentCFs
        rw [hn, sentFrames_append, hsent, List.append_nil]
    · rw [e] at hshape ⊢
      obtain ⟨a, _⟩ := rxProcess_sn K E (CANTP_GET_FRAME_TYPE (w.chn t).pciInfo buf) t size buf w
      obtain ⟨new, hn, hsent⟩ :=
        rxProcess_trace K E (CANTP_GET_FRAME_TYPE (w.chn t).pciInfo buf) t size buf w
      have hne : ChnRef.tx0 ≠ t := by rcases ht with rfl | rfl <;> decide
      have c2 := rxProcess_other K E (CANTP_GET_FRAME_TYPE (w.chn t).pciInfo buf) t .tx0
        size buf w hne
      simp only [chn_tx0] at c2
      refine ⟨⟨a.trans hslot, hshape, by rw [c2]; exact h3, by rw [c2]; exact hls⟩, ?_⟩
      unfold sentCFs
      rw [hn, sentFrames_append, hsent, List.append_nil]
  | transmit handle size =>
    obtain ⟨hslot, hsh, h3, hls⟩ := h
    change ∀ q, ((Cantp_Transmit handle size w).2.chn q).pciInfo = pci
      ∧ ((Cantp_Transmit handle size w).2.chn q).frame.length = CANTP_MAX_FRAME_SIZE K
      at hshape
    show AwaitingCts K pci (Cantp_Transmit handle size w).2
      ∧ sentCFs pci (Cantp_Transmit handle size w).2.trace = sentCFs pci w.trace
    refine ⟨⟨?_, hshape, ?_, ?_⟩, ?_⟩
    all_goals
      simp only [Cantp_Transmit]
      cases hg : gs_CanTpTxChannel.get? handle with
      | none => first | exact hslot | exact h3 | exact hls | rfl
      | some r' =>
        have hr' : r' = .tx0 := by
          have := List.get?_mem hg
          simpa [gs_CanTpTxChannel] using this
        subst hr'
        simp only
        repeat' split
        all_goals first
          | exact hslot
          | exact h3
          | exact hls
          | rfl
          | (simp [_Cantp_GotoTranFF, _Cantp_GotoTranSF, _Cantp_SetMultipleFrameSize, hslot,
              CANTP_STATUS_TRANSMITTING_CF, CANTP_STATUS_TRANSMITTING_FF,
              CANTP_STATUS_TRANSMITTING_SF, UINT8]
             try omega)
  | txConf id =>
    have e : step K E w (.txConf id) = w := by
      show Cantp_TxConfirmation K id w = w
      simp only [Cantp_TxConfirmation, h.1]
    rw [e]
    exact ⟨h, rfl⟩

/-- Events none of which is the reception of FC/CTS hand no Consecutive Frame to
the driver. -/
theorem awaitingCts_run (K : FblConfig) (E : Env) (pci : bl_CanTpPciInfo_t)
    (hpci : pci ∈ gs_CanTpPciInfo K) (evs : List Event) :
    ∀ w : World, AwaitingCts K pci w → (∀ e ∈ evs, NotCts pci e) →
      sentCFs pci (run K E w evs).trace = sentCFs pci w.trace := by
  induction evs with
  | nil => intro w _ _; rfl
  | cons e es ih =>
    intro w h hev
    obtain ⟨h1, h2⟩ := awaitingCts_step K E pci hpci w e h (hev e (List.mem_cons_self _ _))
    show sentCFs pci (run K E (step K E w e) es).trace = sentCFs pci w.trace
    rw [ih _ h1 (fun e' m => hev e' (List.mem_cons_of_mem _ m)), h2]


/-- Every event leaves the registry empty. -/
theorem step_slot (K : FblConfig) (E : Env) (w : World) (e : Event)
    (h : w.gs_TransmittingChannel = none) : (step K E w e).gs_TransmittingChannel = none := by
  cases e with
  | tick =>
    show (Cantp_PeriodFunction K E w).gs_TransmittingChannel = none
    rw [tick_eq]
    exact periodChannel_tx_slot K E _ .tx0
      (periodChannel_rx_sn K E _ .rx1 (periodChannel_rx_sn K E w .rx0 h).1).1
  | rxInd id size buf =>
    show (Cantp_RxIndication K E id size buf w).gs_TransmittingChannel = none
    rcases rxInd_cases K E id size buf w with e | ⟨_, _, _, _, _, e⟩ | ⟨_, t, _, _, _, _, _, e⟩
    · rw [e]; exact h
    · rw [e]
      exact ((rxProcess_sn K E 3 .tx0 size buf w).1).trans h
    · rw [e]
      exact ((rxProcess_sn K E _ t size buf w).1).trans h
  | transmit handle size =>
    show (Cantp_Transmit handle size w).2.gs_TransmittingChannel = none
    simp only [Cantp_Transmit]
    repeat' split
    all_goals first | exact h | simpa using h
  | txConf id =>
    show (Cantp_TxConfirmation K id w).gs_TransmittingChannel = none
    simp only [Cantp_TxConfirmation, h]

theorem ticks_slot (K : FblConfig) (E : Env) (n : Nat) :
    ∀ w : World, w.gs_TransmittingChannel = none →
      (ticks K E n w).gs_TransmittingChannel = none := by
  induction n with
  | zero => intro w h; exact h
  | succ n ih =>
    intro w h
    rw [ticks_succ]
    exact ih _ (step_slot K E w .tick h)

theorem ticks_shape (K : FblConfig) (E : Env) (n : Nat) (q : ChnRef) :
    ∀ w : World, SameShape (w.chn q) ((ticks K E n w).chn q) := by
  induction n with
  | zero => intro w; exact sameShape_refl _
  | succ n ih =>
    intro w
    rw [ticks_succ]
    exact sameShape_trans _ _ _ (step_shape K E w .tick q) (ih _)

/-- Frames that are all of type CF are all counted as Consecutive Frames sent. -/
theorem sentCFs_map_send (pci : bl_CanTpPciInfo_t) (frames : List (List Nat)) (id len : Nat)
    (h : ∀ f ∈ frames, CANTP_GET_FRAME_TYPE pci f = CANTP_FRAME_TYPE_CF) :
    sentCFs pci (frames.map fun f => Call.FblCanSendData f id len) = frames := by
  unfold sentCFs
  rw [sentFrames_map_send]
  exact List.filter_eq_self.mpr fun f hf => by simpa using h f hf

/-- C9 (amended): a Tx channel in RecvFC (both Rx channels Idle) receives FC/CTS
with block size `b > 0` and STmin byte `s` while more than `b` Consecutive Frames
remain; the driver accepts every frame and the CR watchdog
`g_CanTpRxChnsCfg[0].timerC` is at least `st = _Cantp_GetSTMinFromFC(s)`.  Then
`b * st` ticks later the calls made are exactly `b` Consecutive Frames handed to
the driver, the channel is in RecvFC with `timer = cfg.timerB`, and however many
ticks follow nothing more is handed to the driver.  Moreover (registry empty, all
channels with the descriptor of the Tx channel and a staged frame of full length,
as in every state reached from `CanTp_Init` on zeroed storage), whatever events
follow that are not the reception of a Flow Control frame CTS (ticks, FC/WAIT,
FC/OVERFLOW, Single, First and Consecutive Frames on either Rx channel, calls of
`Cantp_Transmit` and `Cantp_TxConfirmation`), no further Consecutive Frame is
handed to the driver. -/
theorem C9_block_size (K : FblConfig) (E : Env) (w : World) (c : bl_CanTpChannel_t)
    (tr : List Call) (id size b : Nat) (buf : List Nat) (h : TxAt w c tr)
    (hdrv : ∀ t f i len, E.FblCanSendData t f i len = ERR_OK)
    (hs : c.status = CANTP_STATUS_RECEIVING_FC)
    (hpci : c.pciInfo ∈ gs_CanTpPciInfo K)
    (hlen : c.frame.length = CANTP_MAX_FRAME_SIZE K)
    (hsz : size ≤ CANTP_MAX_FRAME_SIZE K)
    (hid : c.chnCfg.rxId = id)
    (haddr : c.chnCfg.type = CANTP_TYPE_STANDARD ∨ c.chnCfg.ta = rd buf CANTP_TA_OFFSET)
    (hty : CANTP_GET_FRAME_TYPE c.pciInfo buf = CANTP_FRAME_TYPE_FC)
    (hfs : CANTP_GET_FC_FS c.pciInfo buf = CANTP_FC_FRAME_CTS)
    (hb : CANTP_GET_FC_BS c.pciInfo buf = b) (hb0 : 0 < b)
    (hcnt : b < c.cfCnt) (hc16 : c.cfCnt < 65536)
    (hwd : _Cantp_GetSTMinFromFC (CANTP_GET_FC_STMIN c.pciInfo buf) ≤ CANTP_CHNNEL_RX_CR K) :
    ∃ frames : List (List Nat),
      frames.length = b
      ∧ (∀ f ∈ frames, CANTP_GET_FRAME_TYPE c.pciInfo f = CANTP_FRAME_TYPE_CF)
      ∧ (ticks K E (b * _Cantp_GetSTMinFromFC (CANTP_GET_FC_STMIN c.pciInfo buf))
            (Cantp_RxIndication K E id size buf w)).trace
          = tr ++ frames.map (fun f =>
              Call.FblCanSendData f c.chnCfg.txId (CANTP_MAX_FRAME_SIZE K))
      ∧ (ticks K E (b * _Cantp_GetSTMinFromFC (CANTP_GET_FC_STMIN c.pciInfo buf))
            (Cantp_RxIndication K E id size buf w)).tx0.status = CANTP_STATUS_RECEIVING_FC
      ∧ (ticks K E (b * _Cantp_GetSTMinFromFC (CANTP_GET_FC_STMIN c.pciInfo buf))
            (Cantp_RxIndication K E id size buf w)).tx0.timer = c.chnCfg.timerB
      ∧ (∀ n, sentFrames
          (ticks K E (b * _Cantp_GetSTMinFromFC (CANTP_GET_FC_STMIN c.pciInfo buf) + n)
            (Cantp_RxIndication K E id size buf w)).trace
          = sentFrames tr ++ frames)
      ∧ (w.gs_TransmittingChannel = none →
          (∀ q, (w.chn q).pciInfo = c.pciInfo
            ∧ (w.chn q).frame.length = CANTP_MAX_FRAME_SIZE K) →
          ∀ evs : List Event, (∀ e ∈ evs, NotCts c.pciInfo e) →
            sentCFs c.pciInfo
              (run K E
                (ticks K E (b * _Cantp_GetSTMinFromFC (CANTP_GET_FC_STMIN c.pciInfo buf))
                  (Cantp_RxIndication K E id size buf w)) evs).trace
              = sentCFs c.pciInfo tr ++ frames) := by
  have s0 := rxInd_FC_cts K E w c tr id size buf h hsz hid haddr hs hty hfs
  obtain ⟨m, rfl⟩ : ∃ m, b = m + 1 := ⟨b - 1, by omega⟩
  have hc0 : SendingCF K c.chnCfg c.pciInfo
      (_Cantp_GetSTMinFromFC (CANTP_GET_FC_STMIN c.pciInfo buf))
      (_Cantp_GotoTranCF K
        { c with
          bs := CANTP_GET_FC_BS c.pciInfo buf
          st := _Cantp_GetSTMinFromFC (CANTP_GET_FC_STMIN c.pciInfo buf) }) (m + 1) c.cfCnt :=
    ⟨rfl, rfl, rfl, rfl, rfl, hb, rfl, rfl, rfl, hlen⟩
  obtain ⟨c', frames, hl, hall, s1, hs', ht'⟩ :=
    tx_cf_block K E hdrv c.chnCfg c.pciInfo _ hpci (GetSTMin_pos _) hwd m _ _ _ c.cfCnt s0 hc0
      hcnt hc16
  refine ⟨frames, hl, hall, s1.2.1, ?_, ?_, ?_, ?_⟩
  · rw [s1.1]; exact hs'
  · rw [s1.1]; exact ht'
  · intro n
    rw [ticks_add]
    obtain ⟨c2, tr2, s2, _, he⟩ := tx_quiet K E n _ _ _ s1 (Or.inl hs')
    rw [s2.2.1, he, sentFrames_append, sentFrames_map_send]
  · intro hslot hsh evs hev
    have hW : AwaitingCts K c.pciInfo
        (ticks K E ((m + 1) * _Cantp_GetSTMinFromFC (CANTP_GET_FC_STMIN c.pciInfo buf))
          (Cantp_RxIndication K E id size buf w)) := by
      refine ⟨ticks_slot K E _ _ (step_slot K E w (.rxInd id size buf) hslot), ?_, ?_, ?_⟩
      · intro q
        have a := step_shape K E w (.rxInd id size buf) q
        have b := ticks_shape K E
          ((m + 1) * _Cantp_GetSTMinFromFC (CANTP_GET_FC_STMIN c.pciInfo buf)) q
          (Cantp_RxIndication K E id size buf w)
        exact ⟨b.1.trans (a.1.trans (hsh q).1), b.2.trans (a.2.trans (hsh q).2)⟩
      · rw [s1.1, hs']; decide
      · intro hsf
        rw [s1.1, hs'] at hsf
        exact absurd hsf (by decide)
    rw [awaitingCts_run K E c.pciInfo hpci evs _ hW hev, s1.2.1, sentCFs_append,
      sentCFs_map_send _ _ _ _ hall]


set_option maxRecDepth 100000 in
theorem C9_block_size_witness :
    ∃ frames : List (List Nat),
      frames.length = 1
      ∧ (∀ f ∈ frames, CANTP_GET_FRAME_TYPE classicRecvFC.tx0.pciInfo f = CANTP_FRAME_TYPE_CF)
      ∧ (ticks classicBuild (envOf [])
            (1 * _Cantp_GetSTMinFromFC (CANTP_GET_FC_STMIN classicRecvFC.tx0.pciInfo
              [0x30, 1, 0x05, 0xAA, 0xAA, 0xAA, 0xAA, 0xAA]))
            (Cantp_RxIndication classicBuild (envOf []) 0x7E0 8
              [0x30, 1, 0x05, 0xAA, 0xAA, 0xAA, 0xAA, 0xAA] classicRecvFC)).trace
          = classicRecvFC.trace ++ frames.map (fun f =>
              Call.FblCanSendData f classicRecvFC.tx0.chnCfg.txId
                (CANTP_MAX_FRAME_SIZE classicBuild))
      ∧ (ticks classicBuild (envOf [])
            (1 * _Cantp_GetSTMinFromFC (CANTP_GET_FC_STMIN classicRecvFC.tx0.pciInfo
              [0x30, 1, 0x05, 0xAA, 0xAA, 0xAA, 0xAA, 0xAA]))
            (Cantp_RxIndication classicBuild (envOf []) 0x7E0 8
              [0x30, 1, 0x05, 0xAA, 0xAA, 0xAA, 0xAA, 0xAA] classicRecvFC)).tx0.status
          = CANTP_STATUS_RECEIVING_FC
      ∧ (ticks classicBuild (envOf [])
            (1 * _Cantp_GetSTMinFromFC (CANTP_GET_FC_STMIN classicRecvFC.tx0.pciInfo
              [0x30, 1, 0x05, 0xAA, 0xAA, 0xAA, 0xAA, 0xAA]))
            (Cantp_RxIndication classicBuild (envOf []) 0x7E0 8
              [0x30, 1, 0x05, 0xAA, 0xAA, 0xAA, 0xAA, 0xAA] classicRecvFC)).tx0.timer
          = classicRecvFC.tx0.chnCfg.timerB
      ∧ (∀ n, sentFrames
          (ticks classicBuild (envOf [])
            (1 * _Cantp_GetSTMinFromFC (CANTP_GET_FC_STMIN classicRecvFC.tx0.pciInfo
              [0x30, 1, 0x05, 0xAA, 0xAA, 0xAA, 0xAA, 0xAA]) + n)
            (Cantp_RxIndication classicBuild (envOf []) 0x7E0 8
              [0x30, 1, 0x05, 0xAA, 0xAA, 0xAA, 0xAA, 0xAA] classicRecvFC)).trace
          = sentFrames classicRecvFC.trace ++ frames)
      ∧ sentCFs classicRecvFC.tx0.pciInfo
          (run classicBuild (envOf [])
            (ticks classicBuild (envOf [])
              (1 * _Cantp_GetSTMinFromFC (CANTP_GET_FC_STMIN classicRecvFC.tx0.pciInfo
                [0x30, 1, 0x05, 0xAA, 0xAA, 0xAA, 0xAA, 0xAA]))
              (Cantp_RxIndication classicBuild (envOf []) 0x7E0 8
                [0x30, 1, 0x05, 0xAA, 0xAA, 0xAA, 0xAA, 0xAA] classicRecvFC)) afterBlock).trace
          = sentCFs classicRecvFC.tx0.pciInfo classicRecvFC.trace ++ frames :=
  (C9_block_size classicBuild (envOf []) classicRecvFC classicRecvFC.tx0 classicRecvFC.trace
    0x7E0 8 1 [0x30, 1, 0x05, 0xAA, 0xAA, 0xAA, 0xAA, 0xAA]
    ⟨rfl, rfl, by decide, by decide⟩ (fun _ _ _ _ => rfl) (by decide) (by decide) (by decide)
    (by decide) (by decide) (by decide) (by decide) (by decide) (by decide) (by decide)
    (by decide) (by decide) (by decide)).imp fun _ h =>
    ⟨h.1, h.2.1, h.2.2.1, h.2.2.2.1, h.2.2.2.2.1, h.2.2.2.2.2.1,
      h.2.2.2.2.2.2 (by decide) (fun q => by cases q <;> decide) afterBlock (by decide)⟩


/-- The provisos of the last part of C9 hold in every state reached from
`CanTp_Init` on the zero-initialised storage: the registry is empty and every
channel has the standard descriptor and a staged frame of full length. -/
theorem reach_registry_shape (K : FblConfig) (E : Env) (evs : List Event) :
    (run K E (CanTp_Init K (zeroWorld K)) evs).gs_TransmittingChannel = none
    ∧ ∀ q, ((run K E (CanTp_Init K (zeroWorld K)) evs).chn q).pciInfo = pciStandard K
        ∧ ((run K E (CanTp_Init K (zeroWorld K)) evs).chn q).frame.length
            = CANTP_MAX_FRAME_SIZE K := by
  refine ⟨(snInv_run K E evs _ ⟨rfl, show (0 : Nat) < 16 by decide,
    show (0 : Nat) < 16 by decide, show (0 : Nat) < 256 by decide⟩).1, fun q => ?_⟩
  refine ⟨reach_pci K E _ evs q, (run_shape K E evs q _).2.trans ?_⟩
  cases q <;>
    simp [CanTp_Init, initChannels, _Cantp_InitChannel, zeroWorld, zeroChannel, World.chn]

end FblCanTp
